import Mathlib

/-!
# RTShaderSystem lighting sub-render states

A shallow embedding of `OgreShaderFFPLighting.cpp` (the per-vertex model,
`FFPLighting`) and `OgreShaderExPerPixelLighting.cpp` (the per-pixel model,
`PerPixelLighting`), followed by theorems about the embedded code.

Conventions of the embedding

* A `ParameterPtr` is a nullable handle: `none` is the null pointer.
* The `Program` / `Function` classes that answer resolution requests are not
  part of the two source files.  They are represented by an arbitrary
  deterministic state machine (`Resolver`): every theorem is quantified over
  all of them.
* `OGRE_EXCEPT` is a value of `Except Exception`; the object state reached
  before the throw is returned next to it.
* `Real` is a `float`: a finite value, kept as an exact rational, an infinity or
  a NaN.  Products follow IEEE 754 on the special values (`0 * inf` and every
  product with a NaN are NaN); rounding, overflow and the sign of zero are not
  represented.
-/

set_option autoImplicit false

namespace Ogre

/-! ## Data model -/

/-- The enumeration `Light::LightTypes`. -/
inductive LightTypes where
  | LT_POINT
  | LT_DIRECTIONAL
  | LT_SPOTLIGHT
  deriving DecidableEq, Repr

/-- A handle into a program's parameter table. -/
abbrev Handle := Nat

/-- The shared pointer `ParameterPtr`; `none` is the null pointer. -/
abbrev ParameterPtr := Option Handle

/-- The record `LightParams`: one light slot.  A default constructed record
has every handle null. -/
structure LightParams where
  mType : LightTypes
  mPosition : ParameterPtr := none
  mDirection : ParameterPtr := none
  mAttenuatParams : ParameterPtr := none
  mSpotParams : ParameterPtr := none
  mDiffuseColour : ParameterPtr := none
  mSpecularColour : ParameterPtr := none
  deriving DecidableEq, Repr

/-- The vector type of the slot list. -/
abbrev LightParamsList := List LightParams

/-- Modelled from the spec: the vertex colour tracking bits of
`TrackVertexColourType`, declared outside the two source files.  The spec
calls it a bitmask over ambient, diffuse, specular, emissive. -/
def TVC_NONE : Nat := 0

/-- Modelled from the spec: the ambient bit of `TrackVertexColourType`. -/
def TVC_AMBIENT : Nat := 1

/-- Modelled from the spec: the diffuse bit of `TrackVertexColourType`. -/
def TVC_DIFFUSE : Nat := 2

/-- Modelled from the spec: the specular bit of `TrackVertexColourType`. -/
def TVC_SPECULAR : Nat := 4

/-- Modelled from the spec: the emissive bit of `TrackVertexColourType`. -/
def TVC_EMISSIVE : Nat := 8

/-- The member variables of `FFPLighting`. -/
structure FFPLighting where
  mTrackVertexColourType : Nat := TVC_NONE
  mSpecularEnable : Bool := false
  mLightParamsList : LightParamsList := []
  mWorldViewMatrix : ParameterPtr := none
  mWorldViewITMatrix : ParameterPtr := none
  mVSInPosition : ParameterPtr := none
  mVSInNormal : ParameterPtr := none
  mVSDiffuse : ParameterPtr := none
  mVSOutDiffuse : ParameterPtr := none
  mVSOutSpecular : ParameterPtr := none
  mDerivedSceneColour : ParameterPtr := none
  mLightAmbientColour : ParameterPtr := none
  mDerivedAmbientLightColour : ParameterPtr := none
  mSurfaceAmbientColour : ParameterPtr := none
  mSurfaceDiffuseColour : ParameterPtr := none
  mSurfaceSpecularColour : ParameterPtr := none
  mSurfaceEmissiveColour : ParameterPtr := none
  mSurfaceShininess : ParameterPtr := none
  deriving DecidableEq, Repr

/-- The member variables of `PerPixelLighting`. -/
structure PerPixelLighting where
  mTrackVertexColourType : Nat := TVC_NONE
  mSpecularEnable : Bool := false
  mLightParamsList : LightParamsList := []
  mWorldViewMatrix : ParameterPtr := none
  mWorldViewITMatrix : ParameterPtr := none
  mVSInPosition : ParameterPtr := none
  mVSOutViewPos : ParameterPtr := none
  mVSInNormal : ParameterPtr := none
  mVSOutNormal : ParameterPtr := none
  mPSInViewPos : ParameterPtr := none
  mPSInNormal : ParameterPtr := none
  mPSTempDiffuseColour : ParameterPtr := none
  mPSTempSpecularColour : ParameterPtr := none
  mPSDiffuse : ParameterPtr := none
  mPSSpecular : ParameterPtr := none
  mPSOutDiffuse : ParameterPtr := none
  mDerivedSceneColour : ParameterPtr := none
  mLightAmbientColour : ParameterPtr := none
  mDerivedAmbientLightColour : ParameterPtr := none
  mSurfaceAmbientColour : ParameterPtr := none
  mSurfaceDiffuseColour : ParameterPtr := none
  mSurfaceSpecularColour : ParameterPtr := none
  mSurfaceEmissiveColour : ParameterPtr := none
  mSurfaceShininess : ParameterPtr := none
  deriving DecidableEq, Repr

/-! ## Slot-list builder -/

/-- The body of the inner loop of `setLightCount`: a default constructed
`LightParams` whose `mType` is chosen by the array index `type`. -/
def setLightCountParams (type : Fin 3) : LightParams :=
  if type = 0 then { mType := LightTypes.LT_POINT }
  else if type = 1 then { mType := LightTypes.LT_DIRECTIONAL }
  else { mType := LightTypes.LT_SPOTLIGHT }

/-- The method `FFPLighting::setLightCount`: `for type in 0..2`, `for i in
0..lightCount[type]`, push one record at the back of the slot list.  The inner
loop runs `max lightCount[type] 0` times. -/
def FFPLighting.setLightCount (self : FFPLighting) (lightCount : Fin 3 → Int) : FFPLighting :=
  { self with
    mLightParamsList :=
      (List.finRange 3).foldl
        (fun l type =>
          (List.range (lightCount type).toNat).foldl
            (fun l _ => l ++ [setLightCountParams type]) l)
        self.mLightParamsList }

/-- The method `PerPixelLighting::setLightCount`. -/
def PerPixelLighting.setLightCount (self : PerPixelLighting) (lightCount : Fin 3 → Int) :
    PerPixelLighting :=
  { self with
    mLightParamsList :=
      (List.finRange 3).foldl
        (fun l type =>
          (List.range (lightCount type).toNat).foldl
            (fun l _ => l ++ [setLightCountParams type]) l)
        self.mLightParamsList }

/-- The light-count array `(p, d, s)`: index 0 is Point, 1 Directional,
2 Spot. -/
def lightCountOf (p d s : Int) : Fin 3 → Int := ![p, d, s]

/-- A slot of type `t` as `setLightCount` creates it: no handle set. -/
def emptySlot (t : LightTypes) : LightParams := { mType := t }

/-! ## Resolution requests -/

/-- The enumeration `GpuProgramType`, as far as the two files use it: the
program (and its entry point function) a request goes to. -/
inductive GpuProgramType where
  | GPT_VERTEX_PROGRAM
  | GPT_FRAGMENT_PROGRAM
  deriving DecidableEq, Repr

/-- The members of `GpuProgramParameters::AutoConstantType` the two files
name. -/
inductive AutoConstantType where
  | ACT_WORLDVIEW_MATRIX
  | ACT_INVERSE_TRANSPOSE_WORLDVIEW_MATRIX
  | ACT_AMBIENT_LIGHT_COLOUR
  | ACT_DERIVED_AMBIENT_LIGHT_COLOUR
  | ACT_SURFACE_AMBIENT_COLOUR
  | ACT_SURFACE_DIFFUSE_COLOUR
  | ACT_SURFACE_SPECULAR_COLOUR
  | ACT_SURFACE_EMISSIVE_COLOUR
  | ACT_DERIVED_SCENE_COLOUR
  | ACT_SURFACE_SHININESS
  deriving DecidableEq, Repr

/-- The members of `Parameter::Content` the two files name. -/
inductive Content where
  | SPC_POSITION_OBJECT_SPACE
  | SPC_POSITION_VIEW_SPACE
  | SPC_NORMAL_OBJECT_SPACE
  | SPC_NORMAL_VIEW_SPACE
  | SPC_COLOR_DIFFUSE
  | SPC_COLOR_SPECULAR
  deriving DecidableEq, Repr

/-- The members of `GpuConstantType` the two files name. -/
inductive GpuConstantType where
  | GCT_FLOAT3
  | GCT_FLOAT4
  deriving DecidableEq, Repr

/-- The variability bit `GPV_GLOBAL` of `GpuParamVariability`, declared
outside the two source files. -/
def GPV_GLOBAL : Nat := 1

/-- The variability bit `GPV_LIGHTS` of `GpuParamVariability`, declared
outside the two source files. -/
def GPV_LIGHTS : Nat := 4

/-- One call of a resolution or lookup method of `Program` or `Function`,
with its arguments. -/
inductive Request where
  /-- The call `program->resolveParameter(autoType)`. -/
  | resolveAutoParameter (prog : GpuProgramType) (autoType : AutoConstantType)
  /-- The call `program->resolveParameter(type, index, variability, suggestedName)`. -/
  | resolveParameter (prog : GpuProgramType) (type : GpuConstantType) (index : Int)
      (variability : Nat) (suggestedName : String)
  /-- The call `main->resolveInputParameter(content)`. -/
  | resolveInputParameter (prog : GpuProgramType) (content : Content)
  /-- The call `main->resolveInputParameter(out)` on an output of the previous stage. -/
  | resolveInputParameterOf (prog : GpuProgramType) (out : ParameterPtr)
  /-- The call `main->resolveOutputParameter(content)`. -/
  | resolveOutputParameter (prog : GpuProgramType) (content : Content)
  /-- The call `main->resolveLocalParameter(name, type)`. -/
  | resolveLocalParameterNamed (prog : GpuProgramType) (name : String) (type : GpuConstantType)
  /-- The call `main->resolveLocalParameter(content)`. -/
  | resolveLocalParameter (prog : GpuProgramType) (content : Content)
  /-- The call `main->getInputParameter(content)`. -/
  | getInputParameter (prog : GpuProgramType) (content : Content)
  /-- The call `main->getLocalParameter(content)`. -/
  | getLocalParameter (prog : GpuProgramType) (content : Content)
  deriving DecidableEq, Repr

/-- The parameter tables of a program set, seen from the lighting code: the
answer to a request in a table state, and the table state after it. -/
abbrev Resolver (σ : Type) := Request → σ → ParameterPtr × σ

/-- The members of `Operand::OpSemantic` the two files use. -/
inductive OpSemantic where
  | OPS_IN
  | OPS_OUT
  deriving DecidableEq, Repr

/-- The members of `Operand::OpMask` the two files use. -/
inductive OpMask where
  | OPM_ALL
  | OPM_XYZ
  deriving DecidableEq, Repr

/-- The class `Operand`: a parameter, its direction and its component mask. -/
structure Operand where
  mParameter : ParameterPtr
  mSemantic : OpSemantic
  mMask : OpMask := OpMask.OPM_ALL
  deriving DecidableEq, Repr

/-- The shader library function names the two files invoke (string macros
declared outside them), and the assignment atom of `stage.assign`. -/
inductive FunctionName where
  | FFP_FUNC_ASSIGN
  | FFP_FUNC_MODULATE
  | FFP_FUNC_ADD
  | FFP_FUNC_LIGHT_DIRECTIONAL_DIFFUSE
  | FFP_FUNC_LIGHT_DIRECTIONAL_DIFFUSESPECULAR
  | FFP_FUNC_LIGHT_POINT_DIFFUSE
  | FFP_FUNC_LIGHT_POINT_DIFFUSESPECULAR
  | FFP_FUNC_LIGHT_SPOT_DIFFUSE
  | FFP_FUNC_LIGHT_SPOT_DIFFUSESPECULAR
  | SGX_FUNC_TRANSFORMNORMAL
  | SGX_FUNC_TRANSFORMPOSITION
  | SGX_FUNC_LIGHT_DIRECTIONAL_DIFFUSE
  | SGX_FUNC_LIGHT_DIRECTIONAL_DIFFUSESPECULAR
  | SGX_FUNC_LIGHT_POINT_DIFFUSE
  | SGX_FUNC_LIGHT_POINT_DIFFUSESPECULAR
  | SGX_FUNC_LIGHT_SPOT_DIFFUSE
  | SGX_FUNC_LIGHT_SPOT_DIFFUSESPECULAR
  deriving DecidableEq, Repr

/-- The execution group of an invocation.  The numeric values of
`FFP_VS_LIGHTING` and `FFP_PS_COLOUR_BEGIN` are declared outside the two
source files, so a group is kept as a named base plus an offset. -/
inductive GroupOrder where
  | FFP_VS_LIGHTING
  | FFP_PS_COLOUR_BEGIN_plus (offset : Int)
  deriving DecidableEq, Repr

/-- The class `FunctionInvocation` (and the assignment atom): the function, the
execution group, and the operands in push order. -/
structure FunctionInvocation where
  mFunctionName : FunctionName
  mGroupExecutionOrder : GroupOrder
  mOperands : List Operand
  deriving DecidableEq, Repr

/-- The `ProgramSet` seen from the lighting code: the parameter tables
(`params`), the atoms appended so far to the entry point functions of the
vertex and of the fragment program, and a record of every request answered,
oldest first. -/
structure ProgramSet (σ : Type) where
  params : σ
  requests : List (Request × ParameterPtr) := []
  vsMainAtoms : List FunctionInvocation := []
  psMainAtoms : List FunctionInvocation := []

/-- A `resolve...Parameter` call: the answer, and the program set after it. -/
def ProgramSet.resolve {σ : Type} (R : Resolver σ) (ps : ProgramSet σ) (req : Request) :
    ParameterPtr × ProgramSet σ :=
  ((R req ps.params).1,
    { ps with params := (R req ps.params).2,
              requests := ps.requests ++ [(req, (R req ps.params).1)] })

/-- A `get...Parameter` call: a lookup, the parameter tables stay as they are. -/
def ProgramSet.lookup {σ : Type} (R : Resolver σ) (ps : ProgramSet σ) (req : Request) :
    ParameterPtr × ProgramSet σ :=
  ((R req ps.params).1,
    { ps with requests := ps.requests ++ [(req, (R req ps.params).1)] })

/-- The exception codes the two files raise. -/
inductive ExceptionCodes where
  | ERR_INTERNAL_ERROR
  | ERR_INVALIDPARAMS
  deriving DecidableEq, Repr

/-- The arguments of `OGRE_EXCEPT`. -/
structure Exception where
  code : ExceptionCodes
  description : String
  source : String
  deriving DecidableEq, Repr

/-- The test `(mask & bit) != 0` on a vertex colour tracking mask. -/
def tracks (mask bit : Nat) : Bool := (mask &&& bit) != 0

/-- The state a resolution loop threads through its iterations: the object
(its member handles), the program set and the local `hasError`. -/
structure ResolveState (α σ : Type) where
  self : α
  programSet : ProgramSet σ
  hasError : Bool

/-- A `for` loop over the slot list whose body rewrites the current slot and
the threaded state. -/
def forEachLightParams {β : Type} (body : β → LightParams → LightParams × β) :
    β → LightParamsList → LightParamsList × β
  | st, [] => ([], st)
  | st, cur :: rest =>
    ((body st cur).1 :: (forEachLightParams body (body st cur).2 rest).1,
      (forEachLightParams body (body st cur).2 rest).2)

/-- The statement `field = program->resolve...(req)`: the answer is stored in
the object through `set`. -/
def ResolveState.resolve {α σ : Type} (R : Resolver σ) (st : ResolveState α σ) (req : Request)
    (set : α → ParameterPtr → α) : ResolveState α σ :=
  { self := set st.self (st.programSet.resolve R req).1
    programSet := (st.programSet.resolve R req).2
    hasError := st.hasError }

/-- The statement `field = main->get...Parameter(req)`. -/
def ResolveState.lookup {α σ : Type} (R : Resolver σ) (st : ResolveState α σ) (req : Request)
    (set : α → ParameterPtr → α) : ResolveState α σ :=
  { self := set st.self (st.programSet.lookup R req).1
    programSet := (st.programSet.lookup R req).2
    hasError := st.hasError }

/-- The statement `hasError |= !(f1.get()) || !(f2.get()) || ...` over the
listed members. -/
def ResolveState.check {α σ : Type} (st : ResolveState α σ) (fields : List (α → ParameterPtr)) :
    ResolveState α σ :=
  { st with hasError := st.hasError || fields.any (fun f => (f st.self).isNone) }

/-- What a method that may throw leaves behind: the value returned or the
exception raised, the object and the program set. -/
structure Outcome (α σ : Type) where
  result : Except Exception Bool
  self : α
  programSet : ProgramSet σ

section Resolution

open GpuProgramType AutoConstantType Content GpuConstantType LightTypes

variable {σ : Type}

/-! ## Per-vertex model: `FFPLighting::resolveParameters` -/

/-- Lines 208-220: "Get surface ambient colour if need to." -/
def FFPLighting.resolveAmbient (R : Resolver σ) (st : ResolveState FFPLighting σ) :
    ResolveState FFPLighting σ :=
  if tracks st.self.mTrackVertexColourType TVC_AMBIENT = false then
    (st.resolve R (.resolveAutoParameter GPT_VERTEX_PROGRAM ACT_DERIVED_AMBIENT_LIGHT_COLOUR)
      (fun s p => { s with mDerivedAmbientLightColour := p })).check
      [fun s => s.mDerivedAmbientLightColour]
  else
    ((st.resolve R (.resolveAutoParameter GPT_VERTEX_PROGRAM ACT_AMBIENT_LIGHT_COLOUR)
      (fun s p => { s with mLightAmbientColour := p })).resolve R
      (.resolveAutoParameter GPT_VERTEX_PROGRAM ACT_SURFACE_AMBIENT_COLOUR)
      (fun s p => { s with mSurfaceAmbientColour := p })).check
      [fun s => s.mLightAmbientColour, fun s => s.mSurfaceAmbientColour]

/-- Lines 222-227: "Get surface diffuse colour if need to." -/
def FFPLighting.resolveSurfaceDiffuse (R : Resolver σ) (st : ResolveState FFPLighting σ) :
    ResolveState FFPLighting σ :=
  if tracks st.self.mTrackVertexColourType TVC_DIFFUSE = false then
    (st.resolve R (.resolveAutoParameter GPT_VERTEX_PROGRAM ACT_SURFACE_DIFFUSE_COLOUR)
      (fun s p => { s with mSurfaceDiffuseColour := p })).check [fun s => s.mSurfaceDiffuseColour]
  else st

/-- Lines 229-234: "Get surface specular colour if need to." -/
def FFPLighting.resolveSurfaceSpecular (R : Resolver σ) (st : ResolveState FFPLighting σ) :
    ResolveState FFPLighting σ :=
  if tracks st.self.mTrackVertexColourType TVC_SPECULAR = false then
    (st.resolve R (.resolveAutoParameter GPT_VERTEX_PROGRAM ACT_SURFACE_SPECULAR_COLOUR)
      (fun s p => { s with mSurfaceSpecularColour := p })).check [fun s => s.mSurfaceSpecularColour]
  else st

/-- Lines 237-242: "Get surface emissive colour if need to." -/
def FFPLighting.resolveSurfaceEmissive (R : Resolver σ) (st : ResolveState FFPLighting σ) :
    ResolveState FFPLighting σ :=
  if tracks st.self.mTrackVertexColourType TVC_EMISSIVE = false then
    (st.resolve R (.resolveAutoParameter GPT_VERTEX_PROGRAM ACT_SURFACE_EMISSIVE_COLOUR)
      (fun s p => { s with mSurfaceEmissiveColour := p })).check [fun s => s.mSurfaceEmissiveColour]
  else st

/-- Lines 253-257: the vertex colour input, `if (mTrackVertexColourType != 0)`. -/
def FFPLighting.resolveVSDiffuse (R : Resolver σ) (st : ResolveState FFPLighting σ) :
    ResolveState FFPLighting σ :=
  if st.self.mTrackVertexColourType ≠ 0 then
    (st.resolve R (.resolveInputParameter GPT_VERTEX_PROGRAM SPC_COLOR_DIFFUSE)
      (fun s p => { s with mVSDiffuse := p })).check [fun s => s.mVSDiffuse]
  else st

/-- Lines 203-261 of `FFPLighting::resolveParameters`: the handles shared by
all lights. -/
def FFPLighting.resolveParametersGlobal (R : Resolver σ) (self : FFPLighting)
    (programSet : ProgramSet σ) : ResolveState FFPLighting σ :=
  let st : ResolveState FFPLighting σ := { self := self, programSet := programSet, hasError := false }
  -- Resolve world view IT matrix.
  let st := st.resolve R
    (.resolveAutoParameter GPT_VERTEX_PROGRAM ACT_INVERSE_TRANSPOSE_WORLDVIEW_MATRIX)
    (fun s p => { s with mWorldViewITMatrix := p })
  let st := FFPLighting.resolveAmbient R st
  let st := FFPLighting.resolveSurfaceDiffuse R st
  let st := FFPLighting.resolveSurfaceSpecular R st
  let st := FFPLighting.resolveSurfaceEmissive R st
  -- Get derived scene colour.
  let st := st.resolve R (.resolveAutoParameter GPT_VERTEX_PROGRAM ACT_DERIVED_SCENE_COLOUR)
    (fun s p => { s with mDerivedSceneColour := p })
  -- Get surface shininess.
  let st := st.resolve R (.resolveAutoParameter GPT_VERTEX_PROGRAM ACT_SURFACE_SHININESS)
    (fun s p => { s with mSurfaceShininess := p })
  -- Resolve input vertex shader normal.
  let st := st.resolve R (.resolveInputParameter GPT_VERTEX_PROGRAM SPC_NORMAL_OBJECT_SPACE)
    (fun s p => { s with mVSInNormal := p })
  let st := FFPLighting.resolveVSDiffuse R st
  -- Resolve output vertex shader diffuse colour.
  st.resolve R (.resolveOutputParameter GPT_VERTEX_PROGRAM SPC_COLOR_DIFFUSE)
    (fun s p => { s with mVSOutDiffuse := p })

/-- Lines 266-301: the `switch (mLightParamsList[i].mType)` of the loop body.
The first component of the object is the instance, the second the current
slot. -/
def FFPLighting.resolveLightType (R : Resolver σ)
    (st : ResolveState (FFPLighting × LightParams) σ) :
    ResolveState (FFPLighting × LightParams) σ :=
  match st.self.2.mType with
  | LT_DIRECTIONAL =>
    (st.resolve R
      (.resolveParameter GPT_VERTEX_PROGRAM GCT_FLOAT4 (-1) GPV_LIGHTS "light_position_view_space")
      (fun s p => (s.1, { s.2 with mDirection := p }))).check [fun s => s.2.mDirection]
  | LT_POINT =>
    ((((st.resolve R (.resolveAutoParameter GPT_VERTEX_PROGRAM ACT_WORLDVIEW_MATRIX)
      (fun s p => ({ s.1 with mWorldViewMatrix := p }, s.2))).resolve R
      (.resolveInputParameter GPT_VERTEX_PROGRAM SPC_POSITION_OBJECT_SPACE)
      (fun s p => ({ s.1 with mVSInPosition := p }, s.2))).resolve R
      (.resolveParameter GPT_VERTEX_PROGRAM GCT_FLOAT4 (-1) GPV_LIGHTS "light_position_view_space")
      (fun s p => (s.1, { s.2 with mPosition := p }))).resolve R
      (.resolveParameter GPT_VERTEX_PROGRAM GCT_FLOAT4 (-1) GPV_LIGHTS "light_attenuation")
      (fun s p => (s.1, { s.2 with mAttenuatParams := p }))).check
      [fun s => s.1.mWorldViewMatrix, fun s => s.1.mVSInPosition, fun s => s.2.mPosition,
        fun s => s.2.mAttenuatParams]
  | LT_SPOTLIGHT =>
    ((((((st.resolve R (.resolveAutoParameter GPT_VERTEX_PROGRAM ACT_WORLDVIEW_MATRIX)
      (fun s p => ({ s.1 with mWorldViewMatrix := p }, s.2))).resolve R
      (.resolveInputParameter GPT_VERTEX_PROGRAM SPC_POSITION_OBJECT_SPACE)
      (fun s p => ({ s.1 with mVSInPosition := p }, s.2))).resolve R
      (.resolveParameter GPT_VERTEX_PROGRAM GCT_FLOAT4 (-1) GPV_LIGHTS "light_position_view_space")
      (fun s p => (s.1, { s.2 with mPosition := p }))).resolve R
      (.resolveParameter GPT_VERTEX_PROGRAM GCT_FLOAT4 (-1) GPV_LIGHTS "light_direction_view_space")
      (fun s p => (s.1, { s.2 with mDirection := p }))).resolve R
      (.resolveParameter GPT_VERTEX_PROGRAM GCT_FLOAT4 (-1) GPV_LIGHTS "light_attenuation")
      (fun s p => (s.1, { s.2 with mAttenuatParams := p }))).resolve R
      (.resolveParameter GPT_VERTEX_PROGRAM GCT_FLOAT3 (-1) GPV_LIGHTS "spotlight_params")
      (fun s p => (s.1, { s.2 with mSpotParams := p }))).check
      [fun s => s.1.mWorldViewMatrix, fun s => s.1.mVSInPosition, fun s => s.2.mPosition,
        fun s => s.2.mDirection, fun s => s.2.mAttenuatParams, fun s => s.2.mSpotParams]

/-- Lines 303-313: "Resolve diffuse colour." -/
def FFPLighting.resolveLightDiffuse (R : Resolver σ)
    (st : ResolveState (FFPLighting × LightParams) σ) :
    ResolveState (FFPLighting × LightParams) σ :=
  if tracks st.self.1.mTrackVertexColourType TVC_DIFFUSE = false then
    (st.resolve R
      (.resolveParameter GPT_VERTEX_PROGRAM GCT_FLOAT4 (-1) (GPV_GLOBAL ||| GPV_LIGHTS)
        "derived_light_diffuse")
      (fun s p => (s.1, { s.2 with mDiffuseColour := p }))).check [fun s => s.2.mDiffuseColour]
  else
    (st.resolve R
      (.resolveParameter GPT_VERTEX_PROGRAM GCT_FLOAT4 (-1) GPV_LIGHTS "light_diffuse")
      (fun s p => (s.1, { s.2 with mDiffuseColour := p }))).check [fun s => s.2.mDiffuseColour]

/-- Lines 317-327: "Resolve specular colour." -/
def FFPLighting.resolveLightSpecularColour (R : Resolver σ)
    (st : ResolveState (FFPLighting × LightParams) σ) :
    ResolveState (FFPLighting × LightParams) σ :=
  if tracks st.self.1.mTrackVertexColourType TVC_SPECULAR = false then
    (st.resolve R
      (.resolveParameter GPT_VERTEX_PROGRAM GCT_FLOAT4 (-1) (GPV_GLOBAL ||| GPV_LIGHTS)
        "derived_light_specular")
      (fun s p => (s.1, { s.2 with mSpecularColour := p }))).check [fun s => s.2.mSpecularColour]
  else
    (st.resolve R
      (.resolveParameter GPT_VERTEX_PROGRAM GCT_FLOAT4 (-1) GPV_LIGHTS "light_specular")
      (fun s p => (s.1, { s.2 with mSpecularColour := p }))).check [fun s => s.2.mSpecularColour]

/-- Lines 329-333: `if (mVSOutSpecular.get() == NULL)`. -/
def FFPLighting.resolveVSOutSpecular (R : Resolver σ)
    (st : ResolveState (FFPLighting × LightParams) σ) :
    ResolveState (FFPLighting × LightParams) σ :=
  if st.self.1.mVSOutSpecular = none then
    (st.resolve R (.resolveOutputParameter GPT_VERTEX_PROGRAM SPC_COLOR_SPECULAR)
      (fun s p => ({ s.1 with mVSOutSpecular := p }, s.2))).check [fun s => s.1.mVSOutSpecular]
  else st

/-- Lines 335-339: `if (mVSInPosition.get() == NULL)`. -/
def FFPLighting.resolveVSInPosition (R : Resolver σ)
    (st : ResolveState (FFPLighting × LightParams) σ) :
    ResolveState (FFPLighting × LightParams) σ :=
  if st.self.1.mVSInPosition = none then
    (st.resolve R (.resolveInputParameter GPT_VERTEX_PROGRAM SPC_POSITION_OBJECT_SPACE)
      (fun s p => ({ s.1 with mVSInPosition := p }, s.2))).check [fun s => s.1.mVSInPosition]
  else st

/-- Lines 341-345: `if (mWorldViewMatrix.get() == NULL)`. -/
def FFPLighting.resolveWorldViewMatrix (R : Resolver σ)
    (st : ResolveState (FFPLighting × LightParams) σ) :
    ResolveState (FFPLighting × LightParams) σ :=
  if st.self.1.mWorldViewMatrix = none then
    (st.resolve R (.resolveAutoParameter GPT_VERTEX_PROGRAM ACT_WORLDVIEW_MATRIX)
      (fun s p => ({ s.1 with mWorldViewMatrix := p }, s.2))).check [fun s => s.1.mWorldViewMatrix]
  else st

/-- Lines 315-346: `if (mSpecularEnable) { ... }`. -/
def FFPLighting.resolveLightSpecular (R : Resolver σ)
    (st : ResolveState (FFPLighting × LightParams) σ) :
    ResolveState (FFPLighting × LightParams) σ :=
  if st.self.1.mSpecularEnable then
    FFPLighting.resolveWorldViewMatrix R
      (FFPLighting.resolveVSInPosition R
        (FFPLighting.resolveVSOutSpecular R (FFPLighting.resolveLightSpecularColour R st)))
  else st

/-- Lines 266-346 of `FFPLighting::resolveParameters`: the body of the loop
over the slot list, for the slot `cur = mLightParamsList[i]`. -/
def FFPLighting.resolveParametersLight (R : Resolver σ) (st : ResolveState FFPLighting σ)
    (cur : LightParams) : LightParams × ResolveState FFPLighting σ :=
  let st : ResolveState (FFPLighting × LightParams) σ :=
    { self := (st.self, cur), programSet := st.programSet, hasError := st.hasError }
  let st := FFPLighting.resolveLightType R st
  let st := FFPLighting.resolveLightDiffuse R st
  let st := FFPLighting.resolveLightSpecular R st
  (st.self.2, { self := st.self.1, programSet := st.programSet, hasError := st.hasError })

/-- The internal error `FFPLighting::resolveParameters` raises. -/
def FFPLighting.resolveError : Exception :=
  { code := ExceptionCodes.ERR_INTERNAL_ERROR
    description := "Not all parameters could be constructed for the sub-render state."
    source := "PerPixelLighting::resolveGlobalParameters" }

/-- The end of a resolution method: `if (hasError) OGRE_EXCEPT(...); return true;`. -/
def ResolveState.finish {α : Type} (st : ResolveState α σ) (e : Exception) : Outcome α σ :=
  if st.hasError then { result := .error e, self := st.self, programSet := st.programSet }
  else { result := .ok true, self := st.self, programSet := st.programSet }

/-- The loop `for (i = 0; i < mLightParamsList.size(); ++i)` of a resolution
method, with `body` rewriting `mLightParamsList[i]`; `setList` stores the
rewritten slots. -/
def ResolveState.forEachLight {α : Type} (st : ResolveState α σ) (list : LightParamsList)
    (body : ResolveState α σ → LightParams → LightParams × ResolveState α σ)
    (setList : α → LightParamsList → α) : ResolveState α σ :=
  { (forEachLightParams body st list).2 with
    self := setList (forEachLightParams body st list).2.self (forEachLightParams body st list).1 }

/-- The method `FFPLighting::resolveParameters`. -/
def FFPLighting.resolveParameters (R : Resolver σ) (self : FFPLighting)
    (programSet : ProgramSet σ) : Outcome FFPLighting σ :=
  let st := FFPLighting.resolveParametersGlobal R self programSet
  -- Resolve per light parameters.
  let st := st.forEachLight st.self.mLightParamsList (FFPLighting.resolveParametersLight R)
    (fun s l => { s with mLightParamsList := l })
  let st := st.check
    [fun s => s.mWorldViewITMatrix, fun s => s.mDerivedSceneColour, fun s => s.mSurfaceShininess,
      fun s => s.mVSInNormal, fun s => s.mVSOutDiffuse]
  st.finish FFPLighting.resolveError

end Resolution

section ResolutionPerPixel

open GpuProgramType AutoConstantType Content GpuConstantType LightTypes

variable {σ : Type}

/-! ## Per-pixel model: `PerPixelLighting::resolveParameters` -/

/-- Lines 224-236: "Get surface ambient colour if need to." -/
def PerPixelLighting.resolveAmbient (R : Resolver σ) (st : ResolveState PerPixelLighting σ) :
    ResolveState PerPixelLighting σ :=
  if tracks st.self.mTrackVertexColourType TVC_AMBIENT = false then
    (st.resolve R (.resolveAutoParameter GPT_FRAGMENT_PROGRAM ACT_DERIVED_AMBIENT_LIGHT_COLOUR)
      (fun s p => { s with mDerivedAmbientLightColour := p })).check
      [fun s => s.mDerivedAmbientLightColour]
  else
    ((st.resolve R (.resolveAutoParameter GPT_FRAGMENT_PROGRAM ACT_AMBIENT_LIGHT_COLOUR)
      (fun s p => { s with mLightAmbientColour := p })).resolve R
      (.resolveAutoParameter GPT_FRAGMENT_PROGRAM ACT_SURFACE_AMBIENT_COLOUR)
      (fun s p => { s with mSurfaceAmbientColour := p })).check
      [fun s => s.mSurfaceAmbientColour, fun s => s.mLightAmbientColour]

/-- Lines 238-243: "Get surface diffuse colour if need to." -/
def PerPixelLighting.resolveSurfaceDiffuse (R : Resolver σ)
    (st : ResolveState PerPixelLighting σ) : ResolveState PerPixelLighting σ :=
  if tracks st.self.mTrackVertexColourType TVC_DIFFUSE = false then
    (st.resolve R (.resolveAutoParameter GPT_FRAGMENT_PROGRAM ACT_SURFACE_DIFFUSE_COLOUR)
      (fun s p => { s with mSurfaceDiffuseColour := p })).check [fun s => s.mSurfaceDiffuseColour]
  else st

/-- Lines 245-250: "Get surface specular colour if need to." -/
def PerPixelLighting.resolveSurfaceSpecular (R : Resolver σ)
    (st : ResolveState PerPixelLighting σ) : ResolveState PerPixelLighting σ :=
  if tracks st.self.mTrackVertexColourType TVC_SPECULAR = false then
    (st.resolve R (.resolveAutoParameter GPT_FRAGMENT_PROGRAM ACT_SURFACE_SPECULAR_COLOUR)
      (fun s p => { s with mSurfaceSpecularColour := p })).check [fun s => s.mSurfaceSpecularColour]
  else st

/-- Lines 253-258: "Get surface emissive colour if need to." -/
def PerPixelLighting.resolveSurfaceEmissive (R : Resolver σ)
    (st : ResolveState PerPixelLighting σ) : ResolveState PerPixelLighting σ :=
  if tracks st.self.mTrackVertexColourType TVC_EMISSIVE = false then
    (st.resolve R (.resolveAutoParameter GPT_FRAGMENT_PROGRAM ACT_SURFACE_EMISSIVE_COLOUR)
      (fun s p => { s with mSurfaceEmissiveColour := p })).check [fun s => s.mSurfaceEmissiveColour]
  else st

/-- Lines 272-273: "Resolve input pixel shader normal." -/
def PerPixelLighting.resolvePSInNormal (R : Resolver σ) (st : ResolveState PerPixelLighting σ) :
    ResolveState PerPixelLighting σ :=
  st.resolve R (.resolveInputParameterOf GPT_FRAGMENT_PROGRAM st.self.mVSOutNormal)
    (fun s p => { s with mPSInNormal := p })

/-- Lines 275-279: the fragment diffuse colour is looked up as an input, then
as a local. -/
def PerPixelLighting.resolvePSDiffuse (R : Resolver σ) (st : ResolveState PerPixelLighting σ) :
    ResolveState PerPixelLighting σ :=
  let st := st.lookup R (.getInputParameter GPT_FRAGMENT_PROGRAM SPC_COLOR_DIFFUSE)
    (fun s p => { s with mPSDiffuse := p })
  if st.self.mPSDiffuse = none then
    st.lookup R (.getLocalParameter GPT_FRAGMENT_PROGRAM SPC_COLOR_DIFFUSE)
      (fun s p => { s with mPSDiffuse := p })
  else st

/-- Lines 289-293: the fragment specular colour is looked up as an input, and
created as a local when there is none. -/
def PerPixelLighting.resolvePSSpecular (R : Resolver σ) (st : ResolveState PerPixelLighting σ) :
    ResolveState PerPixelLighting σ :=
  let st := st.lookup R (.getInputParameter GPT_FRAGMENT_PROGRAM SPC_COLOR_SPECULAR)
    (fun s p => { s with mPSSpecular := p })
  if st.self.mPSSpecular = none then
    st.resolve R (.resolveLocalParameter GPT_FRAGMENT_PROGRAM SPC_COLOR_SPECULAR)
      (fun s p => { s with mPSSpecular := p })
  else st

/-- Line 301: `mPSInViewPos = psMain->resolveInputParameter(mVSOutViewPos)`. -/
def PerPixelLighting.resolvePSInViewPos (R : Resolver σ) (st : ResolveState PerPixelLighting σ) :
    ResolveState PerPixelLighting σ :=
  st.resolve R (.resolveInputParameterOf GPT_FRAGMENT_PROGRAM st.self.mVSOutViewPos)
    (fun s p => { s with mPSInViewPos := p })

/-- Lines 287-307: `if (mSpecularEnable) { ... }`. -/
def PerPixelLighting.resolveSpecularGlobals (R : Resolver σ)
    (st : ResolveState PerPixelLighting σ) : ResolveState PerPixelLighting σ :=
  if st.self.mSpecularEnable then
    let st := PerPixelLighting.resolvePSSpecular R st
    let st := st.resolve R
      (.resolveLocalParameterNamed GPT_FRAGMENT_PROGRAM "lPerPixelSpecular" GCT_FLOAT4)
      (fun s p => { s with mPSTempSpecularColour := p })
    let st := st.resolve R (.resolveInputParameter GPT_VERTEX_PROGRAM SPC_POSITION_OBJECT_SPACE)
      (fun s p => { s with mVSInPosition := p })
    let st := st.resolve R (.resolveOutputParameter GPT_VERTEX_PROGRAM SPC_POSITION_VIEW_SPACE)
      (fun s p => { s with mVSOutViewPos := p })
    let st := PerPixelLighting.resolvePSInViewPos R st
    let st := st.resolve R (.resolveAutoParameter GPT_VERTEX_PROGRAM ACT_WORLDVIEW_MATRIX)
      (fun s p => { s with mWorldViewMatrix := p })
    st.check
      [fun s => s.mPSSpecular, fun s => s.mPSTempSpecularColour, fun s => s.mVSInPosition,
        fun s => s.mVSOutViewPos, fun s => s.mPSInViewPos, fun s => s.mWorldViewMatrix]
  else st

/-- The statements of `PerPixelLighting::resolveGlobalParameters` up to the
test of `hasError`. -/
def PerPixelLighting.resolveGlobalParametersState (R : Resolver σ) (self : PerPixelLighting)
    (programSet : ProgramSet σ) : ResolveState PerPixelLighting σ :=
  let st : ResolveState PerPixelLighting σ :=
    { self := self, programSet := programSet, hasError := false }
  -- Resolve world view IT matrix.
  let st := (st.resolve R
    (.resolveAutoParameter GPT_VERTEX_PROGRAM ACT_INVERSE_TRANSPOSE_WORLDVIEW_MATRIX)
    (fun s p => { s with mWorldViewITMatrix := p })).check [fun s => s.mWorldViewITMatrix]
  let st := PerPixelLighting.resolveAmbient R st
  let st := PerPixelLighting.resolveSurfaceDiffuse R st
  let st := PerPixelLighting.resolveSurfaceSpecular R st
  let st := PerPixelLighting.resolveSurfaceEmissive R st
  -- Get derived scene colour.
  let st := st.resolve R (.resolveAutoParameter GPT_FRAGMENT_PROGRAM ACT_DERIVED_SCENE_COLOUR)
    (fun s p => { s with mDerivedSceneColour := p })
  -- Get surface shininess.
  let st := st.resolve R (.resolveAutoParameter GPT_FRAGMENT_PROGRAM ACT_SURFACE_SHININESS)
    (fun s p => { s with mSurfaceShininess := p })
  -- Resolve input vertex shader normal.
  let st := st.resolve R (.resolveInputParameter GPT_VERTEX_PROGRAM SPC_NORMAL_OBJECT_SPACE)
    (fun s p => { s with mVSInNormal := p })
  -- Resolve output vertex shader normal.
  let st := st.resolve R (.resolveOutputParameter GPT_VERTEX_PROGRAM SPC_NORMAL_VIEW_SPACE)
    (fun s p => { s with mVSOutNormal := p })
  let st := PerPixelLighting.resolvePSInNormal R st
  let st := PerPixelLighting.resolvePSDiffuse R st
  let st := st.resolve R (.resolveOutputParameter GPT_FRAGMENT_PROGRAM SPC_COLOR_DIFFUSE)
    (fun s p => { s with mPSOutDiffuse := p })
  let st := st.resolve R
    (.resolveLocalParameterNamed GPT_FRAGMENT_PROGRAM "lPerPixelDiffuse" GCT_FLOAT4)
    (fun s p => { s with mPSTempDiffuseColour := p })
  let st := st.check
    [fun s => s.mDerivedSceneColour, fun s => s.mSurfaceShininess, fun s => s.mVSInNormal,
      fun s => s.mVSOutNormal, fun s => s.mPSInNormal, fun s => s.mPSDiffuse,
      fun s => s.mPSOutDiffuse, fun s => s.mPSTempDiffuseColour]
  PerPixelLighting.resolveSpecularGlobals R st

/-- The internal error `resolveGlobalParameters` raises. -/
def PerPixelLighting.globalError : Exception :=
  { code := ExceptionCodes.ERR_INTERNAL_ERROR
    description := "Not all parameters could be constructed for the sub-render state."
    source := "PerPixelLighting::resolveGlobalParameters" }

/-- The internal error `resolvePerLightParameters` raises. -/
def PerPixelLighting.perLightError : Exception :=
  { code := ExceptionCodes.ERR_INTERNAL_ERROR
    description := "Not all parameters could be constructed for the sub-render state."
    source := "PerPixelLighting::resolvePerLightParameters" }

/-- The method `PerPixelLighting::resolveGlobalParameters`. -/
def PerPixelLighting.resolveGlobalParameters (R : Resolver σ) (self : PerPixelLighting)
    (programSet : ProgramSet σ) : Outcome PerPixelLighting σ :=
  (PerPixelLighting.resolveGlobalParametersState R self programSet).finish
    PerPixelLighting.globalError

/-- The statement `mPSInViewPos = psMain->resolveInputParameter(mVSOutViewPos)`
inside the loop. -/
def PerPixelLighting.resolveLightPSInViewPos (R : Resolver σ)
    (st : ResolveState (PerPixelLighting × LightParams) σ) :
    ResolveState (PerPixelLighting × LightParams) σ :=
  st.resolve R (.resolveInputParameterOf GPT_FRAGMENT_PROGRAM st.self.1.mVSOutViewPos)
    (fun s p => ({ s.1 with mPSInViewPos := p }, s.2))

/-- The statements `if (mVSOutViewPos.get() == NULL) { mVSOutViewPos = ...;
mPSInViewPos = ...; }` of the Point and Spot cases. -/
def PerPixelLighting.resolveViewPos (R : Resolver σ)
    (st : ResolveState (PerPixelLighting × LightParams) σ) :
    ResolveState (PerPixelLighting × LightParams) σ :=
  if st.self.1.mVSOutViewPos = none then
    PerPixelLighting.resolveLightPSInViewPos R
      (st.resolve R (.resolveOutputParameter GPT_VERTEX_PROGRAM SPC_POSITION_VIEW_SPACE)
        (fun s p => ({ s.1 with mVSOutViewPos := p }, s.2)))
  else st

/-- Lines 330-376: the `switch (mLightParamsList[i].mType)` of the loop body.
The first component of the object is the instance, the second the current
slot. -/
def PerPixelLighting.resolveLightType (R : Resolver σ)
    (st : ResolveState (PerPixelLighting × LightParams) σ) :
    ResolveState (PerPixelLighting × LightParams) σ :=
  match st.self.2.mType with
  | LT_DIRECTIONAL =>
    st.resolve R
      (.resolveParameter GPT_FRAGMENT_PROGRAM GCT_FLOAT4 (-1) GPV_LIGHTS "light_direction_view_space")
      (fun s p => (s.1, { s.2 with mDirection := p }))
  | LT_POINT =>
    (PerPixelLighting.resolveViewPos R
      ((((st.resolve R (.resolveAutoParameter GPT_VERTEX_PROGRAM ACT_WORLDVIEW_MATRIX)
        (fun s p => ({ s.1 with mWorldViewMatrix := p }, s.2))).resolve R
        (.resolveInputParameter GPT_VERTEX_PROGRAM SPC_POSITION_OBJECT_SPACE)
        (fun s p => ({ s.1 with mVSInPosition := p }, s.2))).resolve R
        (.resolveParameter GPT_FRAGMENT_PROGRAM GCT_FLOAT4 (-1) GPV_LIGHTS "light_position_view_space")
        (fun s p => (s.1, { s.2 with mPosition := p }))).resolve R
        (.resolveParameter GPT_FRAGMENT_PROGRAM GCT_FLOAT4 (-1) GPV_LIGHTS "light_attenuation")
        (fun s p => (s.1, { s.2 with mAttenuatParams := p })))).check
      [fun s => s.1.mWorldViewMatrix, fun s => s.1.mVSInPosition, fun s => s.2.mPosition,
        fun s => s.2.mAttenuatParams, fun s => s.1.mVSOutViewPos, fun s => s.1.mPSInViewPos]
  | LT_SPOTLIGHT =>
    (PerPixelLighting.resolveViewPos R
      ((((((st.resolve R (.resolveAutoParameter GPT_VERTEX_PROGRAM ACT_WORLDVIEW_MATRIX)
        (fun s p => ({ s.1 with mWorldViewMatrix := p }, s.2))).resolve R
        (.resolveInputParameter GPT_VERTEX_PROGRAM SPC_POSITION_OBJECT_SPACE)
        (fun s p => ({ s.1 with mVSInPosition := p }, s.2))).resolve R
        (.resolveParameter GPT_FRAGMENT_PROGRAM GCT_FLOAT4 (-1) GPV_LIGHTS "light_position_view_space")
        (fun s p => (s.1, { s.2 with mPosition := p }))).resolve R
        (.resolveParameter GPT_FRAGMENT_PROGRAM GCT_FLOAT4 (-1) GPV_LIGHTS "light_direction_view_space")
        (fun s p => (s.1, { s.2 with mDirection := p }))).resolve R
        (.resolveParameter GPT_FRAGMENT_PROGRAM GCT_FLOAT4 (-1) GPV_LIGHTS "light_attenuation")
        (fun s p => (s.1, { s.2 with mAttenuatParams := p }))).resolve R
        (.resolveParameter GPT_FRAGMENT_PROGRAM GCT_FLOAT3 (-1) GPV_LIGHTS "spotlight_params")
        (fun s p => (s.1, { s.2 with mSpotParams := p })))).check
      [fun s => s.1.mWorldViewMatrix, fun s => s.1.mVSInPosition, fun s => s.2.mPosition,
        fun s => s.2.mDirection, fun s => s.2.mAttenuatParams, fun s => s.2.mSpotParams,
        fun s => s.1.mVSOutViewPos, fun s => s.1.mPSInViewPos]

/-- Lines 378-388: "Resolve diffuse colour." -/
def PerPixelLighting.resolveLightDiffuse (R : Resolver σ)
    (st : ResolveState (PerPixelLighting × LightParams) σ) :
    ResolveState (PerPixelLighting × LightParams) σ :=
  (if tracks st.self.1.mTrackVertexColourType TVC_DIFFUSE = false then
    st.resolve R
      (.resolveParameter GPT_FRAGMENT_PROGRAM GCT_FLOAT4 (-1) (GPV_LIGHTS ||| GPV_GLOBAL)
        "derived_light_diffuse")
      (fun s p => (s.1, { s.2 with mDiffuseColour := p }))
  else
    st.resolve R
      (.resolveParameter GPT_FRAGMENT_PROGRAM GCT_FLOAT4 (-1) GPV_LIGHTS "light_diffuse")
      (fun s p => (s.1, { s.2 with mDiffuseColour := p }))).check [fun s => s.2.mDiffuseColour]

/-- Lines 390-402: `if (mSpecularEnable) { ... }`. -/
def PerPixelLighting.resolveLightSpecular (R : Resolver σ)
    (st : ResolveState (PerPixelLighting × LightParams) σ) :
    ResolveState (PerPixelLighting × LightParams) σ :=
  if st.self.1.mSpecularEnable then
    -- Resolve specular colour.
    (if tracks st.self.1.mTrackVertexColourType TVC_SPECULAR = false then
      st.resolve R
        (.resolveParameter GPT_FRAGMENT_PROGRAM GCT_FLOAT4 (-1) (GPV_LIGHTS ||| GPV_GLOBAL)
          "derived_light_specular")
        (fun s p => (s.1, { s.2 with mSpecularColour := p }))
    else
      st.resolve R
        (.resolveParameter GPT_FRAGMENT_PROGRAM GCT_FLOAT4 (-1) GPV_LIGHTS "light_specular")
        (fun s p => (s.1, { s.2 with mSpecularColour := p }))).check
      [fun s => s.2.mSpecularColour]
  else st

/-- The body of the loop of `PerPixelLighting::resolvePerLightParameters`, for
the slot `cur = mLightParamsList[i]`. -/
def PerPixelLighting.resolvePerLightParametersLight (R : Resolver σ)
    (st : ResolveState PerPixelLighting σ) (cur : LightParams) :
    LightParams × ResolveState PerPixelLighting σ :=
  let st : ResolveState (PerPixelLighting × LightParams) σ :=
    { self := (st.self, cur), programSet := st.programSet, hasError := st.hasError }
  let st := PerPixelLighting.resolveLightType R st
  let st := PerPixelLighting.resolveLightDiffuse R st
  let st := PerPixelLighting.resolveLightSpecular R st
  (st.self.2, { self := st.self.1, programSet := st.programSet, hasError := st.hasError })

/-- The method `PerPixelLighting::resolvePerLightParameters`. -/
def PerPixelLighting.resolvePerLightParameters (R : Resolver σ) (self : PerPixelLighting)
    (programSet : ProgramSet σ) : Outcome PerPixelLighting σ :=
  let st : ResolveState PerPixelLighting σ :=
    { self := self, programSet := programSet, hasError := false }
  -- Resolve per light parameters.
  let st := st.forEachLight self.mLightParamsList (PerPixelLighting.resolvePerLightParametersLight R)
    (fun s l => { s with mLightParamsList := l })
  st.finish PerPixelLighting.perLightError

/-- The method `PerPixelLighting::resolveParameters`: the per-light resolver
runs only when the global one returned true. -/
def PerPixelLighting.resolveParameters (R : Resolver σ) (self : PerPixelLighting)
    (programSet : ProgramSet σ) : Outcome PerPixelLighting σ :=
  let g := PerPixelLighting.resolveGlobalParameters R self programSet
  match g.result with
  | .error e => { g with result := .error e }
  | .ok false => { g with result := .ok false }
  | .ok true => PerPixelLighting.resolvePerLightParameters R g.self g.programSet

end ResolutionPerPixel

/-! ## Predicates and test doubles used by the theorems -/

/-- A concrete resolver for evaluating the code: the parameter table is a
counter, a request in `missing` is answered null, any other request by a fresh
handle. -/
def countingResolver (missing : Request → Bool) : Resolver Nat :=
  fun req n => (if missing req then none else some n, n + 1)

/-- The per-pixel request for the direction of a light slot. -/
def lightDirectionRequest : Request :=
  .resolveParameter GpuProgramType.GPT_FRAGMENT_PROGRAM GpuConstantType.GCT_FLOAT4 (-1) GPV_LIGHTS
    "light_direction_view_space"

/-- The handles of a slot that its light type populates, its diffuse colour,
and its specular colour when specular is enabled. -/
def LightParams.populated (specularEnable : Bool) (p : LightParams) : List ParameterPtr :=
  (match p.mType with
    | LightTypes.LT_DIRECTIONAL => [p.mDirection]
    | LightTypes.LT_POINT => [p.mPosition, p.mAttenuatParams]
    | LightTypes.LT_SPOTLIGHT => [p.mPosition, p.mDirection, p.mAttenuatParams, p.mSpotParams])
  ++ [p.mDiffuseColour] ++ (if specularEnable then [p.mSpecularColour] else [])

/-- The set of handles the per-pixel global resolver requires for the
configuration of `self`, read off `self`. -/
def PerPixelLighting.requiredGlobals (self : PerPixelLighting) : List ParameterPtr :=
  [self.mWorldViewITMatrix, self.mDerivedSceneColour, self.mSurfaceShininess, self.mVSInNormal,
    self.mVSOutNormal, self.mPSInNormal, self.mPSDiffuse, self.mPSOutDiffuse,
    self.mPSTempDiffuseColour]
  ++ (if tracks self.mTrackVertexColourType TVC_AMBIENT then
        [self.mLightAmbientColour, self.mSurfaceAmbientColour]
      else [self.mDerivedAmbientLightColour])
  ++ (if tracks self.mTrackVertexColourType TVC_DIFFUSE then [] else [self.mSurfaceDiffuseColour])
  ++ (if tracks self.mTrackVertexColourType TVC_SPECULAR then [] else [self.mSurfaceSpecularColour])
  ++ (if tracks self.mTrackVertexColourType TVC_EMISSIVE then [] else [self.mSurfaceEmissiveColour])
  ++ (if self.mSpecularEnable then
        [self.mPSSpecular, self.mPSTempSpecularColour, self.mVSInPosition, self.mVSOutViewPos,
          self.mPSInViewPos, self.mWorldViewMatrix]
      else [])


/-! ## Invocation assembly -/

section Assembly

open FunctionName OpSemantic OpMask LightTypes

variable {σ : Type}

/-- The operand wrapper `In(p)`: an input operand with the full mask. -/
def In (p : ParameterPtr) : Operand := { mParameter := p, mSemantic := OPS_IN }

/-- The operand wrapper `Out(p)`: an output operand with the full mask. -/
def Out (p : ParameterPtr) : Operand := { mParameter := p, mSemantic := OPS_OUT }

/-- The mask selector `.xyz()` of an operand. -/
def Operand.xyz (o : Operand) : Operand := { o with mMask := OPM_XYZ }

/-- Modelled from the spec: `getStage(order).callFunction(id, operands...)`, declared
outside the two source files, appends one invocation of `id` with the given
operands to the function.  A function is represented by its atoms in append
order. -/
def callFunction (atoms : List FunctionInvocation) (groupOrder : GroupOrder)
    (name : FunctionName) (operands : List Operand) : List FunctionInvocation :=
  atoms ++ [{ mFunctionName := name, mGroupExecutionOrder := groupOrder, mOperands := operands }]

/-- Modelled from the spec: `getStage(order).assign(src, dst)`, declared outside
the two source files, appends one assignment atom reading `src` and writing
`dst`. -/
def assign (atoms : List FunctionInvocation) (groupOrder : GroupOrder) (src dst : Operand) :
    List FunctionInvocation :=
  callFunction atoms groupOrder FFP_FUNC_ASSIGN [src, dst]

/-- The methods `pushOperand` and `addAtomInstance` of the per-pixel code:
`psMain->addAtomInstance(inv)` for an invocation built from `name`,
`groupOrder` and the operands pushed in order. -/
def addAtomInstance (atoms : List FunctionInvocation) (groupOrder : GroupOrder)
    (name : FunctionName) (operands : List Operand) : List FunctionInvocation :=
  atoms ++ [{ mFunctionName := name, mGroupExecutionOrder := groupOrder, mOperands := operands }]

/-- The call `pushOperand(p, semantic, mask)`, as the operand it pushes. -/
def pushOperand (p : ParameterPtr) (semantic : OpSemantic) (mask : OpMask := OPM_ALL) : Operand :=
  { mParameter := p, mSemantic := semantic, mMask := mask }

/-! ### Per-vertex model -/

/-- The method `FFPLighting::addGlobalIlluminationInvocation`. -/
def FFPLighting.addGlobalIlluminationInvocation (self : FFPLighting)
    (vsMain : List FunctionInvocation) (groupOrder : GroupOrder) :
    Bool × List FunctionInvocation :=
  if tracks self.mTrackVertexColourType TVC_AMBIENT = false ∧
      tracks self.mTrackVertexColourType TVC_EMISSIVE = false then
    (true, assign vsMain groupOrder (In self.mDerivedSceneColour) (Out self.mVSOutDiffuse))
  else
    let vsMain :=
      if tracks self.mTrackVertexColourType TVC_AMBIENT then
        callFunction vsMain groupOrder FFP_FUNC_MODULATE
          [In self.mLightAmbientColour, In self.mVSDiffuse, Out self.mVSOutDiffuse]
      else
        assign vsMain groupOrder (In self.mDerivedAmbientLightColour) (Out self.mVSOutDiffuse)
    let vsMain :=
      if tracks self.mTrackVertexColourType TVC_EMISSIVE then
        callFunction vsMain groupOrder FFP_FUNC_ADD
          [In self.mVSDiffuse, In self.mVSOutDiffuse, Out self.mVSOutDiffuse]
      else
        callFunction vsMain groupOrder FFP_FUNC_ADD
          [In self.mSurfaceEmissiveColour, In self.mVSOutDiffuse, Out self.mVSOutDiffuse]
    (true, vsMain)

/-- The method `FFPLighting::addIlluminationInvocation`. -/
def FFPLighting.addIlluminationInvocation (self : FFPLighting) (curLightParams : LightParams)
    (vsMain : List FunctionInvocation) (groupOrder : GroupOrder) :
    Bool × List FunctionInvocation :=
  -- Merge diffuse colour with vertex colour if need to.
  let vsMain :=
    if tracks self.mTrackVertexColourType TVC_DIFFUSE then
      callFunction vsMain groupOrder FFP_FUNC_MODULATE
        [(In self.mVSDiffuse).xyz, (In curLightParams.mDiffuseColour).xyz,
          (Out curLightParams.mDiffuseColour).xyz]
    else vsMain
  -- Merge specular colour with vertex colour if need to.
  let vsMain :=
    if self.mSpecularEnable ∧ tracks self.mTrackVertexColourType TVC_SPECULAR then
      callFunction vsMain groupOrder FFP_FUNC_MODULATE
        [(In self.mVSDiffuse).xyz, (In curLightParams.mSpecularColour).xyz,
          (Out curLightParams.mSpecularColour).xyz]
    else vsMain
  let vsMain :=
    match curLightParams.mType with
    | LT_DIRECTIONAL =>
      if self.mSpecularEnable then
        callFunction vsMain groupOrder FFP_FUNC_LIGHT_DIRECTIONAL_DIFFUSESPECULAR
          [In self.mWorldViewMatrix, In self.mVSInPosition, In self.mWorldViewITMatrix,
            In self.mVSInNormal, (In curLightParams.mDirection).xyz,
            (In curLightParams.mDiffuseColour).xyz, (In curLightParams.mSpecularColour).xyz,
            In self.mSurfaceShininess, (In self.mVSOutDiffuse).xyz, (In self.mVSOutSpecular).xyz,
            (Out self.mVSOutDiffuse).xyz, (Out self.mVSOutSpecular).xyz]
      else
        callFunction vsMain groupOrder FFP_FUNC_LIGHT_DIRECTIONAL_DIFFUSE
          [In self.mWorldViewITMatrix, In self.mVSInNormal, (In curLightParams.mDirection).xyz,
            (In curLightParams.mDiffuseColour).xyz, (In self.mVSOutDiffuse).xyz,
            (Out self.mVSOutDiffuse).xyz]
    | LT_POINT =>
      if self.mSpecularEnable then
        callFunction vsMain groupOrder FFP_FUNC_LIGHT_POINT_DIFFUSESPECULAR
          [In self.mWorldViewMatrix, In self.mVSInPosition, In self.mWorldViewITMatrix,
            In self.mVSInNormal, (In curLightParams.mPosition).xyz,
            In curLightParams.mAttenuatParams, (In curLightParams.mDiffuseColour).xyz,
            (In curLightParams.mSpecularColour).xyz, In self.mSurfaceShininess,
            (In self.mVSOutDiffuse).xyz, (In self.mVSOutSpecular).xyz,
            (Out self.mVSOutDiffuse).xyz, (Out self.mVSOutSpecular).xyz]
      else
        callFunction vsMain groupOrder FFP_FUNC_LIGHT_POINT_DIFFUSE
          [In self.mWorldViewMatrix, In self.mVSInPosition, In self.mWorldViewITMatrix,
            In self.mVSInNormal, (In curLightParams.mPosition).xyz,
            In curLightParams.mAttenuatParams, (In curLightParams.mDiffuseColour).xyz,
            (In self.mVSOutDiffuse).xyz, (Out self.mVSOutDiffuse).xyz]
    | LT_SPOTLIGHT =>
      if self.mSpecularEnable then
        callFunction vsMain groupOrder FFP_FUNC_LIGHT_SPOT_DIFFUSESPECULAR
          [In self.mWorldViewMatrix, In self.mVSInPosition, In self.mWorldViewITMatrix,
            In self.mVSInNormal, (In curLightParams.mPosition).xyz,
            (In curLightParams.mDirection).xyz, In curLightParams.mAttenuatParams,
            In curLightParams.mSpotParams, (In curLightParams.mDiffuseColour).xyz,
            (In curLightParams.mSpecularColour).xyz, In self.mSurfaceShininess,
            (In self.mVSOutDiffuse).xyz, (In self.mVSOutSpecular).xyz,
            (Out self.mVSOutDiffuse).xyz, (Out self.mVSOutSpecular).xyz]
      else
        callFunction vsMain groupOrder FFP_FUNC_LIGHT_SPOT_DIFFUSE
          [In self.mWorldViewMatrix, In self.mVSInPosition, In self.mWorldViewITMatrix,
            In self.mVSInNormal, (In curLightParams.mPosition).xyz,
            (In curLightParams.mDirection).xyz, In curLightParams.mAttenuatParams,
            In curLightParams.mSpotParams, (In curLightParams.mDiffuseColour).xyz,
            (In self.mVSOutDiffuse).xyz, (Out self.mVSOutDiffuse).xyz]
  (true, vsMain)

/-- The loop "Add per light functions." of `addFunctionInvocations`: `add` is
called on every slot in list order, and the first call that returns false
ends the method with false. -/
def addPerLightLoop (add : LightParams → List FunctionInvocation → Bool × List FunctionInvocation) :
    LightParamsList → List FunctionInvocation → Bool × List FunctionInvocation
  | [], main => (true, main)
  | cur :: rest, main =>
    if (add cur main).1 = false then (false, (add cur main).2)
    else addPerLightLoop add rest (add cur main).2

/-- The method `FFPLighting::addFunctionInvocations`. -/
def FFPLighting.addFunctionInvocations (self : FFPLighting) (programSet : ProgramSet σ) :
    Bool × ProgramSet σ :=
  -- Add the global illumination functions.
  let g := self.addGlobalIlluminationInvocation programSet.vsMainAtoms GroupOrder.FFP_VS_LIGHTING
  if g.1 = false then (false, { programSet with vsMainAtoms := g.2 })
  else
    -- Add per light functions.
    let l := addPerLightLoop
      (fun cur main => self.addIlluminationInvocation cur main GroupOrder.FFP_VS_LIGHTING)
      self.mLightParamsList g.2
    if l.1 = false then (false, { programSet with vsMainAtoms := l.2 })
    else (true, { programSet with vsMainAtoms := l.2 })

/-! ### Per-pixel model -/

/-- The method `PerPixelLighting::addVSInvocation`. -/
def PerPixelLighting.addVSInvocation (self : PerPixelLighting) (vsMain : List FunctionInvocation)
    (groupOrder : GroupOrder) : Bool × List FunctionInvocation :=
  -- Transform normal in view space.
  let vsMain := callFunction vsMain groupOrder SGX_FUNC_TRANSFORMNORMAL
    [In self.mWorldViewITMatrix, In self.mVSInNormal, Out self.mVSOutNormal]
  -- Transform view space position if need to.
  let vsMain :=
    if self.mVSOutViewPos.isSome then
      callFunction vsMain groupOrder SGX_FUNC_TRANSFORMPOSITION
        [In self.mWorldViewMatrix, In self.mVSInPosition, Out self.mVSOutViewPos]
    else vsMain
  (true, vsMain)

/-- The method `PerPixelLighting::addPSGlobalIlluminationInvocation`. -/
def PerPixelLighting.addPSGlobalIlluminationInvocation (self : PerPixelLighting)
    (psMain : List FunctionInvocation) (groupOrder : GroupOrder) :
    Bool × List FunctionInvocation :=
  let psMain :=
    if tracks self.mTrackVertexColourType TVC_AMBIENT = false ∧
        tracks self.mTrackVertexColourType TVC_EMISSIVE = false then
      assign psMain groupOrder (In self.mDerivedSceneColour) (Out self.mPSTempDiffuseColour)
    else
      let psMain :=
        if tracks self.mTrackVertexColourType TVC_AMBIENT then
          callFunction psMain groupOrder FFP_FUNC_MODULATE
            [In self.mLightAmbientColour, In self.mPSDiffuse, Out self.mPSTempDiffuseColour]
        else
          assign psMain groupOrder (In self.mDerivedAmbientLightColour).xyz
            (Out self.mPSTempDiffuseColour).xyz
      if tracks self.mTrackVertexColourType TVC_EMISSIVE then
        callFunction psMain groupOrder FFP_FUNC_ADD
          [In self.mPSDiffuse, In self.mPSTempDiffuseColour, Out self.mPSTempDiffuseColour]
      else
        callFunction psMain groupOrder FFP_FUNC_ADD
          [In self.mSurfaceEmissiveColour, In self.mPSTempDiffuseColour,
            Out self.mPSTempDiffuseColour]
  let psMain :=
    if self.mSpecularEnable then
      assign psMain groupOrder (In self.mPSSpecular) (Out self.mPSTempSpecularColour)
    else psMain
  (true, psMain)

/-- The method `PerPixelLighting::addPSIlluminationInvocation`. -/
def PerPixelLighting.addPSIlluminationInvocation (self : PerPixelLighting)
    (curLightParams : LightParams) (psMain : List FunctionInvocation) (groupOrder : GroupOrder) :
    Bool × List FunctionInvocation :=
  -- Merge diffuse colour with vertex colour if need to.
  let psMain :=
    if tracks self.mTrackVertexColourType TVC_DIFFUSE then
      callFunction psMain groupOrder FFP_FUNC_MODULATE
        [(In self.mPSDiffuse).xyz, (In curLightParams.mDiffuseColour).xyz,
          (Out curLightParams.mDiffuseColour).xyz]
    else psMain
  -- Merge specular colour with vertex colour if need to.
  let psMain :=
    if self.mSpecularEnable ∧ tracks self.mTrackVertexColourType TVC_SPECULAR then
      callFunction psMain groupOrder FFP_FUNC_MODULATE
        [(In self.mPSDiffuse).xyz, (In curLightParams.mSpecularColour).xyz,
          (Out curLightParams.mSpecularColour).xyz]
    else psMain
  let psMain :=
    match curLightParams.mType with
    | LT_DIRECTIONAL =>
      if self.mSpecularEnable then
        addAtomInstance psMain groupOrder SGX_FUNC_LIGHT_DIRECTIONAL_DIFFUSESPECULAR
          [pushOperand self.mPSInNormal OPS_IN,
            pushOperand self.mPSInViewPos OPS_IN,
            pushOperand curLightParams.mDirection OPS_IN OPM_XYZ,
            pushOperand curLightParams.mDiffuseColour OPS_IN OPM_XYZ,
            pushOperand curLightParams.mSpecularColour OPS_IN OPM_XYZ,
            pushOperand self.mSurfaceShininess OPS_IN,
            pushOperand self.mPSTempDiffuseColour OPS_IN OPM_XYZ,
            pushOperand self.mPSTempSpecularColour OPS_IN OPM_XYZ,
            pushOperand self.mPSTempDiffuseColour OPS_OUT OPM_XYZ,
            pushOperand self.mPSTempSpecularColour OPS_OUT OPM_XYZ]
      else
        addAtomInstance psMain groupOrder SGX_FUNC_LIGHT_DIRECTIONAL_DIFFUSE
          [pushOperand self.mPSInNormal OPS_IN,
            pushOperand curLightParams.mDirection OPS_IN OPM_XYZ,
            pushOperand curLightParams.mDiffuseColour OPS_IN OPM_XYZ,
            pushOperand self.mPSTempDiffuseColour OPS_IN OPM_XYZ,
            pushOperand self.mPSTempDiffuseColour OPS_OUT OPM_XYZ]
    | LT_POINT =>
      if self.mSpecularEnable then
        addAtomInstance psMain groupOrder SGX_FUNC_LIGHT_POINT_DIFFUSESPECULAR
          [pushOperand self.mPSInNormal OPS_IN,
            pushOperand self.mPSInViewPos OPS_IN,
            pushOperand curLightParams.mPosition OPS_IN OPM_XYZ,
            pushOperand curLightParams.mAttenuatParams OPS_IN,
            pushOperand curLightParams.mDiffuseColour OPS_IN OPM_XYZ,
            pushOperand curLightParams.mSpecularColour OPS_IN OPM_XYZ,
            pushOperand self.mSurfaceShininess OPS_IN,
            pushOperand self.mPSTempDiffuseColour OPS_IN OPM_XYZ,
            pushOperand self.mPSTempSpecularColour OPS_IN OPM_XYZ,
            pushOperand self.mPSTempDiffuseColour OPS_OUT OPM_XYZ,
            pushOperand self.mPSTempSpecularColour OPS_OUT OPM_XYZ]
      else
        addAtomInstance psMain groupOrder SGX_FUNC_LIGHT_POINT_DIFFUSE
          [pushOperand self.mPSInNormal OPS_IN,
            pushOperand self.mPSInViewPos OPS_IN,
            pushOperand curLightParams.mPosition OPS_IN OPM_XYZ,
            pushOperand curLightParams.mAttenuatParams OPS_IN,
            pushOperand curLightParams.mDiffuseColour OPS_IN OPM_XYZ,
            pushOperand self.mPSTempDiffuseColour OPS_IN OPM_XYZ,
            pushOperand self.mPSTempDiffuseColour OPS_OUT OPM_XYZ]
    | LT_SPOTLIGHT =>
      if self.mSpecularEnable then
        addAtomInstance psMain groupOrder SGX_FUNC_LIGHT_SPOT_DIFFUSESPECULAR
          [pushOperand self.mPSInNormal OPS_IN,
            pushOperand self.mPSInViewPos OPS_IN,
            pushOperand curLightParams.mPosition OPS_IN OPM_XYZ,
            pushOperand curLightParams.mDirection OPS_IN OPM_XYZ,
            pushOperand curLightParams.mAttenuatParams OPS_IN,
            pushOperand curLightParams.mSpotParams OPS_IN,
            pushOperand curLightParams.mDiffuseColour OPS_IN OPM_XYZ,
            pushOperand curLightParams.mSpecularColour OPS_IN OPM_XYZ,
            pushOperand self.mSurfaceShininess OPS_IN,
            pushOperand self.mPSTempDiffuseColour OPS_IN OPM_XYZ,
            pushOperand self.mPSTempSpecularColour OPS_IN OPM_XYZ,
            pushOperand self.mPSTempDiffuseColour OPS_OUT OPM_XYZ,
            pushOperand self.mPSTempSpecularColour OPS_OUT OPM_XYZ]
      else
        addAtomInstance psMain groupOrder SGX_FUNC_LIGHT_SPOT_DIFFUSE
          [pushOperand self.mPSInNormal OPS_IN,
            pushOperand self.mPSInViewPos OPS_IN,
            pushOperand curLightParams.mPosition OPS_IN OPM_XYZ,
            pushOperand curLightParams.mDirection OPS_IN OPM_XYZ,
            pushOperand curLightParams.mAttenuatParams OPS_IN,
            pushOperand curLightParams.mSpotParams OPS_IN,
            pushOperand curLightParams.mDiffuseColour OPS_IN OPM_XYZ,
            pushOperand self.mPSTempDiffuseColour OPS_IN OPM_XYZ,
            pushOperand self.mPSTempDiffuseColour OPS_OUT OPM_XYZ]
  (true, psMain)

/-- The method `PerPixelLighting::addPSFinalAssignmentInvocation`. -/
def PerPixelLighting.addPSFinalAssignmentInvocation (self : PerPixelLighting)
    (psMain : List FunctionInvocation) (groupOrder : GroupOrder) :
    Bool × List FunctionInvocation :=
  let psMain := assign psMain groupOrder (In self.mPSTempDiffuseColour) (Out self.mPSDiffuse)
  let psMain := assign psMain groupOrder (In self.mPSDiffuse) (Out self.mPSOutDiffuse)
  let psMain :=
    if self.mSpecularEnable then
      assign psMain groupOrder (In self.mPSTempSpecularColour) (Out self.mPSSpecular)
    else psMain
  (true, psMain)

/-- The method `PerPixelLighting::addFunctionInvocations`. -/
def PerPixelLighting.addFunctionInvocations (self : PerPixelLighting)
    (programSet : ProgramSet σ) : Bool × ProgramSet σ :=
  -- Add the global illumination functions.
  let v := self.addVSInvocation programSet.vsMainAtoms GroupOrder.FFP_VS_LIGHTING
  let programSet := { programSet with vsMainAtoms := v.2 }
  if v.1 = false then (false, programSet)
  else
    -- Add the global illumination functions.
    let g := self.addPSGlobalIlluminationInvocation programSet.psMainAtoms
      (GroupOrder.FFP_PS_COLOUR_BEGIN_plus 1)
    if g.1 = false then (false, { programSet with psMainAtoms := g.2 })
    else
      -- Add per light functions.
      let l := addPerLightLoop
        (fun cur main =>
          self.addPSIlluminationInvocation cur main (GroupOrder.FFP_PS_COLOUR_BEGIN_plus 1))
        self.mLightParamsList g.2
      if l.1 = false then (false, { programSet with psMainAtoms := l.2 })
      else
        -- Assign back temporary variables to the ps diffuse and specular components.
        let f := self.addPSFinalAssignmentInvocation l.2 (GroupOrder.FFP_PS_COLOUR_BEGIN_plus 1)
        if f.1 = false then (false, { programSet with psMainAtoms := f.2 })
        else (true, { programSet with psMainAtoms := f.2 })

end Assembly

/-! ## Runtime parameter updater -/

section Updater

open LightTypes

/-- The type `Real`, a `float`: a finite value, kept as an exact rational, an
infinity with its sign, or a NaN.  Rounding, overflow of a finite result and
the sign of zero are not represented. -/
inductive Real where
  | finite (value : ℚ)
  | infinity (negative : Bool)
  | nan
  deriving DecidableEq

/-- A numeric literal of type `Real`. -/
instance (n : Nat) : OfNat Real n := ⟨Real.finite n⟩

/-- The product of two floats: a NaN operand gives NaN, zero times an infinity
gives NaN, an infinity times a non-zero value is an infinity whose sign is the
product of the signs, and two finite values multiply exactly. -/
def Real.mul : Real → Real → Real
  | .nan, _ => .nan
  | _, .nan => .nan
  | .finite p, .finite q => .finite (p * q)
  | .finite p, .infinity s => if p = 0 then .nan else .infinity (xor s (decide (p < 0)))
  | .infinity s, .finite q => if q = 0 then .nan else .infinity (xor s (decide (q < 0)))
  | .infinity s, .infinity t => .infinity (xor s t)

instance : Mul Real := ⟨Real.mul⟩

/-- The unary minus of a float. -/
def Real.neg : Real → Real
  | .finite q => .finite (-q)
  | .infinity s => .infinity (!s)
  | .nan => .nan

instance : Neg Real := ⟨Real.neg⟩

/-- The comparison `x < y` of two floats: false when either is a NaN. -/
def Real.blt : Real → Real → Bool
  | .finite p, .finite q => decide (p < q)
  | .finite _, .infinity t => !t
  | .infinity s, .finite _ => s
  | .infinity s, .infinity t => s && !t
  | .nan, _ => false
  | _, .nan => false

instance : LT Real := ⟨fun x y => Real.blt x y = true⟩

instance (x y : Real) : Decidable (x < y) :=
  inferInstanceAs (Decidable (Real.blt x y = true))

/-- The float is neither an infinity nor a NaN. -/
def Real.isFinite : Real → Bool
  | .finite _ => true
  | _ => false

/-- The class `ColourValue`. -/
structure ColourValue where
  r : Real
  g : Real
  b : Real
  a : Real
  deriving DecidableEq

/-- Modelled from the spec: the constant `ColourValue::Black`, declared outside
the two source files: red, green and blue are zero (the alpha of the engine's
constant is one). -/
def ColourValue.Black : ColourValue := { r := 0, g := 0, b := 0, a := 1 }

/-- Modelled from the spec: the component-wise product `c1 * c2` of two
colours, declared outside the two source files. -/
def ColourValue.mul (c d : ColourValue) : ColourValue :=
  { r := c.r * d.r, g := c.g * d.g, b := c.b * d.b, a := c.a * d.a }

/-- Modelled from the spec: the product `c * f` of a colour and a scalar,
declared outside the two source files. -/
def ColourValue.scale (c : ColourValue) (f : Real) : ColourValue :=
  { r := c.r * f, g := c.g * f, b := c.b * f, a := c.a * f }

/-- The red, green and blue components of the colour are finite floats. -/
def ColourValue.hasFiniteRGB (c : ColourValue) : Bool :=
  c.r.isFinite && c.g.isFinite && c.b.isFinite

/-- The class `Vector3`. -/
structure Vector3 where
  x : Real
  y : Real
  z : Real
  deriving DecidableEq

/-- The class `Vector4`. -/
structure Vector4 where
  x : Real
  y : Real
  z : Real
  w : Real
  deriving DecidableEq

/-- The class `Light`, as far as the updater reads it: each field is the value
of the accessor of the same name. -/
structure Light where
  getType : LightTypes
  getAs4DVector : Vector4
  getDerivedDirection : Vector3
  getAttenuationRange : Real
  getAttenuationConstant : Real
  getAttenuationLinear : Real
  getAttenuationQuadric : Real
  getSpotlightOuterAngle : Real
  getSpotlightInnerAngle : Real
  getSpotlightFalloff : Real
  getDiffuseColour : ColourValue
  getSpecularColour : ColourValue
  getPowerScale : Real

/-- The static member `msBlankLight` after the constructor of either class ran:
a default constructed light `init` on which `setDiffuseColour(Black)`,
`setSpecularColour(Black)` and `setAttenuation(0, 1, 0, 0)` were called. -/
def msBlankLight (init : Light) : Light :=
  { init with
    getDiffuseColour := ColourValue.Black
    getSpecularColour := ColourValue.Black
    getAttenuationRange := 0
    getAttenuationConstant := 1
    getAttenuationLinear := 0
    getAttenuationQuadric := 0 }

/-- The class `Pass`, as far as the updater reads it. -/
structure Pass where
  getDiffuse : ColourValue
  getSpecular : ColourValue

/-- The class `AutoParamDataSource` and the numeric library, as far as the
updater uses them; all of it is declared outside the two source files and is
taken as a parameter: the product `getViewMatrix() * v`, the product
`getInverseTransposeViewMatrix().linear() * v`, `Vector3::normalise` and
`Math::Cos(angle.valueRadians() * 0.5f)`. -/
structure AutoParamDataSource where
  viewMatrixMul : Vector4 → Vector4
  inverseTransposeViewLinearMul : Vector3 → Vector3
  normalise : Vector3 → Vector3
  cosHalf : Real → Real

/-- The member of `LightParams` a write goes through. -/
inductive LightParamsField where
  | mPosition
  | mDirection
  | mAttenuatParams
  | mSpotParams
  | mDiffuseColour
  | mSpecularColour
  deriving DecidableEq, Repr

/-- The value passed to `setGpuParameter`. -/
inductive GpuValue where
  | vector4 (v : Vector4)
  | vector3 (v : Vector3)
  | colour (c : ColourValue)
  deriving DecidableEq

/-- One call `curParams.field->setGpuParameter(value)`. -/
structure GpuWrite where
  field : LightParamsField
  target : Handle
  value : GpuValue
  deriving DecidableEq

/-- The call `p->setGpuParameter(value)`: dereferencing a null `p` has no
defined result (`none`). -/
def setGpuParameter (field : LightParamsField) (p : ParameterPtr) (value : GpuValue) :
    Option GpuWrite :=
  p.map (fun h => { field := field, target := h, value := value })

/-- What one iteration of the loop of `updateGpuProgramsParams` did: the value
of `curSearchLightIndex` when the search started, the index in the light list
of the light found (`none` when `srcLight` is the blank light), and the writes
in call order. -/
structure SlotUpdate where
  searchFrom : Nat
  srcIndex : Option Nat
  writes : List GpuWrite
  deriving DecidableEq

/-- The search loop `for (j = curSearchLightIndex; j < size; ++j) if
(at(j)->getType() == curLightType) { ...; break; }`, on the lights at positions
`j, j + 1, ...`: the position of the first light of type `curLightType`. -/
def searchLight (curLightType : LightTypes) : List Light → Nat → Option Nat
  | [], _ => none
  | l :: rest, j => if l.getType = curLightType then some j else searchLight curLightType rest (j + 1)

/-- The attenuation vector written for `srcLight`. -/
def attenuationOf (srcLight : Light) : Vector4 :=
  { x := srcLight.getAttenuationRange
    y := srcLight.getAttenuationConstant
    z := srcLight.getAttenuationLinear
    w := srcLight.getAttenuationQuadric }

/-- The spot direction written for `srcLight`: the derived direction through
the inverse transpose view matrix, normalised and negated, with `w = 0`. -/
def spotDirectionOf (source : AutoParamDataSource) (srcLight : Light) : Vector4 :=
  let vec3 := source.normalise (source.inverseTransposeViewLinearMul srcLight.getDerivedDirection)
  { x := -vec3.x, y := -vec3.y, z := -vec3.z, w := 0 }

/-- The spotlight parameters written for `srcLight`: `(theta, phi, falloff)`. -/
def spotParamsOf (source : AutoParamDataSource) (srcLight : Light) : Vector3 :=
  { x := source.cosHalf srcLight.getSpotlightInnerAngle
    y := source.cosHalf srcLight.getSpotlightOuterAngle
    z := srcLight.getSpotlightFalloff }

/-- The `switch (curParams.mType)` of the loop body of
`updateGpuProgramsParams`. -/
def updateLightType (source : AutoParamDataSource) (curParams : LightParams) (srcLight : Light) :
    Option (List GpuWrite) :=
  match curParams.mType with
  | LT_DIRECTIONAL => do
    -- Update light direction.
    let w1 ← setGpuParameter .mDirection curParams.mDirection
      (.vector4 (source.viewMatrixMul srcLight.getAs4DVector))
    pure [w1]
  | LT_POINT => do
    -- Update light position.
    let w1 ← setGpuParameter .mPosition curParams.mPosition
      (.vector4 (source.viewMatrixMul srcLight.getAs4DVector))
    -- Update light attenuation parameters.
    let w2 ← setGpuParameter .mAttenuatParams curParams.mAttenuatParams
      (.vector4 (attenuationOf srcLight))
    pure [w1, w2]
  | LT_SPOTLIGHT => do
    -- Update light position.
    let w1 ← setGpuParameter .mPosition curParams.mPosition
      (.vector4 (source.viewMatrixMul srcLight.getAs4DVector))
    -- Update light direction.
    let w2 ← setGpuParameter .mDirection curParams.mDirection
      (.vector4 (spotDirectionOf source srcLight))
    -- Update light attenuation parameters.
    let w3 ← setGpuParameter .mAttenuatParams curParams.mAttenuatParams
      (.vector4 (attenuationOf srcLight))
    -- Update spotlight parameters.
    let w4 ← setGpuParameter .mSpotParams curParams.mSpotParams
      (.vector3 (spotParamsOf source srcLight))
    pure [w1, w2, w3, w4]

/-- The statements "Update diffuse colour." and "Update specular colour if need
to." of the loop body. -/
def updateLightColours (trackVertexColourType : Nat) (specularEnable : Bool) (pass : Pass)
    (curParams : LightParams) (srcLight : Light) : Option (List GpuWrite) := do
  -- Update diffuse colour.
  let w1 ←
    if tracks trackVertexColourType TVC_DIFFUSE = false then
      setGpuParameter .mDiffuseColour curParams.mDiffuseColour
        (.colour ((srcLight.getDiffuseColour.mul pass.getDiffuse).scale srcLight.getPowerScale))
    else
      setGpuParameter .mDiffuseColour curParams.mDiffuseColour
        (.colour (srcLight.getDiffuseColour.scale srcLight.getPowerScale))
  -- Update specular colour if need to.
  if specularEnable then
    let w2 ←
      if tracks trackVertexColourType TVC_SPECULAR = false then
        setGpuParameter .mSpecularColour curParams.mSpecularColour
          (.colour ((srcLight.getSpecularColour.mul pass.getSpecular).scale srcLight.getPowerScale))
      else
        setGpuParameter .mSpecularColour curParams.mSpecularColour
          (.colour (srcLight.getSpecularColour.scale srcLight.getPowerScale))
    pure [w1, w2]
  else
    pure [w1]

/-- The floats that the colour statements of the loop body multiply the colours
of `srcLight` by are finite: the power scale of the light, the red, green and
blue of the pass diffuse colour unless the diffuse bit is tracked, and those of
the pass specular colour when specular is enabled and its bit is not tracked. -/
def finiteColourFactors (trackVertexColourType : Nat) (specularEnable : Bool) (pass : Pass)
    (srcLight : Light) : Bool :=
  srcLight.getPowerScale.isFinite
    && (tracks trackVertexColourType TVC_DIFFUSE || pass.getDiffuse.hasFiniteRGB)
    && (!specularEnable || tracks trackVertexColourType TVC_SPECULAR
        || pass.getSpecular.hasFiniteRGB)

/-- The loop "Update per light parameters." of
`FFPLighting::updateGpuProgramsParams`, from the slot `curParams` on, with the
current values of `curLightType` and `curSearchLightIndex`.  A null
`pLightList` has size zero in the search loop. -/
def FFPLighting.updateLoop (self : FFPLighting) (pass : Pass) (source : AutoParamDataSource)
    (blank : Light) (pLightList : Option (List Light)) :
    LightParamsList → LightTypes → Nat → Option (List SlotUpdate)
  | [], _, _ => some []
  | curParams :: rest, curLightType, curSearchLightIndex =>
    let curSearchLightIndex :=
      if curLightType ≠ curParams.mType then 0 else curSearchLightIndex
    let curLightType := if curLightType ≠ curParams.mType then curParams.mType else curLightType
    -- Search a matching light from the current sorted lights of the given renderable.
    let found :=
      searchLight curLightType ((pLightList.getD []).drop curSearchLightIndex) curSearchLightIndex
    let next := match found with
      | some j => j + 1
      | none => curSearchLightIndex
    -- No matching light found -> use a blank dummy light for parameter update.
    let srcLight := match found with
      | some j => ((pLightList.getD [])[j]?).getD blank
      | none => blank
    do
      let w1 ← updateLightType source curParams srcLight
      let w2 ← updateLightColours self.mTrackVertexColourType self.mSpecularEnable pass curParams
        srcLight
      let more ← FFPLighting.updateLoop self pass source blank pLightList rest curLightType next
      pure ({ searchFrom := curSearchLightIndex, srcIndex := found, writes := w1 ++ w2 } :: more)

/-- The method `FFPLighting::updateGpuProgramsParams`; `init` is a default
constructed light.  The result is `none` when a null handle is dereferenced. -/
def FFPLighting.updateGpuProgramsParams (self : FFPLighting) (pass : Pass)
    (source : AutoParamDataSource) (init : Light) (pLightList : Option (List Light)) :
    Option (List SlotUpdate) :=
  if self.mLightParamsList.isEmpty then some []
  else
    FFPLighting.updateLoop self pass source (msBlankLight init) pLightList self.mLightParamsList
      LT_DIRECTIONAL 0

/-- The loop "Update per light parameters." of
`PerPixelLighting::updateGpuProgramsParams`.  The search loop calls
`pLightList->size()` without a null test: a null `pLightList` is dereferenced
(`none`). -/
def PerPixelLighting.updateLoop (self : PerPixelLighting) (pass : Pass)
    (source : AutoParamDataSource) (blank : Light) (pLightList : Option (List Light)) :
    LightParamsList → LightTypes → Nat → Option (List SlotUpdate)
  | [], _, _ => some []
  | curParams :: rest, curLightType, curSearchLightIndex =>
    let curSearchLightIndex :=
      if curLightType ≠ curParams.mType then 0 else curSearchLightIndex
    let curLightType := if curLightType ≠ curParams.mType then curParams.mType else curLightType
    match pLightList with
    | none => none
    | some lightList =>
      -- Search a matching light from the current sorted lights of the given renderable.
      let found := searchLight curLightType (lightList.drop curSearchLightIndex) curSearchLightIndex
      let next := match found with
        | some j => j + 1
        | none => curSearchLightIndex
      -- No matching light found -> use a blank dummy light for parameter update.
      let srcLight := match found with
        | some j => (lightList[j]?).getD blank
        | none => blank
      do
        let w1 ← updateLightType source curParams srcLight
        let w2 ← updateLightColours self.mTrackVertexColourType self.mSpecularEnable pass
          curParams srcLight
        let more ← PerPixelLighting.updateLoop self pass source blank pLightList rest curLightType
          next
        pure ({ searchFrom := curSearchLightIndex, srcIndex := found, writes := w1 ++ w2 } :: more)

/-- The method `PerPixelLighting::updateGpuProgramsParams`; `init` is a default
constructed light.  The result is `none` when a null pointer is
dereferenced. -/
def PerPixelLighting.updateGpuProgramsParams (self : PerPixelLighting) (pass : Pass)
    (source : AutoParamDataSource) (init : Light) (pLightList : Option (List Light)) :
    Option (List SlotUpdate) :=
  if self.mLightParamsList.isEmpty then some []
  else
    PerPixelLighting.updateLoop self pass source (msBlankLight init) pLightList
      self.mLightParamsList LT_DIRECTIONAL 0

/-- All slots of one type are contiguous: a type that differs from its
successor does not occur again. -/
def Grouped : List LightTypes → Prop
  | [] => True
  | t :: rest => (rest.head? = some t ∨ t ∉ rest) ∧ Grouped rest

instance : DecidablePred Grouped := fun l => by
  induction l with
  | nil => exact isTrue trivial
  | cons t rest ih =>
    have : Decidable (Grouped rest) := ih
    unfold Grouped
    exact inferInstance

end Updater

/-- The twelve library illumination functions (six per model). -/
def FunctionName.isIllumination : FunctionName → Bool
  | .FFP_FUNC_LIGHT_DIRECTIONAL_DIFFUSE => true
  | .FFP_FUNC_LIGHT_DIRECTIONAL_DIFFUSESPECULAR => true
  | .FFP_FUNC_LIGHT_POINT_DIFFUSE => true
  | .FFP_FUNC_LIGHT_POINT_DIFFUSESPECULAR => true
  | .FFP_FUNC_LIGHT_SPOT_DIFFUSE => true
  | .FFP_FUNC_LIGHT_SPOT_DIFFUSESPECULAR => true
  | .SGX_FUNC_LIGHT_DIRECTIONAL_DIFFUSE => true
  | .SGX_FUNC_LIGHT_DIRECTIONAL_DIFFUSESPECULAR => true
  | .SGX_FUNC_LIGHT_POINT_DIFFUSE => true
  | .SGX_FUNC_LIGHT_POINT_DIFFUSESPECULAR => true
  | .SGX_FUNC_LIGHT_SPOT_DIFFUSE => true
  | .SGX_FUNC_LIGHT_SPOT_DIFFUSESPECULAR => true
  | _ => false

/-- The six-way table of the per-vertex model, as the specification words it:
light type crossed with DIFFUSE (specular off) or DIFFUSESPECULAR (on). -/
def FFPLighting.illuminationFunction : LightTypes → Bool → FunctionName
  | .LT_DIRECTIONAL, false => .FFP_FUNC_LIGHT_DIRECTIONAL_DIFFUSE
  | .LT_DIRECTIONAL, true => .FFP_FUNC_LIGHT_DIRECTIONAL_DIFFUSESPECULAR
  | .LT_POINT, false => .FFP_FUNC_LIGHT_POINT_DIFFUSE
  | .LT_POINT, true => .FFP_FUNC_LIGHT_POINT_DIFFUSESPECULAR
  | .LT_SPOTLIGHT, false => .FFP_FUNC_LIGHT_SPOT_DIFFUSE
  | .LT_SPOTLIGHT, true => .FFP_FUNC_LIGHT_SPOT_DIFFUSESPECULAR

/-- The six-way table of the per-pixel model, as the specification words it. -/
def PerPixelLighting.illuminationFunction : LightTypes → Bool → FunctionName
  | .LT_DIRECTIONAL, false => .SGX_FUNC_LIGHT_DIRECTIONAL_DIFFUSE
  | .LT_DIRECTIONAL, true => .SGX_FUNC_LIGHT_DIRECTIONAL_DIFFUSESPECULAR
  | .LT_POINT, false => .SGX_FUNC_LIGHT_POINT_DIFFUSE
  | .LT_POINT, true => .SGX_FUNC_LIGHT_POINT_DIFFUSESPECULAR
  | .LT_SPOTLIGHT, false => .SGX_FUNC_LIGHT_SPOT_DIFFUSE
  | .LT_SPOTLIGHT, true => .SGX_FUNC_LIGHT_SPOT_DIFFUSESPECULAR

/-- The illumination calls among `atoms`, by function name, in order. -/
def illuminationCalls (atoms : List FunctionInvocation) : List FunctionName :=
  (atoms.filter (fun inv => inv.mFunctionName.isIllumination)).map (fun inv => inv.mFunctionName)

/-- The matching performed by the loop of `updateGpuProgramsParams`, with the
writes left out: for each slot type in turn, the cursor the search started from
and the index found. -/
def matchLoop (lights : List Light) : List LightTypes → LightTypes → Nat → List (Nat × Option Nat)
  | [], _, _ => []
  | ty :: rest, curLightType, curSearchLightIndex =>
    let start := if curLightType ≠ ty then 0 else curSearchLightIndex
    let found := searchLight ty (lights.drop start) start
    (start, found) :: matchLoop lights rest ty
      (match found with
        | some j => j + 1
        | none => start)

/-- The number of lights of type `t` in a list. -/
def countType (t : LightTypes) (lights : List Light) : Nat :=
  lights.countP (fun l => l.getType = t)

/-- The handles of a slot that `updateGpuProgramsParams` dereferences are not
null. -/
def LightParams.resolved (specularEnable : Bool) (p : LightParams) : Prop :=
  ∀ q ∈ p.populated specularEnable, q ≠ none

/-- The light the writes of an iteration were taken from: the light found, or
the blank light. -/
def SlotUpdate.srcLight (lights : List Light) (blank : Light) (u : SlotUpdate) : Light :=
  match u.srcIndex with
  | some j => (lights[j]?).getD blank
  | none => blank

/-- The writes of an iteration, for the slot `slot`, are those of the loop body
run on the light `u.srcLight`. -/
def SlotUpdate.writesOf (trackVertexColourType : Nat) (specularEnable : Bool) (pass : Pass)
    (source : AutoParamDataSource) (lights : List Light) (blank : Light) (slot : LightParams)
    (u : SlotUpdate) : Prop :=
  ∃ w1 w2, updateLightType source slot (u.srcLight lights blank) = some w1
    ∧ updateLightColours trackVertexColourType specularEnable pass slot (u.srcLight lights blank)
        = some w2
    ∧ u.writes = w1 ++ w2

/-- The writes of an iteration carry the blank light's attenuation: every
attenuation written is `(0, 1, 0, 0)`, and one is written for a Point or Spot
slot. -/
def SlotUpdate.blankAttenuation (slot : LightParams) (u : SlotUpdate) : Prop :=
  (∀ w ∈ u.writes, w.field = LightParamsField.mAttenuatParams →
      w.value = GpuValue.vector4 { x := 0, y := 1, z := 0, w := 0 })
  ∧ (slot.mType ≠ LightTypes.LT_DIRECTIONAL →
      ∃ w ∈ u.writes, w.field = LightParamsField.mAttenuatParams)

/-- The writes of an iteration carry the blank light's values: every
attenuation written is `(0, 1, 0, 0)`, every diffuse and specular colour
written has red = green = blue = 0; and they are written: the attenuation for a
Point or Spot slot, the diffuse colour always, the specular colour when
specular is enabled. -/
def SlotUpdate.blankValues (specularEnable : Bool) (slot : LightParams) (u : SlotUpdate) : Prop :=
  (∀ w ∈ u.writes, w.field = LightParamsField.mAttenuatParams →
      w.value = GpuValue.vector4 { x := 0, y := 1, z := 0, w := 0 })
  ∧ (∀ w ∈ u.writes, w.field = LightParamsField.mDiffuseColour →
      ∃ alpha, w.value = GpuValue.colour { r := 0, g := 0, b := 0, a := alpha })
  ∧ (∀ w ∈ u.writes, w.field = LightParamsField.mSpecularColour →
      ∃ alpha, w.value = GpuValue.colour { r := 0, g := 0, b := 0, a := alpha })
  ∧ (slot.mType ≠ LightTypes.LT_DIRECTIONAL →
      ∃ w ∈ u.writes, w.field = LightParamsField.mAttenuatParams)
  ∧ (∃ w ∈ u.writes, w.field = LightParamsField.mDiffuseColour)
  ∧ (specularEnable = true → ∃ w ∈ u.writes, w.field = LightParamsField.mSpecularColour)

/-! ### Sample data for evaluating the updater -/

/-- A light of type `t` with unit colours. -/
def sampleLight (t : LightTypes) : Light :=
  { getType := t
    getAs4DVector := { x := 0, y := 0, z := 0, w := 1 }
    getDerivedDirection := { x := 0, y := 0, z := 1 }
    getAttenuationRange := 100
    getAttenuationConstant := 1
    getAttenuationLinear := 0
    getAttenuationQuadric := 0
    getSpotlightOuterAngle := 1
    getSpotlightInnerAngle := .finite (1 / 2)
    getSpotlightFalloff := 1
    getDiffuseColour := { r := 1, g := 1, b := 1, a := 1 }
    getSpecularColour := { r := 1, g := 1, b := 1, a := 1 }
    getPowerScale := 1 }

/-- A pass with a grey diffuse and a white specular colour. -/
def samplePass : Pass :=
  { getDiffuse :=
      { r := .finite (1 / 2), g := .finite (1 / 2), b := .finite (1 / 2), a := 1 }
    getSpecular := { r := 1, g := 1, b := 1, a := 1 } }

/-- A pass whose diffuse colour has an infinite red component. -/
def sampleInfinitePass : Pass :=
  { getDiffuse := { r := .infinity false, g := 1, b := 1, a := 1 }
    getSpecular := { r := 1, g := 1, b := 1, a := 1 } }

/-- A data source whose matrices are the identity. -/
def sampleSource : AutoParamDataSource :=
  { viewMatrixMul := fun v => v
    inverseTransposeViewLinearMul := fun v => v
    normalise := fun v => v
    cosHalf := fun x => x }

/-- A slot of type `t` whose six handles are `h, h + 1, ..., h + 5`. -/
def sampleSlot (t : LightTypes) (h : Handle) : LightParams :=
  { mType := t
    mPosition := some h
    mDirection := some (h + 1)
    mAttenuatParams := some (h + 2)
    mSpotParams := some (h + 3)
    mDiffuseColour := some (h + 4)
    mSpecularColour := some (h + 5) }

/-- A per-vertex instance with two Point slots. -/
def sampleFFP : FFPLighting :=
  { mLightParamsList := [sampleSlot LightTypes.LT_POINT 0, sampleSlot LightTypes.LT_POINT 6] }

/-- A per-pixel instance with two Point slots. -/
def samplePerPixel : PerPixelLighting :=
  { mLightParamsList := [sampleSlot LightTypes.LT_POINT 0, sampleSlot LightTypes.LT_POINT 6] }

/-- The writes of a Point slot with handles from `h` on, taken from
`sampleLight LT_POINT` on `samplePass`, specular disabled. -/
def samplePointWrites (h : Handle) : List GpuWrite :=
  [{ field := LightParamsField.mPosition, target := h
     value := GpuValue.vector4 { x := 0, y := 0, z := 0, w := 1 } },
   { field := LightParamsField.mAttenuatParams, target := h + 2
     value := GpuValue.vector4 { x := 100, y := 1, z := 0, w := 0 } },
   { field := LightParamsField.mDiffuseColour, target := h + 4
     value := GpuValue.colour
       { r := .finite (1 / 2), g := .finite (1 / 2), b := .finite (1 / 2), a := 1 } }]

/-- The writes of a Point slot with handles from `h` on, taken from the blank
light on `samplePass`, specular disabled. -/
def sampleBlankWrites (init : Light) (h : Handle) : List GpuWrite :=
  [{ field := LightParamsField.mPosition, target := h
     value := GpuValue.vector4 init.getAs4DVector },
   { field := LightParamsField.mAttenuatParams, target := h + 2
     value := GpuValue.vector4 { x := 0, y := 1, z := 0, w := 0 } },
   { field := LightParamsField.mDiffuseColour, target := h + 4
     value := GpuValue.colour { r := 0, g := 0, b := 0, a := init.getPowerScale } }]

/-- The writes of a Point slot with handles from `h` on, taken from the blank
light on `sampleInfinitePass`, specular disabled: the red of the diffuse colour
is a NaN. -/
def sampleInfiniteBlankWrites (init : Light) (h : Handle) : List GpuWrite :=
  [{ field := LightParamsField.mPosition, target := h
     value := GpuValue.vector4 init.getAs4DVector },
   { field := LightParamsField.mAttenuatParams, target := h + 2
     value := GpuValue.vector4 { x := 0, y := 1, z := 0, w := 0 } },
   { field := LightParamsField.mDiffuseColour, target := h + 4
     value := GpuValue.colour { r := .nan, g := 0, b := 0, a := init.getPowerScale } }]

/-! ## Invariants of the resolution code -/

/-- The local `hasError` is set exactly when one of the handles listed by `C`
is null. -/
def Chk {α σ : Type} (C : α → List ParameterPtr) (st : ResolveState α σ) : Prop :=
  st.hasError = true ↔ ∃ p ∈ C st.self, p = none

/-- Between two states of a resolution method the part `g` of the object and
the atoms of the two entry points are the same. -/
def Kept {α β σ : Type} (g : α → β) (a b : ResolveState α σ) : Prop :=
  g b.self = g a.self ∧ b.programSet.vsMainAtoms = a.programSet.vsMainAtoms ∧
    b.programSet.psMainAtoms = a.programSet.psMainAtoms

/-- The configuration of a per-pixel object: the tracking mask and the
specular flag. -/
def PerPixelLighting.config (self : PerPixelLighting) : Nat × Bool :=
  (self.mTrackVertexColourType, self.mSpecularEnable)

/-- The requests of a resolution method so far are `old` followed by the
requests `new` of this call; the local `hasError`, together with the handles
`d` that were requested and are tested later, records exactly whether an answer
in `new` was null; and every handle listed by `L` is an answer in `new`. -/
def Tr {α σ : Type} (old : List (Request × ParameterPtr)) (d : α → Bool)
    (L : α → List ParameterPtr) (st : ResolveState α σ) : Prop :=
  ∃ new, st.programSet.requests = old ++ new ∧
    (st.hasError || d st.self) = new.any (fun e => e.2.isNone) ∧
    ∀ q ∈ L st.self, ∃ req, (req, q) ∈ new

/-- The configuration of a per-vertex object: the tracking mask and the
specular flag. -/
def FFPLighting.config (self : FFPLighting) : Nat × Bool :=
  (self.mTrackVertexColourType, self.mSpecularEnable)

/-- The configuration one iteration of the per-vertex loop runs under: that of
the object, and the type of the current slot. -/
def FFPLighting.slotConfig (s : FFPLighting × LightParams) : (Nat × Bool) × LightTypes :=
  (s.1.config, s.2.mType)

/-- The requests that only look a parameter up: `getInputParameter` and
`getLocalParameter` create nothing. -/
def Request.isLookup : Request → Bool
  | .getInputParameter _ _ => true
  | .getLocalParameter _ _ => true
  | _ => false

/-- The member variables of `FFPLighting` that hold a parameter handle. -/
inductive FFPField where
  | mWorldViewMatrix
  | mWorldViewITMatrix
  | mVSInPosition
  | mVSInNormal
  | mVSDiffuse
  | mVSOutDiffuse
  | mVSOutSpecular
  | mDerivedSceneColour
  | mLightAmbientColour
  | mDerivedAmbientLightColour
  | mSurfaceAmbientColour
  | mSurfaceDiffuseColour
  | mSurfaceSpecularColour
  | mSurfaceEmissiveColour
  | mSurfaceShininess
  deriving DecidableEq, Repr

/-- The handle a member variable of `FFPLighting` holds. -/
def FFPLighting.handle (self : FFPLighting) : FFPField → ParameterPtr
  | .mWorldViewMatrix => self.mWorldViewMatrix
  | .mWorldViewITMatrix => self.mWorldViewITMatrix
  | .mVSInPosition => self.mVSInPosition
  | .mVSInNormal => self.mVSInNormal
  | .mVSDiffuse => self.mVSDiffuse
  | .mVSOutDiffuse => self.mVSOutDiffuse
  | .mVSOutSpecular => self.mVSOutSpecular
  | .mDerivedSceneColour => self.mDerivedSceneColour
  | .mLightAmbientColour => self.mLightAmbientColour
  | .mDerivedAmbientLightColour => self.mDerivedAmbientLightColour
  | .mSurfaceAmbientColour => self.mSurfaceAmbientColour
  | .mSurfaceDiffuseColour => self.mSurfaceDiffuseColour
  | .mSurfaceSpecularColour => self.mSurfaceSpecularColour
  | .mSurfaceEmissiveColour => self.mSurfaceEmissiveColour
  | .mSurfaceShininess => self.mSurfaceShininess

/-- The handle a member variable of `LightParams` holds. -/
def LightParams.handle (p : LightParams) : LightParamsField → ParameterPtr
  | .mPosition => p.mPosition
  | .mDirection => p.mDirection
  | .mAttenuatParams => p.mAttenuatParams
  | .mSpotParams => p.mSpotParams
  | .mDiffuseColour => p.mDiffuseColour
  | .mSpecularColour => p.mSpecularColour

/-- The member variables of `PerPixelLighting` that hold a parameter handle. -/
inductive PerPixelField where
  | mWorldViewMatrix
  | mWorldViewITMatrix
  | mVSInPosition
  | mVSOutViewPos
  | mVSInNormal
  | mVSOutNormal
  | mPSInViewPos
  | mPSInNormal
  | mPSTempDiffuseColour
  | mPSTempSpecularColour
  | mPSDiffuse
  | mPSSpecular
  | mPSOutDiffuse
  | mDerivedSceneColour
  | mLightAmbientColour
  | mDerivedAmbientLightColour
  | mSurfaceAmbientColour
  | mSurfaceDiffuseColour
  | mSurfaceSpecularColour
  | mSurfaceEmissiveColour
  | mSurfaceShininess
  deriving DecidableEq, Repr

/-- The handle a member variable of `PerPixelLighting` holds. -/
def PerPixelLighting.handle (self : PerPixelLighting) : PerPixelField → ParameterPtr
  | .mWorldViewMatrix => self.mWorldViewMatrix
  | .mWorldViewITMatrix => self.mWorldViewITMatrix
  | .mVSInPosition => self.mVSInPosition
  | .mVSOutViewPos => self.mVSOutViewPos
  | .mVSInNormal => self.mVSInNormal
  | .mVSOutNormal => self.mVSOutNormal
  | .mPSInViewPos => self.mPSInViewPos
  | .mPSInNormal => self.mPSInNormal
  | .mPSTempDiffuseColour => self.mPSTempDiffuseColour
  | .mPSTempSpecularColour => self.mPSTempSpecularColour
  | .mPSDiffuse => self.mPSDiffuse
  | .mPSSpecular => self.mPSSpecular
  | .mPSOutDiffuse => self.mPSOutDiffuse
  | .mDerivedSceneColour => self.mDerivedSceneColour
  | .mLightAmbientColour => self.mLightAmbientColour
  | .mDerivedAmbientLightColour => self.mDerivedAmbientLightColour
  | .mSurfaceAmbientColour => self.mSurfaceAmbientColour
  | .mSurfaceDiffuseColour => self.mSurfaceDiffuseColour
  | .mSurfaceSpecularColour => self.mSurfaceSpecularColour
  | .mSurfaceEmissiveColour => self.mSurfaceEmissiveColour
  | .mSurfaceShininess => self.mSurfaceShininess

/-- How the state of a resolution method is read: the handle each named member
holds, the configuration the method runs under, and the members that start out
null (`fresh`). -/
structure View (α ι γ : Type) where
  get : α → ι → ParameterPtr
  cfg : α → γ
  fresh : ι → Bool

/-- The state of a resolution method whose requests were all answered: no
error is recorded, the configuration is `c`, the requests so far are `old`
followed by those of this call, the members named in `L` hold non-null answers
of this call, the other members that started out null are still null, and
every handle in `K` is a non-null answer of this call. -/
def Ok {α ι γ σ : Type} (V : View α ι γ) (c : γ) (old : List (Request × ParameterPtr))
    (L : List ι) (K : List ParameterPtr) (st : ResolveState α σ) : Prop :=
  st.hasError = false ∧ V.cfg st.self = c ∧
    ∃ new, st.programSet.requests = old ++ new ∧
      (∀ f ∈ L, V.get st.self f ≠ none ∧ ∃ req, (req, V.get st.self f) ∈ new) ∧
      (∀ f, V.fresh f = true → f ∉ L → V.get st.self f = none) ∧
      (∀ q ∈ K, q ≠ none ∧ ∃ req, (req, q) ∈ new)

/-- The per-vertex object during the global part and between iterations. -/
def FFPLighting.view : View FFPLighting FFPField ((Nat × Bool) × LightParamsList) where
  get := FFPLighting.handle
  cfg := fun s => (s.config, s.mLightParamsList)
  fresh := fun _ => true

/-- The per-vertex object and the current slot during an iteration. -/
def FFPLighting.slotView :
    View (FFPLighting × LightParams) (FFPField ⊕ LightParamsField)
      (((Nat × Bool) × LightParamsList) × LightTypes) where
  get := fun s f => match f with
    | .inl f => s.1.handle f
    | .inr f => s.2.handle f
  cfg := fun s => ((s.1.config, s.1.mLightParamsList), s.2.mType)
  fresh := fun f => f.isLeft

/-- The members of the per-vertex object whose handles the emitted invocations
may use whatever the slots are, for the tracking mask `tvc`. -/
def FFPLighting.globalNames (tvc : Nat) : List FFPField :=
  [.mWorldViewITMatrix, .mDerivedSceneColour, .mSurfaceShininess, .mVSInNormal, .mVSOutDiffuse]
  ++ (if tracks tvc TVC_AMBIENT = false then [.mDerivedAmbientLightColour]
      else [.mLightAmbientColour])
  ++ (if tracks tvc TVC_EMISSIVE = false then [.mSurfaceEmissiveColour] else [])
  ++ (if tvc ≠ 0 then [.mVSDiffuse] else [])

/-- The members the `switch` of the per-vertex loop assigns for a slot of type
`t`, the last one assigned first. -/
def FFPLighting.typeNames : LightTypes → List (FFPField ⊕ LightParamsField)
  | .LT_DIRECTIONAL => [.inr .mDirection]
  | .LT_POINT =>
    [.inr .mAttenuatParams, .inr .mPosition, .inl .mVSInPosition, .inl .mWorldViewMatrix]
  | .LT_SPOTLIGHT =>
    [.inr .mSpotParams, .inr .mAttenuatParams, .inr .mDirection, .inr .mPosition,
      .inl .mVSInPosition, .inl .mWorldViewMatrix]

/-- The members the specular part of the per-vertex loop assigns or finds
assigned, the last one first. -/
def FFPLighting.specularNames (specularEnable : Bool) : List (FFPField ⊕ LightParamsField) :=
  if specularEnable then
    [.inl .mWorldViewMatrix, .inl .mVSInPosition, .inl .mVSOutSpecular, .inr .mSpecularColour]
  else []

/-- The handle `q` is not null and is the answer to one of the requests
`new`. -/
def Answered (new : List (Request × ParameterPtr)) (q : ParameterPtr) : Prop :=
  q ≠ none ∧ ∃ req, (req, q) ∈ new

/-- The configuration of a per-pixel object and its slot list. -/
def PerPixelLighting.view :
    View PerPixelLighting PerPixelField ((Nat × Bool) × LightParamsList) where
  get := PerPixelLighting.handle
  cfg := fun s => (s.config, s.mLightParamsList)
  fresh := fun _ => true

/-- The per-pixel object and the current slot during an iteration. -/
def PerPixelLighting.slotView :
    View (PerPixelLighting × LightParams) (PerPixelField ⊕ LightParamsField)
      (((Nat × Bool) × LightParamsList) × LightTypes) where
  get := fun s f => match f with
    | .inl f => s.1.handle f
    | .inr f => s.2.handle f
  cfg := fun s => ((s.1.config, s.1.mLightParamsList), s.2.mType)
  fresh := fun f => f.isLeft

/-- The members of the per-pixel object whose handles the emitted invocations
may use whatever the slots are, for the tracking mask `tvc` and the specular
flag. -/
def PerPixelLighting.globalNames (tvc : Nat) (specularEnable : Bool) : List PerPixelField :=
  [.mWorldViewITMatrix, .mVSInNormal, .mVSOutNormal, .mPSInNormal, .mDerivedSceneColour,
    .mSurfaceShininess, .mPSTempDiffuseColour, .mPSDiffuse, .mPSOutDiffuse]
  ++ (if tracks tvc TVC_AMBIENT = false then [.mDerivedAmbientLightColour]
      else [.mLightAmbientColour])
  ++ (if tracks tvc TVC_EMISSIVE = false then [.mSurfaceEmissiveColour] else [])
  ++ (if specularEnable then [.mPSSpecular, .mPSTempSpecularColour, .mPSInViewPos] else [])

/-- The view-space position output is answered only together with the members
the code that reads it needs: the fragment view-space position, the object-space
position input and the world-view matrix. -/
def PerPixelLighting.Paired (L : List PerPixelField) : Prop :=
  .mVSOutViewPos ∈ L → .mPSInViewPos ∈ L ∧ .mVSInPosition ∈ L ∧ .mWorldViewMatrix ∈ L

/-- The members the specular part of the per-pixel global resolver assigns, the
last one first. -/
def PerPixelLighting.specularNames (specularEnable : Bool) : List PerPixelField :=
  if specularEnable then
    [.mWorldViewMatrix, .mPSInViewPos, .mVSOutViewPos, .mVSInPosition, .mPSTempSpecularColour,
      .mPSSpecular]
  else []

/-- The members the `switch` of the per-pixel loop assigns or finds assigned
for a slot of type `t`, the last one first. -/
def PerPixelLighting.typeNames : LightTypes → List (PerPixelField ⊕ LightParamsField)
  | .LT_DIRECTIONAL => [.inr .mDirection]
  | .LT_POINT =>
    [.inl .mPSInViewPos, .inl .mVSOutViewPos, .inr .mAttenuatParams, .inr .mPosition,
      .inl .mVSInPosition, .inl .mWorldViewMatrix]
  | .LT_SPOTLIGHT =>
    [.inl .mPSInViewPos, .inl .mVSOutViewPos, .inr .mSpotParams, .inr .mAttenuatParams,
      .inr .mDirection, .inr .mPosition, .inl .mVSInPosition, .inl .mWorldViewMatrix]

/-- The member the specular part of the per-pixel loop assigns. -/
def PerPixelLighting.slotSpecularNames (specularEnable : Bool) :
    List (PerPixelField ⊕ LightParamsField) :=
  if specularEnable then [.inr .mSpecularColour] else []

/-! ## What the updater writes to each slot -/

/-- The handles a slot's light type populates, each with the member it is
written through, as the specification lists them: Directional has the direction;
Point the position and the attenuation; Spot the position, the direction, the
attenuation and the spot cone; every slot has its diffuse colour, and its
specular colour exactly when specular is enabled. -/
def LightParams.written (specularEnable : Bool) (p : LightParams) :
    List (LightParamsField × ParameterPtr) :=
  (match p.mType with
    | LightTypes.LT_DIRECTIONAL => [(LightParamsField.mDirection, p.mDirection)]
    | LightTypes.LT_POINT =>
      [(LightParamsField.mPosition, p.mPosition),
        (LightParamsField.mAttenuatParams, p.mAttenuatParams)]
    | LightTypes.LT_SPOTLIGHT =>
      [(LightParamsField.mPosition, p.mPosition), (LightParamsField.mDirection, p.mDirection),
        (LightParamsField.mAttenuatParams, p.mAttenuatParams),
        (LightParamsField.mSpotParams, p.mSpotParams)])
  ++ [(LightParamsField.mDiffuseColour, p.mDiffuseColour)]
  ++ (if specularEnable then [(LightParamsField.mSpecularColour, p.mSpecularColour)] else [])

/-- The member and the handle of each write of an iteration, in call order. -/
def SlotUpdate.targets (u : SlotUpdate) : List (LightParamsField × ParameterPtr) :=
  u.writes.map (fun w => (w.field, some w.target))

/-- A per-vertex instance with two Point slots and one Directional slot. -/
def sampleFFP3 : FFPLighting :=
  { mLightParamsList :=
      [sampleSlot LightTypes.LT_POINT 0, sampleSlot LightTypes.LT_POINT 6,
        sampleSlot LightTypes.LT_DIRECTIONAL 12] }

/-- A per-pixel instance with two Point slots and one Directional slot. -/
def samplePerPixel3 : PerPixelLighting :=
  { mLightParamsList :=
      [sampleSlot LightTypes.LT_POINT 0, sampleSlot LightTypes.LT_POINT 6,
        sampleSlot LightTypes.LT_DIRECTIONAL 12] }

/-- Two point lights and one directional light. -/
def sampleLights3 : List Light :=
  [sampleLight LightTypes.LT_POINT, sampleLight LightTypes.LT_POINT,
    sampleLight LightTypes.LT_DIRECTIONAL]

/-! ## Light policy: `getLightCount`, `copyFrom`, `preAddToRenderState` -/

/-- The class `RenderState`, as far as `preAddToRenderState` reads it: the
array that `renderState->getLightCount(lightCount)` fills in. -/
structure RenderState where
  getLightCount : Fin 3 → Int

/-- The class `Pass`, as far as `preAddToRenderState` reads `srcPass`: each
field is the value of the accessor of the same name.  The per-iteration light
count is an `unsigned short`, converted to `int` without loss. -/
structure SourcePass where
  getLightingEnabled : Bool
  getVertexColourTracking : Nat
  getShininess : Real
  getSpecular : ColourValue
  getIteratePerLight : Bool
  getRunOnlyForOneLightType : Bool
  getOnlyLightType : LightTypes
  getLightCountPerIteration : Nat

/-- What `preAddToRenderState` leaves behind: the value returned or the
exception raised, and the object. -/
structure PolicyOutcome (α : Type) where
  result : Except Exception Bool
  self : α

/-- Modelled from the spec: the setter `setTrackVertexColourType`, declared in
the class header outside the two source files; it stores the tracking mask. -/
def FFPLighting.setTrackVertexColourType (self : FFPLighting) (type : Nat) : FFPLighting :=
  { self with mTrackVertexColourType := type }

/-- Modelled from the spec: the setter `setSpecularEnable`, declared in the
class header outside the two source files; it stores the specular flag. -/
def FFPLighting.setSpecularEnable (self : FFPLighting) (enable : Bool) : FFPLighting :=
  { self with mSpecularEnable := enable }

/-- Modelled from the spec: the setter `setTrackVertexColourType` of the per-pixel
class, declared in the class header outside the two source files. -/
def PerPixelLighting.setTrackVertexColourType (self : PerPixelLighting) (type : Nat) :
    PerPixelLighting :=
  { self with mTrackVertexColourType := type }

/-- Modelled from the spec: the setter `setSpecularEnable` of the per-pixel class,
declared in the class header outside the two source files. -/
def PerPixelLighting.setSpecularEnable (self : PerPixelLighting) (enable : Bool) :
    PerPixelLighting :=
  { self with mSpecularEnable := enable }

/-- The body of the loop of `getLightCount`: the counter of the slot's type is
incremented. -/
def getLightCountStep (lightCount : Fin 3 → Int) (curParams : LightParams) : Fin 3 → Int :=
  if curParams.mType = LightTypes.LT_POINT then
    Function.update lightCount 0 (lightCount 0 + 1)
  else if curParams.mType = LightTypes.LT_DIRECTIONAL then
    Function.update lightCount 1 (lightCount 1 + 1)
  else if curParams.mType = LightTypes.LT_SPOTLIGHT then
    Function.update lightCount 2 (lightCount 2 + 1)
  else lightCount

/-- The method `FFPLighting::getLightCount`: the array is zeroed, then the
slots are counted by type. -/
def FFPLighting.getLightCount (self : FFPLighting) : Fin 3 → Int :=
  self.mLightParamsList.foldl getLightCountStep ![0, 0, 0]

/-- The method `PerPixelLighting::getLightCount`. -/
def PerPixelLighting.getLightCount (self : PerPixelLighting) : Fin 3 → Int :=
  self.mLightParamsList.foldl getLightCountStep ![0, 0, 0]

/-- The method `FFPLighting::copyFrom`. -/
def FFPLighting.copyFrom (self rhs : FFPLighting) : FFPLighting :=
  let lightCount := rhs.getLightCount
  self.setLightCount lightCount

/-- The method `PerPixelLighting::copyFrom`. -/
def PerPixelLighting.copyFrom (self rhs : PerPixelLighting) : PerPixelLighting :=
  let lightCount := rhs.getLightCount
  self.setLightCount lightCount

/-- The exception of `preAddToRenderState`; `source` is the name of the
raising method. -/
def iterativeLightingError (source : String) : Exception :=
  { code := ExceptionCodes.ERR_INVALIDPARAMS
    description :=
      "Using iterative lighting method with RT Shader System requires specifying explicit light type."
    source := source }

/-- The block "Case this pass should run once per light(s) -> override the
light policy." of `preAddToRenderState`, the same text in both files: the value
of the local `lightCount` when `setLightCount` is reached, or the exception
raised before it. -/
def overrideLightPolicy (srcPass : SourcePass) (lightCount : Fin 3 → Int) (source : String) :
    Except Exception (Fin 3 → Int) :=
  if srcPass.getIteratePerLight then
    -- This is the preferred case -> only one type of light is handled.
    if srcPass.getRunOnlyForOneLightType then
      if srcPass.getOnlyLightType = LightTypes.LT_POINT then
        .ok ![(srcPass.getLightCountPerIteration : Int), 0, 0]
      else if srcPass.getOnlyLightType = LightTypes.LT_DIRECTIONAL then
        .ok ![0, (srcPass.getLightCountPerIteration : Int), 0]
      else if srcPass.getOnlyLightType = LightTypes.LT_SPOTLIGHT then
        .ok ![0, 0, (srcPass.getLightCountPerIteration : Int)]
      else .ok lightCount
    -- This is worse case -> all light types expected to be handled.
    else .error (iterativeLightingError source)
  else .ok lightCount

/-- The method `FFPLighting::preAddToRenderState`; `dstPass` is not used. -/
def FFPLighting.preAddToRenderState (self : FFPLighting) (renderState : RenderState)
    (srcPass : SourcePass) : PolicyOutcome FFPLighting :=
  if !srcPass.getLightingEnabled then { result := .ok false, self := self }
  else
    let lightCount := renderState.getLightCount
    let self := self.setTrackVertexColourType srcPass.getVertexColourTracking
    let self :=
      if srcPass.getShininess > 0 ∧ srcPass.getSpecular ≠ ColourValue.Black then
        self.setSpecularEnable true
      else
        self.setSpecularEnable false
    match overrideLightPolicy srcPass lightCount "FFPLighting::preAddToRenderState" with
    | .error e => { result := .error e, self := self }
    | .ok lightCount => { result := .ok true, self := self.setLightCount lightCount }

/-- The method `PerPixelLighting::preAddToRenderState`; `dstPass` is not
used. -/
def PerPixelLighting.preAddToRenderState (self : PerPixelLighting) (renderState : RenderState)
    (srcPass : SourcePass) : PolicyOutcome PerPixelLighting :=
  if srcPass.getLightingEnabled = false then { result := .ok false, self := self }
  else
    let lightCount := renderState.getLightCount
    let self := self.setTrackVertexColourType srcPass.getVertexColourTracking
    let self :=
      if srcPass.getShininess > 0 ∧ srcPass.getSpecular ≠ ColourValue.Black then
        self.setSpecularEnable true
      else
        self.setSpecularEnable false
    match overrideLightPolicy srcPass lightCount "PerPixelLighting::preAddToRenderState" with
    | .error e => { result := .error e, self := self }
    | .ok lightCount => { result := .ok true, self := self.setLightCount lightCount }

/-- The index of a light type in the light-count array, as the specification
gives it: Point = 0, Directional = 1, Spot = 2. -/
def LightTypes.countIndex : LightTypes → Fin 3
  | LightTypes.LT_POINT => 0
  | LightTypes.LT_DIRECTIONAL => 1
  | LightTypes.LT_SPOTLIGHT => 2

/-- The count array with `n` at the index of `T` and 0 elsewhere. -/
def oneTypeCount (T : LightTypes) (n : Nat) : Fin 3 → Int :=
  fun i => if i = T.countIndex then (n : Int) else 0

/-- A pass with lighting disabled that asks for iterate-per-light without a
one-type restriction. -/
def sampleUnlitPass : SourcePass :=
  { getLightingEnabled := false
    getVertexColourTracking := TVC_DIFFUSE
    getShininess := 10
    getSpecular := { r := 1, g := 1, b := 1, a := 1 }
    getIteratePerLight := true
    getRunOnlyForOneLightType := false
    getOnlyLightType := LightTypes.LT_POINT
    getLightCountPerIteration := 1 }

/-- A lit pass with zero shininess and no light iteration. -/
def sampleMattPass : SourcePass :=
  { getLightingEnabled := true
    getVertexColourTracking := TVC_NONE
    getShininess := 0
    getSpecular := { r := 1, g := 1, b := 1, a := 1 }
    getIteratePerLight := false
    getRunOnlyForOneLightType := false
    getOnlyLightType := LightTypes.LT_POINT
    getLightCountPerIteration := 1 }

/-- A lit, shiny pass iterating once per four lights of type Spot. -/
def sampleSpotPass : SourcePass :=
  { getLightingEnabled := true
    getVertexColourTracking := TVC_NONE
    getShininess := 10
    getSpecular := { r := 1, g := 1, b := 1, a := 1 }
    getIteratePerLight := true
    getRunOnlyForOneLightType := true
    getOnlyLightType := LightTypes.LT_SPOTLIGHT
    getLightCountPerIteration := 4 }

/-- A lit pass iterating per light with no one-type restriction. -/
def sampleIteratePass : SourcePass :=
  { getLightingEnabled := true
    getVertexColourTracking := TVC_NONE
    getShininess := 10
    getSpecular := { r := 1, g := 1, b := 1, a := 1 }
    getIteratePerLight := true
    getRunOnlyForOneLightType := false
    getOnlyLightType := LightTypes.LT_POINT
    getLightCountPerIteration := 1 }

/-- A render state whose accumulated counts are `(2, 1, 1)`. -/
def sampleRenderState : RenderState :=
  { getLightCount := lightCountOf 2 1 1 }

/-! ### Sequences of calls that change the slot list -/

/-- A call of one of the three methods that change the slot list. -/
inductive Mutator (α : Type) where
  | setLightCount (lightCount : Fin 3 → Int)
  | copyFrom (rhs : α)
  | preAddToRenderState (renderState : RenderState) (srcPass : SourcePass)

/-- The object after the call `m` on a per-vertex instance. -/
def FFPLighting.mutate (self : FFPLighting) : Mutator FFPLighting → FFPLighting
  | .setLightCount lightCount => self.setLightCount lightCount
  | .copyFrom rhs => self.copyFrom rhs
  | .preAddToRenderState renderState srcPass => (self.preAddToRenderState renderState srcPass).self

/-- The object after the call `m` on a per-pixel instance. -/
def PerPixelLighting.mutate (self : PerPixelLighting) :
    Mutator PerPixelLighting → PerPixelLighting
  | .setLightCount lightCount => self.setLightCount lightCount
  | .copyFrom rhs => self.copyFrom rhs
  | .preAddToRenderState renderState srcPass => (self.preAddToRenderState renderState srcPass).self

/-- The call `m` is successful on a per-vertex instance: a call of
`preAddToRenderState` returned true (the two other methods return nothing). -/
def FFPLighting.succeeds (self : FFPLighting) : Mutator FFPLighting → Prop
  | .preAddToRenderState renderState srcPass =>
    (self.preAddToRenderState renderState srcPass).result = .ok true
  | _ => True

/-- The call `m` is successful on a per-pixel instance. -/
def PerPixelLighting.succeeds (self : PerPixelLighting) : Mutator PerPixelLighting → Prop
  | .preAddToRenderState renderState srcPass =>
    (self.preAddToRenderState renderState srcPass).result = .ok true
  | _ => True

/-- The object after a sequence of calls, in order. -/
def FFPLighting.run (self : FFPLighting) (calls : List (Mutator FFPLighting)) : FFPLighting :=
  calls.foldl FFPLighting.mutate self

/-- The object after a sequence of calls, in order. -/
def PerPixelLighting.run (self : PerPixelLighting) (calls : List (Mutator PerPixelLighting)) :
    PerPixelLighting :=
  calls.foldl PerPixelLighting.mutate self

/-- Every call of the sequence is successful on the object it is made on. -/
def FFPLighting.Successful : FFPLighting → List (Mutator FFPLighting) → Prop
  | _, [] => True
  | self, m :: rest => self.succeeds m ∧ FFPLighting.Successful (self.mutate m) rest

/-- Every call of the sequence is successful on the object it is made on. -/
def PerPixelLighting.Successful : PerPixelLighting → List (Mutator PerPixelLighting) → Prop
  | _, [] => True
  | self, m :: rest => self.succeeds m ∧ PerPixelLighting.Successful (self.mutate m) rest

/-- The counts a call requests, that is the array it passes to
`setLightCount`: its argument; the counts of `rhs`; the render state's counts,
or the override of an iterate-per-light pass. -/
def FFPLighting.requested : Mutator FFPLighting → Fin 3 → Int
  | .setLightCount lightCount => lightCount
  | .copyFrom rhs => rhs.getLightCount
  | .preAddToRenderState renderState srcPass =>
    match overrideLightPolicy srcPass renderState.getLightCount
        "FFPLighting::preAddToRenderState" with
    | .ok lightCount => lightCount
    | .error _ => ![0, 0, 0]

/-- The counts a call requests, for the per-pixel model. -/
def PerPixelLighting.requested : Mutator PerPixelLighting → Fin 3 → Int
  | .setLightCount lightCount => lightCount
  | .copyFrom rhs => rhs.getLightCount
  | .preAddToRenderState renderState srcPass =>
    match overrideLightPolicy srcPass renderState.getLightCount
        "PerPixelLighting::preAddToRenderState" with
    | .ok lightCount => lightCount
    | .error _ => ![0, 0, 0]

/-- The block of slots one call of `setLightCount` stands for: the Point slots,
then the Directional slots, then the Spot slots; a negative count gives no
slot. -/
def countBlock (lightCount : Fin 3 → Int) : LightParamsList :=
  List.replicate (lightCount 0).toNat (emptySlot LightTypes.LT_POINT)
    ++ List.replicate (lightCount 1).toNat (emptySlot LightTypes.LT_DIRECTIONAL)
    ++ List.replicate (lightCount 2).toNat (emptySlot LightTypes.LT_SPOTLIGHT)

/-- A sequence of calls on a per-vertex instance: `preAddToRenderState` with a
pass iterating per four Spot lights, then `setLightCount(1, 0, 0)`. -/
def sampleCalls : List (Mutator FFPLighting) :=
  [Mutator.preAddToRenderState sampleRenderState sampleSpotPass,
    Mutator.setLightCount (lightCountOf 1 0 0)]

/-- The same sequence of calls on a per-pixel instance. -/
def sampleCallsPS : List (Mutator PerPixelLighting) :=
  [Mutator.preAddToRenderState sampleRenderState sampleSpotPass,
    Mutator.setLightCount (lightCountOf 1 0 0)]

/-! ## Global illumination: the specification's wording -/

/-- The function of an invocation and, operand by operand in push order, the
parameter and the direction; the component masks are left out. -/
def FunctionInvocation.shape (inv : FunctionInvocation) :
    FunctionName × List (ParameterPtr × OpSemantic) :=
  (inv.mFunctionName, inv.mOperands.map (fun o => (o.mParameter, o.mSemantic)))

/-- The parameters an invocation has as output operands, in push order. -/
def FunctionInvocation.outputs (inv : FunctionInvocation) : List ParameterPtr :=
  (inv.mOperands.filter (fun o => decide (o.mSemantic = OpSemantic.OPS_OUT))).map
    (fun o => o.mParameter)

/-- The global-illumination sequence for the diffuse accumulator as the
specification words it, as a function of the ambient and the emissive bit of
the tracking mask only: with neither bit set, one assignment of the derived
scene colour into the accumulator; otherwise the ambient contribution (a
MODULATE of light-ambient by the vertex diffuse colour when ambient is tracked,
else an assignment of derived-ambient), then an ADD into the accumulator whose
first operand is the vertex diffuse colour when emissive is tracked and the
surface emissive colour otherwise. -/
def globalIlluminationShape (ambient emissive : Bool)
    (accumulator derivedScene lightAmbient vertexDiffuse derivedAmbient surfaceEmissive :
      ParameterPtr) :
    List (FunctionName × List (ParameterPtr × OpSemantic)) :=
  if ambient = false ∧ emissive = false then
    [(FunctionName.FFP_FUNC_ASSIGN,
      [(derivedScene, OpSemantic.OPS_IN), (accumulator, OpSemantic.OPS_OUT)])]
  else
    [(if ambient then
        (FunctionName.FFP_FUNC_MODULATE,
          [(lightAmbient, OpSemantic.OPS_IN), (vertexDiffuse, OpSemantic.OPS_IN),
            (accumulator, OpSemantic.OPS_OUT)])
      else
        (FunctionName.FFP_FUNC_ASSIGN,
          [(derivedAmbient, OpSemantic.OPS_IN), (accumulator, OpSemantic.OPS_OUT)])),
      (FunctionName.FFP_FUNC_ADD,
        [(if emissive then vertexDiffuse else surfaceEmissive, OpSemantic.OPS_IN),
          (accumulator, OpSemantic.OPS_IN), (accumulator, OpSemantic.OPS_OUT)])]

/-- A per-vertex instance with specular enabled, one Point slot and pairwise
different handles. -/
def sampleSpecularFFP : FFPLighting :=
  { mTrackVertexColourType := TVC_NONE
    mSpecularEnable := true
    mLightParamsList := [sampleSlot LightTypes.LT_POINT 100]
    mWorldViewMatrix := some 1
    mWorldViewITMatrix := some 2
    mVSInPosition := some 3
    mVSInNormal := some 4
    mVSDiffuse := some 5
    mVSOutDiffuse := some 6
    mVSOutSpecular := some 7
    mDerivedSceneColour := some 8
    mLightAmbientColour := some 9
    mDerivedAmbientLightColour := some 10
    mSurfaceAmbientColour := some 11
    mSurfaceDiffuseColour := some 12
    mSurfaceSpecularColour := some 13
    mSurfaceEmissiveColour := some 14
    mSurfaceShininess := some 15 }

/-! ## Per-light emission: the specification's wording -/

/-- The pre-modulation of a slot's colours by the vertex colour as the
specification words it: a MODULATE of the vertex diffuse colour with the slot's
diffuse colour, XYZ-masked and written back into the slot's diffuse colour,
exactly when the diffuse bit is tracked; then the same with the slot's specular
colour exactly when specular is enabled and the specular bit is tracked. -/
def preModulation (groupOrder : GroupOrder) (vertexDiffuse : ParameterPtr)
    (trackVertexColourType : Nat) (specularEnable : Bool) (cur : LightParams) :
    List FunctionInvocation :=
  (if tracks trackVertexColourType TVC_DIFFUSE then
      [{ mFunctionName := FunctionName.FFP_FUNC_MODULATE
         mGroupExecutionOrder := groupOrder
         mOperands := [(In vertexDiffuse).xyz, (In cur.mDiffuseColour).xyz,
           (Out cur.mDiffuseColour).xyz] }]
    else [])
  ++ (if specularEnable = true ∧ tracks trackVertexColourType TVC_SPECULAR = true then
      [{ mFunctionName := FunctionName.FFP_FUNC_MODULATE
         mGroupExecutionOrder := groupOrder
         mOperands := [(In vertexDiffuse).xyz, (In cur.mSpecularColour).xyz,
           (Out cur.mSpecularColour).xyz] }]
    else [])

/-- The output operands of an illumination call as the specification words
them: the diffuse accumulator, then the specular accumulator when specular is
enabled, both XYZ-masked. -/
def accumulatorOutputs (diffuse specular : ParameterPtr) (specularEnable : Bool) :
    List Operand :=
  [(Out diffuse).xyz] ++ (if specularEnable then [(Out specular).xyz] else [])

/-- A per-pixel instance with specular enabled, one Point slot and pairwise
different handles. -/
def sampleSpecularPerPixel : PerPixelLighting :=
  { mTrackVertexColourType := TVC_NONE
    mSpecularEnable := true
    mLightParamsList := [sampleSlot LightTypes.LT_POINT 100]
    mWorldViewMatrix := some 1
    mWorldViewITMatrix := some 2
    mVSInPosition := some 3
    mVSOutViewPos := some 4
    mVSInNormal := some 5
    mVSOutNormal := some 6
    mPSInViewPos := some 7
    mPSInNormal := some 8
    mPSTempDiffuseColour := some 9
    mPSTempSpecularColour := some 10
    mPSDiffuse := some 11
    mPSSpecular := some 12
    mPSOutDiffuse := some 13
    mDerivedSceneColour := some 14
    mLightAmbientColour := some 15
    mDerivedAmbientLightColour := some 16
    mSurfaceAmbientColour := some 17
    mSurfaceDiffuseColour := some 18
    mSurfaceSpecularColour := some 19
    mSurfaceEmissiveColour := some 20
    mSurfaceShininess := some 21 }

/-! ## Dependencies and the factories -/

/-- The shader library names the two files register (string macros declared
outside them). -/
inductive LibraryName where
  | FFP_LIB_COMMON
  | FFP_LIB_LIGHTING
  | SGX_LIB_PERPIXELLIGHTING
  deriving DecidableEq, Repr

/-- The `ProgramSet` seen from `resolveDependencies`: the libraries registered
on the vertex program and on the fragment program. -/
structure ProgramDependencies where
  vsProgram : List LibraryName := []
  psProgram : List LibraryName := []
  deriving DecidableEq, Repr

/-- Modelled from the spec: `Program::addDependency`, declared outside the two
source files, registers a library name on a program; registering a name that
is already there changes nothing. -/
def addDependency (program : List LibraryName) (libFileName : LibraryName) : List LibraryName :=
  if libFileName ∈ program then program else program ++ [libFileName]

/-- The method `FFPLighting::resolveDependencies`. -/
def FFPLighting.resolveDependencies (_ : FFPLighting) (programSet : ProgramDependencies) :
    Bool × ProgramDependencies :=
  let vsProgram := programSet.vsProgram
  let vsProgram := addDependency vsProgram LibraryName.FFP_LIB_COMMON
  let vsProgram := addDependency vsProgram LibraryName.FFP_LIB_LIGHTING
  (true, { programSet with vsProgram := vsProgram })

/-- The method `PerPixelLighting::resolveDependencies`. -/
def PerPixelLighting.resolveDependencies (_ : PerPixelLighting)
    (programSet : ProgramDependencies) : Bool × ProgramDependencies :=
  let vsProgram := programSet.vsProgram
  let psProgram := programSet.psProgram
  let vsProgram := addDependency vsProgram LibraryName.FFP_LIB_COMMON
  let vsProgram := addDependency vsProgram LibraryName.SGX_LIB_PERPIXELLIGHTING
  let psProgram := addDependency psProgram LibraryName.FFP_LIB_COMMON
  let psProgram := addDependency psProgram LibraryName.SGX_LIB_PERPIXELLIGHTING
  (true, { vsProgram := vsProgram, psProgram := psProgram })

/-- A value node of a script property, as far as `getString` tells them apart:
an atom carries a string, any other node does not. -/
inductive AbstractNode where
  | atom (value : String)
  | other
  deriving DecidableEq, Repr

/-- The class `PropertyAbstractNode`, as far as `createInstance` reads it. -/
structure PropertyAbstractNode where
  name : String
  values : List AbstractNode
  deriving DecidableEq, Repr

/-- Modelled from the spec: `SGScriptTranslator::getString`, declared outside the
two source files: the string of an atom, and failure on any other node. -/
def getString : AbstractNode → Option String
  | .atom value => some value
  | .other => none

/-- The errors `createInstance` reports through `compiler->addError`. -/
inductive CompileError where
  | CE_INVALIDPARAMETERS
  deriving DecidableEq, Repr

/-- What `createInstance` leaves behind: the pointer returned (`none` is NULL)
and the errors added to the compiler. -/
structure CreateOutcome (α : Type) where
  result : Option α
  errors : List CompileError

/-- Modelled from the spec: `createOrRetrieveInstance`, declared outside the two
source files: the sub-render state of the factory's type that the translator
has already generated, or else a new one made by `createInstanceImpl`. -/
def createOrRetrieveInstance {α : Type} (createInstanceImpl : α) (translator : Option α) : α :=
  match translator with
  | some subRenderState => subRenderState
  | none => createInstanceImpl

/-- The method `FFPLightingFactory::createInstanceImpl`: `OGRE_NEW
FFPLighting`, the object the constructor leaves. -/
def FFPLightingFactory.createInstanceImpl : FFPLighting :=
  { mTrackVertexColourType := TVC_NONE, mSpecularEnable := false }

/-- The method `PerPixelLightingFactory::createInstanceImpl`. -/
def PerPixelLightingFactory.createInstanceImpl : PerPixelLighting :=
  { mTrackVertexColourType := TVC_NONE, mSpecularEnable := false }

/-- The method `FFPLightingFactory::createInstance`; `translator` is the
sub-render state of this type the translator has generated, if any. -/
def FFPLightingFactory.createInstance (prop : PropertyAbstractNode)
    (translator : Option FFPLighting) : CreateOutcome FFPLighting :=
  if prop.name = "lighting_stage" then
    if prop.values.length = 1 then
      match prop.values.head? with
      | some front =>
        match getString front with
        | none => { result := none, errors := [CompileError.CE_INVALIDPARAMETERS] }
        | some modelType =>
          if modelType = "ffp" then
            { result := some
                (createOrRetrieveInstance FFPLightingFactory.createInstanceImpl translator)
              errors := [] }
          else { result := none, errors := [] }
      | none => { result := none, errors := [] }
    else { result := none, errors := [] }
  else { result := none, errors := [] }

/-- The method `PerPixelLightingFactory::createInstance`. -/
def PerPixelLightingFactory.createInstance (prop : PropertyAbstractNode)
    (translator : Option PerPixelLighting) : CreateOutcome PerPixelLighting :=
  if prop.name = "lighting_stage" then
    if prop.values.length = 1 then
      match prop.values.head? with
      | some front =>
        match getString front with
        | none => { result := none, errors := [CompileError.CE_INVALIDPARAMETERS] }
        | some modelType =>
          if modelType = "per_pixel" then
            { result := some
                (createOrRetrieveInstance PerPixelLightingFactory.createInstanceImpl translator)
              errors := [] }
          else { result := none, errors := [] }
      | none => { result := none, errors := [] }
    else { result := none, errors := [] }
  else { result := none, errors := [] }

/-- A call on the `MaterialSerializer`. -/
inductive SerializerCall where
  | writeAttribute (level : Nat) (att : String)
  | writeValue (val : String)
  deriving DecidableEq, Repr

/-- The method `FFPLightingFactory::writeInstance`, as the calls it adds to
those already made on the serializer. -/
def FFPLightingFactory.writeInstance (ser : List SerializerCall) : List SerializerCall :=
  ser ++ [SerializerCall.writeAttribute 4 "lighting_stage", SerializerCall.writeValue "ffp"]

/-- The method `PerPixelLightingFactory::writeInstance`. -/
def PerPixelLightingFactory.writeInstance (ser : List SerializerCall) : List SerializerCall :=
  ser ++ [SerializerCall.writeAttribute 4 "lighting_stage", SerializerCall.writeValue "per_pixel"]

/-- Modelled from the spec: the directive a script holds after one attribute
was written with its values is read back as the property node of that name
whose values are the atoms written, in order. -/
def readDirective : List SerializerCall → Option PropertyAbstractNode
  | SerializerCall.writeAttribute _ att :: rest =>
    some
      { name := att
        values := rest.filterMap (fun call =>
          match call with
          | SerializerCall.writeValue val => some (AbstractNode.atom val)
          | SerializerCall.writeAttribute _ _ => none) }
  | _ => none

/-! ## The colours the updater writes: the specification's wording -/

/-- The diffuse colour the specification has the updater write for the light
`L`: `L.diffuse * pass.diffuse * L.powerScale` when the diffuse bit is clear,
`L.diffuse * L.powerScale` when it is set. -/
def diffuseColourWritten (diffuseTracked : Bool) (pass : Pass) (L : Light) : ColourValue :=
  if diffuseTracked then L.getDiffuseColour.scale L.getPowerScale
  else (L.getDiffuseColour.mul pass.getDiffuse).scale L.getPowerScale

/-- The specular colour the specification has the updater write for the light
`L`. -/
def specularColourWritten (specularTracked : Bool) (pass : Pass) (L : Light) : ColourValue :=
  if specularTracked then L.getSpecularColour.scale L.getPowerScale
  else (L.getSpecularColour.mul pass.getSpecular).scale L.getPowerScale

/-- The colour writes of an iteration, in call order: the member written and
the value. -/
def SlotUpdate.colours (u : SlotUpdate) : List (LightParamsField × GpuValue) :=
  (u.writes.filter (fun w =>
    decide (w.field = LightParamsField.mDiffuseColour
      ∨ w.field = LightParamsField.mSpecularColour))).map (fun w => (w.field, w.value))

/-! ## The matching rule of the updater: the specification's wording -/

/-- The position `j` of the list holds the `k`-th light of type `T` in list
order, counting from 0: a light of type `T` with exactly `k` lights of type `T`
before it. -/
def IsNthLightOfType (lights : List Light) (T : LightTypes) (k j : Nat) : Prop :=
  (∃ light, lights[j]? = some light ∧ light.getType = T) ∧ countType T (lights.take j) = k

/-- The matching rule as the specification words it: the slot at position `i`,
which is the `k`-th slot of its type `T` (`k` slots of type `T` come before
it), is updated from the `k`-th light of type `T` when the list holds more than
`k` lights of type `T`, and from the blank light otherwise; and the number of
slots updated from the blank light is the sum over the three types of the
number of slots of the type minus the number of lights of the type, where this
is positive. -/
def ExactMatching (lights : List Light) (slots : LightParamsList) (res : List SlotUpdate) :
    Prop :=
  (∀ (i : Nat) (slot : LightParams) (u : SlotUpdate),
      slots[i]? = some slot → res[i]? = some u →
      (((slots.map (fun p => p.mType)).take i).count slot.mType < countType slot.mType lights →
          ∃ j, u.srcIndex = some j
            ∧ IsNthLightOfType lights slot.mType
                (((slots.map (fun p => p.mType)).take i).count slot.mType) j)
      ∧ (countType slot.mType lights
            ≤ ((slots.map (fun p => p.mType)).take i).count slot.mType →
          u.srcIndex = none))
  ∧ res.countP (fun u => u.srcIndex.isNone)
    = ((slots.map (fun p => p.mType)).count LightTypes.LT_POINT
        - countType LightTypes.LT_POINT lights)
      + ((slots.map (fun p => p.mType)).count LightTypes.LT_DIRECTIONAL
        - countType LightTypes.LT_DIRECTIONAL lights)
      + ((slots.map (fun p => p.mType)).count LightTypes.LT_SPOTLIGHT
        - countType LightTypes.LT_SPOTLIGHT lights)

/-! ## Assembly as a function of the configuration -/

/-- Between two states of a resolution method the part `g` of the object is
the same, and the local `hasError` of the later state is clear only when that
of the earlier one is. -/
def Held {α β σ : Type} (g : α → β) (a b : ResolveState α σ) : Prop :=
  g b.self = g a.self ∧ (b.hasError = false → a.hasError = false)

/-- In addition to `Held`: when the local `hasError` of the later state is
clear, the handle `v` of its object is non-null exactly when `x` says so. -/
def ViewPos {α β σ : Type} (v : α → ParameterPtr) (g : α → β) (x : Bool)
    (a b : ResolveState α σ) : Prop :=
  Held g a b ∧ (b.hasError = false → (v b.self).isSome = x)

/-- The configuration of a per-pixel object and its slot list. -/
def PerPixelLighting.settings (self : PerPixelLighting) : (Nat × Bool) × LightParamsList :=
  (self.config, self.mLightParamsList)

/-- The member `mVSOutViewPos` together with the settings. -/
def PerPixelLighting.viewPosSettings (self : PerPixelLighting) :
    ParameterPtr × (Nat × Bool) × LightParamsList :=
  (self.mVSOutViewPos, self.settings)

/-- The configuration one iteration of the per-pixel loop runs under: that of
the object, and the type of the current slot. -/
def PerPixelLighting.slotConfig (s : PerPixelLighting × LightParams) : (Nat × Bool) × LightTypes :=
  (s.1.config, s.2.mType)

/-- The member `mVSOutViewPos` together with the slot configuration. -/
def PerPixelLighting.slotViewPos (s : PerPixelLighting × LightParams) :
    ParameterPtr × (Nat × Bool) × LightTypes :=
  (s.1.mVSOutViewPos, PerPixelLighting.slotConfig s)

/-- The function of an invocation and, operand by operand in push order, the
direction and the component mask; the parameters are left out. -/
def FunctionInvocation.profile (inv : FunctionInvocation) :
    FunctionName × List (OpSemantic × OpMask) :=
  (inv.mFunctionName, inv.mOperands.map (fun o => (o.mSemantic, o.mMask)))

/-- The slot list has a Point or a Spot slot. -/
def hasPositional (slots : LightParamsList) : Bool :=
  slots.any (fun slot => decide (slot.mType ≠ LightTypes.LT_DIRECTIONAL))

/-- A per-pixel instance as constructed, with specular then enabled and one
Directional slot added. -/
def sampleEarlierPerPixel : PerPixelLighting :=
  (({} : PerPixelLighting).setSpecularEnable true).setLightCount (lightCountOf 0 1 0)

/-- The instance `sampleEarlierPerPixel` after `resolveParameters` under the
counting resolver, with specular then disabled. -/
def sampleReusedPerPixel : PerPixelLighting :=
  (PerPixelLighting.resolveParameters (countingResolver (fun _ => false)) sampleEarlierPerPixel
    { params := 0 }).self.setSpecularEnable false

/-- A per-pixel instance as constructed, with one Directional slot added. -/
def sampleDirectionalPerPixel : PerPixelLighting :=
  ({} : PerPixelLighting).setLightCount (lightCountOf 0 1 0)

/-- A per-vertex instance with the configuration of `sampleSpecularFFP` and no
handle set. -/
def sampleUnresolvedFFP : FFPLighting :=
  { mTrackVertexColourType := TVC_NONE, mSpecularEnable := true,
    mLightParamsList := [{ mType := LightTypes.LT_POINT }] }

/-- A per-pixel instance with the configuration of `sampleSpecularPerPixel` and
no handle set. -/
def sampleUnresolvedPerPixel : PerPixelLighting :=
  { mTrackVertexColourType := TVC_NONE, mSpecularEnable := true,
    mLightParamsList := [{ mType := LightTypes.LT_POINT }] }

/-! ## Operands of the illumination calls: the specification's wording -/

/-- The input operands the type of a slot contributes to its illumination
call: the direction of a Directional slot; the position and the attenuation of
a Point slot; the position, the direction, the attenuation and the spotlight
parameters of a Spot slot. -/
def slotTypeOperands (cur : LightParams) : List Operand :=
  match cur.mType with
  | LightTypes.LT_DIRECTIONAL => [(In cur.mDirection).xyz]
  | LightTypes.LT_POINT => [(In cur.mPosition).xyz, In cur.mAttenuatParams]
  | LightTypes.LT_SPOTLIGHT =>
    [(In cur.mPosition).xyz, (In cur.mDirection).xyz, In cur.mAttenuatParams,
      In cur.mSpotParams]

/-- The operands of an illumination call as the specification words them: the
surface-position inputs `position` exactly when the slot is Point or Spot or
specular is enabled, between the inputs `before` and `after` that every call
has; the slot's type operands and diffuse colour; the slot's specular colour
and the shininess exactly when specular is enabled; then the accumulators as
inputs and as outputs, XYZ-masked. -/
def illuminationOperands (before position after : List Operand)
    (shininess diffuse specular : ParameterPtr) (specularEnable : Bool) (cur : LightParams) :
    List Operand :=
  before
  ++ (if cur.mType ≠ LightTypes.LT_DIRECTIONAL ∨ specularEnable = true then position else [])
  ++ after
  ++ slotTypeOperands cur
  ++ [(In cur.mDiffuseColour).xyz]
  ++ (if specularEnable then [(In cur.mSpecularColour).xyz, In shininess] else [])
  ++ [(In diffuse).xyz] ++ (if specularEnable then [(In specular).xyz] else [])
  ++ accumulatorOutputs diffuse specular specularEnable

/-- A per-vertex instance as constructed, with the ambient bit tracked and one
Directional slot added. -/
def sampleAmbientFFP : FFPLighting :=
  (({} : FFPLighting).setTrackVertexColourType TVC_AMBIENT).setLightCount (lightCountOf 0 1 0)

/-- A per-pixel instance as constructed, with the ambient bit tracked and one
Directional slot added. -/
def sampleAmbientPerPixel : PerPixelLighting :=
  (({} : PerPixelLighting).setTrackVertexColourType TVC_AMBIENT).setLightCount
    (lightCountOf 0 1 0)

/-- The parameters that occur as operands of a list of invocations. -/
def operandParameters (atoms : List FunctionInvocation) : List ParameterPtr :=
  (atoms.map (fun inv => inv.mOperands.map (fun op => op.mParameter))).flatten

/-- A pass with lighting enabled that tracks the diffuse vertex colour, has a
specular colour and a shininess, and asks for iterate-per-light without a
one-light-type restriction. -/
def sampleTrackingIteratePass : SourcePass :=
  { getLightingEnabled := true
    getVertexColourTracking := TVC_DIFFUSE
    getShininess := 10
    getSpecular := { r := 1, g := 1, b := 1, a := 1 }
    getIteratePerLight := true
    getRunOnlyForOneLightType := false
    getOnlyLightType := LightTypes.LT_POINT
    getLightCountPerIteration := 1 }

/-- The number of slots of type `T` in a slot list. -/
def countSlots (T : LightTypes) (slots : LightParamsList) : Nat :=
  slots.countP (fun slot => decide (slot.mType = T))

/-- A per-pixel instance with the slot types of `sampleFFP3` and other
handles. -/
def sampleOtherPerPixel3 : PerPixelLighting :=
  { mLightParamsList :=
      [sampleSlot LightTypes.LT_POINT 100, sampleSlot LightTypes.LT_POINT 106,
        sampleSlot LightTypes.LT_DIRECTIONAL 112] }

/-- A per-vertex instance as constructed, on which `setLightCount((1, 1, 0))`
was called twice. -/
def sampleUngroupedFFP : FFPLighting :=
  (({} : FFPLighting).setLightCount (lightCountOf 1 1 0)).setLightCount (lightCountOf 1 1 0)

/-- A per-pixel instance as constructed, on which `setLightCount((1, 1, 0))`
was called twice. -/
def sampleUngroupedPerPixel : PerPixelLighting :=
  (({} : PerPixelLighting).setLightCount (lightCountOf 1 1 0)).setLightCount
    (lightCountOf 1 1 0)

/-- One point light, then one directional light. -/
def sampleLights2 : List Light :=
  [sampleLight LightTypes.LT_POINT, sampleLight LightTypes.LT_DIRECTIONAL]

/-- The instance `sampleUngroupedFFP` after `resolveParameters` under the
counting resolver. -/
def sampleUngroupedResolvedFFP : FFPLighting :=
  (FFPLighting.resolveParameters (countingResolver (fun _ => false)) sampleUngroupedFFP
    { params := 0 }).self

/-- The instance `sampleUngroupedPerPixel` after `resolveParameters` under the
counting resolver. -/
def sampleUngroupedResolvedPerPixel : PerPixelLighting :=
  (PerPixelLighting.resolveParameters (countingResolver (fun _ => false))
    sampleUngroupedPerPixel { params := 0 }).self

/-- A per-vertex instance as constructed, with one Directional slot added. -/
def sampleDirectionalFFP : FFPLighting :=
  ({} : FFPLighting).setLightCount (lightCountOf 0 1 0)

/-- A per-vertex instance as constructed, with one Spot slot added. -/
def sampleSpotFFP : FFPLighting :=
  ({} : FFPLighting).setLightCount (lightCountOf 0 0 1)

/-- A per-pixel instance as constructed, with one Point slot added. -/
def samplePointPerPixel : PerPixelLighting :=
  ({} : PerPixelLighting).setLightCount (lightCountOf 1 0 0)

/-- The per-pixel request for the position of a light slot. -/
def lightPositionRequest : Request :=
  .resolveParameter GpuProgramType.GPT_FRAGMENT_PROGRAM GpuConstantType.GCT_FLOAT4 (-1) GPV_LIGHTS
    "light_position_view_space"

/-- The requests in the record of a program set that were answered with the
handle `h`. -/
def requestOf (requests : List (Request × ParameterPtr)) (h : ParameterPtr) : List Request :=
  (requests.filter (fun e => decide (e.2 = h))).map (fun e => e.1)

/-! ## Theorems -/

open LightTypes

/-! ### Floats -/

@[simp] theorem Real.ofNat_eq_finite (n : Nat) :
    (OfNat.ofNat n : Real) = Real.finite (n : ℚ) := rfl

@[simp] theorem Real.finite_mul_finite (p q : ℚ) :
    Real.finite p * Real.finite q = Real.finite (p * q) := rfl

@[simp] theorem Real.neg_finite (q : ℚ) : -Real.finite q = Real.finite (-q) := rfl

@[simp] theorem Real.finite_lt_finite (p q : ℚ) :
    Real.finite p < Real.finite q ↔ p < q := by
  show Real.blt _ _ = true ↔ _
  simp [Real.blt]

@[simp] theorem Real.zero_mul_infinity (s : Bool) :
    Real.finite 0 * Real.infinity s = Real.nan := by
  show Real.mul _ _ = _
  simp [Real.mul]

@[simp] theorem Real.nan_mul (x : Real) : Real.nan * x = Real.nan := by
  cases x <;> rfl

theorem Real.isFinite_iff (x : Real) : x.isFinite = true ↔ ∃ q, x = Real.finite q := by
  cases x <;> simp [Real.isFinite]

theorem ColourValue.hasFiniteRGB_iff (c : ColourValue) :
    c.hasFiniteRGB = true
      ↔ ∃ r g b,
          c = { r := Real.finite r, g := Real.finite g, b := Real.finite b, a := c.a } := by
  obtain ⟨r, g, b, a⟩ := c
  simp only [ColourValue.hasFiniteRGB, Bool.and_eq_true, Real.isFinite_iff, ColourValue.mk.injEq,
    and_true]
  constructor
  · rintro ⟨⟨⟨p, rfl⟩, ⟨q, rfl⟩⟩, ⟨t, rfl⟩⟩
    exact ⟨p, q, t, rfl, rfl, rfl⟩
  · rintro ⟨p, q, t, rfl, rfl, rfl⟩
    exact ⟨⟨⟨p, rfl⟩, ⟨q, rfl⟩⟩, ⟨t, rfl⟩⟩

theorem foldl_push_const {α : Type} (x : α) (n : Nat) (l : List α) :
    (List.range n).foldl (fun l _ => l ++ [x]) l = l ++ List.replicate n x := by
  induction n generalizing l with
  | zero => simp
  | succ n ih =>
    rw [List.range_succ, List.foldl_append, ih]
    simp [List.replicate_succ']

theorem setLightCount_list (l : LightParamsList) (c : Fin 3 → Int) :
    (List.finRange 3).foldl
        (fun l type =>
          (List.range (c type).toNat).foldl
            (fun l _ => l ++ [setLightCountParams type]) l) l
      = l ++ List.replicate (c 0).toNat (emptySlot LightTypes.LT_POINT)
          ++ List.replicate (c 1).toNat (emptySlot LightTypes.LT_DIRECTIONAL)
          ++ List.replicate (c 2).toNat (emptySlot LightTypes.LT_SPOTLIGHT) := by
  have h3 : List.finRange 3 = [0, 1, 2] := by decide
  rw [h3]
  simp only [List.foldl_cons, List.foldl_nil, foldl_push_const]
  rfl

/-- C1: for all non-negative counts `(p, d, s)`, `setLightCount` on an instance
whose slot list is empty yields exactly `p` Point slots, then `d` Directional
slots, then `s` Spot slots, none of them with a parameter handle set; the
per-vertex and the per-pixel model agree. -/
theorem C1_setLightCount_grouped (p d s : Nat) (a : FFPLighting) (b : PerPixelLighting)
    (ha : a.mLightParamsList = []) (hb : b.mLightParamsList = []) :
    (a.setLightCount (lightCountOf p d s)).mLightParamsList
        = List.replicate p (emptySlot LightTypes.LT_POINT)
          ++ List.replicate d (emptySlot LightTypes.LT_DIRECTIONAL)
          ++ List.replicate s (emptySlot LightTypes.LT_SPOTLIGHT)
      ∧ (b.setLightCount (lightCountOf p d s)).mLightParamsList
        = List.replicate p (emptySlot LightTypes.LT_POINT)
          ++ List.replicate d (emptySlot LightTypes.LT_DIRECTIONAL)
          ++ List.replicate s (emptySlot LightTypes.LT_SPOTLIGHT) := by
  constructor
  · simp only [FFPLighting.setLightCount]
    rw [setLightCount_list, ha]
    simp [lightCountOf]
  · simp only [PerPixelLighting.setLightCount]
    rw [setLightCount_list, hb]
    simp [lightCountOf]

/-- C1 at the counts `(2, 1, 1)` on freshly constructed instances. -/
theorem C1_setLightCount_grouped_witness :
    (({} : FFPLighting).mLightParamsList = [] ∧ ({} : PerPixelLighting).mLightParamsList = [])
      ∧ ((({} : FFPLighting).setLightCount (lightCountOf (2 : Nat) (1 : Nat) (1 : Nat))).mLightParamsList
          = List.replicate 2 (emptySlot LightTypes.LT_POINT)
            ++ List.replicate 1 (emptySlot LightTypes.LT_DIRECTIONAL)
            ++ List.replicate 1 (emptySlot LightTypes.LT_SPOTLIGHT)
        ∧ (({} : PerPixelLighting).setLightCount (lightCountOf (2 : Nat) (1 : Nat) (1 : Nat))).mLightParamsList
          = List.replicate 2 (emptySlot LightTypes.LT_POINT)
            ++ List.replicate 1 (emptySlot LightTypes.LT_DIRECTIONAL)
            ++ List.replicate 1 (emptySlot LightTypes.LT_SPOTLIGHT)) :=
  ⟨⟨rfl, rfl⟩, C1_setLightCount_grouped 2 1 1 {} {} rfl rfl⟩

/-- C5 (failing input): a per-pixel instance with one Directional slot, on a
program set that answers null to the direction request only.
`resolvePerLightParameters` returns true, and the slot keeps a null direction
handle although that request was answered null. -/
theorem C5_directional_null_not_raised :
    (PerPixelLighting.resolvePerLightParameters (countingResolver (fun r => r = lightDirectionRequest))
        { mLightParamsList := [emptySlot LightTypes.LT_DIRECTIONAL] } { params := 0 }).result
      = .ok true
    ∧ (PerPixelLighting.resolvePerLightParameters (countingResolver (fun r => r = lightDirectionRequest))
        { mLightParamsList := [emptySlot LightTypes.LT_DIRECTIONAL] }
        { params := 0 }).self.mLightParamsList.map (fun p => p.mDirection) = [none]
    ∧ (lightDirectionRequest, none) ∈
      (PerPixelLighting.resolvePerLightParameters (countingResolver (fun r => r = lightDirectionRequest))
        { mLightParamsList := [emptySlot LightTypes.LT_DIRECTIONAL] } { params := 0 }).programSet.requests := by
  refine ⟨rfl, rfl, ?_⟩
  decide

/-! ### Invocation assembly: what is appended -/

theorem addPerLightLoop_append
    (add : LightParams → List FunctionInvocation → Bool × List FunctionInvocation)
    (hadd : ∀ cur main, add cur main = (true, main ++ (add cur []).2))
    (list : LightParamsList) (main : List FunctionInvocation) :
    addPerLightLoop add list main
      = (true, main ++ (list.map (fun cur => (add cur []).2)).flatten) := by
  induction list generalizing main with
  | nil => simp [addPerLightLoop]
  | cons cur rest ih =>
    rw [addPerLightLoop, hadd cur main]
    simp [ih]

theorem FFPLighting.addGlobalIlluminationInvocation_append (self : FFPLighting)
    (main : List FunctionInvocation) (o : GroupOrder) :
    self.addGlobalIlluminationInvocation main o
      = (true, main ++ (self.addGlobalIlluminationInvocation [] o).2) := by
  unfold FFPLighting.addGlobalIlluminationInvocation
  split <;> [skip; split <;> split] <;> simp [assign, callFunction]

theorem FFPLighting.addIlluminationInvocation_append (self : FFPLighting) (cur : LightParams)
    (main : List FunctionInvocation) (o : GroupOrder) :
    self.addIlluminationInvocation cur main o
      = (true, main ++ (self.addIlluminationInvocation cur [] o).2) := by
  unfold FFPLighting.addIlluminationInvocation
  cases cur.mType <;> cases self.mSpecularEnable <;>
    cases tracks self.mTrackVertexColourType TVC_DIFFUSE <;>
    cases tracks self.mTrackVertexColourType TVC_SPECULAR <;>
    simp [callFunction]

theorem PerPixelLighting.addPSGlobalIlluminationInvocation_append (self : PerPixelLighting)
    (main : List FunctionInvocation) (o : GroupOrder) :
    self.addPSGlobalIlluminationInvocation main o
      = (true, main ++ (self.addPSGlobalIlluminationInvocation [] o).2) := by
  unfold PerPixelLighting.addPSGlobalIlluminationInvocation
  cases self.mSpecularEnable <;>
    cases tracks self.mTrackVertexColourType TVC_AMBIENT <;>
    cases tracks self.mTrackVertexColourType TVC_EMISSIVE <;>
    simp [assign, callFunction]

theorem PerPixelLighting.addPSIlluminationInvocation_append (self : PerPixelLighting)
    (cur : LightParams) (main : List FunctionInvocation) (o : GroupOrder) :
    self.addPSIlluminationInvocation cur main o
      = (true, main ++ (self.addPSIlluminationInvocation cur [] o).2) := by
  unfold PerPixelLighting.addPSIlluminationInvocation
  cases cur.mType <;> cases self.mSpecularEnable <;>
    cases tracks self.mTrackVertexColourType TVC_DIFFUSE <;>
    cases tracks self.mTrackVertexColourType TVC_SPECULAR <;>
    simp [callFunction, addAtomInstance]

theorem PerPixelLighting.addPSFinalAssignmentInvocation_append (self : PerPixelLighting)
    (main : List FunctionInvocation) (o : GroupOrder) :
    self.addPSFinalAssignmentInvocation main o
      = (true, main ++ (self.addPSFinalAssignmentInvocation [] o).2) := by
  unfold PerPixelLighting.addPSFinalAssignmentInvocation
  cases self.mSpecularEnable <;> simp [assign, callFunction]

/-- What `FFPLighting::addFunctionInvocations` appends to the vertex function. -/
theorem ffp_addFunctionInvocations_eq {σ : Type} (self : FFPLighting)
    (ps : ProgramSet σ) :
    self.addFunctionInvocations ps
      = (true, { ps with
          vsMainAtoms := ps.vsMainAtoms
            ++ (self.addGlobalIlluminationInvocation [] GroupOrder.FFP_VS_LIGHTING).2
            ++ (self.mLightParamsList.map (fun cur =>
                (self.addIlluminationInvocation cur [] GroupOrder.FFP_VS_LIGHTING).2)).flatten }) := by
  unfold FFPLighting.addFunctionInvocations
  have h1 := self.addGlobalIlluminationInvocation_append ps.vsMainAtoms GroupOrder.FFP_VS_LIGHTING
  have h2 := addPerLightLoop_append
    (fun cur main => self.addIlluminationInvocation cur main GroupOrder.FFP_VS_LIGHTING)
    (fun cur main => self.addIlluminationInvocation_append cur main _) self.mLightParamsList
  simp only [h1, h2]
  simp

/-- What `PerPixelLighting::addFunctionInvocations` appends to the two functions. -/
theorem pp_addFunctionInvocations_eq {σ : Type} (self : PerPixelLighting)
    (ps : ProgramSet σ) :
    self.addFunctionInvocations ps
      = (true, { ps with
          vsMainAtoms := (self.addVSInvocation ps.vsMainAtoms GroupOrder.FFP_VS_LIGHTING).2
          psMainAtoms := ps.psMainAtoms
            ++ (self.addPSGlobalIlluminationInvocation [] (GroupOrder.FFP_PS_COLOUR_BEGIN_plus 1)).2
            ++ (self.mLightParamsList.map (fun cur =>
                (self.addPSIlluminationInvocation cur []
                  (GroupOrder.FFP_PS_COLOUR_BEGIN_plus 1)).2)).flatten
            ++ (self.addPSFinalAssignmentInvocation []
                (GroupOrder.FFP_PS_COLOUR_BEGIN_plus 1)).2 }) := by
  unfold PerPixelLighting.addFunctionInvocations
  have hv : (self.addVSInvocation ps.vsMainAtoms GroupOrder.FFP_VS_LIGHTING).1 = true := by
    simp [PerPixelLighting.addVSInvocation]
  have h1 := self.addPSGlobalIlluminationInvocation_append ps.psMainAtoms
    (GroupOrder.FFP_PS_COLOUR_BEGIN_plus 1)
  have h2 := addPerLightLoop_append
    (fun cur main =>
      self.addPSIlluminationInvocation cur main (GroupOrder.FFP_PS_COLOUR_BEGIN_plus 1))
    (fun cur main => self.addPSIlluminationInvocation_append cur main _) self.mLightParamsList
  have h3 := fun main => self.addPSFinalAssignmentInvocation_append main
    (GroupOrder.FFP_PS_COLOUR_BEGIN_plus 1)
  simp only [hv, h1, h2]
  rw [h3]
  simp

theorem ffp_illuminationCalls_slot (self : FFPLighting) (cur : LightParams)
    (o : GroupOrder) :
    illuminationCalls (self.addIlluminationInvocation cur [] o).2
      = [FFPLighting.illuminationFunction cur.mType self.mSpecularEnable] := by
  unfold FFPLighting.addIlluminationInvocation
  cases cur.mType <;> cases self.mSpecularEnable <;>
    cases tracks self.mTrackVertexColourType TVC_DIFFUSE <;>
    cases tracks self.mTrackVertexColourType TVC_SPECULAR <;>
    simp [callFunction, illuminationCalls, FunctionName.isIllumination,
      FFPLighting.illuminationFunction]

theorem pp_illuminationCalls_slot (self : PerPixelLighting) (cur : LightParams)
    (o : GroupOrder) :
    illuminationCalls (self.addPSIlluminationInvocation cur [] o).2
      = [PerPixelLighting.illuminationFunction cur.mType self.mSpecularEnable] := by
  unfold PerPixelLighting.addPSIlluminationInvocation
  cases cur.mType <;> cases self.mSpecularEnable <;>
    cases tracks self.mTrackVertexColourType TVC_DIFFUSE <;>
    cases tracks self.mTrackVertexColourType TVC_SPECULAR <;>
    simp [callFunction, addAtomInstance, illuminationCalls, FunctionName.isIllumination,
      PerPixelLighting.illuminationFunction]

theorem illuminationCalls_append (a b : List FunctionInvocation) :
    illuminationCalls (a ++ b) = illuminationCalls a ++ illuminationCalls b := by
  simp [illuminationCalls]

theorem illuminationCalls_join (f : LightParams → List FunctionInvocation)
    (g : LightParams → FunctionName) (h : ∀ cur, illuminationCalls (f cur) = [g cur])
    (list : LightParamsList) :
    illuminationCalls (list.map f).flatten = list.map g := by
  induction list with
  | nil => simp [illuminationCalls]
  | cons cur rest ih => simp [illuminationCalls_append, h, ih]

theorem ffp_illuminationCalls_global (self : FFPLighting) (o : GroupOrder) :
    illuminationCalls (self.addGlobalIlluminationInvocation [] o).2 = [] := by
  unfold FFPLighting.addGlobalIlluminationInvocation
  cases tracks self.mTrackVertexColourType TVC_AMBIENT <;>
    cases tracks self.mTrackVertexColourType TVC_EMISSIVE <;>
    simp [assign, callFunction, illuminationCalls, FunctionName.isIllumination]

theorem pp_illuminationCalls_global (self : PerPixelLighting) (o : GroupOrder) :
    illuminationCalls (self.addPSGlobalIlluminationInvocation [] o).2 = [] := by
  unfold PerPixelLighting.addPSGlobalIlluminationInvocation
  cases self.mSpecularEnable <;>
    cases tracks self.mTrackVertexColourType TVC_AMBIENT <;>
    cases tracks self.mTrackVertexColourType TVC_EMISSIVE <;>
    simp [assign, callFunction, illuminationCalls, FunctionName.isIllumination]

theorem PerPixelLighting.illuminationCalls_final (self : PerPixelLighting) (o : GroupOrder) :
    illuminationCalls (self.addPSFinalAssignmentInvocation [] o).2 = [] := by
  unfold PerPixelLighting.addPSFinalAssignmentInvocation
  cases self.mSpecularEnable <;>
    simp [assign, callFunction, illuminationCalls, FunctionName.isIllumination]

/-- C3: the per-light assembler of either model appends, for every slot and on
top of any atoms, exactly one library illumination call; its function is the
entry of the six-way table at (slot light type, specularEnable), whatever the
tracking mask is; and the illumination calls appended by
`addFunctionInvocations` are, slot by slot, those table entries, so there are
as many as slots. -/
theorem C3_six_way_dispatch {σ : Type} :
    (∀ (self : FFPLighting) (cur : LightParams) (main : List FunctionInvocation) (o : GroupOrder),
        illuminationCalls ((self.addIlluminationInvocation cur main o).2.drop main.length)
          = [FFPLighting.illuminationFunction cur.mType self.mSpecularEnable])
    ∧ (∀ (self : PerPixelLighting) (cur : LightParams) (main : List FunctionInvocation)
        (o : GroupOrder),
        illuminationCalls ((self.addPSIlluminationInvocation cur main o).2.drop main.length)
          = [PerPixelLighting.illuminationFunction cur.mType self.mSpecularEnable])
    ∧ (∀ (self : FFPLighting) (ps : ProgramSet σ),
        illuminationCalls ((self.addFunctionInvocations ps).2.vsMainAtoms.drop ps.vsMainAtoms.length)
          = self.mLightParamsList.map
              (fun cur => FFPLighting.illuminationFunction cur.mType self.mSpecularEnable)
        ∧ (illuminationCalls
            ((self.addFunctionInvocations ps).2.vsMainAtoms.drop ps.vsMainAtoms.length)).length
          = self.mLightParamsList.length)
    ∧ (∀ (self : PerPixelLighting) (ps : ProgramSet σ),
        illuminationCalls ((self.addFunctionInvocations ps).2.psMainAtoms.drop ps.psMainAtoms.length)
          = self.mLightParamsList.map
              (fun cur => PerPixelLighting.illuminationFunction cur.mType self.mSpecularEnable)
        ∧ (illuminationCalls
            ((self.addFunctionInvocations ps).2.psMainAtoms.drop ps.psMainAtoms.length)).length
          = self.mLightParamsList.length) := by
  refine ⟨?_, ?_, ?_, ?_⟩
  · intro self cur main o
    rw [FFPLighting.addIlluminationInvocation_append]
    simp [ffp_illuminationCalls_slot]
  · intro self cur main o
    rw [PerPixelLighting.addPSIlluminationInvocation_append]
    simp [pp_illuminationCalls_slot]
  · intro self ps
    have h : illuminationCalls
        ((self.addFunctionInvocations ps).2.vsMainAtoms.drop ps.vsMainAtoms.length)
        = self.mLightParamsList.map
            (fun cur => FFPLighting.illuminationFunction cur.mType self.mSpecularEnable) := by
      rw [ffp_addFunctionInvocations_eq]
      simp only [List.append_assoc, List.drop_left, illuminationCalls_append,
        ffp_illuminationCalls_global, List.nil_append]
      exact illuminationCalls_join _ _ (fun cur => ffp_illuminationCalls_slot self cur _) _
    exact ⟨h, by rw [h, List.length_map]⟩
  · intro self ps
    have h : illuminationCalls
        ((self.addFunctionInvocations ps).2.psMainAtoms.drop ps.psMainAtoms.length)
        = self.mLightParamsList.map
            (fun cur => PerPixelLighting.illuminationFunction cur.mType self.mSpecularEnable) := by
      rw [pp_addFunctionInvocations_eq]
      simp only [List.append_assoc, List.drop_left, illuminationCalls_append,
        pp_illuminationCalls_global, PerPixelLighting.illuminationCalls_final,
        List.nil_append, List.append_nil]
      exact illuminationCalls_join _ _ (fun cur => pp_illuminationCalls_slot self cur _) _
    exact ⟨h, by rw [h, List.length_map]⟩

/-- C4: the sequence `addFunctionInvocations` appends to the lighting stage is
the global-illumination invocations, then the invocations of slot 0, of slot 1,
and so on in slot-list order, and, in the per-pixel model, the final write-back
assignments after them; the method returns true. -/
theorem C4_invocation_order {σ : Type} :
    (∀ (self : FFPLighting) (ps : ProgramSet σ),
        (self.addFunctionInvocations ps).1 = true
        ∧ (self.addFunctionInvocations ps).2.vsMainAtoms
          = ps.vsMainAtoms
            ++ (self.addGlobalIlluminationInvocation [] GroupOrder.FFP_VS_LIGHTING).2
            ++ (self.mLightParamsList.map (fun cur =>
                (self.addIlluminationInvocation cur [] GroupOrder.FFP_VS_LIGHTING).2)).flatten)
    ∧ (∀ (self : PerPixelLighting) (ps : ProgramSet σ),
        (self.addFunctionInvocations ps).1 = true
        ∧ (self.addFunctionInvocations ps).2.psMainAtoms
          = ps.psMainAtoms
            ++ (self.addPSGlobalIlluminationInvocation []
                (GroupOrder.FFP_PS_COLOUR_BEGIN_plus 1)).2
            ++ (self.mLightParamsList.map (fun cur =>
                (self.addPSIlluminationInvocation cur []
                  (GroupOrder.FFP_PS_COLOUR_BEGIN_plus 1)).2)).flatten
            ++ (self.addPSFinalAssignmentInvocation []
                (GroupOrder.FFP_PS_COLOUR_BEGIN_plus 1)).2) := by
  constructor
  · intro self ps
    rw [ffp_addFunctionInvocations_eq]
    exact ⟨rfl, rfl⟩
  · intro self ps
    rw [pp_addFunctionInvocations_eq]
    exact ⟨rfl, rfl⟩

/-! ### Runtime updater: the search and the matching -/


theorem searchLight_some {t : LightTypes} {l : List Light} {j k : Nat}
    (h : searchLight t l j = some k) :
    ∃ i, k = j + i ∧ (∃ light, l[i]? = some light ∧ light.getType = t)
      ∧ (∀ m, m < i → ∀ light, l[m]? = some light → light.getType ≠ t)
      ∧ countType t (l.drop (i + 1)) + 1 = countType t l := by
  induction l generalizing j with
  | nil => simp [searchLight] at h
  | cons a rest ih =>
    unfold searchLight at h
    split at h
    · rename_i ha
      cases h
      refine ⟨0, rfl, ⟨a, by simp, ha⟩, by simp, ?_⟩
      simp [countType, ha]
    · rename_i ha
      obtain ⟨i, hk, ⟨light, hl, ht⟩, hm, hc⟩ := ih h
      refine ⟨i + 1, by omega, ⟨light, by simpa using hl, ht⟩, ?_, ?_⟩
      · intro m hmi light hlm
        cases m with
        | zero => simp at hlm; subst hlm; exact ha
        | succ m => exact hm m (by omega) light (by simpa using hlm)
      · simp only [List.drop_succ_cons]
        rw [hc]
        simp [countType, ha]

theorem searchLight_none {t : LightTypes} {l : List Light} {j : Nat}
    (h : searchLight t l j = none) : ∀ light ∈ l, light.getType ≠ t := by
  induction l generalizing j with
  | nil => simp
  | cons a rest ih =>
    unfold searchLight at h
    split at h
    · cases h
    · rename_i ha
      intro light hl
      rcases List.mem_cons.1 hl with rfl | hl
      · exact ha
      · exact ih h light hl

theorem searchLight_isSome_of_count {t : LightTypes} {l : List Light} {j : Nat}
    (h : 0 < countType t l) : ∃ k, searchLight t l j = some k := by
  cases hs : searchLight t l j with
  | some k => exact ⟨k, rfl⟩
  | none =>
    have := searchLight_none hs
    have : countType t l = 0 := by
      simp only [countType, List.countP_eq_zero]
      intro a ha
      simpa using this a ha
    omega

theorem grouped_run {t : LightTypes} {rest : List LightTypes} (hg : Grouped (t :: rest))
    {k : Nat} (hk : rest[k]? = some t) : ∀ m, m ≤ k → rest[m]? = some t := by
  induction rest generalizing k with
  | nil => simp at hk
  | cons u rest ih =>
    have hu : u = t := by
      rcases hg.1 with h | h
      · simpa using h
      · exact absurd (List.mem_iff_getElem?.2 ⟨k, hk⟩) h
    subst hu
    intro m hm
    cases m with
    | zero => simp
    | succ m =>
      cases k with
      | zero => omega
      | succ k =>
        simp only [List.getElem?_cons_succ] at hk ⊢
        exact ih hg.2 hk m (by omega)

theorem matchLoop_lower (lights : List Light) :
    ∀ (tys : List LightTypes) (t : LightTypes) (c k s b : Nat),
      (∀ m, m ≤ k → tys[m]? = some t) →
      (matchLoop lights tys t c)[k]? = some (s, some b) → c ≤ b := by
  intro tys
  induction tys with
  | nil => intro t c k s b _ h; simp [matchLoop] at h
  | cons ty rest ih =>
    intro t c k s b hpre h
    have hty : ty = t := by simpa using hpre 0 (Nat.zero_le _)
    subst hty
    simp only [matchLoop, ne_eq, not_true_eq_false, ↓reduceIte] at h
    cases k with
    | zero =>
      simp only [List.getElem?_cons_zero, Option.some.injEq, Prod.mk.injEq] at h
      obtain ⟨i, hi, -⟩ := searchLight_some h.2
      omega
    | succ k =>
      simp only [List.getElem?_cons_succ] at h
      have hrest : ∀ m, m ≤ k → rest[m]? = some ty := fun m hm => by
        simpa using hpre (m + 1) (by omega)
      have := ih ty _ k s b hrest h
      cases hs : searchLight ty (List.drop c lights) c with
      | none => simpa [hs] using this
      | some j =>
        obtain ⟨i, hi, -⟩ := searchLight_some hs
        simp only [hs] at this
        omega

theorem matchLoop_increasing (lights : List Light) :
    ∀ (tys : List LightTypes) (t : LightTypes) (c i k si sk a b : Nat) (T : LightTypes),
      Grouped tys → i < k → tys[i]? = some T → tys[k]? = some T →
      (matchLoop lights tys t c)[i]? = some (si, some a) →
      (matchLoop lights tys t c)[k]? = some (sk, some b) → a < b := by
  intro tys
  induction tys with
  | nil => intro t c i k si sk a b T _ _ h; simp at h
  | cons ty rest ih =>
    intro t c i k si sk a b T hg hik hi hk hri hrk
    cases k with
    | zero => omega
    | succ k =>
      simp only [matchLoop, List.getElem?_cons_succ] at hrk hk
      cases i with
      | zero =>
        simp only [matchLoop, List.getElem?_cons_zero, Option.some.injEq, Prod.mk.injEq] at hri hi
        subst hi
        rw [hri.2] at hrk
        have := matchLoop_lower lights rest ty (a + 1) k sk b (grouped_run hg hk) hrk
        omega
      | succ i =>
        simp only [matchLoop, List.getElem?_cons_succ] at hri hi
        exact ih _ _ i k si sk a b T hg.2 (by omega) hi hk hri hrk

theorem countType_drop_le (T : LightTypes) (lights : List Light) (n : Nat) :
    countType T (lights.drop n) ≤ countType T lights :=
  (List.drop_sublist n lights).countP_le _

theorem matchLoop_all (lights : List Light) :
    ∀ (tys : List LightTypes) (t : LightTypes) (c : Nat),
      Grouped tys → (c = 0 ∨ tys.head? = some t ∨ t ∉ tys) →
      (∀ T, tys.count T ≤ countType T (if T = t then lights.drop c else lights)) →
      List.Forall₂
        (fun ty e => ∃ j light, e.2 = some j ∧ lights[j]? = some light ∧ light.getType = ty)
        tys (matchLoop lights tys t c) := by
  intro tys
  induction tys with
  | nil => intro t c _ _ _; simp [matchLoop]
  | cons ty rest ih =>
    intro t c hg hc hcount
    have hstart : (ty :: rest).count ty
        ≤ countType ty (lights.drop (if t ≠ ty then 0 else c)) := by
      by_cases h : t = ty
      · subst h; simpa using hcount t
      · have := hcount ty
        simp only [ne_eq, h, not_false_eq_true, ↓reduceIte, List.drop_zero]
        simpa [Ne.symm h] using this
    have hpos : 0 < countType ty (lights.drop (if t ≠ ty then 0 else c)) := by
      have : 0 < (ty :: rest).count ty := by simp
      omega
    obtain ⟨j, hj⟩ := searchLight_isSome_of_count (j := if t ≠ ty then 0 else c) hpos
    obtain ⟨i, hji, ⟨light, hl, hlt⟩, -, hcnt⟩ := searchLight_some hj
    simp only [matchLoop, hj]
    refine List.Forall₂.cons ⟨j, light, rfl, ?_, hlt⟩ ?_
    · rw [List.getElem?_drop] at hl
      rw [hji]; exact hl
    · apply ih ty (j + 1) hg.2 (Or.inr hg.1)
      intro T
      by_cases hT : T = ty
      · subst hT
        simp only [↓reduceIte]
        rw [List.drop_drop] at hcnt
        have e : (if t ≠ T then 0 else c) + (i + 1) = j + 1 := by omega
        rw [e] at hcnt
        simp only [List.count_cons_self] at hstart
        omega
      · simp only [hT, ↓reduceIte]
        have h1 : rest.count T = (ty :: rest).count T := by
          simp [List.count_cons, Ne.symm hT]
        have h2 := hcount T
        rw [h1]
        refine le_trans h2 ?_
        split
        · exact countType_drop_le _ _ _
        · exact le_refl _

theorem FFPLighting.updateLoop_spec (self : FFPLighting) (pass : Pass)
    (source : AutoParamDataSource) (blank : Light) (pl : Option (List Light)) :
    ∀ (slots : LightParamsList) (t : LightTypes) (c : Nat) (res : List SlotUpdate),
      FFPLighting.updateLoop self pass source blank pl slots t c = some res →
      res.map (fun u => (u.searchFrom, u.srcIndex))
          = matchLoop (pl.getD []) (slots.map (fun p => p.mType)) t c
        ∧ List.Forall₂
            (SlotUpdate.writesOf self.mTrackVertexColourType self.mSpecularEnable pass source
              (pl.getD []) blank) slots res := by
  intro slots
  induction slots with
  | nil =>
    intro t c res h
    simp only [FFPLighting.updateLoop, Option.some.injEq] at h
    subst h
    simp [matchLoop]
  | cons cur rest ih =>
    intro t c res h
    have hty : (if t ≠ cur.mType then cur.mType else t) = cur.mType := by
      split
      · rfl
      · rename_i hne; simpa using hne
    simp only [FFPLighting.updateLoop, hty, Option.bind_eq_bind, Option.pure_def,
      Option.bind_eq_some, Option.some.injEq] at h
    obtain ⟨w1, hw1, w2, hw2, more, hmore, rfl⟩ := h
    obtain ⟨h1, h2⟩ := ih _ _ _ hmore
    refine ⟨?_, List.Forall₂.cons ⟨w1, w2, ?_, ?_, rfl⟩ h2⟩
    · simp only [List.map_cons, matchLoop, h1]
    · simpa [SlotUpdate.srcLight] using hw1
    · simpa [SlotUpdate.srcLight] using hw2

theorem PerPixelLighting.updateLoop_eq (self : PerPixelLighting) (a : FFPLighting)
    (htvc : a.mTrackVertexColourType = self.mTrackVertexColourType)
    (hspec : a.mSpecularEnable = self.mSpecularEnable) (pass : Pass)
    (source : AutoParamDataSource) (blank : Light) (lights : List Light) :
    ∀ (slots : LightParamsList) (t : LightTypes) (c : Nat),
      PerPixelLighting.updateLoop self pass source blank (some lights) slots t c
        = FFPLighting.updateLoop a pass source blank (some lights) slots t c := by
  intro slots
  induction slots with
  | nil => intro t c; simp [PerPixelLighting.updateLoop, FFPLighting.updateLoop]
  | cons cur rest ih =>
    intro t c
    simp only [PerPixelLighting.updateLoop, FFPLighting.updateLoop, ih, Option.getD_some, htvc,
      hspec]

theorem updateLightType_isSome (source : AutoParamDataSource) (spec : Bool) (slot : LightParams)
    (L : Light) (h : slot.resolved spec) : ∃ w, updateLightType source slot L = some w := by
  unfold LightParams.resolved LightParams.populated at h
  unfold updateLightType
  cases hT : slot.mType <;> simp only [hT] at h ⊢
  · obtain ⟨a, ha⟩ := Option.ne_none_iff_exists'.1 (h slot.mPosition (by simp))
    obtain ⟨b, hb⟩ := Option.ne_none_iff_exists'.1 (h slot.mAttenuatParams (by simp))
    simp [setGpuParameter, ha, hb]
  · obtain ⟨a, ha⟩ := Option.ne_none_iff_exists'.1 (h slot.mDirection (by simp))
    simp [setGpuParameter, ha]
  · obtain ⟨a, ha⟩ := Option.ne_none_iff_exists'.1 (h slot.mPosition (by simp))
    obtain ⟨b, hb⟩ := Option.ne_none_iff_exists'.1 (h slot.mDirection (by simp))
    obtain ⟨c, hc⟩ := Option.ne_none_iff_exists'.1 (h slot.mAttenuatParams (by simp))
    obtain ⟨d, hd⟩ := Option.ne_none_iff_exists'.1 (h slot.mSpotParams (by simp))
    simp [setGpuParameter, ha, hb, hc, hd]

theorem updateLightColours_isSome (tvc : Nat) (spec : Bool) (pass : Pass) (slot : LightParams)
    (L : Light) (h : slot.resolved spec) :
    ∃ w, updateLightColours tvc spec pass slot L = some w := by
  unfold LightParams.resolved LightParams.populated at h
  unfold updateLightColours
  obtain ⟨a, ha⟩ := Option.ne_none_iff_exists'.1 (h slot.mDiffuseColour (by simp))
  cases spec
  · simp only [setGpuParameter, ha, Option.map_some', Option.bind_eq_bind, Option.pure_def,
      Bool.false_eq_true, ↓reduceIte]
    split <;> exact ⟨_, rfl⟩
  · obtain ⟨b, hb⟩ := Option.ne_none_iff_exists'.1 (h slot.mSpecularColour (by simp))
    simp only [setGpuParameter, ha, hb, Option.map_some', Option.bind_eq_bind, Option.pure_def,
      ↓reduceIte]
    split <;> split <;> exact ⟨_, rfl⟩

theorem FFPLighting.updateLoop_isSome (self : FFPLighting) (pass : Pass)
    (source : AutoParamDataSource) (blank : Light) (pl : Option (List Light)) :
    ∀ (slots : LightParamsList) (t : LightTypes) (c : Nat),
      (∀ slot ∈ slots, slot.resolved self.mSpecularEnable) →
      ∃ res, FFPLighting.updateLoop self pass source blank pl slots t c = some res := by
  intro slots
  induction slots with
  | nil => intro t c _; exact ⟨[], rfl⟩
  | cons cur rest ih =>
    intro t c h
    have hcur := h cur (List.mem_cons_self _ _)
    have hT := fun L => updateLightType_isSome source _ cur L hcur
    have hC := fun L => updateLightColours_isSome self.mTrackVertexColourType _ pass cur L hcur
    have hR := fun t c => ih t c (fun slot hs => h slot (List.mem_cons_of_mem _ hs))
    cases hres : FFPLighting.updateLoop self pass source blank pl (cur :: rest) t c with
    | some res => exact ⟨res, rfl⟩
    | none =>
      exfalso
      simp only [FFPLighting.updateLoop, Option.bind_eq_bind, Option.pure_def,
        Option.bind_eq_none, reduceCtorEq, imp_false] at hres
      exact hres _ (hT _).choose_spec _ (hC _).choose_spec _ (hR _ _).choose_spec


theorem forall₂_getElem? {α β : Type} {R : α → β → Prop} {l1 : List α} {l2 : List β}
    (h : List.Forall₂ R l1 l2) {k : Nat} {a : α} {b : β} (ha : l1[k]? = some a)
    (hb : l2[k]? = some b) : R a b := by
  induction h generalizing k with
  | nil => simp at ha
  | cons hr _ ih =>
    cases k with
    | zero =>
      simp only [List.getElem?_cons_zero, Option.some.injEq] at ha hb
      subst ha; subst hb; exact hr
    | succ k => exact ih (by simpa using ha) (by simpa using hb)

theorem matchLoop_entry (lights : List Light) :
    ∀ (tys : List LightTypes) (t : LightTypes) (c k : Nat) (ty : LightTypes) (e : Nat × Option Nat),
      tys[k]? = some ty → (matchLoop lights tys t c)[k]? = some e →
      e.2 = searchLight ty (lights.drop e.1) e.1 := by
  intro tys
  induction tys with
  | nil => intro t c k ty e h; simp at h
  | cons u rest ih =>
    intro t c k ty e hty he
    cases k with
    | zero =>
      simp only [List.getElem?_cons_zero, Option.some.injEq, matchLoop] at hty he
      subst hty; subst he; rfl
    | succ k =>
      simp only [List.getElem?_cons_succ, matchLoop] at hty he
      exact ih _ _ k ty e hty he

theorem searchLight_eq_none_of_absent {t : LightTypes} {lights : List Light} {s : Nat}
    (h : ∀ j light, s ≤ j → lights[j]? = some light → light.getType ≠ t) :
    searchLight t (lights.drop s) s = none := by
  cases hs : searchLight t (lights.drop s) s with
  | none => rfl
  | some k =>
    obtain ⟨i, -, ⟨light, hl, hlt⟩, -⟩ := searchLight_some hs
    rw [List.getElem?_drop] at hl
    exact absurd hlt (h (s + i) light (by omega) hl)

theorem blankColour (c : ColourValue) (f : Real) (hc : c.hasFiniteRGB = true)
    (hf : f.isFinite = true) :
    ∃ alpha, (ColourValue.Black.mul c).scale f = { r := 0, g := 0, b := 0, a := alpha } := by
  obtain ⟨r, g, b, hc⟩ := (ColourValue.hasFiniteRGB_iff c).1 hc
  obtain ⟨q, rfl⟩ := (Real.isFinite_iff f).1 hf
  refine ⟨1 * c.a * Real.finite q, ?_⟩
  rw [hc]
  simp [ColourValue.mul, ColourValue.scale, ColourValue.Black]

theorem blankColour_scale (f : Real) (hf : f.isFinite = true) :
    ∃ alpha, ColourValue.Black.scale f = { r := 0, g := 0, b := 0, a := alpha } := by
  obtain ⟨q, rfl⟩ := (Real.isFinite_iff f).1 hf
  exact ⟨1 * Real.finite q, by simp [ColourValue.scale, ColourValue.Black]⟩

theorem updateLightType_blank (source : AutoParamDataSource) (init : Light) (slot : LightParams)
    (w1 : List GpuWrite) (h1 : updateLightType source slot (msBlankLight init) = some w1) :
    (∀ w ∈ w1, w.field = LightParamsField.mAttenuatParams →
        w.value = GpuValue.vector4 { x := 0, y := 1, z := 0, w := 0 })
    ∧ (∀ w ∈ w1, w.field ≠ LightParamsField.mDiffuseColour
        ∧ w.field ≠ LightParamsField.mSpecularColour)
    ∧ (slot.mType ≠ LightTypes.LT_DIRECTIONAL →
        ∃ w ∈ w1, w.field = LightParamsField.mAttenuatParams) := by
  unfold updateLightType at h1
  cases hT : slot.mType <;>
    simp only [hT, setGpuParameter, Option.bind_eq_bind, Option.pure_def, Option.bind_eq_some,
      Option.map_eq_some', Option.some.injEq] at h1
  · obtain ⟨_, ⟨a, -, rfl⟩, _, ⟨b, -, rfl⟩, rfl⟩ := h1
    simp [attenuationOf, msBlankLight]
  · obtain ⟨_, ⟨a, -, rfl⟩, rfl⟩ := h1
    simp
  · obtain ⟨_, ⟨a, -, rfl⟩, _, ⟨b, -, rfl⟩, _, ⟨c, -, rfl⟩, _, ⟨d, -, rfl⟩, rfl⟩ := h1
    simp [attenuationOf, msBlankLight]

theorem updateLightColours_fields (tvc : Nat) (spec : Bool) (pass : Pass) (L : Light)
    (slot : LightParams) (w2 : List GpuWrite)
    (h2 : updateLightColours tvc spec pass slot L = some w2) :
    (∀ w ∈ w2, w.field ≠ LightParamsField.mAttenuatParams)
    ∧ (∃ w ∈ w2, w.field = LightParamsField.mDiffuseColour)
    ∧ (spec = true → ∃ w ∈ w2, w.field = LightParamsField.mSpecularColour) := by
  unfold updateLightColours at h2
  cases spec <;> cases hD : tracks tvc TVC_DIFFUSE <;> cases hS : tracks tvc TVC_SPECULAR <;>
    simp only [hD, hS, setGpuParameter, Option.bind_eq_bind, Option.pure_def, Option.bind_eq_some,
      Option.map_eq_some', Option.some.injEq, Bool.false_eq_true, Bool.true_eq_false,
      ↓reduceIte] at h2
  all_goals first
    | (obtain ⟨_, ⟨a, -, rfl⟩, rfl⟩ := h2
       simp)
    | (obtain ⟨_, ⟨a, -, rfl⟩, _, ⟨b, -, rfl⟩, rfl⟩ := h2
       simp)

theorem updateLightColours_blank (tvc : Nat) (spec : Bool) (pass : Pass) (init : Light)
    (slot : LightParams) (w2 : List GpuWrite)
    (h2 : updateLightColours tvc spec pass slot (msBlankLight init) = some w2)
    (hfin : finiteColourFactors tvc spec pass (msBlankLight init) = true) :
    (∀ w ∈ w2, w.field = LightParamsField.mDiffuseColour →
        ∃ alpha, w.value = GpuValue.colour { r := 0, g := 0, b := 0, a := alpha })
    ∧ (∀ w ∈ w2, w.field = LightParamsField.mSpecularColour →
        ∃ alpha, w.value = GpuValue.colour { r := 0, g := 0, b := 0, a := alpha }) := by
  unfold updateLightColours at h2
  simp only [finiteColourFactors, Bool.and_eq_true, Bool.or_eq_true, Bool.not_eq_true']
    at hfin
  obtain ⟨⟨hf, hdif⟩, hsp⟩ := hfin
  have hb1 : tracks tvc TVC_DIFFUSE = false →
      ∃ alpha, (ColourValue.Black.mul pass.getDiffuse).scale (msBlankLight init).getPowerScale
        = { r := 0, g := 0, b := 0, a := alpha } := by
    intro hD
    rw [hD] at hdif
    exact blankColour _ _ (by simpa using hdif) hf
  have hb2 := blankColour_scale (msBlankLight init).getPowerScale hf
  have hb3 : spec = true → tracks tvc TVC_SPECULAR = false →
      ∃ alpha, (ColourValue.Black.mul pass.getSpecular).scale (msBlankLight init).getPowerScale
        = { r := 0, g := 0, b := 0, a := alpha } := by
    intro hsE hS
    rw [hsE, hS] at hsp
    exact blankColour _ _ (by simpa using hsp) hf
  have hd : (msBlankLight init).getDiffuseColour = ColourValue.Black := rfl
  have hs : (msBlankLight init).getSpecularColour = ColourValue.Black := rfl
  rw [hd, hs] at h2
  clear hdif hsp
  cases spec <;> cases hD : tracks tvc TVC_DIFFUSE <;> cases hS : tracks tvc TVC_SPECULAR <;>
    simp only [hD, hS, setGpuParameter, Option.bind_eq_bind, Option.pure_def, Option.bind_eq_some,
      Option.map_eq_some', Option.some.injEq, Bool.false_eq_true, Bool.true_eq_false,
      ↓reduceIte] at h2 <;>
    simp only [hD, hS, Bool.false_eq_true, Bool.true_eq_false, forall_const,
      false_implies, true_implies, implies_true] at hb1 hb3
  all_goals first
    | (obtain ⟨_, ⟨a, -, rfl⟩, rfl⟩ := h2
       simp [-Real.ofNat_eq_finite, *])
    | (obtain ⟨_, ⟨a, -, rfl⟩, _, ⟨b, -, rfl⟩, rfl⟩ := h2
       simp [-Real.ofNat_eq_finite, *])

theorem blankAttenuation_of_writes (tvc : Nat) (spec : Bool) (pass : Pass)
    (source : AutoParamDataSource) (init : Light) (slot : LightParams) (u : SlotUpdate)
    (w1 w2 : List GpuWrite)
    (h1 : updateLightType source slot (msBlankLight init) = some w1)
    (h2 : updateLightColours tvc spec pass slot (msBlankLight init) = some w2)
    (hu : u.writes = w1 ++ w2) : u.blankAttenuation slot := by
  obtain ⟨a1, -, a3⟩ := updateLightType_blank source init slot w1 h1
  obtain ⟨b1, -, -⟩ := updateLightColours_fields tvc spec pass _ slot w2 h2
  unfold SlotUpdate.blankAttenuation
  rw [hu]
  refine ⟨?_, ?_⟩
  · intro w hw hf
    rcases List.mem_append.1 hw with h | h
    · exact a1 w h hf
    · exact absurd hf (b1 w h)
  · intro hT
    obtain ⟨w, hw, hf⟩ := a3 hT
    exact ⟨w, List.mem_append_left _ hw, hf⟩

theorem blankValues_of_writes (tvc : Nat) (spec : Bool) (pass : Pass)
    (source : AutoParamDataSource) (init : Light) (slot : LightParams) (u : SlotUpdate)
    (w1 w2 : List GpuWrite)
    (h1 : updateLightType source slot (msBlankLight init) = some w1)
    (h2 : updateLightColours tvc spec pass slot (msBlankLight init) = some w2)
    (hu : u.writes = w1 ++ w2)
    (hfin : finiteColourFactors tvc spec pass (msBlankLight init) = true) :
    u.blankValues spec slot := by
  obtain ⟨a1, a2, a3⟩ := updateLightType_blank source init slot w1 h1
  obtain ⟨b1, b4, b5⟩ := updateLightColours_fields tvc spec pass _ slot w2 h2
  obtain ⟨b2, b3⟩ := updateLightColours_blank tvc spec pass init slot w2 h2 hfin
  unfold SlotUpdate.blankValues
  rw [hu]
  refine ⟨?_, ?_, ?_, ?_, ?_, ?_⟩
  · intro w hw hf
    rcases List.mem_append.1 hw with h | h
    · exact a1 w h hf
    · exact absurd hf (b1 w h)
  · intro w hw hf
    rcases List.mem_append.1 hw with h | h
    · exact absurd hf (a2 w h).1
    · exact b2 w h hf
  · intro w hw hf
    rcases List.mem_append.1 hw with h | h
    · exact absurd hf (a2 w h).2
    · exact b3 w h hf
  · intro hT
    obtain ⟨w, hw, hf⟩ := a3 hT
    exact ⟨w, List.mem_append_left _ hw, hf⟩
  · obtain ⟨w, hw, hf⟩ := b4
    exact ⟨w, List.mem_append_right _ hw, hf⟩
  · intro hs
    obtain ⟨w, hw, hf⟩ := b5 hs
    exact ⟨w, List.mem_append_right _ hw, hf⟩


theorem FFPLighting.update_spec (self : FFPLighting) (pass : Pass)
    (source : AutoParamDataSource) (init : Light) (pl : Option (List Light))
    (res : List SlotUpdate) (h : self.updateGpuProgramsParams pass source init pl = some res) :
    res.map (fun u => (u.searchFrom, u.srcIndex))
        = matchLoop (pl.getD []) (self.mLightParamsList.map (fun p => p.mType)) LT_DIRECTIONAL 0
      ∧ List.Forall₂
          (SlotUpdate.writesOf self.mTrackVertexColourType self.mSpecularEnable pass source
            (pl.getD []) (msBlankLight init)) self.mLightParamsList res := by
  unfold FFPLighting.updateGpuProgramsParams at h
  split at h
  · rename_i he
    have : self.mLightParamsList = [] := by simpa using he
    simp only [Option.some.injEq] at h
    subst h
    simp [this, matchLoop]
  · exact FFPLighting.updateLoop_spec self pass source _ pl _ _ _ _ h

theorem PerPixelLighting.update_eq (self : PerPixelLighting) (pass : Pass)
    (source : AutoParamDataSource) (init : Light) (lights : List Light) :
    self.updateGpuProgramsParams pass source init (some lights)
      = FFPLighting.updateGpuProgramsParams
          { mTrackVertexColourType := self.mTrackVertexColourType
            mSpecularEnable := self.mSpecularEnable
            mLightParamsList := self.mLightParamsList }
          pass source init (some lights) := by
  unfold PerPixelLighting.updateGpuProgramsParams FFPLighting.updateGpuProgramsParams
  rw [PerPixelLighting.updateLoop_eq self
    { mTrackVertexColourType := self.mTrackVertexColourType
      mSpecularEnable := self.mSpecularEnable
      mLightParamsList := self.mLightParamsList } rfl rfl]

theorem PerPixelLighting.update_some (self : PerPixelLighting) (pass : Pass)
    (source : AutoParamDataSource) (init : Light) (pl : Option (List Light))
    (res : List SlotUpdate) (h : self.updateGpuProgramsParams pass source init pl = some res) :
    FFPLighting.updateGpuProgramsParams
        { mTrackVertexColourType := self.mTrackVertexColourType
          mSpecularEnable := self.mSpecularEnable
          mLightParamsList := self.mLightParamsList }
        pass source init pl = some res := by
  cases pl with
  | some lights => rw [← PerPixelLighting.update_eq]; exact h
  | none =>
    unfold PerPixelLighting.updateGpuProgramsParams at h
    unfold FFPLighting.updateGpuProgramsParams
    split at h
    · rename_i he
      simp only [he, ↓reduceIte]
      exact h
    · rename_i he
      cases hl : self.mLightParamsList with
      | nil => simp [hl] at he
      | cons cur rest => simp [hl, PerPixelLighting.updateLoop] at h

theorem matchLoop_length (lights : List Light) :
    ∀ (tys : List LightTypes) (t : LightTypes) (c : Nat),
      (matchLoop lights tys t c).length = tys.length := by
  intro tys
  induction tys with
  | nil => intro t c; rfl
  | cons ty rest ih => intro t c; simp [matchLoop, ih]

theorem FFPLighting.update_length (self : FFPLighting) (pass : Pass)
    (source : AutoParamDataSource) (init : Light) (pl : Option (List Light))
    (res : List SlotUpdate) (h : self.updateGpuProgramsParams pass source init pl = some res) :
    res.length = self.mLightParamsList.length := by
  have := congrArg List.length (FFPLighting.update_spec self pass source init pl res h).1
  simpa [matchLoop_length] using this

theorem update_no_reuse (self : FFPLighting) (pass : Pass)
    (source : AutoParamDataSource) (init : Light) (pl : Option (List Light))
    (res : List SlotUpdate)
    (hg : Grouped (self.mLightParamsList.map (fun p => p.mType)))
    (h : self.updateGpuProgramsParams pass source init pl = some res)
    (i k x y : Nat) (hik : i < k)
    (hty : (self.mLightParamsList[i]?).map (fun p => p.mType)
      = (self.mLightParamsList[k]?).map (fun p => p.mType))
    (hx : (res[i]?).bind (fun u => u.srcIndex) = some x)
    (hy : (res[k]?).bind (fun u => u.srcIndex) = some y) : x < y := by
  obtain ⟨hm, -⟩ := FFPLighting.update_spec self pass source init pl res h
  simp only [Option.bind_eq_some] at hx hy
  obtain ⟨ui, hui, hxi⟩ := hx
  obtain ⟨uk, huk, hyk⟩ := hy
  have hi : (matchLoop (pl.getD []) (self.mLightParamsList.map (fun p => p.mType))
      LT_DIRECTIONAL 0)[i]? = some (ui.searchFrom, some x) := by
    rw [← hm, List.getElem?_map, hui, ← hxi]; rfl
  have hk : (matchLoop (pl.getD []) (self.mLightParamsList.map (fun p => p.mType))
      LT_DIRECTIONAL 0)[k]? = some (uk.searchFrom, some y) := by
    rw [← hm, List.getElem?_map, huk, ← hyk]; rfl
  cases hti : self.mLightParamsList[i]? with
  | none =>
    have hlen := FFPLighting.update_length self pass source init pl res h
    have hlt : i < res.length := by
      by_contra hcon
      rw [List.getElem?_eq_none (by omega)] at hui
      cases hui
    have : self.mLightParamsList.length ≤ i := by
      by_contra hcon
      rw [List.getElem?_eq_getElem (by omega)] at hti
      cases hti
    omega
  | some si =>
    rw [hti] at hty
    have hk2 : (self.mLightParamsList.map (fun p => p.mType))[k]? = some si.mType := by
      rw [List.getElem?_map, ← hty]; rfl
    have hi2 : (self.mLightParamsList.map (fun p => p.mType))[i]? = some si.mType := by
      rw [List.getElem?_map, hti]; rfl
    exact matchLoop_increasing _ _ _ _ i k _ _ x y si.mType hg hik hi2 hk2 hi hk


theorem countP_zip_of_forall₂ {α β : Type} {R : α → β → Prop} {l1 : List α} {l2 : List β}
    (h : List.Forall₂ R l1 l2) (q : α × β → Bool) (p : α → Bool)
    (hq : ∀ a b, R a b → q (a, b) = p a) : (l1.zip l2).countP q = l1.countP p := by
  induction h with
  | nil => rfl
  | cons hr _ ih => simp [List.countP_cons, hq _ _ hr, ih]

theorem FFPLighting.update_isSome (self : FFPLighting) (pass : Pass)
    (source : AutoParamDataSource) (init : Light) (pl : Option (List Light))
    (hres : ∀ slot ∈ self.mLightParamsList, slot.resolved self.mSpecularEnable) :
    ∃ res, self.updateGpuProgramsParams pass source init pl = some res := by
  unfold FFPLighting.updateGpuProgramsParams
  split
  · exact ⟨[], rfl⟩
  · exact FFPLighting.updateLoop_isSome self pass source _ pl _ _ _ hres

theorem FFPLighting.update_all_matched (self : FFPLighting) (pass : Pass)
    (source : AutoParamDataSource) (init : Light) (lights : List Light)
    (hg : Grouped (self.mLightParamsList.map (fun p => p.mType)))
    (hcount : ∀ T, (self.mLightParamsList.map (fun p => p.mType)).count T ≤ countType T lights)
    (hres : ∀ slot ∈ self.mLightParamsList, slot.resolved self.mSpecularEnable) :
    ∃ res, self.updateGpuProgramsParams pass source init (some lights) = some res
      ∧ List.Forall₂
          (fun slot u => ∃ j light, u.srcIndex = some j ∧ lights[j]? = some light
            ∧ light.getType = slot.mType) self.mLightParamsList res
      ∧ ∀ T, (self.mLightParamsList.zip res).countP
            (fun p => decide (p.1.mType = T) && p.2.srcIndex.isSome)
          = self.mLightParamsList.countP (fun p => decide (p.mType = T)) := by
  obtain ⟨res, hr⟩ := FFPLighting.update_isSome self pass source init (some lights) hres
  obtain ⟨hm, -⟩ := FFPLighting.update_spec self pass source init _ res hr
  have hall := matchLoop_all lights (self.mLightParamsList.map (fun p => p.mType))
    LT_DIRECTIONAL 0 hg (Or.inl rfl) (fun T => by
      have := hcount T
      split <;> simpa using this)
  simp only [Option.getD_some] at hm
  rw [← hm, List.forall₂_map_left_iff, List.forall₂_map_right_iff] at hall
  refine ⟨res, hr, hall, fun T => ?_⟩
  refine countP_zip_of_forall₂ hall _ _ ?_
  rintro a b ⟨j, light, hj, -, -⟩
  simp only at hj
  simp [hj]

theorem FFPLighting.update_blank (self : FFPLighting) (pass : Pass)
    (source : AutoParamDataSource) (init : Light) (pl : Option (List Light))
    (res : List SlotUpdate) (k : Nat) (slot : LightParams) (u : SlotUpdate)
    (h : self.updateGpuProgramsParams pass source init pl = some res)
    (hslot : self.mLightParamsList[k]? = some slot) (hu : res[k]? = some u)
    (habsent : ∀ j light, u.searchFrom ≤ j → (pl.getD [])[j]? = some light →
      light.getType ≠ slot.mType) :
    u.srcIndex = none ∧ u.blankAttenuation slot
      ∧ (finiteColourFactors self.mTrackVertexColourType self.mSpecularEnable pass
            (msBlankLight init) = true →
          u.blankValues self.mSpecularEnable slot) := by
  obtain ⟨hm, hw⟩ := FFPLighting.update_spec self pass source init pl res h
  have he : (matchLoop (pl.getD []) (self.mLightParamsList.map (fun p => p.mType))
      LT_DIRECTIONAL 0)[k]? = some (u.searchFrom, u.srcIndex) := by
    rw [← hm, List.getElem?_map, hu]; rfl
  have hty : (self.mLightParamsList.map (fun p => p.mType))[k]? = some slot.mType := by
    rw [List.getElem?_map, hslot]; rfl
  have hsrc : u.srcIndex = none := by
    have := matchLoop_entry _ _ _ _ k _ _ hty he
    simp only at this
    rw [this]
    exact searchLight_eq_none_of_absent habsent
  obtain ⟨w1, w2, h1, h2, hwr⟩ := forall₂_getElem? hw hslot hu
  simp only [SlotUpdate.srcLight, hsrc] at h1 h2
  exact ⟨hsrc, blankAttenuation_of_writes _ _ pass source init slot u w1 w2 h1 h2 hwr,
    blankValues_of_writes _ _ pass source init slot u w1 w2 h1 h2 hwr⟩

theorem sampleFFP_update :
    sampleFFP.updateGpuProgramsParams samplePass sampleSource (sampleLight LT_POINT)
        (some [sampleLight LT_POINT, sampleLight LT_POINT])
      = some [{ searchFrom := 0, srcIndex := some 0, writes := samplePointWrites 0 },
              { searchFrom := 1, srcIndex := some 1, writes := samplePointWrites 6 }] := by
  simp [sampleFFP, FFPLighting.updateGpuProgramsParams, FFPLighting.updateLoop, searchLight,
    sampleSlot, sampleLight, samplePass, sampleSource, samplePointWrites, updateLightType,
    updateLightColours, setGpuParameter, attenuationOf, tracks, TVC_NONE, TVC_DIFFUSE,
    ColourValue.mul, ColourValue.scale]

theorem samplePerPixel_update :
    samplePerPixel.updateGpuProgramsParams samplePass sampleSource (sampleLight LT_POINT)
        (some [sampleLight LT_POINT, sampleLight LT_POINT])
      = some [{ searchFrom := 0, srcIndex := some 0, writes := samplePointWrites 0 },
              { searchFrom := 1, srcIndex := some 1, writes := samplePointWrites 6 }] := by
  simp [samplePerPixel, PerPixelLighting.updateGpuProgramsParams, PerPixelLighting.updateLoop,
    searchLight, sampleSlot, sampleLight, samplePass, sampleSource, samplePointWrites,
    updateLightType, updateLightColours, setGpuParameter, attenuationOf, tracks, TVC_NONE,
    TVC_DIFFUSE, ColourValue.mul, ColourValue.scale]

theorem sampleFFP_update_blank :
    sampleFFP.updateGpuProgramsParams samplePass sampleSource (sampleLight LT_POINT)
        (some [sampleLight LT_DIRECTIONAL])
      = some [{ searchFrom := 0, srcIndex := none
                writes := sampleBlankWrites (sampleLight LT_POINT) 0 },
              { searchFrom := 0, srcIndex := none
                writes := sampleBlankWrites (sampleLight LT_POINT) 6 }] := by
  simp [sampleFFP, FFPLighting.updateGpuProgramsParams, FFPLighting.updateLoop, searchLight,
    sampleSlot, sampleLight, samplePass, sampleSource, sampleBlankWrites, updateLightType,
    updateLightColours, setGpuParameter, attenuationOf, tracks, TVC_NONE, TVC_DIFFUSE,
    ColourValue.mul, ColourValue.scale, msBlankLight, ColourValue.Black]

theorem samplePerPixel_update_blank :
    samplePerPixel.updateGpuProgramsParams samplePass sampleSource (sampleLight LT_POINT)
        (some [sampleLight LT_DIRECTIONAL])
      = some [{ searchFrom := 0, srcIndex := none
                writes := sampleBlankWrites (sampleLight LT_POINT) 0 },
              { searchFrom := 0, srcIndex := none
                writes := sampleBlankWrites (sampleLight LT_POINT) 6 }] := by
  simp [samplePerPixel, PerPixelLighting.updateGpuProgramsParams, PerPixelLighting.updateLoop,
    searchLight, sampleSlot, sampleLight, samplePass, sampleSource, sampleBlankWrites,
    updateLightType, updateLightColours, setGpuParameter, attenuationOf, tracks, TVC_NONE,
    TVC_DIFFUSE, ColourValue.mul, ColourValue.scale, msBlankLight, ColourValue.Black]

theorem sampleSlots_resolved :
    ∀ slot ∈ [sampleSlot LT_POINT 0, sampleSlot LT_POINT 6], slot.resolved false := by
  intro slot hs
  simp only [List.mem_cons, List.mem_singleton, List.not_mem_nil, or_false] at hs
  rcases hs with rfl | rfl <;>
    simp [LightParams.resolved, LightParams.populated, sampleSlot]

theorem sampleSlots_count (T : LightTypes) :
    ([sampleSlot LT_POINT 0, sampleSlot LT_POINT 6].map (fun p => p.mType)).count T
      ≤ countType T [sampleLight LT_POINT, sampleLight LT_POINT] := by
  cases T <;> decide

/-- C8: in either model, on a slot list grouped by type, two distinct slots of
the same type that are both matched to real lights of the active-light list are
matched to different positions, the later slot to a strictly later one. -/
theorem C8_no_light_reused (a : FFPLighting) (b : PerPixelLighting) (pass : Pass)
    (source : AutoParamDataSource) (init : Light) (pLightList : Option (List Light))
    (res : List SlotUpdate) (i k x y : Nat) (hik : i < k)
    (hx : (res[i]?).bind (fun u => u.srcIndex) = some x)
    (hy : (res[k]?).bind (fun u => u.srcIndex) = some y) :
    (Grouped (a.mLightParamsList.map (fun p => p.mType)) →
        a.updateGpuProgramsParams pass source init pLightList = some res →
        (a.mLightParamsList[i]?).map (fun p => p.mType)
          = (a.mLightParamsList[k]?).map (fun p => p.mType) →
        x < y)
    ∧ (Grouped (b.mLightParamsList.map (fun p => p.mType)) →
        b.updateGpuProgramsParams pass source init pLightList = some res →
        (b.mLightParamsList[i]?).map (fun p => p.mType)
          = (b.mLightParamsList[k]?).map (fun p => p.mType) →
        x < y) := by
  constructor
  · intro hg h hty
    exact update_no_reuse a pass source init pLightList res hg h i k x y hik hty hx hy
  · intro hg h hty
    exact update_no_reuse _ pass source init pLightList res hg
      (PerPixelLighting.update_some b pass source init pLightList res h) i k x y hik hty hx hy

/-- C8 on two Point slots and two point lights: slot 0 takes light 0 and slot 1
takes light 1. -/
theorem C8_no_light_reused_witness :
    (sampleFFP.updateGpuProgramsParams samplePass sampleSource (sampleLight LT_POINT)
        (some [sampleLight LT_POINT, sampleLight LT_POINT])
      = some [{ searchFrom := 0, srcIndex := some 0, writes := samplePointWrites 0 },
              { searchFrom := 1, srcIndex := some 1, writes := samplePointWrites 6 }]
      ∧ samplePerPixel.updateGpuProgramsParams samplePass sampleSource (sampleLight LT_POINT)
          (some [sampleLight LT_POINT, sampleLight LT_POINT])
        = some [{ searchFrom := 0, srcIndex := some 0, writes := samplePointWrites 0 },
                { searchFrom := 1, srcIndex := some 1, writes := samplePointWrites 6 }])
    ∧ ((0 : Nat) < 1 ∧ (0 : Nat) < 1) :=
  ⟨⟨sampleFFP_update, samplePerPixel_update⟩,
    (C8_no_light_reused sampleFFP samplePerPixel samplePass sampleSource (sampleLight LT_POINT)
      (some [sampleLight LT_POINT, sampleLight LT_POINT])
      [{ searchFrom := 0, srcIndex := some 0, writes := samplePointWrites 0 },
        { searchFrom := 1, srcIndex := some 1, writes := samplePointWrites 6 }]
      0 1 0 1 (by decide) rfl rfl).1 (by decide) sampleFFP_update rfl,
    (C8_no_light_reused sampleFFP samplePerPixel samplePass sampleSource (sampleLight LT_POINT)
      (some [sampleLight LT_POINT, sampleLight LT_POINT])
      [{ searchFrom := 0, srcIndex := some 0, writes := samplePointWrites 0 },
        { searchFrom := 1, srcIndex := some 1, writes := samplePointWrites 6 }]
      0 1 0 1 (by decide) rfl rfl).2 (by decide) samplePerPixel_update rfl⟩

/-- C9: in either model, on a slot list grouped by type whose handles are
resolved, and an active-light list holding for every light type at least as
many lights as there are slots of that type, `updateGpuProgramsParams` returns,
every slot is matched to a light of the list of the slot's own type (never the
blank light), and for every type the number of matched slots equals the number
of slots of that type. -/
theorem C9_all_slots_matched (a : FFPLighting) (b : PerPixelLighting) (pass : Pass)
    (source : AutoParamDataSource) (init : Light) (lights : List Light) :
    (Grouped (a.mLightParamsList.map (fun p => p.mType)) →
        (∀ T, (a.mLightParamsList.map (fun p => p.mType)).count T ≤ countType T lights) →
        (∀ slot ∈ a.mLightParamsList, slot.resolved a.mSpecularEnable) →
        ∃ res, a.updateGpuProgramsParams pass source init (some lights) = some res
          ∧ List.Forall₂
              (fun slot u => ∃ j light, u.srcIndex = some j ∧ lights[j]? = some light
                ∧ light.getType = slot.mType) a.mLightParamsList res
          ∧ ∀ T, (a.mLightParamsList.zip res).countP
                (fun p => decide (p.1.mType = T) && p.2.srcIndex.isSome)
              = a.mLightParamsList.countP (fun p => decide (p.mType = T)))
    ∧ (Grouped (b.mLightParamsList.map (fun p => p.mType)) →
        (∀ T, (b.mLightParamsList.map (fun p => p.mType)).count T ≤ countType T lights) →
        (∀ slot ∈ b.mLightParamsList, slot.resolved b.mSpecularEnable) →
        ∃ res, b.updateGpuProgramsParams pass source init (some lights) = some res
          ∧ List.Forall₂
              (fun slot u => ∃ j light, u.srcIndex = some j ∧ lights[j]? = some light
                ∧ light.getType = slot.mType) b.mLightParamsList res
          ∧ ∀ T, (b.mLightParamsList.zip res).countP
                (fun p => decide (p.1.mType = T) && p.2.srcIndex.isSome)
              = b.mLightParamsList.countP (fun p => decide (p.mType = T))) := by
  constructor
  · intro hg hcount hres
    exact FFPLighting.update_all_matched a pass source init lights hg hcount hres
  · intro hg hcount hres
    rw [PerPixelLighting.update_eq]
    exact FFPLighting.update_all_matched
      { mTrackVertexColourType := b.mTrackVertexColourType
        mSpecularEnable := b.mSpecularEnable
        mLightParamsList := b.mLightParamsList } pass source init lights hg hcount hres

/-- C9 on two Point slots and two point lights. -/
theorem C9_all_slots_matched_witness :
    (Grouped (sampleFFP.mLightParamsList.map (fun p => p.mType))
      ∧ Grouped (samplePerPixel.mLightParamsList.map (fun p => p.mType)))
    ∧ (∃ res, sampleFFP.updateGpuProgramsParams samplePass sampleSource (sampleLight LT_POINT)
          (some [sampleLight LT_POINT, sampleLight LT_POINT]) = some res
        ∧ List.Forall₂
            (fun slot u => ∃ j light, u.srcIndex = some j
              ∧ [sampleLight LT_POINT, sampleLight LT_POINT][j]? = some light
              ∧ light.getType = slot.mType) sampleFFP.mLightParamsList res
        ∧ ∀ T, (sampleFFP.mLightParamsList.zip res).countP
              (fun p => decide (p.1.mType = T) && p.2.srcIndex.isSome)
            = sampleFFP.mLightParamsList.countP (fun p => decide (p.mType = T)))
    ∧ (∃ res, samplePerPixel.updateGpuProgramsParams samplePass sampleSource
          (sampleLight LT_POINT) (some [sampleLight LT_POINT, sampleLight LT_POINT]) = some res
        ∧ List.Forall₂
            (fun slot u => ∃ j light, u.srcIndex = some j
              ∧ [sampleLight LT_POINT, sampleLight LT_POINT][j]? = some light
              ∧ light.getType = slot.mType) samplePerPixel.mLightParamsList res
        ∧ ∀ T, (samplePerPixel.mLightParamsList.zip res).countP
              (fun p => decide (p.1.mType = T) && p.2.srcIndex.isSome)
            = samplePerPixel.mLightParamsList.countP (fun p => decide (p.mType = T))) :=
  ⟨⟨by decide, by decide⟩,
    (C9_all_slots_matched sampleFFP samplePerPixel samplePass sampleSource (sampleLight LT_POINT)
      [sampleLight LT_POINT, sampleLight LT_POINT]).1 (by decide) sampleSlots_count
      sampleSlots_resolved,
    (C9_all_slots_matched sampleFFP samplePerPixel samplePass sampleSource (sampleLight LT_POINT)
      [sampleLight LT_POINT, sampleLight LT_POINT]).2 (by decide) sampleSlots_count
      sampleSlots_resolved⟩

/-- C10 (counterexample): on a pass whose diffuse colour has an infinite red
component, with two Point slots and a light list holding one directional light,
both models write slot 1 from the blank light, no light of its type being in
the list, and the red of the diffuse colour written is the float product
`0 * inf * 1`: a NaN, which is not 0. -/
theorem C10_infinite_pass_colour_written_as_nan :
    (sampleFFP.updateGpuProgramsParams sampleInfinitePass sampleSource (sampleLight LT_POINT)
        (some [sampleLight LT_DIRECTIONAL])
      = some [{ searchFrom := 0, srcIndex := none
                writes := sampleInfiniteBlankWrites (sampleLight LT_POINT) 0 },
              { searchFrom := 0, srcIndex := none
                writes := sampleInfiniteBlankWrites (sampleLight LT_POINT) 6 }]
      ∧ samplePerPixel.updateGpuProgramsParams sampleInfinitePass sampleSource
          (sampleLight LT_POINT) (some [sampleLight LT_DIRECTIONAL])
        = some [{ searchFrom := 0, srcIndex := none
                  writes := sampleInfiniteBlankWrites (sampleLight LT_POINT) 0 },
                { searchFrom := 0, srcIndex := none
                  writes := sampleInfiniteBlankWrites (sampleLight LT_POINT) 6 }])
    ∧ (∀ light ∈ [sampleLight LT_DIRECTIONAL], light.getType ≠ (sampleSlot LT_POINT 6).mType)
    ∧ (ColourValue.Black.mul sampleInfinitePass.getDiffuse).scale
          (msBlankLight (sampleLight LT_POINT)).getPowerScale
        = { r := Real.nan, g := 0, b := 0, a := 1 }
    ∧ Real.nan ≠ 0
    ∧ ¬ SlotUpdate.blankValues false (sampleSlot LT_POINT 6)
          { searchFrom := 0, srcIndex := none
            writes := sampleInfiniteBlankWrites (sampleLight LT_POINT) 6 } := by
  refine ⟨⟨?_, ?_⟩, ?_, ?_, ?_, ?_⟩
  · simp [sampleFFP, FFPLighting.updateGpuProgramsParams, FFPLighting.updateLoop, searchLight,
      sampleSlot, sampleLight, sampleInfinitePass, sampleSource, sampleInfiniteBlankWrites,
      updateLightType, updateLightColours, setGpuParameter, attenuationOf, tracks, TVC_NONE,
      TVC_DIFFUSE, ColourValue.mul, ColourValue.scale, msBlankLight, ColourValue.Black]
  · simp [samplePerPixel, PerPixelLighting.updateGpuProgramsParams,
      PerPixelLighting.updateLoop, searchLight, sampleSlot, sampleLight, sampleInfinitePass,
      sampleSource, sampleInfiniteBlankWrites, updateLightType, updateLightColours,
      setGpuParameter, attenuationOf, tracks, TVC_NONE, TVC_DIFFUSE, ColourValue.mul,
      ColourValue.scale, msBlankLight, ColourValue.Black]
  · intro light hl
    rw [List.mem_singleton] at hl
    subst hl
    decide
  · simp [ColourValue.mul, ColourValue.scale, ColourValue.Black, sampleInfinitePass,
      msBlankLight, sampleLight]
  · decide
  · intro h
    obtain ⟨alpha, ha⟩ := h.2.1
      { field := LightParamsField.mDiffuseColour, target := 10
        value := GpuValue.colour
          { r := .nan, g := 0, b := 0, a := (sampleLight LT_POINT).getPowerScale } }
      (by simp [sampleInfiniteBlankWrites]) rfl
    simp at ha

/-- C10 (amended): in either model, a slot for which the active-light list holds
no light of the slot's type at or after the search cursor is written from the
blank light: its source is not a light of the list and every attenuation
written is exactly `(0, 1, 0, 0)` (one is written for a Point or Spot slot);
when the floats multiplied into the colours are finite (the blank light's power
scale and the red, green and blue of each pass colour that enters a product),
the diffuse colour written has red = green = blue = 0, and so has the specular
colour, written when specular is enabled. -/
theorem C10_blank_light_fill (a : FFPLighting) (b : PerPixelLighting) (pass : Pass)
    (source : AutoParamDataSource) (init : Light) (pLightList : Option (List Light))
    (res : List SlotUpdate) (k : Nat) (slot : LightParams) (u : SlotUpdate)
    (hu : res[k]? = some u)
    (habsent : ∀ j light, u.searchFrom ≤ j → (pLightList.getD [])[j]? = some light →
      light.getType ≠ slot.mType) :
    (a.updateGpuProgramsParams pass source init pLightList = some res →
        a.mLightParamsList[k]? = some slot →
        u.srcIndex = none ∧ u.blankAttenuation slot
          ∧ (finiteColourFactors a.mTrackVertexColourType a.mSpecularEnable pass
                (msBlankLight init) = true →
              u.blankValues a.mSpecularEnable slot))
    ∧ (b.updateGpuProgramsParams pass source init pLightList = some res →
        b.mLightParamsList[k]? = some slot →
        u.srcIndex = none ∧ u.blankAttenuation slot
          ∧ (finiteColourFactors b.mTrackVertexColourType b.mSpecularEnable pass
                (msBlankLight init) = true →
              u.blankValues b.mSpecularEnable slot)) := by
  constructor
  · intro h hslot
    exact FFPLighting.update_blank a pass source init pLightList res k slot u h hslot hu habsent
  · intro h hslot
    exact FFPLighting.update_blank
      { mTrackVertexColourType := b.mTrackVertexColourType
        mSpecularEnable := b.mSpecularEnable
        mLightParamsList := b.mLightParamsList } pass source init pLightList res k slot u
      (PerPixelLighting.update_some b pass source init pLightList res h) hslot hu habsent

/-- C10 (amended) on two Point slots, a pass of finite colours and a light list
holding one directional light: slot 1 is written from the blank light. -/
theorem C10_blank_light_fill_witness :
    (sampleFFP.updateGpuProgramsParams samplePass sampleSource (sampleLight LT_POINT)
        (some [sampleLight LT_DIRECTIONAL])
      = some [{ searchFrom := 0, srcIndex := none
                writes := sampleBlankWrites (sampleLight LT_POINT) 0 },
              { searchFrom := 0, srcIndex := none
                writes := sampleBlankWrites (sampleLight LT_POINT) 6 }]
      ∧ samplePerPixel.updateGpuProgramsParams samplePass sampleSource (sampleLight LT_POINT)
          (some [sampleLight LT_DIRECTIONAL])
        = some [{ searchFrom := 0, srcIndex := none
                  writes := sampleBlankWrites (sampleLight LT_POINT) 0 },
                { searchFrom := 0, srcIndex := none
                  writes := sampleBlankWrites (sampleLight LT_POINT) 6 }])
    ∧ (finiteColourFactors sampleFFP.mTrackVertexColourType sampleFFP.mSpecularEnable samplePass
          (msBlankLight (sampleLight LT_POINT)) = true
      ∧ finiteColourFactors samplePerPixel.mTrackVertexColourType samplePerPixel.mSpecularEnable
          samplePass (msBlankLight (sampleLight LT_POINT)) = true)
    ∧ ((none : Option Nat) = none
        ∧ SlotUpdate.blankAttenuation (sampleSlot LT_POINT 6)
            { searchFrom := 0, srcIndex := none
              writes := sampleBlankWrites (sampleLight LT_POINT) 6 }
        ∧ SlotUpdate.blankValues false (sampleSlot LT_POINT 6)
            { searchFrom := 0, srcIndex := none
              writes := sampleBlankWrites (sampleLight LT_POINT) 6 })
    ∧ ((none : Option Nat) = none
        ∧ SlotUpdate.blankAttenuation (sampleSlot LT_POINT 6)
            { searchFrom := 0, srcIndex := none
              writes := sampleBlankWrites (sampleLight LT_POINT) 6 }
        ∧ SlotUpdate.blankValues false (sampleSlot LT_POINT 6)
            { searchFrom := 0, srcIndex := none
              writes := sampleBlankWrites (sampleLight LT_POINT) 6 }) :=
  have habsent : ∀ (j : Nat) (light : Light), 0 ≤ j →
      ((some [sampleLight LT_DIRECTIONAL]).getD [])[j]? = some light →
      light.getType ≠ (sampleSlot LT_POINT 6).mType := by
    intro j light _ hl
    cases j with
    | zero =>
      simp only [Option.getD_some, List.getElem?_cons_zero, Option.some.injEq] at hl
      subst hl
      decide
    | succ j => simp at hl
  have hfinA : finiteColourFactors sampleFFP.mTrackVertexColourType sampleFFP.mSpecularEnable
      samplePass (msBlankLight (sampleLight LT_POINT)) = true := by decide
  have hfinB : finiteColourFactors samplePerPixel.mTrackVertexColourType
      samplePerPixel.mSpecularEnable samplePass (msBlankLight (sampleLight LT_POINT)) = true := by
    decide
  have hA := (C10_blank_light_fill sampleFFP samplePerPixel samplePass sampleSource
    (sampleLight LT_POINT) (some [sampleLight LT_DIRECTIONAL]) _ 1 (sampleSlot LT_POINT 6) _ rfl
    habsent).1 sampleFFP_update_blank rfl
  have hB := (C10_blank_light_fill sampleFFP samplePerPixel samplePass sampleSource
    (sampleLight LT_POINT) (some [sampleLight LT_DIRECTIONAL]) _ 1 (sampleSlot LT_POINT 6) _ rfl
    habsent).2 samplePerPixel_update_blank rfl
  ⟨⟨sampleFFP_update_blank, samplePerPixel_update_blank⟩, ⟨hfinA, hfinB⟩,
    ⟨hA.1, hA.2.1, hA.2.2 hfinA⟩, ⟨hB.1, hB.2.1, hB.2.2 hfinB⟩⟩

/-! ### The local error flag of the per-pixel global resolver -/

section ResolutionFacts

variable {σ : Type}

theorem Chk.resolve {α : Type} {C : α → List ParameterPtr} {st : ResolveState α σ}
    {R : Resolver σ} {req : Request} {set : α → ParameterPtr → α}
    (hf : ∀ s p, C (set s p) = C s) (h : Chk C st) : Chk C (st.resolve R req set) := by
  simpa [Chk, ResolveState.resolve, hf] using h

theorem Chk.lookup {α : Type} {C : α → List ParameterPtr} {st : ResolveState α σ}
    {R : Resolver σ} {req : Request} {set : α → ParameterPtr → α}
    (hf : ∀ s p, C (set s p) = C s) (h : Chk C st) : Chk C (st.lookup R req set) := by
  simpa [Chk, ResolveState.lookup, hf] using h

theorem Chk.check {α : Type} {C : α → List ParameterPtr} {st : ResolveState α σ}
    {fs : List (α → ParameterPtr)} (h : Chk C st) :
    Chk (fun s => C s ++ fs.map (fun f => f s)) (st.check fs) := by
  unfold Chk at *
  simp only [ResolveState.check, Bool.or_eq_true, h, List.mem_append, List.any_eq_true,
    List.mem_map, Option.isNone_iff_eq_none]
  constructor
  · rintro (⟨p, hp, rfl⟩ | ⟨f, hf, hn⟩)
    · exact ⟨none, Or.inl hp, rfl⟩
    · exact ⟨f st.self, Or.inr ⟨f, hf, rfl⟩, hn⟩
  · rintro ⟨p, hp | ⟨f, hf, rfl⟩, hn⟩
    · exact Or.inl ⟨p, hp, hn⟩
    · exact Or.inr ⟨f, hf, hn⟩

theorem Chk.congr {α : Type} {C C' : α → List ParameterPtr} {st : ResolveState α σ}
    (hC : (∃ p ∈ C st.self, p = none) ↔ ∃ p ∈ C' st.self, p = none) (h : Chk C st) :
    Chk C' st := by
  unfold Chk at *; rw [h, hC]

/-- The paragraph `if (c) { field = resolve(req); hasError |= !field.get(); }`. -/
theorem Chk.resolveIf {α : Type} {C : α → List ParameterPtr} {st : ResolveState α σ}
    {R : Resolver σ} {req : Request} {set : α → ParameterPtr → α} {get : α → ParameterPtr}
    (c : α → Prop) [DecidablePred c] (hf : ∀ s p, C (set s p) = C s)
    (hc : ∀ s p, c (set s p) ↔ c s) (h : Chk C st) :
    Chk (fun s => C s ++ if c s then [get s] else [])
      (if c st.self then (st.resolve R req set).check [get] else st) := by
  by_cases hcs : c st.self
  · simp only [hcs, ↓reduceIte]
    refine Chk.congr ?_ (h |> Chk.resolve hf |> Chk.check)
    have : c (st.resolve R req set).self := by
      simpa [ResolveState.resolve, hc] using hcs
    simp [ResolveState.check, this]
  · simp only [hcs, ↓reduceIte]
    refine Chk.congr ?_ h
    simp [hcs]

theorem pp_resolveAmbient_chk {C : PerPixelLighting → List ParameterPtr}
    {st : ResolveState PerPixelLighting σ} (R : Resolver σ)
    (h1 : ∀ s p, C { s with mDerivedAmbientLightColour := p } = C s)
    (h2 : ∀ s p, C { s with mLightAmbientColour := p } = C s)
    (h3 : ∀ s p, C { s with mSurfaceAmbientColour := p } = C s) (h : Chk C st) :
    Chk (fun s => C s ++ (if tracks s.mTrackVertexColourType TVC_AMBIENT = false then
        [s.mDerivedAmbientLightColour] else [s.mSurfaceAmbientColour, s.mLightAmbientColour]))
      (PerPixelLighting.resolveAmbient R st) := by
  unfold PerPixelLighting.resolveAmbient
  split
  · rename_i hc
    refine Chk.congr ?_ (h |> Chk.resolve h1 |> Chk.check)
    simp [ResolveState.resolve, ResolveState.check, hc]
  · rename_i hc
    refine Chk.congr ?_ (h |> Chk.resolve h2 |> Chk.resolve h3 |> Chk.check)
    simp [ResolveState.resolve, ResolveState.check, hc]

theorem pp_resolveSurfaceDiffuse_chk {C : PerPixelLighting → List ParameterPtr}
    {st : ResolveState PerPixelLighting σ} (R : Resolver σ)
    (h1 : ∀ s p, C { s with mSurfaceDiffuseColour := p } = C s) (h : Chk C st) :
    Chk (fun s => C s ++ (if tracks s.mTrackVertexColourType TVC_DIFFUSE = false then
        [s.mSurfaceDiffuseColour] else []))
      (PerPixelLighting.resolveSurfaceDiffuse R st) :=
  Chk.resolveIf (fun (s : PerPixelLighting) => tracks s.mTrackVertexColourType TVC_DIFFUSE = false)
    h1 (fun _ _ => Iff.rfl) h

theorem pp_resolveSurfaceSpecular_chk {C : PerPixelLighting → List ParameterPtr}
    {st : ResolveState PerPixelLighting σ} (R : Resolver σ)
    (h1 : ∀ s p, C { s with mSurfaceSpecularColour := p } = C s) (h : Chk C st) :
    Chk (fun s => C s ++ (if tracks s.mTrackVertexColourType TVC_SPECULAR = false then
        [s.mSurfaceSpecularColour] else []))
      (PerPixelLighting.resolveSurfaceSpecular R st) :=
  Chk.resolveIf (fun (s : PerPixelLighting) => tracks s.mTrackVertexColourType TVC_SPECULAR = false)
    h1 (fun _ _ => Iff.rfl) h

theorem pp_resolveSurfaceEmissive_chk {C : PerPixelLighting → List ParameterPtr}
    {st : ResolveState PerPixelLighting σ} (R : Resolver σ)
    (h1 : ∀ s p, C { s with mSurfaceEmissiveColour := p } = C s) (h : Chk C st) :
    Chk (fun s => C s ++ (if tracks s.mTrackVertexColourType TVC_EMISSIVE = false then
        [s.mSurfaceEmissiveColour] else []))
      (PerPixelLighting.resolveSurfaceEmissive R st) :=
  Chk.resolveIf (fun (s : PerPixelLighting) => tracks s.mTrackVertexColourType TVC_EMISSIVE = false)
    h1 (fun _ _ => Iff.rfl) h

theorem pp_resolvePSInNormal_chk {C : PerPixelLighting → List ParameterPtr}
    {st : ResolveState PerPixelLighting σ} (R : Resolver σ)
    (h1 : ∀ s p, C { s with mPSInNormal := p } = C s) (h : Chk C st) :
    Chk C (PerPixelLighting.resolvePSInNormal R st) :=
  Chk.resolve h1 h

theorem pp_resolvePSInViewPos_chk {C : PerPixelLighting → List ParameterPtr}
    {st : ResolveState PerPixelLighting σ} (R : Resolver σ)
    (h1 : ∀ s p, C { s with mPSInViewPos := p } = C s) (h : Chk C st) :
    Chk C (PerPixelLighting.resolvePSInViewPos R st) :=
  Chk.resolve h1 h

theorem pp_resolvePSDiffuse_chk {C : PerPixelLighting → List ParameterPtr}
    {st : ResolveState PerPixelLighting σ} (R : Resolver σ)
    (h1 : ∀ s p, C { s with mPSDiffuse := p } = C s) (h : Chk C st) :
    Chk C (PerPixelLighting.resolvePSDiffuse R st) := by
  unfold PerPixelLighting.resolvePSDiffuse
  simp only
  split
  · exact h |> Chk.lookup h1 |> Chk.lookup h1
  · exact h |> Chk.lookup h1

theorem pp_resolvePSSpecular_chk {C : PerPixelLighting → List ParameterPtr}
    {st : ResolveState PerPixelLighting σ} (R : Resolver σ)
    (h1 : ∀ s p, C { s with mPSSpecular := p } = C s) (h : Chk C st) :
    Chk C (PerPixelLighting.resolvePSSpecular R st) := by
  unfold PerPixelLighting.resolvePSSpecular
  simp only
  split
  · exact h |> Chk.lookup h1 |> Chk.resolve h1
  · exact h |> Chk.lookup h1

theorem pp_resolvePSSpecular_flag (R : Resolver σ) (st : ResolveState PerPixelLighting σ) :
    (PerPixelLighting.resolvePSSpecular R st).self.mSpecularEnable = st.self.mSpecularEnable := by
  unfold PerPixelLighting.resolvePSSpecular
  simp only
  split <;> rfl

theorem pp_resolveSpecularGlobals_chk {C : PerPixelLighting → List ParameterPtr}
    {st : ResolveState PerPixelLighting σ} (R : Resolver σ)
    (h1 : ∀ s p, C { s with mPSSpecular := p } = C s)
    (h2 : ∀ s p, C { s with mPSTempSpecularColour := p } = C s)
    (h3 : ∀ s p, C { s with mVSInPosition := p } = C s)
    (h4 : ∀ s p, C { s with mVSOutViewPos := p } = C s)
    (h5 : ∀ s p, C { s with mPSInViewPos := p } = C s)
    (h6 : ∀ s p, C { s with mWorldViewMatrix := p } = C s) (h : Chk C st) :
    Chk (fun s => C s ++ (if s.mSpecularEnable then
        [s.mPSSpecular, s.mPSTempSpecularColour, s.mVSInPosition, s.mVSOutViewPos,
          s.mPSInViewPos, s.mWorldViewMatrix] else []))
      (PerPixelLighting.resolveSpecularGlobals R st) := by
  unfold PerPixelLighting.resolveSpecularGlobals
  split
  · rename_i hc
    refine Chk.congr ?_
      (h |> pp_resolvePSSpecular_chk R h1 |> Chk.resolve h2 |> Chk.resolve h3 |> Chk.resolve h4
        |> pp_resolvePSInViewPos_chk R h5 |> Chk.resolve h6 |> Chk.check)
    have : (PerPixelLighting.resolvePSSpecular R st).self.mSpecularEnable = true := by
      rw [pp_resolvePSSpecular_flag]; exact hc
    simp [ResolveState.resolve, ResolveState.check, PerPixelLighting.resolvePSInViewPos, this]
  · rename_i hc
    refine Chk.congr ?_ h
    simp [hc]

theorem pp_global_chk (R : Resolver σ) (self : PerPixelLighting) (ps : ProgramSet σ) :
    Chk PerPixelLighting.requiredGlobals
      (PerPixelLighting.resolveGlobalParametersState R self ps) := by
  have h0 : Chk (fun _ => ([] : List ParameterPtr))
      ({ self := self, programSet := ps, hasError := false } : ResolveState PerPixelLighting σ) := by
    simp [Chk]
  unfold PerPixelLighting.resolveGlobalParametersState
  refine Chk.congr ?_
    (h0 |> Chk.resolve (by intros; rfl) |> Chk.check
      |> pp_resolveAmbient_chk R (by intros; rfl) (by intros; rfl) (by intros; rfl)
      |> pp_resolveSurfaceDiffuse_chk R (by intros; rfl)
      |> pp_resolveSurfaceSpecular_chk R (by intros; rfl)
      |> pp_resolveSurfaceEmissive_chk R (by intros; rfl)
      |> Chk.resolve (by intros; rfl) |> Chk.resolve (by intros; rfl)
      |> Chk.resolve (by intros; rfl) |> Chk.resolve (by intros; rfl)
      |> pp_resolvePSInNormal_chk R (by intros; rfl)
      |> pp_resolvePSDiffuse_chk R (by intros; rfl)
      |> Chk.resolve (by intros; rfl) |> Chk.resolve (by intros; rfl)
      |> Chk.check
      |> pp_resolveSpecularGlobals_chk R (by intros; rfl) (by intros; rfl) (by intros; rfl)
          (by intros; rfl) (by intros; rfl) (by intros; rfl))
  generalize (PerPixelLighting.resolveSpecularGlobals R _).self = s
  simp only [exists_eq_right, PerPixelLighting.requiredGlobals, List.mem_append, List.map_cons,
    List.map_nil, List.mem_cons, List.not_mem_nil, or_false, false_or, List.nil_append]
  have hA : (none ∈ (if tracks s.mTrackVertexColourType TVC_AMBIENT = false
        then [s.mDerivedAmbientLightColour]
        else [s.mSurfaceAmbientColour, s.mLightAmbientColour])) ↔
      (none ∈ (if tracks s.mTrackVertexColourType TVC_AMBIENT = true
        then [s.mLightAmbientColour, s.mSurfaceAmbientColour]
        else [s.mDerivedAmbientLightColour])) := by
    cases tracks s.mTrackVertexColourType TVC_AMBIENT <;> simp [or_comm]
  have hF : ∀ (b : Bool) (x : ParameterPtr),
      (none ∈ (if b = false then [x] else [])) ↔ (none ∈ (if b = true then [] else [x])) := by
    intro b x; cases b <;> simp
  rw [hA, hF, hF, hF]
  generalize (none ∈ (if tracks s.mTrackVertexColourType TVC_AMBIENT = true
        then [s.mLightAmbientColour, s.mSurfaceAmbientColour]
        else [s.mDerivedAmbientLightColour])) = PA
  generalize (none ∈ (if tracks s.mTrackVertexColourType TVC_DIFFUSE = true then []
        else [s.mSurfaceDiffuseColour])) = PD
  generalize (none ∈ (if tracks s.mTrackVertexColourType TVC_SPECULAR = true then []
        else [s.mSurfaceSpecularColour])) = PS
  generalize (none ∈ (if tracks s.mTrackVertexColourType TVC_EMISSIVE = true then []
        else [s.mSurfaceEmissiveColour])) = PE
  generalize (none ∈ (if s.mSpecularEnable = true then
          [s.mPSSpecular, s.mPSTempSpecularColour, s.mVSInPosition, s.mVSOutViewPos,
            s.mPSInViewPos, s.mWorldViewMatrix]
        else [])) = PX
  generalize (none = s.mDerivedSceneColour ∨ none = s.mSurfaceShininess ∨ none = s.mVSInNormal ∨
    none = s.mVSOutNormal ∨ none = s.mPSInNormal ∨ none = s.mPSDiffuse ∨ none = s.mPSOutDiffuse ∨
    none = s.mPSTempDiffuseColour) = PR
  tauto

end ResolutionFacts

/-! ### What the per-pixel global resolver leaves untouched -/

section FrameFacts

variable {σ : Type}

theorem kept_refl {α β : Type} (g : α → β) (a : ResolveState α σ) : Kept g a a :=
  ⟨rfl, rfl, rfl⟩

theorem kept_resolve {α β : Type} {g : α → β} {a st : ResolveState α σ}
    {R : Resolver σ} {req : Request} {set : α → ParameterPtr → α}
    (hf : ∀ s p, g (set s p) = g s) (h : Kept g a st) : Kept g a (st.resolve R req set) :=
  ⟨(hf _ _).trans h.1, h.2.1, h.2.2⟩

theorem kept_lookup {α β : Type} {g : α → β} {a st : ResolveState α σ}
    {R : Resolver σ} {req : Request} {set : α → ParameterPtr → α}
    (hf : ∀ s p, g (set s p) = g s) (h : Kept g a st) : Kept g a (st.lookup R req set) :=
  ⟨(hf _ _).trans h.1, h.2.1, h.2.2⟩

theorem kept_check {α β : Type} {g : α → β} {a st : ResolveState α σ}
    {fs : List (α → ParameterPtr)} (h : Kept g a st) : Kept g a (st.check fs) := h

theorem kept_ite {α β : Type} {g : α → β} {a x y : ResolveState α σ} {c : Prop} [Decidable c]
    (hx : Kept g a x) (hy : Kept g a y) : Kept g a (if c then x else y) := by
  split_ifs <;> assumption

theorem pp_resolveAmbient_kept {a st : ResolveState PerPixelLighting σ} (R : Resolver σ)
    (h : Kept PerPixelLighting.config a st) :
    Kept PerPixelLighting.config a (PerPixelLighting.resolveAmbient R st) :=
  kept_ite (h |> kept_resolve (by intros; rfl) |> kept_check)
    (h |> kept_resolve (by intros; rfl) |> kept_resolve (by intros; rfl) |> kept_check)

theorem pp_resolveSurfaceDiffuse_kept {a st : ResolveState PerPixelLighting σ} (R : Resolver σ)
    (h : Kept PerPixelLighting.config a st) :
    Kept PerPixelLighting.config a (PerPixelLighting.resolveSurfaceDiffuse R st) :=
  kept_ite (h |> kept_resolve (by intros; rfl) |> kept_check) h

theorem pp_resolveSurfaceSpecular_kept {a st : ResolveState PerPixelLighting σ} (R : Resolver σ)
    (h : Kept PerPixelLighting.config a st) :
    Kept PerPixelLighting.config a (PerPixelLighting.resolveSurfaceSpecular R st) :=
  kept_ite (h |> kept_resolve (by intros; rfl) |> kept_check) h

theorem pp_resolveSurfaceEmissive_kept {a st : ResolveState PerPixelLighting σ} (R : Resolver σ)
    (h : Kept PerPixelLighting.config a st) :
    Kept PerPixelLighting.config a (PerPixelLighting.resolveSurfaceEmissive R st) :=
  kept_ite (h |> kept_resolve (by intros; rfl) |> kept_check) h

theorem pp_resolvePSInNormal_kept {a st : ResolveState PerPixelLighting σ} (R : Resolver σ)
    (h : Kept PerPixelLighting.config a st) :
    Kept PerPixelLighting.config a (PerPixelLighting.resolvePSInNormal R st) :=
  h |> kept_resolve (by intros; rfl)

theorem pp_resolvePSInViewPos_kept {a st : ResolveState PerPixelLighting σ} (R : Resolver σ)
    (h : Kept PerPixelLighting.config a st) :
    Kept PerPixelLighting.config a (PerPixelLighting.resolvePSInViewPos R st) :=
  h |> kept_resolve (by intros; rfl)

theorem pp_resolvePSDiffuse_kept {a st : ResolveState PerPixelLighting σ} (R : Resolver σ)
    (h : Kept PerPixelLighting.config a st) :
    Kept PerPixelLighting.config a (PerPixelLighting.resolvePSDiffuse R st) :=
  kept_ite (h |> kept_lookup (by intros; rfl) |> kept_lookup (by intros; rfl))
    (h |> kept_lookup (by intros; rfl))

theorem pp_resolvePSSpecular_kept {a st : ResolveState PerPixelLighting σ} (R : Resolver σ)
    (h : Kept PerPixelLighting.config a st) :
    Kept PerPixelLighting.config a (PerPixelLighting.resolvePSSpecular R st) :=
  kept_ite (h |> kept_lookup (by intros; rfl) |> kept_resolve (by intros; rfl))
    (h |> kept_lookup (by intros; rfl))

theorem pp_resolveSpecularGlobals_kept {a st : ResolveState PerPixelLighting σ} (R : Resolver σ)
    (h : Kept PerPixelLighting.config a st) :
    Kept PerPixelLighting.config a (PerPixelLighting.resolveSpecularGlobals R st) :=
  kept_ite
    (h |> pp_resolvePSSpecular_kept R |> kept_resolve (by intros; rfl)
      |> kept_resolve (by intros; rfl) |> kept_resolve (by intros; rfl)
      |> pp_resolvePSInViewPos_kept R |> kept_resolve (by intros; rfl) |> kept_check) h

theorem pp_global_kept (R : Resolver σ) (self : PerPixelLighting) (ps : ProgramSet σ) :
    Kept PerPixelLighting.config { self := self, programSet := ps, hasError := false }
      (PerPixelLighting.resolveGlobalParametersState R self ps) :=
  kept_refl PerPixelLighting.config _
    |> kept_resolve (by intros; rfl) |> kept_check
    |> pp_resolveAmbient_kept R
    |> pp_resolveSurfaceDiffuse_kept R
    |> pp_resolveSurfaceSpecular_kept R
    |> pp_resolveSurfaceEmissive_kept R
    |> kept_resolve (by intros; rfl) |> kept_resolve (by intros; rfl)
    |> kept_resolve (by intros; rfl) |> kept_resolve (by intros; rfl)
    |> pp_resolvePSInNormal_kept R
    |> pp_resolvePSDiffuse_kept R
    |> kept_resolve (by intros; rfl) |> kept_resolve (by intros; rfl)
    |> kept_check
    |> pp_resolveSpecularGlobals_kept R

theorem finish_result {α : Type} (st : ResolveState α σ) (e : Exception) :
    ((st.finish e).result = .error e ↔ st.hasError = true) ∧
    ((st.finish e).result = .ok true ↔ st.hasError = false) ∧
    (st.finish e).result ≠ .ok false ∧
    (st.finish e).self = st.self ∧ (st.finish e).programSet = st.programSet := by
  unfold ResolveState.finish
  cases st.hasError <;> simp

end FrameFacts

/-- C7: `PerPixelLighting::resolveGlobalParameters` raises its internal error
exactly when one of the handles required by the configuration (the nine
unconditional ones, the ambient, diffuse, specular and emissive ones selected
by the tracking mask, and the six specular ones when `mSpecularEnable`) is
null after the call, and returns `true` exactly when none is; it never
returns `false`, keeps the configuration and adds no atom to either entry
point. -/
theorem C7_global_raises_iff_required_null {σ : Type} (R : Resolver σ)
    (self : PerPixelLighting) (ps : ProgramSet σ) :
    ((PerPixelLighting.resolveGlobalParameters R self ps).result
        = .error PerPixelLighting.globalError ↔
      ∃ p ∈ (PerPixelLighting.resolveGlobalParameters R self ps).self.requiredGlobals,
        p = none) ∧
    ((PerPixelLighting.resolveGlobalParameters R self ps).result = .ok true ↔
      ∀ p ∈ (PerPixelLighting.resolveGlobalParameters R self ps).self.requiredGlobals,
        p ≠ none) ∧
    (PerPixelLighting.resolveGlobalParameters R self ps).result ≠ .ok false ∧
    (PerPixelLighting.resolveGlobalParameters R self ps).self.mTrackVertexColourType
      = self.mTrackVertexColourType ∧
    (PerPixelLighting.resolveGlobalParameters R self ps).self.mSpecularEnable
      = self.mSpecularEnable ∧
    (PerPixelLighting.resolveGlobalParameters R self ps).programSet.vsMainAtoms
      = ps.vsMainAtoms ∧
    (PerPixelLighting.resolveGlobalParameters R self ps).programSet.psMainAtoms
      = ps.psMainAtoms := by
  have hc := pp_global_chk R self ps
  have hk := pp_global_kept R self ps
  obtain ⟨f1, f2, f3, f4, f5⟩ :=
    finish_result (PerPixelLighting.resolveGlobalParametersState R self ps)
      PerPixelLighting.globalError
  unfold PerPixelLighting.resolveGlobalParameters
  unfold Chk at hc
  rw [f1, f2, f4, f5]
  refine ⟨hc, ?_, f3, congrArg Prod.fst hk.1, congrArg Prod.snd hk.1, hk.2.1, hk.2.2⟩
  rw [← Bool.not_eq_true, hc]
  constructor
  · intro h p hp hn; exact h ⟨p, hp, hn⟩
  · rintro h ⟨p, hp, hn⟩; exact h p hp hn

/-! ### The requests of the per-vertex resolver and its error flag -/

section TraceFacts

variable {σ : Type}

/-- A request whose answer is stored in a member that is tested later. -/
theorem tr_defer {α : Type} {old : List (Request × ParameterPtr)} {d : α → Bool}
    {L : α → List ParameterPtr} {st : ResolveState α σ} {R : Resolver σ} {req : Request}
    {set : α → ParameterPtr → α} (get : α → ParameterPtr)
    (hget : ∀ s p, get (set s p) = p) (hd : ∀ s p, d (set s p) = d s)
    (hL : ∀ s p, L (set s p) = L s) (h : Tr old d L st) :
    Tr old (fun s => d s || (get s).isNone) L (st.resolve R req set) := by
  obtain ⟨new, h1, h2, h3⟩ := h
  refine ⟨new ++ [(req, (R req st.programSet.params).1)], ?_, ?_, ?_⟩
  · simp [ResolveState.resolve, ProgramSet.resolve, h1]
  · simp only [ResolveState.resolve, ProgramSet.resolve, hget, hd, List.any_append, ← h2,
      List.any_cons, List.any_nil, Bool.or_false, Bool.or_assoc]
  · intro q hq
    simp only [ResolveState.resolve, hL] at hq
    obtain ⟨r, hr⟩ := h3 q hq
    exact ⟨r, List.mem_append_left _ hr⟩

/-- A request whose answer is stored in a member that is tested later and
listed from now on. -/
theorem tr_resolve {α : Type} {old : List (Request × ParameterPtr)} {d : α → Bool}
    {L : α → List ParameterPtr} {st : ResolveState α σ} {R : Resolver σ} {req : Request}
    {set : α → ParameterPtr → α} (get : α → ParameterPtr)
    (hget : ∀ s p, get (set s p) = p) (hd : ∀ s p, d (set s p) = d s)
    (hL : ∀ s p, L (set s p) = L s) (h : Tr old d L st) :
    Tr old (fun s => d s || (get s).isNone) (fun s => L s ++ [get s])
      (st.resolve R req set) := by
  obtain ⟨new, h1, h2, h3⟩ := h
  refine ⟨new ++ [(req, (R req st.programSet.params).1)], ?_, ?_, ?_⟩
  · simp [ResolveState.resolve, ProgramSet.resolve, h1]
  · simp only [ResolveState.resolve, ProgramSet.resolve, hget, hd, List.any_append, ← h2,
      List.any_cons, List.any_nil, Bool.or_false, Bool.or_assoc]
  · intro q hq
    simp only [ResolveState.resolve, hL, hget, List.mem_append, List.mem_singleton] at hq
    rcases hq with hq | rfl
    · obtain ⟨r, hr⟩ := h3 q hq
      exact ⟨r, List.mem_append_left _ hr⟩
    · exact ⟨req, List.mem_append_right _ (List.mem_singleton.2 rfl)⟩

/-- The test `hasError |= ...` of the members whose test was pending. -/
theorem tr_check {α : Type} {old : List (Request × ParameterPtr)} {d : α → Bool}
    {L : α → List ParameterPtr} {st : ResolveState α σ} {fs : List (α → ParameterPtr)}
    (e : α → Bool)
    (hd : d st.self = (e st.self || fs.any (fun f => (f st.self).isNone)))
    (h : Tr old d L st) : Tr old e L (st.check fs) := by
  obtain ⟨new, h1, h2, h3⟩ := h
  refine ⟨new, h1, ?_, h3⟩
  rw [← h2, hd]
  simp only [ResolveState.check]
  cases st.hasError <;> cases e st.self <;> simp

theorem tr_ite {α : Type} {old : List (Request × ParameterPtr)} {d : α → Bool}
    {L : α → List ParameterPtr} {x y : ResolveState α σ} {c : Prop} [Decidable c]
    (hx : c → Tr old d L x) (hy : ¬ c → Tr old d L y) : Tr old d L (if c then x else y) := by
  split_ifs with hc
  · exact hx hc
  · exact hy hc

/-- The listed handles may be replaced by any handles among them. -/
theorem tr_list {α : Type} {old : List (Request × ParameterPtr)} {d : α → Bool}
    {L : α → List ParameterPtr} {st : ResolveState α σ} (K : α → List ParameterPtr)
    (hK : ∀ q ∈ K st.self, q ∈ L st.self) (h : Tr old d L st) : Tr old d K st := by
  obtain ⟨new, h1, h2, h3⟩ := h
  exact ⟨new, h1, h2, fun q hq => h3 q (hK q hq)⟩

/-- The pending tests may be written in any equal way. -/
theorem tr_pending {α : Type} {old : List (Request × ParameterPtr)} {d : α → Bool}
    {L : α → List ParameterPtr} {st : ResolveState α σ} (e : α → Bool)
    (hd : d st.self = e st.self) (h : Tr old d L st) : Tr old e L st := by
  obtain ⟨new, h1, h2, h3⟩ := h
  exact ⟨new, h1, hd ▸ h2, h3⟩

/-- The paragraph `field = resolve(req); hasError |= !field.get();`. -/
theorem tr_resolveCheck {α : Type} {old : List (Request × ParameterPtr)} {d : α → Bool}
    {L : α → List ParameterPtr} {st : ResolveState α σ} {R : Resolver σ} {req : Request}
    {set : α → ParameterPtr → α} (get : α → ParameterPtr)
    (hget : ∀ s p, get (set s p) = p) (hd : ∀ s p, d (set s p) = d s)
    (hL : ∀ s p, L (set s p) = L s) (h : Tr old d L st) :
    Tr old d L ((st.resolve R req set).check [get]) :=
  h |> tr_defer get hget hd hL |> tr_check d (by simp)


theorem ffp_resolveAmbient_tr {old : List (Request × ParameterPtr)} {d : FFPLighting → Bool}
    {L : FFPLighting → List ParameterPtr} {st : ResolveState FFPLighting σ} (R : Resolver σ)
    (hd1 : ∀ s p, d { s with mDerivedAmbientLightColour := p } = d s)
    (hd2 : ∀ s p, d { s with mLightAmbientColour := p } = d s)
    (hd3 : ∀ s p, d { s with mSurfaceAmbientColour := p } = d s)
    (hL1 : ∀ s p, L { s with mDerivedAmbientLightColour := p } = L s)
    (hL2 : ∀ s p, L { s with mLightAmbientColour := p } = L s)
    (hL3 : ∀ s p, L { s with mSurfaceAmbientColour := p } = L s)
    (h : Tr old d L st) : Tr old d L (FFPLighting.resolveAmbient R st) :=
  tr_ite (fun _ => h |> tr_resolveCheck (fun s => s.mDerivedAmbientLightColour)
      (by intros; rfl) hd1 hL1)
    (fun _ => h |> tr_defer (fun s => s.mLightAmbientColour) (by intros; rfl) hd2 hL2
      |> tr_defer (fun s => s.mSurfaceAmbientColour) (by intros; rfl)
          (by intro s p; simp only [hd3]) hL3
      |> tr_check d (by simp [Bool.or_assoc]))

theorem ffp_resolveSurfaceDiffuse_tr {old : List (Request × ParameterPtr)}
    {d : FFPLighting → Bool} {L : FFPLighting → List ParameterPtr}
    {st : ResolveState FFPLighting σ} (R : Resolver σ)
    (hd : ∀ s p, d { s with mSurfaceDiffuseColour := p } = d s)
    (hL : ∀ s p, L { s with mSurfaceDiffuseColour := p } = L s)
    (h : Tr old d L st) : Tr old d L (FFPLighting.resolveSurfaceDiffuse R st) :=
  tr_ite (fun _ => h |> tr_resolveCheck (fun s => s.mSurfaceDiffuseColour)
      (by intros; rfl) hd hL) (fun _ => h)

theorem ffp_resolveSurfaceSpecular_tr {old : List (Request × ParameterPtr)}
    {d : FFPLighting → Bool} {L : FFPLighting → List ParameterPtr}
    {st : ResolveState FFPLighting σ} (R : Resolver σ)
    (hd : ∀ s p, d { s with mSurfaceSpecularColour := p } = d s)
    (hL : ∀ s p, L { s with mSurfaceSpecularColour := p } = L s)
    (h : Tr old d L st) : Tr old d L (FFPLighting.resolveSurfaceSpecular R st) :=
  tr_ite (fun _ => h |> tr_resolveCheck (fun s => s.mSurfaceSpecularColour)
      (by intros; rfl) hd hL) (fun _ => h)

theorem ffp_resolveSurfaceEmissive_tr {old : List (Request × ParameterPtr)}
    {d : FFPLighting → Bool} {L : FFPLighting → List ParameterPtr}
    {st : ResolveState FFPLighting σ} (R : Resolver σ)
    (hd : ∀ s p, d { s with mSurfaceEmissiveColour := p } = d s)
    (hL : ∀ s p, L { s with mSurfaceEmissiveColour := p } = L s)
    (h : Tr old d L st) : Tr old d L (FFPLighting.resolveSurfaceEmissive R st) :=
  tr_ite (fun _ => h |> tr_resolveCheck (fun s => s.mSurfaceEmissiveColour)
      (by intros; rfl) hd hL) (fun _ => h)

theorem ffp_resolveVSDiffuse_tr {old : List (Request × ParameterPtr)}
    {d : FFPLighting → Bool} {L : FFPLighting → List ParameterPtr}
    {st : ResolveState FFPLighting σ} (R : Resolver σ)
    (hd : ∀ s p, d { s with mVSDiffuse := p } = d s)
    (hL : ∀ s p, L { s with mVSDiffuse := p } = L s)
    (h : Tr old d L st) : Tr old d L (FFPLighting.resolveVSDiffuse R st) :=
  tr_ite (fun _ => h |> tr_resolveCheck (fun s => s.mVSDiffuse)
      (by intros; rfl) hd hL) (fun _ => h)

/-- The five handles `resolveParameters` tests after its loop. -/
theorem ffp_global_tr (R : Resolver σ) (self : FFPLighting) (ps : ProgramSet σ) :
    Tr ps.requests
      (fun s => ((((false || s.mWorldViewITMatrix.isNone) || s.mDerivedSceneColour.isNone)
        || s.mSurfaceShininess.isNone) || s.mVSInNormal.isNone) || s.mVSOutDiffuse.isNone)
      (fun _ => []) (FFPLighting.resolveParametersGlobal R self ps) := by
  have h0 : Tr ps.requests (fun _ => false) (fun _ => ([] : List ParameterPtr))
      ({ self := self, programSet := ps, hasError := false } : ResolveState FFPLighting σ) :=
    ⟨[], by simp, rfl, by simp⟩
  unfold FFPLighting.resolveParametersGlobal
  refine tr_pending _ ?_ (h0
    |> tr_defer (fun s => s.mWorldViewITMatrix) (by intros; rfl) (by intros; rfl) (by intros; rfl)
    |> ffp_resolveAmbient_tr R (by intros; rfl) (by intros; rfl) (by intros; rfl)
        (by intros; rfl) (by intros; rfl) (by intros; rfl)
    |> ffp_resolveSurfaceDiffuse_tr R (by intros; rfl) (by intros; rfl)
    |> ffp_resolveSurfaceSpecular_tr R (by intros; rfl) (by intros; rfl)
    |> ffp_resolveSurfaceEmissive_tr R (by intros; rfl) (by intros; rfl)
    |> tr_defer (fun s => s.mDerivedSceneColour) (by intros; rfl) (by intros; rfl) (by intros; rfl)
    |> tr_defer (fun s => s.mSurfaceShininess) (by intros; rfl) (by intros; rfl) (by intros; rfl)
    |> tr_defer (fun s => s.mVSInNormal) (by intros; rfl) (by intros; rfl) (by intros; rfl)
    |> ffp_resolveVSDiffuse_tr R (by intros; rfl) (by intros; rfl)
    |> tr_defer (fun s => s.mVSOutDiffuse) (by intros; rfl) (by intros; rfl) (by intros; rfl))
  rfl


theorem ffp_resolveLightType_tr {old : List (Request × ParameterPtr)} {d : FFPLighting → Bool}
    {K : List ParameterPtr} {st : ResolveState (FFPLighting × LightParams) σ} (R : Resolver σ)
    (hd1 : ∀ s p, d { s with mWorldViewMatrix := p } = d s)
    (hd2 : ∀ s p, d { s with mVSInPosition := p } = d s)
    (h : Tr old (fun s => d s.1) (fun _ => K) st) :
    Tr old (fun s => d s.1)
      (fun s => K ++ (match s.2.mType with
        | LT_DIRECTIONAL => [s.2.mDirection]
        | LT_POINT => [s.2.mPosition, s.2.mAttenuatParams]
        | LT_SPOTLIGHT => [s.2.mPosition, s.2.mDirection, s.2.mAttenuatParams, s.2.mSpotParams]))
      (FFPLighting.resolveLightType R st) := by
  unfold FFPLighting.resolveLightType
  cases ht : st.self.2.mType
  · refine tr_list _ ?_ (h
      |> tr_defer (fun s => s.1.mWorldViewMatrix) (by intros; rfl)
          (by intro s p; simp only [hd1]) (by intros; rfl)
      |> tr_defer (fun s => s.1.mVSInPosition) (by intros; rfl)
          (by intro s p; simp only [hd2]) (by intros; rfl)
      |> tr_resolve (fun s => s.2.mPosition) (by intros; rfl) (by intros; rfl) (by intros; rfl)
      |> tr_resolve (fun s => s.2.mAttenuatParams) (by intros; rfl) (by intros; rfl)
          (by intros; rfl)
      |> tr_check (fun s => d s.1) (by simp [Bool.or_assoc]))
    simp [ResolveState.check, ResolveState.resolve, ht]
  · refine tr_list _ ?_ (h
      |> tr_resolve (fun s => s.2.mDirection) (by intros; rfl) (by intros; rfl) (by intros; rfl)
      |> tr_check (fun s => d s.1) (by simp))
    simp [ResolveState.check, ResolveState.resolve, ht]
  · refine tr_list _ ?_ (h
      |> tr_defer (fun s => s.1.mWorldViewMatrix) (by intros; rfl)
          (by intro s p; simp only [hd1]) (by intros; rfl)
      |> tr_defer (fun s => s.1.mVSInPosition) (by intros; rfl)
          (by intro s p; simp only [hd2]) (by intros; rfl)
      |> tr_resolve (fun s => s.2.mPosition) (by intros; rfl) (by intros; rfl) (by intros; rfl)
      |> tr_resolve (fun s => s.2.mDirection) (by intros; rfl) (by intros; rfl) (by intros; rfl)
      |> tr_resolve (fun s => s.2.mAttenuatParams) (by intros; rfl) (by intros; rfl)
          (by intros; rfl)
      |> tr_resolve (fun s => s.2.mSpotParams) (by intros; rfl) (by intros; rfl) (by intros; rfl)
      |> tr_check (fun s => d s.1) (by simp [Bool.or_assoc]))
    simp [ResolveState.check, ResolveState.resolve, ht]


theorem ffp_resolveLightDiffuse_tr {old : List (Request × ParameterPtr)}
    {d : FFPLighting → Bool} {L : FFPLighting × LightParams → List ParameterPtr}
    {st : ResolveState (FFPLighting × LightParams) σ} (R : Resolver σ)
    (hL : ∀ s p, L (s.1, { s.2 with mDiffuseColour := p }) = L s)
    (h : Tr old (fun s => d s.1) L st) :
    Tr old (fun s => d s.1) (fun s => L s ++ [s.2.mDiffuseColour])
      (FFPLighting.resolveLightDiffuse R st) :=
  tr_ite
    (fun _ => h |> tr_resolve (fun s => s.2.mDiffuseColour) (by intros; rfl) (by intros; rfl) hL
      |> tr_check (fun s => d s.1) (by simp))
    (fun _ => h |> tr_resolve (fun s => s.2.mDiffuseColour) (by intros; rfl) (by intros; rfl) hL
      |> tr_check (fun s => d s.1) (by simp))

theorem ffp_resolveLightSpecularColour_tr {old : List (Request × ParameterPtr)}
    {d : FFPLighting → Bool} {L : FFPLighting × LightParams → List ParameterPtr}
    {st : ResolveState (FFPLighting × LightParams) σ} (R : Resolver σ)
    (hL : ∀ s p, L (s.1, { s.2 with mSpecularColour := p }) = L s)
    (h : Tr old (fun s => d s.1) L st) :
    Tr old (fun s => d s.1) (fun s => L s ++ [s.2.mSpecularColour])
      (FFPLighting.resolveLightSpecularColour R st) :=
  tr_ite
    (fun _ => h |> tr_resolve (fun s => s.2.mSpecularColour) (by intros; rfl) (by intros; rfl) hL
      |> tr_check (fun s => d s.1) (by simp))
    (fun _ => h |> tr_resolve (fun s => s.2.mSpecularColour) (by intros; rfl) (by intros; rfl) hL
      |> tr_check (fun s => d s.1) (by simp))

theorem ffp_resolveVSOutSpecular_tr {old : List (Request × ParameterPtr)}
    {d : FFPLighting → Bool} {L : FFPLighting × LightParams → List ParameterPtr}
    {st : ResolveState (FFPLighting × LightParams) σ} (R : Resolver σ)
    (hd : ∀ s p, d { s with mVSOutSpecular := p } = d s)
    (hL : ∀ s p, L ({ s.1 with mVSOutSpecular := p }, s.2) = L s)
    (h : Tr old (fun s => d s.1) L st) :
    Tr old (fun s => d s.1) L (FFPLighting.resolveVSOutSpecular R st) :=
  tr_ite
    (fun _ => h |> tr_resolveCheck (fun s => s.1.mVSOutSpecular) (by intros; rfl)
      (by intro s p; simp only [hd]) hL)
    (fun _ => h)

theorem ffp_resolveVSInPosition_tr {old : List (Request × ParameterPtr)}
    {d : FFPLighting → Bool} {L : FFPLighting × LightParams → List ParameterPtr}
    {st : ResolveState (FFPLighting × LightParams) σ} (R : Resolver σ)
    (hd : ∀ s p, d { s with mVSInPosition := p } = d s)
    (hL : ∀ s p, L ({ s.1 with mVSInPosition := p }, s.2) = L s)
    (h : Tr old (fun s => d s.1) L st) :
    Tr old (fun s => d s.1) L (FFPLighting.resolveVSInPosition R st) :=
  tr_ite
    (fun _ => h |> tr_resolveCheck (fun s => s.1.mVSInPosition) (by intros; rfl)
      (by intro s p; simp only [hd]) hL)
    (fun _ => h)

theorem ffp_resolveWorldViewMatrix_tr {old : List (Request × ParameterPtr)}
    {d : FFPLighting → Bool} {L : FFPLighting × LightParams → List ParameterPtr}
    {st : ResolveState (FFPLighting × LightParams) σ} (R : Resolver σ)
    (hd : ∀ s p, d { s with mWorldViewMatrix := p } = d s)
    (hL : ∀ s p, L ({ s.1 with mWorldViewMatrix := p }, s.2) = L s)
    (h : Tr old (fun s => d s.1) L st) :
    Tr old (fun s => d s.1) L (FFPLighting.resolveWorldViewMatrix R st) :=
  tr_ite
    (fun _ => h |> tr_resolveCheck (fun s => s.1.mWorldViewMatrix) (by intros; rfl)
      (by intro s p; simp only [hd]) hL)
    (fun _ => h)


theorem ffp_resolveLightType_kept {a st : ResolveState (FFPLighting × LightParams) σ}
    (R : Resolver σ) (h : Kept FFPLighting.slotConfig a st) :
    Kept FFPLighting.slotConfig a (FFPLighting.resolveLightType R st) := by
  unfold FFPLighting.resolveLightType
  cases st.self.2.mType
  · exact h |> kept_resolve (by intros; rfl) |> kept_resolve (by intros; rfl)
      |> kept_resolve (by intros; rfl) |> kept_resolve (by intros; rfl) |> kept_check
  · exact h |> kept_resolve (by intros; rfl) |> kept_check
  · exact h |> kept_resolve (by intros; rfl) |> kept_resolve (by intros; rfl)
      |> kept_resolve (by intros; rfl) |> kept_resolve (by intros; rfl)
      |> kept_resolve (by intros; rfl) |> kept_resolve (by intros; rfl) |> kept_check

theorem ffp_resolveLightDiffuse_kept {a st : ResolveState (FFPLighting × LightParams) σ}
    (R : Resolver σ) (h : Kept FFPLighting.slotConfig a st) :
    Kept FFPLighting.slotConfig a (FFPLighting.resolveLightDiffuse R st) :=
  kept_ite (h |> kept_resolve (by intros; rfl) |> kept_check)
    (h |> kept_resolve (by intros; rfl) |> kept_check)

theorem ffp_resolveLightSpecularColour_kept {a st : ResolveState (FFPLighting × LightParams) σ}
    (R : Resolver σ) (h : Kept FFPLighting.slotConfig a st) :
    Kept FFPLighting.slotConfig a (FFPLighting.resolveLightSpecularColour R st) :=
  kept_ite (h |> kept_resolve (by intros; rfl) |> kept_check)
    (h |> kept_resolve (by intros; rfl) |> kept_check)

theorem ffp_resolveVSOutSpecular_kept {a st : ResolveState (FFPLighting × LightParams) σ}
    (R : Resolver σ) (h : Kept FFPLighting.slotConfig a st) :
    Kept FFPLighting.slotConfig a (FFPLighting.resolveVSOutSpecular R st) :=
  kept_ite (h |> kept_resolve (by intros; rfl) |> kept_check) h

theorem ffp_resolveVSInPosition_kept {a st : ResolveState (FFPLighting × LightParams) σ}
    (R : Resolver σ) (h : Kept FFPLighting.slotConfig a st) :
    Kept FFPLighting.slotConfig a (FFPLighting.resolveVSInPosition R st) :=
  kept_ite (h |> kept_resolve (by intros; rfl) |> kept_check) h

theorem ffp_resolveWorldViewMatrix_kept {a st : ResolveState (FFPLighting × LightParams) σ}
    (R : Resolver σ) (h : Kept FFPLighting.slotConfig a st) :
    Kept FFPLighting.slotConfig a (FFPLighting.resolveWorldViewMatrix R st) :=
  kept_ite (h |> kept_resolve (by intros; rfl) |> kept_check) h

theorem ffp_resolveLightSpecular_kept {a st : ResolveState (FFPLighting × LightParams) σ}
    (R : Resolver σ) (h : Kept FFPLighting.slotConfig a st) :
    Kept FFPLighting.slotConfig a (FFPLighting.resolveLightSpecular R st) :=
  kept_ite (h |> ffp_resolveLightSpecularColour_kept R |> ffp_resolveVSOutSpecular_kept R
    |> ffp_resolveVSInPosition_kept R |> ffp_resolveWorldViewMatrix_kept R) h

theorem ffp_resolveLightSpecular_tr {old : List (Request × ParameterPtr)}
    {d : FFPLighting → Bool} {L : FFPLighting × LightParams → List ParameterPtr}
    {st : ResolveState (FFPLighting × LightParams) σ} (R : Resolver σ)
    (hd1 : ∀ s p, d { s with mVSOutSpecular := p } = d s)
    (hd2 : ∀ s p, d { s with mVSInPosition := p } = d s)
    (hd3 : ∀ s p, d { s with mWorldViewMatrix := p } = d s)
    (hL0 : ∀ s p, L (s.1, { s.2 with mSpecularColour := p }) = L s)
    (hL1 : ∀ s p, L ({ s.1 with mVSOutSpecular := p }, s.2) = L s)
    (hL2 : ∀ s p, L ({ s.1 with mVSInPosition := p }, s.2) = L s)
    (hL3 : ∀ s p, L ({ s.1 with mWorldViewMatrix := p }, s.2) = L s)
    (h : Tr old (fun s => d s.1) L st) :
    Tr old (fun s => d s.1)
      (fun s => L s ++ (if s.1.mSpecularEnable then [s.2.mSpecularColour] else []))
      (FFPLighting.resolveLightSpecular R st) := by
  have hk := ffp_resolveLightSpecular_kept R (kept_refl FFPLighting.slotConfig st)
  have hflag : (FFPLighting.resolveLightSpecular R st).self.1.mSpecularEnable
      = st.self.1.mSpecularEnable := congrArg (fun x => x.1.2) hk.1
  by_cases hs : st.self.1.mSpecularEnable = true
  · refine tr_list _ ?_ (?_ : Tr old (fun s => d s.1) (fun s => L s ++ [s.2.mSpecularColour]) _)
    · simp [hflag, hs]
    · unfold FFPLighting.resolveLightSpecular
      rw [if_pos hs]
      exact h |> ffp_resolveLightSpecularColour_tr R hL0
        |> ffp_resolveVSOutSpecular_tr R hd1 (by intro s p; simp only [hL1])
        |> ffp_resolveVSInPosition_tr R hd2 (by intro s p; simp only [hL2])
        |> ffp_resolveWorldViewMatrix_tr R hd3 (by intro s p; simp only [hL3])
  · refine tr_list _ ?_ (?_ : Tr old (fun s => d s.1) L _)
    · simp [hflag, hs]
    · unfold FFPLighting.resolveLightSpecular
      rw [if_neg hs]
      exact h


theorem ffp_light_kept (R : Resolver σ) (st : ResolveState FFPLighting σ) (cur : LightParams) :
    (FFPLighting.resolveParametersLight R st cur).2.self.config = st.self.config ∧
    (FFPLighting.resolveParametersLight R st cur).1.mType = cur.mType := by
  have h := kept_refl FFPLighting.slotConfig
      ({ self := (st.self, cur), programSet := st.programSet, hasError := st.hasError } :
        ResolveState (FFPLighting × LightParams) σ)
    |> ffp_resolveLightType_kept R |> ffp_resolveLightDiffuse_kept R
    |> ffp_resolveLightSpecular_kept R
  exact ⟨congrArg Prod.fst h.1, congrArg Prod.snd h.1⟩

/-- One iteration of the loop of `resolveParameters`: the populated handles of
the slot it leaves are answers of this call. -/
theorem ffp_light_tr {old : List (Request × ParameterPtr)} {d : FFPLighting → Bool}
    {K : List ParameterPtr} {st : ResolveState FFPLighting σ} (R : Resolver σ)
    (cur : LightParams)
    (hd1 : ∀ s p, d { s with mVSOutSpecular := p } = d s)
    (hd2 : ∀ s p, d { s with mVSInPosition := p } = d s)
    (hd3 : ∀ s p, d { s with mWorldViewMatrix := p } = d s)
    (h : Tr old d (fun _ => K) st) :
    Tr old d
      (fun _ => K ++ (FFPLighting.resolveParametersLight R st cur).1.populated
        st.self.mSpecularEnable)
      (FFPLighting.resolveParametersLight R st cur).2 := by
  have hp : Tr old (fun s => d s.1) (fun _ => K)
      ({ self := (st.self, cur), programSet := st.programSet, hasError := st.hasError } :
        ResolveState (FFPLighting × LightParams) σ) := h
  have h3 := hp |> ffp_resolveLightType_tr R hd3 hd2
    |> ffp_resolveLightDiffuse_tr R (by intros; rfl)
    |> ffp_resolveLightSpecular_tr R hd1 hd2 hd3 (by intros; rfl) (by intros; rfl)
        (by intros; rfl) (by intros; rfl)
  have hk : (FFPLighting.resolveParametersLight R st cur).2.self.mSpecularEnable
      = st.self.mSpecularEnable := congrArg Prod.snd (ffp_light_kept R st cur).1
  obtain ⟨new, h1, h2, h3⟩ := h3
  refine ⟨new, h1, h2, ?_⟩
  intro q hq
  apply h3
  rw [← hk] at hq
  simpa [LightParams.populated, FFPLighting.resolveParametersLight, List.append_assoc] using hq

/-- The loop of `resolveParameters`: the populated handles of every slot it
leaves are answers of this call, and the slots keep their types. -/
theorem ffp_loop_tr {old : List (Request × ParameterPtr)} {d : FFPLighting → Bool}
    (R : Resolver σ)
    (hd1 : ∀ s p, d { s with mVSOutSpecular := p } = d s)
    (hd2 : ∀ s p, d { s with mVSInPosition := p } = d s)
    (hd3 : ∀ s p, d { s with mWorldViewMatrix := p } = d s) (list : LightParamsList) :
    ∀ (st : ResolveState FFPLighting σ) (K : List ParameterPtr), Tr old d (fun _ => K) st →
      (forEachLightParams (FFPLighting.resolveParametersLight R) st list).2.self.config
          = st.self.config ∧
      (forEachLightParams (FFPLighting.resolveParametersLight R) st list).1.map
          (fun slot => slot.mType) = list.map (fun slot => slot.mType) ∧
      ∃ new,
        (forEachLightParams (FFPLighting.resolveParametersLight R) st list).2.programSet.requests
          = old ++ new ∧
        ((forEachLightParams (FFPLighting.resolveParametersLight R) st list).2.hasError
          || d (forEachLightParams (FFPLighting.resolveParametersLight R) st list).2.self)
          = new.any (fun e => e.2.isNone) ∧
        (∀ q ∈ K, ∃ req, (req, q) ∈ new) ∧
        ∀ slot ∈ (forEachLightParams (FFPLighting.resolveParametersLight R) st list).1,
          ∀ q ∈ slot.populated st.self.mSpecularEnable, ∃ req, (req, q) ∈ new := by
  induction list with
  | nil =>
    intro st K h
    obtain ⟨new, h1, h2, h3⟩ := h
    exact ⟨rfl, rfl, new, h1, h2, h3, by simp [forEachLightParams]⟩
  | cons cur rest ih =>
    intro st K h
    have hb := ffp_light_tr R cur hd1 hd2 hd3 h
    obtain ⟨hk, ht⟩ := ffp_light_kept R st cur
    have hs : (FFPLighting.resolveParametersLight R st cur).2.self.mSpecularEnable
        = st.self.mSpecularEnable := congrArg Prod.snd hk
    obtain ⟨hf, hty, new, h1, h2, h3, h4⟩ := ih _ _ hb
    refine ⟨hf.trans hk, ?_, new, h1, h2, fun q hq => h3 q (List.mem_append_left _ hq), ?_⟩
    · simp only [forEachLightParams, List.map_cons, hty, ht]
    · intro slot hslot q hq
      simp only [forEachLightParams, List.mem_cons] at hslot
      rcases hslot with rfl | hslot
      · exact h3 q (List.mem_append_right _ hq)
      · exact h4 slot hslot q (hs ▸ hq)


theorem ffp_resolveAmbient_kept {a st : ResolveState FFPLighting σ} (R : Resolver σ)
    (h : Kept (fun s => (s.config, s.mLightParamsList)) a st) :
    Kept (fun s => (s.config, s.mLightParamsList)) a (FFPLighting.resolveAmbient R st) :=
  kept_ite (h |> kept_resolve (by intros; rfl) |> kept_check)
    (h |> kept_resolve (by intros; rfl) |> kept_resolve (by intros; rfl) |> kept_check)

theorem ffp_resolveSurfaceDiffuse_kept {a st : ResolveState FFPLighting σ} (R : Resolver σ)
    (h : Kept (fun s => (s.config, s.mLightParamsList)) a st) :
    Kept (fun s => (s.config, s.mLightParamsList)) a (FFPLighting.resolveSurfaceDiffuse R st) :=
  kept_ite (h |> kept_resolve (by intros; rfl) |> kept_check) h

theorem ffp_resolveSurfaceSpecular_kept {a st : ResolveState FFPLighting σ} (R : Resolver σ)
    (h : Kept (fun s => (s.config, s.mLightParamsList)) a st) :
    Kept (fun s => (s.config, s.mLightParamsList)) a (FFPLighting.resolveSurfaceSpecular R st) :=
  kept_ite (h |> kept_resolve (by intros; rfl) |> kept_check) h

theorem ffp_resolveSurfaceEmissive_kept {a st : ResolveState FFPLighting σ} (R : Resolver σ)
    (h : Kept (fun s => (s.config, s.mLightParamsList)) a st) :
    Kept (fun s => (s.config, s.mLightParamsList)) a (FFPLighting.resolveSurfaceEmissive R st) :=
  kept_ite (h |> kept_resolve (by intros; rfl) |> kept_check) h

theorem ffp_resolveVSDiffuse_kept {a st : ResolveState FFPLighting σ} (R : Resolver σ)
    (h : Kept (fun s => (s.config, s.mLightParamsList)) a st) :
    Kept (fun s => (s.config, s.mLightParamsList)) a (FFPLighting.resolveVSDiffuse R st) :=
  kept_ite (h |> kept_resolve (by intros; rfl) |> kept_check) h

theorem ffp_global_kept (R : Resolver σ) (self : FFPLighting) (ps : ProgramSet σ) :
    Kept (fun s => (s.config, s.mLightParamsList))
      { self := self, programSet := ps, hasError := false }
      (FFPLighting.resolveParametersGlobal R self ps) :=
  kept_refl (fun (s : FFPLighting) => (s.config, s.mLightParamsList))
      { self := self, programSet := ps, hasError := false }
    |> kept_resolve (by intros; rfl)
    |> ffp_resolveAmbient_kept R
    |> ffp_resolveSurfaceDiffuse_kept R
    |> ffp_resolveSurfaceSpecular_kept R
    |> ffp_resolveSurfaceEmissive_kept R
    |> kept_resolve (by intros; rfl) |> kept_resolve (by intros; rfl)
    |> kept_resolve (by intros; rfl)
    |> ffp_resolveVSDiffuse_kept R
    |> kept_resolve (by intros; rfl)

end TraceFacts

/-- C6: `FFPLighting::resolveParameters` raises its internal error exactly when
one of the requests it makes for the configuration is answered with a null
handle, and returns `true` exactly when none is; it never returns `false`.
Unless it raises, the slots keep their types and every handle a slot's type
populates, its diffuse colour and, when specular is enabled, its specular
colour is non-null. -/
theorem C6_ffp_raises_iff_request_null {σ : Type} (R : Resolver σ) (self : FFPLighting)
    (ps : ProgramSet σ) :
    ∃ new, (FFPLighting.resolveParameters R self ps).programSet.requests = ps.requests ++ new ∧
      ((FFPLighting.resolveParameters R self ps).result = .error FFPLighting.resolveError ↔
        ∃ e ∈ new, e.2 = none) ∧
      ((FFPLighting.resolveParameters R self ps).result = .ok true ↔ ∀ e ∈ new, e.2 ≠ none) ∧
      (FFPLighting.resolveParameters R self ps).result ≠ .ok false ∧
      (FFPLighting.resolveParameters R self ps).self.mLightParamsList.map (fun slot => slot.mType)
        = self.mLightParamsList.map (fun slot => slot.mType) ∧
      ((FFPLighting.resolveParameters R self ps).result = .error FFPLighting.resolveError ∨
        ∀ slot ∈ (FFPLighting.resolveParameters R self ps).self.mLightParamsList,
          ∀ q ∈ slot.populated self.mSpecularEnable, q ≠ none) := by
  have hg := ffp_global_tr R self ps
  have hk := ffp_global_kept R self ps
  have hlist : (FFPLighting.resolveParametersGlobal R self ps).self.mLightParamsList
      = self.mLightParamsList := congrArg Prod.snd hk.1
  have hspec : (FFPLighting.resolveParametersGlobal R self ps).self.mSpecularEnable
      = self.mSpecularEnable := congrArg (fun x => x.1.2) hk.1
  obtain ⟨-, hty, new, h1, h2, -, h4⟩ :=
    ffp_loop_tr R (by intros; rfl) (by intros; rfl) (by intros; rfl)
      (FFPLighting.resolveParametersGlobal R self ps).self.mLightParamsList _ _ hg
  rw [hspec] at h4
  obtain ⟨f1, f2, f3, f4, f5⟩ := finish_result
    (((FFPLighting.resolveParametersGlobal R self ps).forEachLight
      (FFPLighting.resolveParametersGlobal R self ps).self.mLightParamsList
      (FFPLighting.resolveParametersLight R) (fun s l => { s with mLightParamsList := l })).check
      [fun s => s.mWorldViewITMatrix, fun s => s.mDerivedSceneColour,
        fun s => s.mSurfaceShininess, fun s => s.mVSInNormal, fun s => s.mVSOutDiffuse])
    FFPLighting.resolveError
  have herr : (((FFPLighting.resolveParametersGlobal R self ps).forEachLight
      (FFPLighting.resolveParametersGlobal R self ps).self.mLightParamsList
      (FFPLighting.resolveParametersLight R) (fun s l => { s with mLightParamsList := l })).check
      [fun s => s.mWorldViewITMatrix, fun s => s.mDerivedSceneColour,
        fun s => s.mSurfaceShininess, fun s => s.mVSInNormal, fun s => s.mVSOutDiffuse]).hasError
      = new.any (fun e => e.2.isNone) := by
    rw [← h2]
    simp [ResolveState.check, ResolveState.forEachLight, Bool.or_assoc]
  have hnull : (∃ e ∈ new, e.2 = none) ↔ new.any (fun e => e.2.isNone) = true := by
    simp [List.any_eq_true]
  refine ⟨new, ?_, ?_, ?_, ?_, ?_, ?_⟩
  · unfold FFPLighting.resolveParameters
    rw [f5]
    exact h1
  · unfold FFPLighting.resolveParameters
    rw [f1, herr, hnull]
  · unfold FFPLighting.resolveParameters
    rw [f2, herr]
    simp [List.any_eq_false]
  · unfold FFPLighting.resolveParameters
    exact f3
  · unfold FFPLighting.resolveParameters
    rw [f4]
    exact hty.trans (by rw [hlist])
  · by_cases hn : new.any (fun e => e.2.isNone) = true
    · left
      unfold FFPLighting.resolveParameters
      rw [f1, herr]
      exact hn
    · right
      unfold FFPLighting.resolveParameters
      rw [f4]
      intro slot hslot q hq hnone
      obtain ⟨req, hreq⟩ := h4 slot hslot q hq
      exact hn (List.any_eq_true.2 ⟨(req, q), hreq, by simp [hnone]⟩)

/-! ### Resolution when every request is answered -/

section AnsweredFacts

variable {σ : Type}

theorem ok_resolve {α ι γ : Type} {V : View α ι γ} {c : γ}
    {old : List (Request × ParameterPtr)} {L : List ι} {K : List ParameterPtr}
    {st : ResolveState α σ} {R : Resolver σ} {req : Request} {set : α → ParameterPtr → α}
    (hR : ∀ req s, req.isLookup = false → (R req s).1 ≠ none) (f0 : ι)
    (hset : ∀ s p, V.get (set s p) f0 = p)
    (hoth : ∀ s p f, f ≠ f0 → V.get (set s p) f = V.get s f)
    (hcfg : ∀ s p, V.cfg (set s p) = V.cfg s) (hreq : req.isLookup = false)
    (h : Ok V c old L K st) : Ok V c old (f0 :: L) K (st.resolve R req set) := by
  obtain ⟨he, hc, new, h1, h2, h3, h4⟩ := h
  refine ⟨he, (hcfg _ _).trans hc, new ++ [(req, (R req st.programSet.params).1)], ?_, ?_, ?_, ?_⟩
  · simp [ResolveState.resolve, ProgramSet.resolve, h1]
  · intro f hf
    simp only [ResolveState.resolve, ProgramSet.resolve]
    by_cases hff : f = f0
    · rw [hff, hset]
      exact ⟨hR _ _ hreq, req, List.mem_append_right _ (List.mem_singleton.2 rfl)⟩
    · rw [hoth _ _ f hff]
      rcases List.mem_cons.1 hf with hf | hf
      · exact absurd hf hff
      · obtain ⟨hn, r, hr⟩ := h2 f hf
        exact ⟨hn, r, List.mem_append_left _ hr⟩
  · intro f hfr hf
    have hne : f ≠ f0 := fun e => hf (e ▸ List.mem_cons_self _ _)
    simp only [ResolveState.resolve]
    rw [hoth _ _ f hne]
    exact h3 f hfr (fun hm => hf (List.mem_cons_of_mem _ hm))
  · intro q hq
    obtain ⟨hn, r, hr⟩ := h4 q hq
    exact ⟨hn, r, List.mem_append_left _ hr⟩

theorem ok_check {α ι γ : Type} {V : View α ι γ} {c : γ}
    {old : List (Request × ParameterPtr)} {L : List ι} {K : List ParameterPtr}
    {st : ResolveState α σ} {fs : List (α → ParameterPtr)} (names : List ι)
    (hfs : fs = names.map (fun f s => V.get s f)) (hn : ∀ f ∈ names, f ∈ L)
    (h : Ok V c old L K st) : Ok V c old L K (st.check fs) := by
  obtain ⟨he, hc, new, h1, h2, h3, h4⟩ := h
  refine ⟨?_, hc, new, h1, h2, h3, h4⟩
  simp only [ResolveState.check, he, Bool.false_or, List.any_eq_false, hfs, List.mem_map]
  rintro g ⟨f, hf, rfl⟩
  simpa using (h2 f (hn f hf)).1

theorem ok_ite {α ι γ : Type} {V : View α ι γ} {c : γ}
    {old : List (Request × ParameterPtr)} {L : List ι} {K : List ParameterPtr}
    {x y : ResolveState α σ} {p : Prop} [Decidable p]
    (hx : p → Ok V c old L K x) (hy : ¬ p → Ok V c old L K y) :
    Ok V c old L K (if p then x else y) := by
  split_ifs with hp
  · exact hx hp
  · exact hy hp

/-- The members named may be listed in any way. -/
theorem ok_names {α ι γ : Type} {V : View α ι γ} {c : γ}
    {old : List (Request × ParameterPtr)} {L : List ι} {K : List ParameterPtr}
    {st : ResolveState α σ} (L1 : List ι) (hL : ∀ f, f ∈ L1 ↔ f ∈ L)
    (h : Ok V c old L K st) : Ok V c old L1 K st := by
  obtain ⟨he, hc, new, h1, h2, h3, h4⟩ := h
  exact ⟨he, hc, new, h1, fun f hf => h2 f ((hL f).1 hf),
    fun f hfr hf => h3 f hfr (fun hm => hf ((hL f).2 hm)), h4⟩

/-- A member that is not null is among the members named. -/
theorem ok_mem {α ι γ : Type} {V : View α ι γ} {c : γ}
    {old : List (Request × ParameterPtr)} {L : List ι} {K : List ParameterPtr}
    {st : ResolveState α σ} (h : Ok V c old L K st) (f : ι) (hfr : V.fresh f = true)
    (hf : V.get st.self f ≠ none) : f ∈ L := by
  by_contra hm
  exact hf (h.2.2.choose_spec.2.2.1 f hfr hm)

/-- The paragraph `field = resolve(req); hasError |= !field.get();`. -/
theorem ok_resolveCheck {α ι γ : Type} {V : View α ι γ} {c : γ}
    {old : List (Request × ParameterPtr)} {L : List ι} {K : List ParameterPtr}
    {st : ResolveState α σ} {R : Resolver σ} {req : Request} {set : α → ParameterPtr → α}
    (hR : ∀ req s, req.isLookup = false → (R req s).1 ≠ none) (f0 : ι)
    (hset : ∀ s p, V.get (set s p) f0 = p)
    (hoth : ∀ s p f, f ≠ f0 → V.get (set s p) f = V.get s f)
    (hcfg : ∀ s p, V.cfg (set s p) = V.cfg s) (hreq : req.isLookup = false)
    (h : Ok V c old L K st) :
    Ok V c old (f0 :: L) K ((st.resolve R req set).check [fun s => V.get s f0]) :=
  h |> ok_resolve hR f0 hset hoth hcfg hreq |> ok_check [f0] rfl (by simp)

/-- The paragraph `if (field.get() == NULL) { field = resolve(req); hasError |=
!field.get(); }`. -/
theorem ok_guarded {α ι γ : Type} {V : View α ι γ} {c : γ}
    {old : List (Request × ParameterPtr)} {L : List ι} {K : List ParameterPtr}
    {st : ResolveState α σ} {R : Resolver σ} {req : Request} {set : α → ParameterPtr → α}
    (hR : ∀ req s, req.isLookup = false → (R req s).1 ≠ none) (f0 : ι)
    (hset : ∀ s p, V.get (set s p) f0 = p)
    (hoth : ∀ s p f, f ≠ f0 → V.get (set s p) f = V.get s f)
    (hcfg : ∀ s p, V.cfg (set s p) = V.cfg s) (hreq : req.isLookup = false)
    (hfr : V.fresh f0 = true) (h : Ok V c old L K st) :
    Ok V c old (f0 :: L) K
      (if V.get st.self f0 = none then (st.resolve R req set).check [fun s => V.get s f0]
        else st) := by
  refine ok_ite (fun _ => ok_resolveCheck hR f0 hset hoth hcfg hreq h) (fun hne => ?_)
  have hL : f0 ∈ L := ok_mem h f0 hfr hne
  refine ok_names _ (fun f => ?_) h
  constructor
  · intro hf
    rcases List.mem_cons.1 hf with rfl | hf
    · exact hL
    · exact hf
  · exact List.mem_cons_of_mem _


theorem mem_ite_cons {ι : Type} (p : Prop) [Decidable p] (g f : ι) (X : List ι) :
    f ∈ (if p then g :: X else X) ↔ (p ∧ f = g) ∨ f ∈ X := by
  split_ifs with hp <;> simp [hp]

theorem mem_ite_cons_cons {ι : Type} (p : Prop) [Decidable p] (g g1 g2 f : ι) (X : List ι) :
    f ∈ (if p then g :: X else g1 :: g2 :: X)
      ↔ (p ∧ f = g) ∨ (¬ p ∧ (f = g1 ∨ f = g2)) ∨ f ∈ X := by
  split_ifs with hp <;> simp [hp, or_assoc]

theorem mem_ite_singleton {ι : Type} (p : Prop) [Decidable p] (g1 g2 f : ι) :
    f ∈ (if p then [g1] else [g2]) ↔ (p ∧ f = g1) ∨ (¬ p ∧ f = g2) := by
  split_ifs with hp <;> simp [hp]

theorem mem_ite_singleton_nil {ι : Type} (p : Prop) [Decidable p] (g f : ι) :
    f ∈ (if p then [g] else []) ↔ p ∧ f = g := by
  split_ifs with hp <;> simp [hp]

/-- The paragraph `if (flag) { field = resolve(req); hasError |= !field.get(); }`. -/
theorem ok_flagged {α ι γ : Type} {V : View α ι γ} {c : γ}
    {old : List (Request × ParameterPtr)} {L : List ι} {K : List ParameterPtr}
    {st : ResolveState α σ} {R : Resolver σ} {req : Request} {set : α → ParameterPtr → α}
    (hR : ∀ req s, req.isLookup = false → (R req s).1 ≠ none) (b : Prop) [Decidable b]
    {p : Prop} [Decidable p] (hpb : p ↔ b) (f0 : ι)
    (hset : ∀ s p, V.get (set s p) f0 = p)
    (hoth : ∀ s p f, f ≠ f0 → V.get (set s p) f = V.get s f)
    (hcfg : ∀ s p, V.cfg (set s p) = V.cfg s) (hreq : req.isLookup = false)
    (h : Ok V c old L K st) :
    Ok V c old (if b then f0 :: L else L) K
      (if p then (st.resolve R req set).check [fun s => V.get s f0] else st) := by
  by_cases hb : b
  · rw [if_pos hb, if_pos (hpb.2 hb)]
    exact ok_resolveCheck hR f0 hset hoth hcfg hreq h
  · rw [if_neg hb, if_neg (fun hp => hb (hpb.1 hp))]
    exact h

theorem ffp_cfg {c : (Nat × Bool) × LightParamsList} {old : List (Request × ParameterPtr)}
    {L : List FFPField} {K : List ParameterPtr} {st : ResolveState FFPLighting σ}
    (h : Ok FFPLighting.view c old L K st) :
    st.self.mTrackVertexColourType = c.1.1 ∧ st.self.mSpecularEnable = c.1.2 ∧
      st.self.mLightParamsList = c.2 :=
  ⟨congrArg (fun x => x.1.1) h.2.1, congrArg (fun x => x.1.2) h.2.1,
    congrArg (fun x => x.2) h.2.1⟩

theorem ffp_resolveAmbient_ok {c : (Nat × Bool) × LightParamsList}
    {old : List (Request × ParameterPtr)} {L : List FFPField} {K : List ParameterPtr}
    {st : ResolveState FFPLighting σ} {R : Resolver σ}
    (hR : ∀ req s, req.isLookup = false → (R req s).1 ≠ none)
    (h : Ok FFPLighting.view c old L K st) :
    Ok FFPLighting.view c old
      (if tracks c.1.1 TVC_AMBIENT = false then .mDerivedAmbientLightColour :: L
        else .mSurfaceAmbientColour :: .mLightAmbientColour :: L) K
      (FFPLighting.resolveAmbient R st) := by
  unfold FFPLighting.resolveAmbient
  rw [(ffp_cfg h).1]
  split_ifs
  · exact ok_resolveCheck hR FFPField.mDerivedAmbientLightColour
      (by intros; rfl)
      (by intro s p f hf; cases f <;> first | rfl | exact absurd rfl hf) (by intros; rfl) (by rfl) h
  · exact h
      |> ok_resolve hR FFPField.mLightAmbientColour (by intros; rfl)
      (by intro s p f hf; cases f <;> first | rfl | exact absurd rfl hf) (by intros; rfl) (by rfl)
      |> ok_resolve hR FFPField.mSurfaceAmbientColour (by intros; rfl)
      (by intro s p f hf; cases f <;> first | rfl | exact absurd rfl hf) (by intros; rfl) (by rfl)
      |> ok_check [FFPField.mLightAmbientColour, FFPField.mSurfaceAmbientColour] rfl (by simp)

theorem ffp_resolveSurfaceDiffuse_ok {c : (Nat × Bool) × LightParamsList}
    {old : List (Request × ParameterPtr)} {L : List FFPField} {K : List ParameterPtr}
    {st : ResolveState FFPLighting σ} {R : Resolver σ}
    (hR : ∀ req s, req.isLookup = false → (R req s).1 ≠ none)
    (h : Ok FFPLighting.view c old L K st) :
    Ok FFPLighting.view c old
      (if tracks c.1.1 TVC_DIFFUSE = false then .mSurfaceDiffuseColour :: L else L) K
      (FFPLighting.resolveSurfaceDiffuse R st) :=
  ok_flagged hR _ (by rw [(ffp_cfg h).1]) FFPField.mSurfaceDiffuseColour
    (by intros; rfl)
      (by intro s p f hf; cases f <;> first | rfl | exact absurd rfl hf) (by intros; rfl) (by rfl) h

theorem ffp_resolveSurfaceSpecular_ok {c : (Nat × Bool) × LightParamsList}
    {old : List (Request × ParameterPtr)} {L : List FFPField} {K : List ParameterPtr}
    {st : ResolveState FFPLighting σ} {R : Resolver σ}
    (hR : ∀ req s, req.isLookup = false → (R req s).1 ≠ none)
    (h : Ok FFPLighting.view c old L K st) :
    Ok FFPLighting.view c old
      (if tracks c.1.1 TVC_SPECULAR = false then .mSurfaceSpecularColour :: L else L) K
      (FFPLighting.resolveSurfaceSpecular R st) :=
  ok_flagged hR _ (by rw [(ffp_cfg h).1]) FFPField.mSurfaceSpecularColour
    (by intros; rfl)
      (by intro s p f hf; cases f <;> first | rfl | exact absurd rfl hf) (by intros; rfl) (by rfl) h

theorem ffp_resolveSurfaceEmissive_ok {c : (Nat × Bool) × LightParamsList}
    {old : List (Request × ParameterPtr)} {L : List FFPField} {K : List ParameterPtr}
    {st : ResolveState FFPLighting σ} {R : Resolver σ}
    (hR : ∀ req s, req.isLookup = false → (R req s).1 ≠ none)
    (h : Ok FFPLighting.view c old L K st) :
    Ok FFPLighting.view c old
      (if tracks c.1.1 TVC_EMISSIVE = false then .mSurfaceEmissiveColour :: L else L) K
      (FFPLighting.resolveSurfaceEmissive R st) :=
  ok_flagged hR _ (by rw [(ffp_cfg h).1]) FFPField.mSurfaceEmissiveColour
    (by intros; rfl)
      (by intro s p f hf; cases f <;> first | rfl | exact absurd rfl hf) (by intros; rfl) (by rfl) h

theorem ffp_resolveVSDiffuse_ok {c : (Nat × Bool) × LightParamsList}
    {old : List (Request × ParameterPtr)} {L : List FFPField} {K : List ParameterPtr}
    {st : ResolveState FFPLighting σ} {R : Resolver σ}
    (hR : ∀ req s, req.isLookup = false → (R req s).1 ≠ none)
    (h : Ok FFPLighting.view c old L K st) :
    Ok FFPLighting.view c old (if c.1.1 ≠ 0 then .mVSDiffuse :: L else L) K
      (FFPLighting.resolveVSDiffuse R st) :=
  ok_flagged hR _ (by rw [(ffp_cfg h).1]) FFPField.mVSDiffuse
    (by intros; rfl)
      (by intro s p f hf; cases f <;> first | rfl | exact absurd rfl hf) (by intros; rfl) (by rfl) h

/-- The global part of `resolveParameters` on a fresh object: every member the
emitted invocations may use is answered. -/
theorem ffp_global_ok {R : Resolver σ}
    (hR : ∀ req s, req.isLookup = false → (R req s).1 ≠ none)
    (tvc : Nat) (spec : Bool) (slots : LightParamsList) (ps : ProgramSet σ) :
    ∃ L, Ok FFPLighting.view ((tvc, spec), slots) ps.requests L []
        (FFPLighting.resolveParametersGlobal R
          { mTrackVertexColourType := tvc, mSpecularEnable := spec, mLightParamsList := slots }
          ps) ∧
      ∀ f ∈ FFPLighting.globalNames tvc, f ∈ L := by
  have h0 : Ok FFPLighting.view ((tvc, spec), slots) ps.requests [] []
      ({ self := { mTrackVertexColourType := tvc, mSpecularEnable := spec,
                   mLightParamsList := slots },
         programSet := ps, hasError := false } : ResolveState FFPLighting σ) :=
    ⟨rfl, rfl, [], by simp, by simp, fun f _ _ => by cases f <;> rfl, by simp⟩
  unfold FFPLighting.resolveParametersGlobal
  refine ⟨_, h0
    |> ok_resolve hR FFPField.mWorldViewITMatrix (by intros; rfl)
      (by intro s p f hf; cases f <;> first | rfl | exact absurd rfl hf) (by intros; rfl) (by rfl)
    |> ffp_resolveAmbient_ok hR
    |> ffp_resolveSurfaceDiffuse_ok hR
    |> ffp_resolveSurfaceSpecular_ok hR
    |> ffp_resolveSurfaceEmissive_ok hR
    |> ok_resolve hR FFPField.mDerivedSceneColour (by intros; rfl)
      (by intro s p f hf; cases f <;> first | rfl | exact absurd rfl hf) (by intros; rfl) (by rfl)
    |> ok_resolve hR FFPField.mSurfaceShininess (by intros; rfl)
      (by intro s p f hf; cases f <;> first | rfl | exact absurd rfl hf) (by intros; rfl) (by rfl)
    |> ok_resolve hR FFPField.mVSInNormal (by intros; rfl)
      (by intro s p f hf; cases f <;> first | rfl | exact absurd rfl hf) (by intros; rfl) (by rfl)
    |> ffp_resolveVSDiffuse_ok hR
    |> ok_resolve hR FFPField.mVSOutDiffuse (by intros; rfl)
      (by intro s p f hf; cases f <;> first | rfl | exact absurd rfl hf) (by intros; rfl) (by rfl), ?_⟩
  intro f hf
  simp only [FFPLighting.globalNames] at hf
  simp only [mem_ite_cons, mem_ite_cons_cons, mem_ite_singleton, mem_ite_singleton_nil,
    List.mem_append, List.mem_cons, List.mem_singleton, List.not_mem_nil, or_false] at hf ⊢
  tauto


/-- The handles in `K` may be replaced by any handles among them. -/
theorem ok_handles {α ι γ : Type} {V : View α ι γ} {c : γ}
    {old : List (Request × ParameterPtr)} {L : List ι} {K : List ParameterPtr}
    {st : ResolveState α σ} (K1 : List ParameterPtr) (hK : ∀ q ∈ K1, q ∈ K)
    (h : Ok V c old L K st) : Ok V c old L K1 st := by
  obtain ⟨he, hc, new, h1, h2, h3, h4⟩ := h
  exact ⟨he, hc, new, h1, h2, h3, fun q hq => h4 q (hK q hq)⟩

theorem ffp_slot_cfg {c : ((Nat × Bool) × LightParamsList) × LightTypes}
    {old : List (Request × ParameterPtr)} {L : List (FFPField ⊕ LightParamsField)}
    {K : List ParameterPtr} {st : ResolveState (FFPLighting × LightParams) σ}
    (h : Ok FFPLighting.slotView c old L K st) :
    st.self.1.mTrackVertexColourType = c.1.1.1 ∧ st.self.1.mSpecularEnable = c.1.1.2 ∧
      st.self.2.mType = c.2 :=
  ⟨congrArg (fun x => x.1.1.1) h.2.1, congrArg (fun x => x.1.1.2) h.2.1,
    congrArg (fun x => x.2) h.2.1⟩

theorem ffp_resolveLightType_ok {c : ((Nat × Bool) × LightParamsList) × LightTypes}
    {old : List (Request × ParameterPtr)} {L : List (FFPField ⊕ LightParamsField)}
    {K : List ParameterPtr} {st : ResolveState (FFPLighting × LightParams) σ} {R : Resolver σ}
    (hR : ∀ req s, req.isLookup = false → (R req s).1 ≠ none)
    (h : Ok FFPLighting.slotView c old L K st) :
    Ok FFPLighting.slotView c old (FFPLighting.typeNames c.2 ++ L) K
      (FFPLighting.resolveLightType R st) := by
  unfold FFPLighting.resolveLightType
  rw [(ffp_slot_cfg h).2.2]
  obtain ⟨c1, t⟩ := c
  cases t
  · exact h
      |> ok_resolve hR (Sum.inl FFPField.mWorldViewMatrix) (by intros; rfl)
      (by intro s p f hf; rcases f with f | f <;> cases f <;> first | rfl | exact absurd rfl hf)
      (by intros; rfl) (by rfl)
      |> ok_resolve hR (Sum.inl FFPField.mVSInPosition) (by intros; rfl)
      (by intro s p f hf; rcases f with f | f <;> cases f <;> first | rfl | exact absurd rfl hf)
      (by intros; rfl) (by rfl)
      |> ok_resolve hR (Sum.inr LightParamsField.mPosition) (by intros; rfl)
      (by intro s p f hf; rcases f with f | f <;> cases f <;> first | rfl | exact absurd rfl hf)
      (by intros; rfl) (by rfl)
      |> ok_resolve hR (Sum.inr LightParamsField.mAttenuatParams) (by intros; rfl)
      (by intro s p f hf; rcases f with f | f <;> cases f <;> first | rfl | exact absurd rfl hf)
      (by intros; rfl) (by rfl)
      |> ok_check [Sum.inl FFPField.mWorldViewMatrix, Sum.inl FFPField.mVSInPosition,
          Sum.inr LightParamsField.mPosition, Sum.inr LightParamsField.mAttenuatParams] rfl
          (by simp [FFPLighting.typeNames])
  · exact h
      |> ok_resolve hR (Sum.inr LightParamsField.mDirection) (by intros; rfl)
      (by intro s p f hf; rcases f with f | f <;> cases f <;> first | rfl | exact absurd rfl hf)
      (by intros; rfl) (by rfl)
      |> ok_check [Sum.inr LightParamsField.mDirection] rfl (by simp [FFPLighting.typeNames])
  · exact h
      |> ok_resolve hR (Sum.inl FFPField.mWorldViewMatrix) (by intros; rfl)
      (by intro s p f hf; rcases f with f | f <;> cases f <;> first | rfl | exact absurd rfl hf)
      (by intros; rfl) (by rfl)
      |> ok_resolve hR (Sum.inl FFPField.mVSInPosition) (by intros; rfl)
      (by intro s p f hf; rcases f with f | f <;> cases f <;> first | rfl | exact absurd rfl hf)
      (by intros; rfl) (by rfl)
      |> ok_resolve hR (Sum.inr LightParamsField.mPosition) (by intros; rfl)
      (by intro s p f hf; rcases f with f | f <;> cases f <;> first | rfl | exact absurd rfl hf)
      (by intros; rfl) (by rfl)
      |> ok_resolve hR (Sum.inr LightParamsField.mDirection) (by intros; rfl)
      (by intro s p f hf; rcases f with f | f <;> cases f <;> first | rfl | exact absurd rfl hf)
      (by intros; rfl) (by rfl)
      |> ok_resolve hR (Sum.inr LightParamsField.mAttenuatParams) (by intros; rfl)
      (by intro s p f hf; rcases f with f | f <;> cases f <;> first | rfl | exact absurd rfl hf)
      (by intros; rfl) (by rfl)
      |> ok_resolve hR (Sum.inr LightParamsField.mSpotParams) (by intros; rfl)
      (by intro s p f hf; rcases f with f | f <;> cases f <;> first | rfl | exact absurd rfl hf)
      (by intros; rfl) (by rfl)
      |> ok_check [Sum.inl FFPField.mWorldViewMatrix, Sum.inl FFPField.mVSInPosition,
          Sum.inr LightParamsField.mPosition, Sum.inr LightParamsField.mDirection,
          Sum.inr LightParamsField.mAttenuatParams, Sum.inr LightParamsField.mSpotParams] rfl
          (by simp [FFPLighting.typeNames])

theorem ffp_resolveLightDiffuse_ok {c : ((Nat × Bool) × LightParamsList) × LightTypes}
    {old : List (Request × ParameterPtr)} {L : List (FFPField ⊕ LightParamsField)}
    {K : List ParameterPtr} {st : ResolveState (FFPLighting × LightParams) σ} {R : Resolver σ}
    (hR : ∀ req s, req.isLookup = false → (R req s).1 ≠ none)
    (h : Ok FFPLighting.slotView c old L K st) :
    Ok FFPLighting.slotView c old (Sum.inr LightParamsField.mDiffuseColour :: L) K
      (FFPLighting.resolveLightDiffuse R st) :=
  ok_ite
    (fun _ => h |> ok_resolveCheck hR (Sum.inr LightParamsField.mDiffuseColour) (by intros; rfl)
      (by intro s p f hf; rcases f with f | f <;> cases f <;> first | rfl | exact absurd rfl hf)
      (by intros; rfl) (by rfl))
    (fun _ => h |> ok_resolveCheck hR (Sum.inr LightParamsField.mDiffuseColour) (by intros; rfl)
      (by intro s p f hf; rcases f with f | f <;> cases f <;> first | rfl | exact absurd rfl hf)
      (by intros; rfl) (by rfl))

theorem ffp_resolveLightSpecularColour_ok
    {c : ((Nat × Bool) × LightParamsList) × LightTypes}
    {old : List (Request × ParameterPtr)} {L : List (FFPField ⊕ LightParamsField)}
    {K : List ParameterPtr} {st : ResolveState (FFPLighting × LightParams) σ} {R : Resolver σ}
    (hR : ∀ req s, req.isLookup = false → (R req s).1 ≠ none)
    (h : Ok FFPLighting.slotView c old L K st) :
    Ok FFPLighting.slotView c old (Sum.inr LightParamsField.mSpecularColour :: L) K
      (FFPLighting.resolveLightSpecularColour R st) :=
  ok_ite
    (fun _ => h |> ok_resolveCheck hR (Sum.inr LightParamsField.mSpecularColour) (by intros; rfl)
      (by intro s p f hf; rcases f with f | f <;> cases f <;> first | rfl | exact absurd rfl hf)
      (by intros; rfl) (by rfl))
    (fun _ => h |> ok_resolveCheck hR (Sum.inr LightParamsField.mSpecularColour) (by intros; rfl)
      (by intro s p f hf; rcases f with f | f <;> cases f <;> first | rfl | exact absurd rfl hf)
      (by intros; rfl) (by rfl))

theorem ffp_resolveVSOutSpecular_ok {c : ((Nat × Bool) × LightParamsList) × LightTypes}
    {old : List (Request × ParameterPtr)} {L : List (FFPField ⊕ LightParamsField)}
    {K : List ParameterPtr} {st : ResolveState (FFPLighting × LightParams) σ} {R : Resolver σ}
    (hR : ∀ req s, req.isLookup = false → (R req s).1 ≠ none)
    (h : Ok FFPLighting.slotView c old L K st) :
    Ok FFPLighting.slotView c old (Sum.inl FFPField.mVSOutSpecular :: L) K
      (FFPLighting.resolveVSOutSpecular R st) :=
  h |> ok_guarded hR (Sum.inl FFPField.mVSOutSpecular) (by intros; rfl)
      (by intro s p f hf; rcases f with f | f <;> cases f <;> first | rfl | exact absurd rfl hf)
      (by intros; rfl) (by rfl) rfl

theorem ffp_resolveVSInPosition_ok {c : ((Nat × Bool) × LightParamsList) × LightTypes}
    {old : List (Request × ParameterPtr)} {L : List (FFPField ⊕ LightParamsField)}
    {K : List ParameterPtr} {st : ResolveState (FFPLighting × LightParams) σ} {R : Resolver σ}
    (hR : ∀ req s, req.isLookup = false → (R req s).1 ≠ none)
    (h : Ok FFPLighting.slotView c old L K st) :
    Ok FFPLighting.slotView c old (Sum.inl FFPField.mVSInPosition :: L) K
      (FFPLighting.resolveVSInPosition R st) :=
  h |> ok_guarded hR (Sum.inl FFPField.mVSInPosition) (by intros; rfl)
      (by intro s p f hf; rcases f with f | f <;> cases f <;> first | rfl | exact absurd rfl hf)
      (by intros; rfl) (by rfl) rfl

theorem ffp_resolveWorldViewMatrix_ok {c : ((Nat × Bool) × LightParamsList) × LightTypes}
    {old : List (Request × ParameterPtr)} {L : List (FFPField ⊕ LightParamsField)}
    {K : List ParameterPtr} {st : ResolveState (FFPLighting × LightParams) σ} {R : Resolver σ}
    (hR : ∀ req s, req.isLookup = false → (R req s).1 ≠ none)
    (h : Ok FFPLighting.slotView c old L K st) :
    Ok FFPLighting.slotView c old (Sum.inl FFPField.mWorldViewMatrix :: L) K
      (FFPLighting.resolveWorldViewMatrix R st) :=
  h |> ok_guarded hR (Sum.inl FFPField.mWorldViewMatrix) (by intros; rfl)
      (by intro s p f hf; rcases f with f | f <;> cases f <;> first | rfl | exact absurd rfl hf)
      (by intros; rfl) (by rfl) rfl

theorem ffp_resolveLightSpecular_ok {c : ((Nat × Bool) × LightParamsList) × LightTypes}
    {old : List (Request × ParameterPtr)} {L : List (FFPField ⊕ LightParamsField)}
    {K : List ParameterPtr} {st : ResolveState (FFPLighting × LightParams) σ} {R : Resolver σ}
    (hR : ∀ req s, req.isLookup = false → (R req s).1 ≠ none)
    (h : Ok FFPLighting.slotView c old L K st) :
    Ok FFPLighting.slotView c old (FFPLighting.specularNames c.1.1.2 ++ L) K
      (FFPLighting.resolveLightSpecular R st) := by
  unfold FFPLighting.resolveLightSpecular
  rw [(ffp_slot_cfg h).2.1]
  cases hs : c.1.1.2
  · exact h
  · exact h |> ffp_resolveLightSpecularColour_ok hR |> ffp_resolveVSOutSpecular_ok hR
      |> ffp_resolveVSInPosition_ok hR |> ffp_resolveWorldViewMatrix_ok hR


/-- Entering an iteration: the object and the current slot. -/
theorem ffp_enter_ok {c : (Nat × Bool) × LightParamsList}
    {old : List (Request × ParameterPtr)} {L : List FFPField} {K : List ParameterPtr}
    {st : ResolveState FFPLighting σ} (cur : LightParams)
    (h : Ok FFPLighting.view c old L K st) :
    Ok FFPLighting.slotView (c, cur.mType) old (L.map Sum.inl) K
      ({ self := (st.self, cur), programSet := st.programSet, hasError := st.hasError } :
        ResolveState (FFPLighting × LightParams) σ) := by
  obtain ⟨he, hc, new, h1, h2, h3, h4⟩ := h
  refine ⟨he, ?_, new, h1, ?_, ?_, h4⟩
  · exact congrArg (fun x => (x, cur.mType)) hc
  · intro f hf
    obtain ⟨g, hg, rfl⟩ := List.mem_map.1 hf
    exact h2 g hg
  · intro f hfr hf
    rcases f with g | g
    · exact h3 g rfl (fun hg => hf (List.mem_map.2 ⟨g, hg, rfl⟩))
    · exact absurd hfr (by simp [FFPLighting.slotView])

/-- Leaving an iteration: the answered members of the slot become answered
handles. -/
theorem ffp_leave_ok {c : (Nat × Bool) × LightParamsList} {t : LightTypes}
    {old : List (Request × ParameterPtr)} {L : List (FFPField ⊕ LightParamsField)}
    {K : List ParameterPtr} {st : ResolveState (FFPLighting × LightParams) σ}
    (h : Ok FFPLighting.slotView (c, t) old L K st) :
    Ok FFPLighting.view c old (L.filterMap Sum.getLeft?)
      (K ++ (L.filterMap Sum.getRight?).map st.self.2.handle)
      ({ self := st.self.1, programSet := st.programSet, hasError := st.hasError } :
        ResolveState FFPLighting σ) := by
  obtain ⟨he, hc, new, h1, h2, h3, h4⟩ := h
  refine ⟨he, congrArg Prod.fst hc, new, h1, ?_, ?_, ?_⟩
  · intro f hf
    obtain ⟨g, hg, hgf⟩ := List.mem_filterMap.1 hf
    rcases g with g | g
    · simp only [Sum.getLeft?_inl, Option.some.injEq] at hgf
      subst hgf
      exact h2 _ hg
    · simp at hgf
  · intro f _ hf
    exact h3 (Sum.inl f) rfl (fun hm => hf (List.mem_filterMap.2 ⟨_, hm, rfl⟩))
  · intro q hq
    rcases List.mem_append.1 hq with hq | hq
    · exact h4 q hq
    · obtain ⟨g, hg, rfl⟩ := List.mem_map.1 hq
      obtain ⟨g1, hg1, hgf⟩ := List.mem_filterMap.1 hg
      rcases g1 with g1 | g1
      · simp at hgf
      · simp only [Sum.getRight?_inr, Option.some.injEq] at hgf
        subst hgf
        exact h2 _ hg1

/-- One iteration of the loop of `resolveParameters` when every request is
answered. -/
theorem ffp_light_ok {c : (Nat × Bool) × LightParamsList}
    {old : List (Request × ParameterPtr)} {L : List FFPField} {K : List ParameterPtr}
    {st : ResolveState FFPLighting σ} {R : Resolver σ}
    (hR : ∀ req s, req.isLookup = false → (R req s).1 ≠ none) (cur : LightParams)
    (h : Ok FFPLighting.view c old L K st) :
    (FFPLighting.resolveParametersLight R st cur).1.mType = cur.mType ∧
    ∃ L1, Ok FFPLighting.view c old L1
        (K ++ (FFPLighting.resolveParametersLight R st cur).1.populated c.1.2)
        (FFPLighting.resolveParametersLight R st cur).2 ∧
      (∀ f ∈ L, f ∈ L1) ∧
      (c.1.2 = true → FFPField.mVSOutSpecular ∈ L1 ∧ FFPField.mVSInPosition ∈ L1 ∧
        FFPField.mWorldViewMatrix ∈ L1) ∧
      (cur.mType ≠ LT_DIRECTIONAL → FFPField.mVSInPosition ∈ L1 ∧
        FFPField.mWorldViewMatrix ∈ L1) := by
  have hp := ffp_enter_ok cur h |> ffp_resolveLightType_ok hR |> ffp_resolveLightDiffuse_ok hR
    |> ffp_resolveLightSpecular_ok hR
  have ht := (ffp_slot_cfg hp).2.2
  have hl := ffp_leave_ok hp
  refine ⟨ht, _, ok_handles _ ?_ hl, ?_, ?_, ?_⟩
  · intro q hq
    rcases List.mem_append.1 hq with hq | hq
    · exact List.mem_append_left _ hq
    · refine List.mem_append_right _ ?_
      simp only [LightParams.populated] at hq
      change (FFPLighting.resolveParametersLight R st cur).1.mType = cur.mType at ht
      rw [ht] at hq
      rcases hc : cur.mType <;> rcases hs : c.1.2 <;>
        simp [hc, hs, FFPLighting.typeNames, FFPLighting.specularNames, LightParams.handle,
          FFPLighting.resolveParametersLight] at hq ⊢ <;> tauto
  · intro f hf
    simp [List.mem_filterMap, hf]
  · intro hs
    simp [List.mem_filterMap, hs, FFPLighting.specularNames]
  · intro hd
    rcases hc : cur.mType <;> simp [List.mem_filterMap, hc, FFPLighting.typeNames] at hd ⊢


/-- The loop of `resolveParameters` when every request is answered. -/
theorem ffp_loop_ok {c : (Nat × Bool) × LightParamsList}
    {old : List (Request × ParameterPtr)} {R : Resolver σ}
    (hR : ∀ req s, req.isLookup = false → (R req s).1 ≠ none) (list : LightParamsList) :
    ∀ (st : ResolveState FFPLighting σ) (L : List FFPField) (K : List ParameterPtr),
      Ok FFPLighting.view c old L K st →
      (forEachLightParams (FFPLighting.resolveParametersLight R) st list).1.map
          (fun slot => slot.mType) = list.map (fun slot => slot.mType) ∧
      ∃ L1 K1, Ok FFPLighting.view c old L1 K1
          (forEachLightParams (FFPLighting.resolveParametersLight R) st list).2 ∧
        (∀ f ∈ L, f ∈ L1) ∧ (∀ q ∈ K, q ∈ K1) ∧
        (∀ slot ∈ (forEachLightParams (FFPLighting.resolveParametersLight R) st list).1,
          ∀ q ∈ slot.populated c.1.2, q ∈ K1) ∧
        (list ≠ [] → c.1.2 = true → FFPField.mVSOutSpecular ∈ L1 ∧
          FFPField.mVSInPosition ∈ L1 ∧ FFPField.mWorldViewMatrix ∈ L1) ∧
        (∀ cur ∈ list, cur.mType ≠ LT_DIRECTIONAL → FFPField.mVSInPosition ∈ L1 ∧
          FFPField.mWorldViewMatrix ∈ L1) := by
  induction list with
  | nil =>
    intro st L K h
    exact ⟨rfl, L, K, h, fun _ hf => hf, fun _ hq => hq, by simp [forEachLightParams],
      fun hne => absurd rfl hne, by simp⟩
  | cons cur rest ih =>
    intro st L K h
    obtain ⟨ht, L1, h1, hL1, hs1, hd1⟩ := ffp_light_ok hR cur h
    obtain ⟨hty, L2, K2, h2, hL2, hK2, hslots, -, hd2⟩ := ih _ _ _ h1
    refine ⟨?_, L2, K2, h2, fun f hf => hL2 f (hL1 f hf),
      fun q hq => hK2 q (List.mem_append_left _ hq), ?_, ?_, ?_⟩
    · simp only [forEachLightParams, List.map_cons, hty, ht]
    · intro slot hslot q hq
      simp only [forEachLightParams, List.mem_cons] at hslot
      rcases hslot with rfl | hslot
      · exact hK2 q (List.mem_append_right _ hq)
      · exact hslots slot hslot q hq
    · intro _ hs
      obtain ⟨a1, a2, a3⟩ := hs1 hs
      exact ⟨hL2 _ a1, hL2 _ a2, hL2 _ a3⟩
    · intro x hx hd
      rcases List.mem_cons.1 hx with rfl | hx
      · obtain ⟨a1, a2⟩ := hd1 hd
        exact ⟨hL2 _ a1, hL2 _ a2⟩
      · exact hd2 x hx hd

/-- When every request is answered, `FFPLighting::resolveParameters` on a fresh
object returns true, and the members the emitted invocations use hold answers
of this call. -/
theorem ffp_resolve_ok {R : Resolver σ}
    (hR : ∀ req s, req.isLookup = false → (R req s).1 ≠ none)
    (tvc : Nat) (spec : Bool) (slots : LightParamsList) (ps : ProgramSet σ) :
    (FFPLighting.resolveParameters R
      { mTrackVertexColourType := tvc, mSpecularEnable := spec, mLightParamsList := slots }
      ps).result = .ok true ∧
    ∃ (self : FFPLighting) (new : List (Request × ParameterPtr)),
      (FFPLighting.resolveParameters R
        { mTrackVertexColourType := tvc, mSpecularEnable := spec, mLightParamsList := slots }
        ps).self = self ∧
      (FFPLighting.resolveParameters R
        { mTrackVertexColourType := tvc, mSpecularEnable := spec, mLightParamsList := slots }
        ps).programSet.requests = ps.requests ++ new ∧
      self.mTrackVertexColourType = tvc ∧ self.mSpecularEnable = spec ∧
      self.mLightParamsList.map (fun slot => slot.mType) = slots.map (fun slot => slot.mType) ∧
      (∀ f ∈ FFPLighting.globalNames tvc, Answered new (self.handle f)) ∧
      (∀ slot ∈ self.mLightParamsList, ∀ q ∈ slot.populated spec, Answered new q) ∧
      (slots ≠ [] → spec = true → Answered new self.mVSOutSpecular ∧
        Answered new self.mVSInPosition ∧ Answered new self.mWorldViewMatrix) ∧
      (∀ cur ∈ slots, cur.mType ≠ LT_DIRECTIONAL → Answered new self.mVSInPosition ∧
        Answered new self.mWorldViewMatrix) := by
  obtain ⟨L, hg, hnames⟩ := ffp_global_ok hR tvc spec slots ps
  have hlist : (FFPLighting.resolveParametersGlobal R
      { mTrackVertexColourType := tvc, mSpecularEnable := spec, mLightParamsList := slots }
      ps).self.mLightParamsList = slots := (ffp_cfg hg).2.2
  obtain ⟨hty, L1, K1, h1, hL1, -, hslots, hs, hd⟩ := ffp_loop_ok hR
    (FFPLighting.resolveParametersGlobal R
      { mTrackVertexColourType := tvc, mSpecularEnable := spec, mLightParamsList := slots }
      ps).self.mLightParamsList _ _ _ hg
  rw [hlist] at hs hd
  have hty := hty.trans (congrArg _ hlist)
  obtain ⟨he, hc, new, hreq, hL, -, hK⟩ := h1
  obtain ⟨-, f2, -, f4, f5⟩ := finish_result
    (((FFPLighting.resolveParametersGlobal R
        { mTrackVertexColourType := tvc, mSpecularEnable := spec, mLightParamsList := slots }
        ps).forEachLight
      (FFPLighting.resolveParametersGlobal R
        { mTrackVertexColourType := tvc, mSpecularEnable := spec, mLightParamsList := slots }
        ps).self.mLightParamsList
      (FFPLighting.resolveParametersLight R) (fun s l => { s with mLightParamsList := l })).check
      [fun s => s.mWorldViewITMatrix, fun s => s.mDerivedSceneColour,
        fun s => s.mSurfaceShininess, fun s => s.mVSInNormal, fun s => s.mVSOutDiffuse])
    FFPLighting.resolveError
  have hans : ∀ f ∈ L1, Answered new
      ((forEachLightParams (FFPLighting.resolveParametersLight R)
        (FFPLighting.resolveParametersGlobal R
          { mTrackVertexColourType := tvc, mSpecularEnable := spec, mLightParamsList := slots }
          ps)
        (FFPLighting.resolveParametersGlobal R
          { mTrackVertexColourType := tvc, mSpecularEnable := spec, mLightParamsList := slots }
          ps).self.mLightParamsList).2.self.handle f) := hL
  have hglob : ∀ f ∈ FFPLighting.globalNames tvc, f ∈ L1 := fun f hf => hL1 f (hnames f hf)
  unfold FFPLighting.resolveParameters
  refine ⟨?_, _, new, f4, ?_, ?_, ?_, ?_, ?_, ?_, ?_, ?_⟩
  · rw [f2]
    have a1 := (hans _ (hglob FFPField.mWorldViewITMatrix (by simp [FFPLighting.globalNames]))).1
    have a2 := (hans _ (hglob FFPField.mDerivedSceneColour (by simp [FFPLighting.globalNames]))).1
    have a3 := (hans _ (hglob FFPField.mSurfaceShininess (by simp [FFPLighting.globalNames]))).1
    have a4 := (hans _ (hglob FFPField.mVSInNormal (by simp [FFPLighting.globalNames]))).1
    have a5 := (hans _ (hglob FFPField.mVSOutDiffuse (by simp [FFPLighting.globalNames]))).1
    simp only [FFPLighting.handle, ne_eq, ← Option.isNone_iff_eq_none, Bool.not_eq_true]
      at a1 a2 a3 a4 a5
    simp only [ResolveState.check, ResolveState.forEachLight, List.any_cons, List.any_nil, he,
      a1, a2, a3, a4, a5, Bool.or_self]
  · rw [f5]
    exact hreq
  · exact congrArg (fun x => x.1.1) hc
  · exact congrArg (fun x => x.1.2) hc
  · exact hty
  · intro f hf
    have := hans f (hglob f hf)
    cases f <;> exact this
  · intro slot hslot q hq
    exact hK q (hslots slot hslot q hq)
  · intro hne hsp
    obtain ⟨b1, b2, b3⟩ := hs hne hsp
    exact ⟨hans _ b1, hans _ b2, hans _ b3⟩
  · intro cur hcur hdir
    obtain ⟨b1, b2⟩ := hd cur hcur hdir
    exact ⟨hans _ b1, hans _ b2⟩

end AnsweredFacts

section AnsweredPerPixel

variable {σ : Type}

/-- Any statement that stores a non-null answer of this call in a member and
leaves the rest as it is. -/
theorem ok_assign {α ι γ : Type} {V : View α ι γ} {c : γ}
    {old : List (Request × ParameterPtr)} {L : List ι} {K : List ParameterPtr}
    {st st1 : ResolveState α σ} (f0 : ι) (ext : List (Request × ParameterPtr))
    (hne : V.get st1.self f0 ≠ none)
    (hoth : ∀ f, f ≠ f0 → V.get st1.self f = V.get st.self f)
    (hcfg : V.cfg st1.self = V.cfg st.self) (herr : st1.hasError = st.hasError)
    (hlog : st1.programSet.requests = st.programSet.requests ++ ext)
    (hin : ∃ req, (req, V.get st1.self f0) ∈ ext)
    (h : Ok V c old L K st) : Ok V c old (f0 :: L) K st1 := by
  obtain ⟨he, hc, new, h1, h2, h3, h4⟩ := h
  refine ⟨herr.trans he, hcfg.trans hc, new ++ ext, ?_, ?_, ?_, ?_⟩
  · rw [hlog, h1, List.append_assoc]
  · intro f hf
    by_cases hff : f = f0
    · rw [hff]
      obtain ⟨req, hreq⟩ := hin
      exact ⟨hne, req, List.mem_append_right _ hreq⟩
    · rw [hoth f hff]
      rcases List.mem_cons.1 hf with hf | hf
      · exact absurd hf hff
      · obtain ⟨hn, r, hr⟩ := h2 f hf
        exact ⟨hn, r, List.mem_append_left _ hr⟩
  · intro f hfr hf
    have hne : f ≠ f0 := fun e => hf (e ▸ List.mem_cons_self _ _)
    rw [hoth f hne]
    exact h3 f hfr (fun hm => hf (List.mem_cons_of_mem _ hm))
  · intro q hq
    obtain ⟨hn, r, hr⟩ := h4 q hq
    exact ⟨hn, r, List.mem_append_left _ hr⟩

theorem pp_cfg {c : (Nat × Bool) × LightParamsList} {old : List (Request × ParameterPtr)}
    {L : List PerPixelField} {K : List ParameterPtr} {st : ResolveState PerPixelLighting σ}
    (h : Ok PerPixelLighting.view c old L K st) :
    st.self.mTrackVertexColourType = c.1.1 ∧ st.self.mSpecularEnable = c.1.2 ∧
      st.self.mLightParamsList = c.2 :=
  ⟨congrArg (fun x => x.1.1) h.2.1, congrArg (fun x => x.1.2) h.2.1,
    congrArg (fun x => x.2) h.2.1⟩

theorem pp_resolveAmbient_ok {c : (Nat × Bool) × LightParamsList}
    {old : List (Request × ParameterPtr)} {L : List PerPixelField} {K : List ParameterPtr}
    {st : ResolveState PerPixelLighting σ} {R : Resolver σ}
    (hR : ∀ req s, req.isLookup = false → (R req s).1 ≠ none)
    (h : Ok PerPixelLighting.view c old L K st) :
    Ok PerPixelLighting.view c old
      (if tracks c.1.1 TVC_AMBIENT = false then PerPixelField.mDerivedAmbientLightColour :: L
        else PerPixelField.mSurfaceAmbientColour :: PerPixelField.mLightAmbientColour :: L) K
      (PerPixelLighting.resolveAmbient R st) := by
  unfold PerPixelLighting.resolveAmbient
  rw [(pp_cfg h).1]
  split_ifs
  · exact h |> ok_resolveCheck hR (PerPixelField.mDerivedAmbientLightColour) (by intros; rfl)
      (by intro s p f hf; cases f <;> first | rfl | exact absurd rfl hf)
      (by intros; rfl) (by rfl)
  · exact h
      |> ok_resolve hR (PerPixelField.mLightAmbientColour) (by intros; rfl)
      (by intro s p f hf; cases f <;> first | rfl | exact absurd rfl hf)
      (by intros; rfl) (by rfl)
      |> ok_resolve hR (PerPixelField.mSurfaceAmbientColour) (by intros; rfl)
      (by intro s p f hf; cases f <;> first | rfl | exact absurd rfl hf)
      (by intros; rfl) (by rfl)
      |> ok_check [PerPixelField.mSurfaceAmbientColour, PerPixelField.mLightAmbientColour] rfl
          (by simp)

theorem pp_resolveSurfaceDiffuse_ok {c : (Nat × Bool) × LightParamsList}
    {old : List (Request × ParameterPtr)} {L : List PerPixelField} {K : List ParameterPtr}
    {st : ResolveState PerPixelLighting σ} {R : Resolver σ}
    (hR : ∀ req s, req.isLookup = false → (R req s).1 ≠ none)
    (h : Ok PerPixelLighting.view c old L K st) :
    Ok PerPixelLighting.view c old
      (if tracks c.1.1 TVC_DIFFUSE = false then PerPixelField.mSurfaceDiffuseColour :: L
        else L) K
      (PerPixelLighting.resolveSurfaceDiffuse R st) :=
  ok_flagged hR _ (by rw [(pp_cfg h).1]) (PerPixelField.mSurfaceDiffuseColour) (by intros; rfl)
      (by intro s p f hf; cases f <;> first | rfl | exact absurd rfl hf)
      (by intros; rfl) (by rfl) h

theorem pp_resolveSurfaceSpecular_ok {c : (Nat × Bool) × LightParamsList}
    {old : List (Request × ParameterPtr)} {L : List PerPixelField} {K : List ParameterPtr}
    {st : ResolveState PerPixelLighting σ} {R : Resolver σ}
    (hR : ∀ req s, req.isLookup = false → (R req s).1 ≠ none)
    (h : Ok PerPixelLighting.view c old L K st) :
    Ok PerPixelLighting.view c old
      (if tracks c.1.1 TVC_SPECULAR = false then PerPixelField.mSurfaceSpecularColour :: L
        else L) K
      (PerPixelLighting.resolveSurfaceSpecular R st) :=
  ok_flagged hR _ (by rw [(pp_cfg h).1]) (PerPixelField.mSurfaceSpecularColour) (by intros; rfl)
      (by intro s p f hf; cases f <;> first | rfl | exact absurd rfl hf)
      (by intros; rfl) (by rfl) h

theorem pp_resolveSurfaceEmissive_ok {c : (Nat × Bool) × LightParamsList}
    {old : List (Request × ParameterPtr)} {L : List PerPixelField} {K : List ParameterPtr}
    {st : ResolveState PerPixelLighting σ} {R : Resolver σ}
    (hR : ∀ req s, req.isLookup = false → (R req s).1 ≠ none)
    (h : Ok PerPixelLighting.view c old L K st) :
    Ok PerPixelLighting.view c old
      (if tracks c.1.1 TVC_EMISSIVE = false then PerPixelField.mSurfaceEmissiveColour :: L
        else L) K
      (PerPixelLighting.resolveSurfaceEmissive R st) :=
  ok_flagged hR _ (by rw [(pp_cfg h).1]) (PerPixelField.mSurfaceEmissiveColour) (by intros; rfl)
      (by intro s p f hf; cases f <;> first | rfl | exact absurd rfl hf)
      (by intros; rfl) (by rfl) h

theorem pp_resolvePSInNormal_ok {c : (Nat × Bool) × LightParamsList}
    {old : List (Request × ParameterPtr)} {L : List PerPixelField} {K : List ParameterPtr}
    {st : ResolveState PerPixelLighting σ} {R : Resolver σ}
    (hR : ∀ req s, req.isLookup = false → (R req s).1 ≠ none)
    (h : Ok PerPixelLighting.view c old L K st) :
    Ok PerPixelLighting.view c old (PerPixelField.mPSInNormal :: L) K
      (PerPixelLighting.resolvePSInNormal R st) :=
  h |> ok_resolve hR (PerPixelField.mPSInNormal) (by intros; rfl)
      (by intro s p f hf; cases f <;> first | rfl | exact absurd rfl hf)
      (by intros; rfl) (by rfl)

theorem pp_resolvePSInViewPos_ok {c : (Nat × Bool) × LightParamsList}
    {old : List (Request × ParameterPtr)} {L : List PerPixelField} {K : List ParameterPtr}
    {st : ResolveState PerPixelLighting σ} {R : Resolver σ}
    (hR : ∀ req s, req.isLookup = false → (R req s).1 ≠ none)
    (h : Ok PerPixelLighting.view c old L K st) :
    Ok PerPixelLighting.view c old (PerPixelField.mPSInViewPos :: L) K
      (PerPixelLighting.resolvePSInViewPos R st) :=
  h |> ok_resolve hR (PerPixelField.mPSInViewPos) (by intros; rfl)
      (by intro s p f hf; cases f <;> first | rfl | exact absurd rfl hf)
      (by intros; rfl) (by rfl)

/-- The fragment diffuse colour: found as an input or as a local. -/
theorem pp_resolvePSDiffuse_ok {c : (Nat × Bool) × LightParamsList}
    {old : List (Request × ParameterPtr)} {L : List PerPixelField} {K : List ParameterPtr}
    {st : ResolveState PerPixelLighting σ} {R : Resolver σ}
    (hD : ∀ s,
      (R (.getInputParameter GpuProgramType.GPT_FRAGMENT_PROGRAM Content.SPC_COLOR_DIFFUSE) s).1
        ≠ none ∨
      (R (.getLocalParameter GpuProgramType.GPT_FRAGMENT_PROGRAM Content.SPC_COLOR_DIFFUSE) s).1
        ≠ none)
    (h : Ok PerPixelLighting.view c old L K st) :
    Ok PerPixelLighting.view c old (PerPixelField.mPSDiffuse :: L) K
      (PerPixelLighting.resolvePSDiffuse R st) := by
  unfold PerPixelLighting.resolvePSDiffuse
  by_cases h1 : (R (.getInputParameter GpuProgramType.GPT_FRAGMENT_PROGRAM
      Content.SPC_COLOR_DIFFUSE) st.programSet.params).1 = none
  · have h2 := (hD st.programSet.params).resolve_left (fun hn => hn h1)
    refine ok_assign PerPixelField.mPSDiffuse
      [(.getInputParameter GpuProgramType.GPT_FRAGMENT_PROGRAM Content.SPC_COLOR_DIFFUSE, none),
        (.getLocalParameter GpuProgramType.GPT_FRAGMENT_PROGRAM Content.SPC_COLOR_DIFFUSE,
          (R (.getLocalParameter GpuProgramType.GPT_FRAGMENT_PROGRAM
            Content.SPC_COLOR_DIFFUSE) st.programSet.params).1)] ?_ ?_ ?_ ?_ ?_ ?_ h
    · simpa [ResolveState.lookup, ProgramSet.lookup, h1, PerPixelLighting.view,
        PerPixelLighting.handle] using h2
    · intro f hf
      cases f <;> first
        | exact absurd rfl hf
        | simp [ResolveState.lookup, ProgramSet.lookup, h1, PerPixelLighting.view,
            PerPixelLighting.handle]
    · simp [ResolveState.lookup, ProgramSet.lookup, h1, PerPixelLighting.view,
        PerPixelLighting.config]
    · simp [ResolveState.lookup, ProgramSet.lookup, h1]
    · simp [ResolveState.lookup, ProgramSet.lookup, h1]
    · exact ⟨.getLocalParameter GpuProgramType.GPT_FRAGMENT_PROGRAM Content.SPC_COLOR_DIFFUSE,
        by simp [ResolveState.lookup, ProgramSet.lookup, h1, PerPixelLighting.view,
          PerPixelLighting.handle]⟩
  · refine ok_assign PerPixelField.mPSDiffuse
      [(.getInputParameter GpuProgramType.GPT_FRAGMENT_PROGRAM Content.SPC_COLOR_DIFFUSE,
          (R (.getInputParameter GpuProgramType.GPT_FRAGMENT_PROGRAM
            Content.SPC_COLOR_DIFFUSE) st.programSet.params).1)] ?_ ?_ ?_ ?_ ?_ ?_ h
    · simp [ResolveState.lookup, ProgramSet.lookup, h1, PerPixelLighting.view,
        PerPixelLighting.handle]
    · intro f hf
      cases f <;> first
        | exact absurd rfl hf
        | simp [ResolveState.lookup, ProgramSet.lookup, h1, PerPixelLighting.view,
            PerPixelLighting.handle]
    · simp [ResolveState.lookup, ProgramSet.lookup, h1, PerPixelLighting.view,
        PerPixelLighting.config]
    · simp [ResolveState.lookup, ProgramSet.lookup, h1]
    · simp [ResolveState.lookup, ProgramSet.lookup, h1]
    · exact ⟨.getInputParameter GpuProgramType.GPT_FRAGMENT_PROGRAM Content.SPC_COLOR_DIFFUSE,
        by simp [ResolveState.lookup, ProgramSet.lookup, h1, PerPixelLighting.view,
          PerPixelLighting.handle]⟩


/-- The fragment specular colour: found as an input, or created as a local. -/
theorem pp_resolvePSSpecular_ok {c : (Nat × Bool) × LightParamsList}
    {old : List (Request × ParameterPtr)} {L : List PerPixelField} {K : List ParameterPtr}
    {st : ResolveState PerPixelLighting σ} {R : Resolver σ}
    (hR : ∀ req s, req.isLookup = false → (R req s).1 ≠ none)
    (h : Ok PerPixelLighting.view c old L K st) :
    Ok PerPixelLighting.view c old (PerPixelField.mPSSpecular :: L) K
      (PerPixelLighting.resolvePSSpecular R st) := by
  unfold PerPixelLighting.resolvePSSpecular
  by_cases h1 : (R (.getInputParameter GpuProgramType.GPT_FRAGMENT_PROGRAM
      Content.SPC_COLOR_SPECULAR) st.programSet.params).1 = none
  · have h2 := hR (.resolveLocalParameter GpuProgramType.GPT_FRAGMENT_PROGRAM
      Content.SPC_COLOR_SPECULAR) st.programSet.params rfl
    refine ok_assign PerPixelField.mPSSpecular
      [(.getInputParameter GpuProgramType.GPT_FRAGMENT_PROGRAM Content.SPC_COLOR_SPECULAR, none),
        (.resolveLocalParameter GpuProgramType.GPT_FRAGMENT_PROGRAM Content.SPC_COLOR_SPECULAR,
          (R (.resolveLocalParameter GpuProgramType.GPT_FRAGMENT_PROGRAM
            Content.SPC_COLOR_SPECULAR) st.programSet.params).1)] ?_ ?_ ?_ ?_ ?_ ?_ h
    · simpa [ResolveState.lookup, ProgramSet.lookup, ResolveState.resolve, ProgramSet.resolve,
        h1, PerPixelLighting.view, PerPixelLighting.handle] using h2
    · intro f hf
      cases f <;> first
        | exact absurd rfl hf
        | simp [ResolveState.lookup, ProgramSet.lookup, ResolveState.resolve,
            ProgramSet.resolve, h1, PerPixelLighting.view, PerPixelLighting.handle]
    · simp [ResolveState.lookup, ProgramSet.lookup, ResolveState.resolve, ProgramSet.resolve,
        h1, PerPixelLighting.view, PerPixelLighting.config]
    · simp [ResolveState.lookup, ProgramSet.lookup, ResolveState.resolve, ProgramSet.resolve, h1]
    · simp [ResolveState.lookup, ProgramSet.lookup, ResolveState.resolve, ProgramSet.resolve, h1]
    · exact ⟨.resolveLocalParameter GpuProgramType.GPT_FRAGMENT_PROGRAM
        Content.SPC_COLOR_SPECULAR,
        by simp [ResolveState.lookup, ProgramSet.lookup, ResolveState.resolve,
          ProgramSet.resolve, h1, PerPixelLighting.view, PerPixelLighting.handle]⟩
  · refine ok_assign PerPixelField.mPSSpecular
      [(.getInputParameter GpuProgramType.GPT_FRAGMENT_PROGRAM Content.SPC_COLOR_SPECULAR,
          (R (.getInputParameter GpuProgramType.GPT_FRAGMENT_PROGRAM
            Content.SPC_COLOR_SPECULAR) st.programSet.params).1)] ?_ ?_ ?_ ?_ ?_ ?_ h
    · simp [ResolveState.lookup, ProgramSet.lookup, h1, PerPixelLighting.view,
        PerPixelLighting.handle]
    · intro f hf
      cases f <;> first
        | exact absurd rfl hf
        | simp [ResolveState.lookup, ProgramSet.lookup, h1, PerPixelLighting.view,
            PerPixelLighting.handle]
    · simp [ResolveState.lookup, ProgramSet.lookup, h1, PerPixelLighting.view,
        PerPixelLighting.config]
    · simp [ResolveState.lookup, ProgramSet.lookup, h1]
    · simp [ResolveState.lookup, ProgramSet.lookup, h1]
    · exact ⟨.getInputParameter GpuProgramType.GPT_FRAGMENT_PROGRAM Content.SPC_COLOR_SPECULAR,
        by simp [ResolveState.lookup, ProgramSet.lookup, h1, PerPixelLighting.view,
          PerPixelLighting.handle]⟩

theorem pp_resolveSpecularGlobals_ok {c : (Nat × Bool) × LightParamsList}
    {old : List (Request × ParameterPtr)} {L : List PerPixelField} {K : List ParameterPtr}
    {st : ResolveState PerPixelLighting σ} {R : Resolver σ}
    (hR : ∀ req s, req.isLookup = false → (R req s).1 ≠ none)
    (h : Ok PerPixelLighting.view c old L K st) :
    Ok PerPixelLighting.view c old (PerPixelLighting.specularNames c.1.2 ++ L) K
      (PerPixelLighting.resolveSpecularGlobals R st) := by
  unfold PerPixelLighting.resolveSpecularGlobals
  rw [(pp_cfg h).2.1]
  cases hs : c.1.2
  · exact h
  · exact h |> pp_resolvePSSpecular_ok hR
      |> ok_resolve hR (PerPixelField.mPSTempSpecularColour) (by intros; rfl)
      (by intro s p f hf; cases f <;> first | rfl | exact absurd rfl hf)
      (by intros; rfl) (by rfl)
      |> ok_resolve hR (PerPixelField.mVSInPosition) (by intros; rfl)
      (by intro s p f hf; cases f <;> first | rfl | exact absurd rfl hf)
      (by intros; rfl) (by rfl)
      |> ok_resolve hR (PerPixelField.mVSOutViewPos) (by intros; rfl)
      (by intro s p f hf; cases f <;> first | rfl | exact absurd rfl hf)
      (by intros; rfl) (by rfl)
      |> pp_resolvePSInViewPos_ok hR
      |> ok_resolve hR (PerPixelField.mWorldViewMatrix) (by intros; rfl)
      (by intro s p f hf; cases f <;> first | rfl | exact absurd rfl hf)
      (by intros; rfl) (by rfl)
      |> ok_check [PerPixelField.mPSSpecular, PerPixelField.mPSTempSpecularColour,
          PerPixelField.mVSInPosition, PerPixelField.mVSOutViewPos, PerPixelField.mPSInViewPos,
          PerPixelField.mWorldViewMatrix] rfl (by simp [PerPixelLighting.specularNames])

theorem mem_ite_nil {ι : Type} (p : Prop) [Decidable p] (f : ι) (X : List ι) :
    f ∈ (if p then X else []) ↔ p ∧ f ∈ X := by
  split_ifs with hp <;> simp [hp]

/-- The global part of the per-pixel resolution on a fresh object: every
member the emitted invocations may use is answered. -/
theorem pp_global_ok {R : Resolver σ}
    (hR : ∀ req s, req.isLookup = false → (R req s).1 ≠ none)
    (hD : ∀ s,
      (R (.getInputParameter GpuProgramType.GPT_FRAGMENT_PROGRAM Content.SPC_COLOR_DIFFUSE) s).1
        ≠ none ∨
      (R (.getLocalParameter GpuProgramType.GPT_FRAGMENT_PROGRAM Content.SPC_COLOR_DIFFUSE) s).1
        ≠ none)
    (tvc : Nat) (spec : Bool) (slots : LightParamsList) (ps : ProgramSet σ) :
    ∃ L, Ok PerPixelLighting.view ((tvc, spec), slots) ps.requests L []
        (PerPixelLighting.resolveGlobalParametersState R
          { mTrackVertexColourType := tvc, mSpecularEnable := spec, mLightParamsList := slots }
          ps) ∧
      (∀ f ∈ PerPixelLighting.globalNames tvc spec, f ∈ L) ∧ PerPixelLighting.Paired L := by
  have h0 : Ok PerPixelLighting.view ((tvc, spec), slots) ps.requests [] []
      ({ self := { mTrackVertexColourType := tvc, mSpecularEnable := spec,
                   mLightParamsList := slots },
         programSet := ps, hasError := false } : ResolveState PerPixelLighting σ) :=
    ⟨rfl, rfl, [], by simp, by simp, fun f _ _ => by cases f <;> rfl, by simp⟩
  unfold PerPixelLighting.resolveGlobalParametersState
  refine ⟨_, h0
    |> ok_resolveCheck hR (PerPixelField.mWorldViewITMatrix) (by intros; rfl)
      (by intro s p f hf; cases f <;> first | rfl | exact absurd rfl hf)
      (by intros; rfl) (by rfl)
    |> pp_resolveAmbient_ok hR
    |> pp_resolveSurfaceDiffuse_ok hR
    |> pp_resolveSurfaceSpecular_ok hR
    |> pp_resolveSurfaceEmissive_ok hR
    |> ok_resolve hR (PerPixelField.mDerivedSceneColour) (by intros; rfl)
      (by intro s p f hf; cases f <;> first | rfl | exact absurd rfl hf)
      (by intros; rfl) (by rfl)
    |> ok_resolve hR (PerPixelField.mSurfaceShininess) (by intros; rfl)
      (by intro s p f hf; cases f <;> first | rfl | exact absurd rfl hf)
      (by intros; rfl) (by rfl)
    |> ok_resolve hR (PerPixelField.mVSInNormal) (by intros; rfl)
      (by intro s p f hf; cases f <;> first | rfl | exact absurd rfl hf)
      (by intros; rfl) (by rfl)
    |> ok_resolve hR (PerPixelField.mVSOutNormal) (by intros; rfl)
      (by intro s p f hf; cases f <;> first | rfl | exact absurd rfl hf)
      (by intros; rfl) (by rfl)
    |> pp_resolvePSInNormal_ok hR
    |> pp_resolvePSDiffuse_ok hD
    |> ok_resolve hR (PerPixelField.mPSOutDiffuse) (by intros; rfl)
      (by intro s p f hf; cases f <;> first | rfl | exact absurd rfl hf)
      (by intros; rfl) (by rfl)
    |> ok_resolve hR (PerPixelField.mPSTempDiffuseColour) (by intros; rfl)
      (by intro s p f hf; cases f <;> first | rfl | exact absurd rfl hf)
      (by intros; rfl) (by rfl)
    |> ok_check [PerPixelField.mDerivedSceneColour, PerPixelField.mSurfaceShininess,
        PerPixelField.mVSInNormal, PerPixelField.mVSOutNormal, PerPixelField.mPSInNormal,
        PerPixelField.mPSDiffuse, PerPixelField.mPSOutDiffuse,
        PerPixelField.mPSTempDiffuseColour] rfl (by simp)
    |> pp_resolveSpecularGlobals_ok hR, ?_, ?_⟩
  · intro f hf
    simp only [PerPixelLighting.globalNames, List.mem_append] at hf
    rcases hf with ((hf | hf) | hf) | hf
    · simp only [List.mem_cons, List.not_mem_nil, or_false] at hf
      rcases hf with rfl | rfl | rfl | rfl | rfl | rfl | rfl | rfl | rfl <;>
        simp [mem_ite_cons, mem_ite_cons_cons]
    · cases ha : tracks tvc TVC_AMBIENT <;>
        simp only [ha, if_true, if_false, List.mem_singleton, Bool.true_eq_false] at hf <;>
        subst hf <;> simp [mem_ite_cons, mem_ite_cons_cons, ha]
    · cases ha : tracks tvc TVC_EMISSIVE <;>
        simp only [ha, if_true, if_false, List.mem_singleton, List.not_mem_nil,
          Bool.true_eq_false] at hf
      subst hf
      simp [mem_ite_cons, mem_ite_cons_cons, ha]
    · cases spec <;> simp only [if_true, if_false, List.mem_cons, List.not_mem_nil, or_false,
        Bool.false_eq_true] at hf
      rcases hf with rfl | rfl | rfl <;> simp [PerPixelLighting.specularNames]
  · unfold PerPixelLighting.Paired
    cases spec <;>
      simp [PerPixelLighting.specularNames, mem_ite_cons, mem_ite_cons_cons]


theorem pp_slot_cfg {c : ((Nat × Bool) × LightParamsList) × LightTypes}
    {old : List (Request × ParameterPtr)} {L : List (PerPixelField ⊕ LightParamsField)}
    {K : List ParameterPtr} {st : ResolveState (PerPixelLighting × LightParams) σ}
    (h : Ok PerPixelLighting.slotView c old L K st) :
    st.self.1.mTrackVertexColourType = c.1.1.1 ∧ st.self.1.mSpecularEnable = c.1.1.2 ∧
      st.self.2.mType = c.2 :=
  ⟨congrArg (fun x => x.1.1.1) h.2.1, congrArg (fun x => x.1.1.2) h.2.1,
    congrArg (fun x => x.2) h.2.1⟩

/-- The statements `if (mVSOutViewPos.get() == NULL) { ... }` of the Point and
Spot cases. -/
theorem pp_resolveViewPos_ok {c : ((Nat × Bool) × LightParamsList) × LightTypes}
    {old : List (Request × ParameterPtr)} {L : List (PerPixelField ⊕ LightParamsField)}
    {K : List ParameterPtr} {st : ResolveState (PerPixelLighting × LightParams) σ}
    {R : Resolver σ} (hR : ∀ req s, req.isLookup = false → (R req s).1 ≠ none)
    (hpair : Sum.inl PerPixelField.mVSOutViewPos ∈ L → Sum.inl PerPixelField.mPSInViewPos ∈ L)
    (h : Ok PerPixelLighting.slotView c old L K st) :
    Ok PerPixelLighting.slotView c old
      (Sum.inl PerPixelField.mPSInViewPos :: Sum.inl PerPixelField.mVSOutViewPos :: L) K
      (PerPixelLighting.resolveViewPos R st) := by
  unfold PerPixelLighting.resolveViewPos
  refine ok_ite (fun _ => ?_) (fun hne => ?_)
  · exact h |> ok_resolve hR (Sum.inl PerPixelField.mVSOutViewPos) (by intros; rfl)
      (by intro s p f hf; rcases f with f | f <;> cases f <;> first | rfl | exact absurd rfl hf)
      (by intros; rfl) (by rfl)
      |> ok_resolve hR (Sum.inl PerPixelField.mPSInViewPos) (by intros; rfl)
      (by intro s p f hf; rcases f with f | f <;> cases f <;> first | rfl | exact absurd rfl hf)
      (by intros; rfl) (by rfl)
  · have hv : Sum.inl PerPixelField.mVSOutViewPos ∈ L :=
      ok_mem h (Sum.inl PerPixelField.mVSOutViewPos) rfl hne
    have hp := hpair hv
    refine ok_names _ (fun f => ?_) h
    constructor
    · intro hf
      rcases List.mem_cons.1 hf with rfl | hf
      · exact hp
      · rcases List.mem_cons.1 hf with rfl | hf
        · exact hv
        · exact hf
    · exact fun hf => List.mem_cons_of_mem _ (List.mem_cons_of_mem _ hf)

theorem pp_resolveLightType_ok {c : ((Nat × Bool) × LightParamsList) × LightTypes}
    {old : List (Request × ParameterPtr)} {L : List (PerPixelField ⊕ LightParamsField)}
    {K : List ParameterPtr} {st : ResolveState (PerPixelLighting × LightParams) σ}
    {R : Resolver σ} (hR : ∀ req s, req.isLookup = false → (R req s).1 ≠ none)
    (hpair : Sum.inl PerPixelField.mVSOutViewPos ∈ L → Sum.inl PerPixelField.mPSInViewPos ∈ L)
    (h : Ok PerPixelLighting.slotView c old L K st) :
    Ok PerPixelLighting.slotView c old (PerPixelLighting.typeNames c.2 ++ L) K
      (PerPixelLighting.resolveLightType R st) := by
  unfold PerPixelLighting.resolveLightType
  rw [(pp_slot_cfg h).2.2]
  obtain ⟨c1, t⟩ := c
  cases t
  · exact h
      |> ok_resolve hR (Sum.inl PerPixelField.mWorldViewMatrix) (by intros; rfl)
      (by intro s p f hf; rcases f with f | f <;> cases f <;> first | rfl | exact absurd rfl hf)
      (by intros; rfl) (by rfl)
      |> ok_resolve hR (Sum.inl PerPixelField.mVSInPosition) (by intros; rfl)
      (by intro s p f hf; rcases f with f | f <;> cases f <;> first | rfl | exact absurd rfl hf)
      (by intros; rfl) (by rfl)
      |> ok_resolve hR (Sum.inr LightParamsField.mPosition) (by intros; rfl)
      (by intro s p f hf; rcases f with f | f <;> cases f <;> first | rfl | exact absurd rfl hf)
      (by intros; rfl) (by rfl)
      |> ok_resolve hR (Sum.inr LightParamsField.mAttenuatParams) (by intros; rfl)
      (by intro s p f hf; rcases f with f | f <;> cases f <;> first | rfl | exact absurd rfl hf)
      (by intros; rfl) (by rfl)
      |> pp_resolveViewPos_ok hR (by simpa using hpair)
      |> ok_check [Sum.inl PerPixelField.mWorldViewMatrix, Sum.inl PerPixelField.mVSInPosition,
          Sum.inr LightParamsField.mPosition, Sum.inr LightParamsField.mAttenuatParams,
          Sum.inl PerPixelField.mVSOutViewPos, Sum.inl PerPixelField.mPSInViewPos] rfl
          (by simp [PerPixelLighting.typeNames])
  · exact h |> ok_resolve hR (Sum.inr LightParamsField.mDirection) (by intros; rfl)
      (by intro s p f hf; rcases f with f | f <;> cases f <;> first | rfl | exact absurd rfl hf)
      (by intros; rfl) (by rfl)
  · exact h
      |> ok_resolve hR (Sum.inl PerPixelField.mWorldViewMatrix) (by intros; rfl)
      (by intro s p f hf; rcases f with f | f <;> cases f <;> first | rfl | exact absurd rfl hf)
      (by intros; rfl) (by rfl)
      |> ok_resolve hR (Sum.inl PerPixelField.mVSInPosition) (by intros; rfl)
      (by intro s p f hf; rcases f with f | f <;> cases f <;> first | rfl | exact absurd rfl hf)
      (by intros; rfl) (by rfl)
      |> ok_resolve hR (Sum.inr LightParamsField.mPosition) (by intros; rfl)
      (by intro s p f hf; rcases f with f | f <;> cases f <;> first | rfl | exact absurd rfl hf)
      (by intros; rfl) (by rfl)
      |> ok_resolve hR (Sum.inr LightParamsField.mDirection) (by intros; rfl)
      (by intro s p f hf; rcases f with f | f <;> cases f <;> first | rfl | exact absurd rfl hf)
      (by intros; rfl) (by rfl)
      |> ok_resolve hR (Sum.inr LightParamsField.mAttenuatParams) (by intros; rfl)
      (by intro s p f hf; rcases f with f | f <;> cases f <;> first | rfl | exact absurd rfl hf)
      (by intros; rfl) (by rfl)
      |> ok_resolve hR (Sum.inr LightParamsField.mSpotParams) (by intros; rfl)
      (by intro s p f hf; rcases f with f | f <;> cases f <;> first | rfl | exact absurd rfl hf)
      (by intros; rfl) (by rfl)
      |> pp_resolveViewPos_ok hR (by simpa using hpair)
      |> ok_check [Sum.inl PerPixelField.mWorldViewMatrix, Sum.inl PerPixelField.mVSInPosition,
          Sum.inr LightParamsField.mPosition, Sum.inr LightParamsField.mDirection,
          Sum.inr LightParamsField.mAttenuatParams, Sum.inr LightParamsField.mSpotParams,
          Sum.inl PerPixelField.mVSOutViewPos, Sum.inl PerPixelField.mPSInViewPos] rfl
          (by simp [PerPixelLighting.typeNames])

theorem pp_resolveLightDiffuse_ok {c : ((Nat × Bool) × LightParamsList) × LightTypes}
    {old : List (Request × ParameterPtr)} {L : List (PerPixelField ⊕ LightParamsField)}
    {K : List ParameterPtr} {st : ResolveState (PerPixelLighting × LightParams) σ}
    {R : Resolver σ} (hR : ∀ req s, req.isLookup = false → (R req s).1 ≠ none)
    (h : Ok PerPixelLighting.slotView c old L K st) :
    Ok PerPixelLighting.slotView c old (Sum.inr LightParamsField.mDiffuseColour :: L) K
      (PerPixelLighting.resolveLightDiffuse R st) := by
  unfold PerPixelLighting.resolveLightDiffuse
  split_ifs
  · exact h |> ok_resolveCheck hR (Sum.inr LightParamsField.mDiffuseColour) (by intros; rfl)
      (by intro s p f hf; rcases f with f | f <;> cases f <;> first | rfl | exact absurd rfl hf)
      (by intros; rfl) (by rfl)
  · exact h |> ok_resolveCheck hR (Sum.inr LightParamsField.mDiffuseColour) (by intros; rfl)
      (by intro s p f hf; rcases f with f | f <;> cases f <;> first | rfl | exact absurd rfl hf)
      (by intros; rfl) (by rfl)

theorem pp_resolveLightSpecular_ok {c : ((Nat × Bool) × LightParamsList) × LightTypes}
    {old : List (Request × ParameterPtr)} {L : List (PerPixelField ⊕ LightParamsField)}
    {K : List ParameterPtr} {st : ResolveState (PerPixelLighting × LightParams) σ}
    {R : Resolver σ} (hR : ∀ req s, req.isLookup = false → (R req s).1 ≠ none)
    (h : Ok PerPixelLighting.slotView c old L K st) :
    Ok PerPixelLighting.slotView c old (PerPixelLighting.slotSpecularNames c.1.1.2 ++ L) K
      (PerPixelLighting.resolveLightSpecular R st) := by
  unfold PerPixelLighting.resolveLightSpecular
  rw [(pp_slot_cfg h).2.1]
  cases hs : c.1.1.2
  · exact h
  · simp only [if_true]
    split_ifs
    · exact h |> ok_resolveCheck hR (Sum.inr LightParamsField.mSpecularColour) (by intros; rfl)
        (by intro s p f hf; rcases f with f | f <;> cases f <;> first | rfl | exact absurd rfl hf)
        (by intros; rfl) (by rfl)
    · exact h |> ok_resolveCheck hR (Sum.inr LightParamsField.mSpecularColour) (by intros; rfl)
        (by intro s p f hf; rcases f with f | f <;> cases f <;> first | rfl | exact absurd rfl hf)
        (by intros; rfl) (by rfl)


/-- Entering an iteration: the object and the current slot. -/
theorem pp_enter_ok {c : (Nat × Bool) × LightParamsList}
    {old : List (Request × ParameterPtr)} {L : List PerPixelField} {K : List ParameterPtr}
    {st : ResolveState PerPixelLighting σ} (cur : LightParams)
    (h : Ok PerPixelLighting.view c old L K st) :
    Ok PerPixelLighting.slotView (c, cur.mType) old (L.map Sum.inl) K
      ({ self := (st.self, cur), programSet := st.programSet, hasError := st.hasError } :
        ResolveState (PerPixelLighting × LightParams) σ) := by
  obtain ⟨he, hc, new, h1, h2, h3, h4⟩ := h
  refine ⟨he, ?_, new, h1, ?_, ?_, h4⟩
  · exact congrArg (fun x => (x, cur.mType)) hc
  · intro f hf
    obtain ⟨g, hg, rfl⟩ := List.mem_map.1 hf
    exact h2 g hg
  · intro f hfr hf
    rcases f with g | g
    · exact h3 g rfl (fun hg => hf (List.mem_map.2 ⟨g, hg, rfl⟩))
    · exact absurd hfr (by simp [PerPixelLighting.slotView])

/-- Leaving an iteration: the answered members of the slot become answered
handles. -/
theorem pp_leave_ok {c : (Nat × Bool) × LightParamsList} {t : LightTypes}
    {old : List (Request × ParameterPtr)} {L : List (PerPixelField ⊕ LightParamsField)}
    {K : List ParameterPtr} {st : ResolveState (PerPixelLighting × LightParams) σ}
    (h : Ok PerPixelLighting.slotView (c, t) old L K st) :
    Ok PerPixelLighting.view c old (L.filterMap Sum.getLeft?)
      (K ++ (L.filterMap Sum.getRight?).map st.self.2.handle)
      ({ self := st.self.1, programSet := st.programSet, hasError := st.hasError } :
        ResolveState PerPixelLighting σ) := by
  obtain ⟨he, hc, new, h1, h2, h3, h4⟩ := h
  refine ⟨he, congrArg Prod.fst hc, new, h1, ?_, ?_, ?_⟩
  · intro f hf
    obtain ⟨g, hg, hgf⟩ := List.mem_filterMap.1 hf
    rcases g with g | g
    · simp only [Sum.getLeft?_inl, Option.some.injEq] at hgf
      subst hgf
      exact h2 _ hg
    · simp at hgf
  · intro f _ hf
    exact h3 (Sum.inl f) rfl (fun hm => hf (List.mem_filterMap.2 ⟨_, hm, rfl⟩))
  · intro q hq
    rcases List.mem_append.1 hq with hq | hq
    · exact h4 q hq
    · obtain ⟨g, hg, rfl⟩ := List.mem_map.1 hq
      obtain ⟨g1, hg1, hgf⟩ := List.mem_filterMap.1 hg
      rcases g1 with g1 | g1
      · simp at hgf
      · simp only [Sum.getRight?_inr, Option.some.injEq] at hgf
        subst hgf
        exact h2 _ hg1

/-- One iteration of the loop of `resolvePerLightParameters` when every request
is answered. -/
theorem pp_light_ok {c : (Nat × Bool) × LightParamsList}
    {old : List (Request × ParameterPtr)} {L : List PerPixelField} {K : List ParameterPtr}
    {st : ResolveState PerPixelLighting σ} {R : Resolver σ}
    (hR : ∀ req s, req.isLookup = false → (R req s).1 ≠ none) (cur : LightParams)
    (hp : PerPixelLighting.Paired L) (h : Ok PerPixelLighting.view c old L K st) :
    (PerPixelLighting.resolvePerLightParametersLight R st cur).1.mType = cur.mType ∧
    ∃ L1, Ok PerPixelLighting.view c old L1
        (K ++ (PerPixelLighting.resolvePerLightParametersLight R st cur).1.populated c.1.2)
        (PerPixelLighting.resolvePerLightParametersLight R st cur).2 ∧
      (∀ f ∈ L, f ∈ L1) ∧ PerPixelLighting.Paired L1 ∧
      (cur.mType ≠ LT_DIRECTIONAL → PerPixelField.mPSInViewPos ∈ L1) := by
  have hpair : Sum.inl PerPixelField.mVSOutViewPos ∈ L.map
      (Sum.inl : PerPixelField → PerPixelField ⊕ LightParamsField) →
      Sum.inl PerPixelField.mPSInViewPos ∈ L.map
        (Sum.inl : PerPixelField → PerPixelField ⊕ LightParamsField) := by
    intro hm
    obtain ⟨g, hg, hgf⟩ := List.mem_map.1 hm
    cases hgf
    exact List.mem_map.2 ⟨_, (hp hg).1, rfl⟩
  have hq := pp_enter_ok cur h |> pp_resolveLightType_ok hR hpair
    |> pp_resolveLightDiffuse_ok hR |> pp_resolveLightSpecular_ok hR
  have ht := (pp_slot_cfg hq).2.2
  have hl := pp_leave_ok hq
  refine ⟨ht, _, ok_handles _ ?_ hl, ?_, ?_, ?_⟩
  · intro q hq
    rcases List.mem_append.1 hq with hq | hq
    · exact List.mem_append_left _ hq
    · refine List.mem_append_right _ ?_
      simp only [LightParams.populated] at hq
      change (PerPixelLighting.resolvePerLightParametersLight R st cur).1.mType = cur.mType at ht
      rw [ht] at hq
      rcases hc : cur.mType <;> rcases hs : c.1.2 <;>
        simp [hc, hs, PerPixelLighting.typeNames, PerPixelLighting.slotSpecularNames,
          LightParams.handle, PerPixelLighting.resolvePerLightParametersLight] at hq ⊢ <;> tauto
  · intro f hf
    simp [List.mem_filterMap, hf]
  · unfold PerPixelLighting.Paired at hp ⊢
    rcases hc : cur.mType <;> rcases hs : c.1.2 <;>
      simp [List.mem_filterMap, hc, hs, PerPixelLighting.typeNames,
        PerPixelLighting.slotSpecularNames] <;> tauto
  · intro hd
    rcases hc : cur.mType <;>
      simp [List.mem_filterMap, hc, PerPixelLighting.typeNames] at hd ⊢

/-- The loop of `resolvePerLightParameters` when every request is answered. -/
theorem pp_loop_ok {c : (Nat × Bool) × LightParamsList}
    {old : List (Request × ParameterPtr)} {R : Resolver σ}
    (hR : ∀ req s, req.isLookup = false → (R req s).1 ≠ none) (list : LightParamsList) :
    ∀ (st : ResolveState PerPixelLighting σ) (L : List PerPixelField) (K : List ParameterPtr),
      PerPixelLighting.Paired L → Ok PerPixelLighting.view c old L K st →
      (forEachLightParams (PerPixelLighting.resolvePerLightParametersLight R) st list).1.map
          (fun slot => slot.mType) = list.map (fun slot => slot.mType) ∧
      ∃ L1 K1, Ok PerPixelLighting.view c old L1 K1
          (forEachLightParams (PerPixelLighting.resolvePerLightParametersLight R) st list).2 ∧
        (∀ f ∈ L, f ∈ L1) ∧ (∀ q ∈ K, q ∈ K1) ∧ PerPixelLighting.Paired L1 ∧
        (∀ slot ∈ (forEachLightParams (PerPixelLighting.resolvePerLightParametersLight R)
            st list).1, ∀ q ∈ slot.populated c.1.2, q ∈ K1) ∧
        (∀ cur ∈ list, cur.mType ≠ LT_DIRECTIONAL → PerPixelField.mPSInViewPos ∈ L1) := by
  induction list with
  | nil =>
    intro st L K hp h
    exact ⟨rfl, L, K, h, fun _ hf => hf, fun _ hq => hq, hp, by simp [forEachLightParams],
      by simp⟩
  | cons cur rest ih =>
    intro st L K hp h
    obtain ⟨ht, L1, h1, hL1, hp1, hd1⟩ := pp_light_ok hR cur hp h
    obtain ⟨hty, L2, K2, h2, hL2, hK2, hp2, hslots, hd2⟩ := ih _ _ _ hp1 h1
    refine ⟨?_, L2, K2, h2, fun f hf => hL2 f (hL1 f hf),
      fun q hq => hK2 q (List.mem_append_left _ hq), hp2, ?_, ?_⟩
    · simp only [forEachLightParams, List.map_cons, hty, ht]
    · intro slot hslot q hq
      simp only [forEachLightParams, List.mem_cons] at hslot
      rcases hslot with rfl | hslot
      · exact hK2 q (List.mem_append_right _ hq)
      · exact hslots slot hslot q hq
    · intro x hx hd
      rcases List.mem_cons.1 hx with rfl | hx
      · exact hL2 _ (hd1 hd)
      · exact hd2 x hx hd


/-- When every request is answered and the fragment function has a diffuse
colour, `PerPixelLighting::resolveParameters` on a fresh object returns true,
and the members the emitted invocations use hold answers of this call. -/
theorem pp_resolve_ok {R : Resolver σ}
    (hR : ∀ req s, req.isLookup = false → (R req s).1 ≠ none)
    (hD : ∀ s,
      (R (.getInputParameter GpuProgramType.GPT_FRAGMENT_PROGRAM Content.SPC_COLOR_DIFFUSE) s).1
        ≠ none ∨
      (R (.getLocalParameter GpuProgramType.GPT_FRAGMENT_PROGRAM Content.SPC_COLOR_DIFFUSE) s).1
        ≠ none)
    (tvc : Nat) (spec : Bool) (slots : LightParamsList) (ps : ProgramSet σ) :
    (PerPixelLighting.resolveParameters R
      { mTrackVertexColourType := tvc, mSpecularEnable := spec, mLightParamsList := slots }
      ps).result = .ok true ∧
    ∃ (self : PerPixelLighting) (new : List (Request × ParameterPtr)),
      (PerPixelLighting.resolveParameters R
        { mTrackVertexColourType := tvc, mSpecularEnable := spec, mLightParamsList := slots }
        ps).self = self ∧
      (PerPixelLighting.resolveParameters R
        { mTrackVertexColourType := tvc, mSpecularEnable := spec, mLightParamsList := slots }
        ps).programSet.requests = ps.requests ++ new ∧
      self.mTrackVertexColourType = tvc ∧ self.mSpecularEnable = spec ∧
      self.mLightParamsList.map (fun slot => slot.mType) = slots.map (fun slot => slot.mType) ∧
      (∀ f ∈ PerPixelLighting.globalNames tvc spec, Answered new (self.handle f)) ∧
      (∀ slot ∈ self.mLightParamsList, ∀ q ∈ slot.populated spec, Answered new q) ∧
      (self.mVSOutViewPos ≠ none → Answered new self.mVSOutViewPos ∧
        Answered new self.mVSInPosition ∧ Answered new self.mWorldViewMatrix) ∧
      (∀ cur ∈ slots, cur.mType ≠ LT_DIRECTIONAL → Answered new self.mPSInViewPos) := by
  obtain ⟨L, hg, hnames, hpair⟩ := pp_global_ok hR hD tvc spec slots ps
  generalize hgs : PerPixelLighting.resolveGlobalParametersState R
      { mTrackVertexColourType := tvc, mSpecularEnable := spec, mLightParamsList := slots } ps
      = gs at hg
  obtain ⟨-, g2, -, g4, g5⟩ := finish_result gs PerPixelLighting.globalError
  have hres := g2.2 hg.1
  have hrp : PerPixelLighting.resolveParameters R
      { mTrackVertexColourType := tvc, mSpecularEnable := spec, mLightParamsList := slots } ps
      = PerPixelLighting.resolvePerLightParameters R gs.self gs.programSet := by
    unfold PerPixelLighting.resolveParameters PerPixelLighting.resolveGlobalParameters
    rw [hgs]
    simp only [hres, g4, g5]
  rw [hrp]
  have hlist : gs.self.mLightParamsList = slots := (pp_cfg hg).2.2
  have hg1 : Ok PerPixelLighting.view ((tvc, spec), slots) ps.requests L []
      ({ self := gs.self, programSet := gs.programSet, hasError := false } :
        ResolveState PerPixelLighting σ) := ⟨rfl, hg.2.1, hg.2.2⟩
  obtain ⟨hty, L1, K1, h1, hL1, -, hp1, hslots, hd⟩ :=
    pp_loop_ok hR gs.self.mLightParamsList _ _ _ hpair hg1
  rw [hlist] at hd
  have hty := hty.trans (congrArg _ hlist)
  have hmem := fun f hf => ok_mem h1 f rfl hf
  obtain ⟨he, hc, new, hreq, hL, -, hK⟩ := h1
  obtain ⟨-, f2, -, f4, f5⟩ := finish_result
    (({ self := gs.self, programSet := gs.programSet, hasError := false } :
        ResolveState PerPixelLighting σ).forEachLight gs.self.mLightParamsList
      (PerPixelLighting.resolvePerLightParametersLight R)
      (fun s l => { s with mLightParamsList := l }))
    PerPixelLighting.perLightError
  have hans : ∀ f ∈ L1, Answered new
      ((forEachLightParams (PerPixelLighting.resolvePerLightParametersLight R)
        ({ self := gs.self, programSet := gs.programSet, hasError := false } :
          ResolveState PerPixelLighting σ) gs.self.mLightParamsList).2.self.handle f) := hL
  have hglob : ∀ f ∈ PerPixelLighting.globalNames tvc spec, f ∈ L1 :=
    fun f hf => hL1 f (hnames f hf)
  unfold PerPixelLighting.resolvePerLightParameters
  refine ⟨?_, _, new, f4, ?_, ?_, ?_, ?_, ?_, ?_, ?_, ?_⟩
  · rw [f2]
    exact he
  · rw [f5]
    exact hreq
  · exact congrArg (fun x => x.1.1) hc
  · exact congrArg (fun x => x.1.2) hc
  · exact hty
  · intro f hf
    have := hans f (hglob f hf)
    cases f <;> exact this
  · intro slot hslot q hq
    exact hK q (hslots slot hslot q hq)
  · intro hne
    have hv : PerPixelField.mVSOutViewPos ∈ L1 := hmem PerPixelField.mVSOutViewPos hne
    obtain ⟨-, b2, b3⟩ := hp1 hv
    exact ⟨hans _ hv, hans _ b2, hans _ b3⟩
  · intro cur hcur hdir
    exact hans _ (hd cur hcur hdir)

end AnsweredPerPixel

/-! ### The operands of the emitted invocations -/

section EmissionFacts

theorem tracks_ne_zero {tvc bit : Nat} (h : tracks tvc bit = true) : tvc ≠ 0 := by
  rintro rfl
  simp [tracks] at h

/-- The operands of the invocations `addGlobalIlluminationInvocation` appends
are members named by `globalNames`. -/
theorem ffp_global_operands (self : FFPLighting) (o : GroupOrder) :
    ∀ atom ∈ (self.addGlobalIlluminationInvocation [] o).2, ∀ op ∈ atom.mOperands,
      ∃ f ∈ FFPLighting.globalNames self.mTrackVertexColourType,
        op.mParameter = self.handle f := by
  intro atom hatom op hop
  unfold FFPLighting.addGlobalIlluminationInvocation at hatom
  cases ha : tracks self.mTrackVertexColourType TVC_AMBIENT <;>
  cases he : tracks self.mTrackVertexColourType TVC_EMISSIVE <;>
  simp only [ha, he, assign, callFunction, and_self, and_true, and_false, if_true, if_false,
    Bool.true_eq_false, Bool.false_eq_true, List.nil_append, List.cons_append, List.mem_cons,
    List.mem_singleton, List.not_mem_nil, or_false] at hatom
  · subst hatom
    simp only [List.mem_cons, List.not_mem_nil, or_false] at hop
    rcases hop with rfl | rfl <;>
      simp [FFPLighting.globalNames, ha, he, In, Out, FFPLighting.handle]
  · have hz := tracks_ne_zero he
    rcases hatom with rfl | rfl <;>
    · simp only [List.mem_cons, List.not_mem_nil, or_false] at hop
      rcases hop with rfl | rfl | rfl <;>
        simp [FFPLighting.globalNames, ha, he, hz, In, Out, FFPLighting.handle]
  · have hz := tracks_ne_zero ha
    rcases hatom with rfl | rfl <;>
    · simp only [List.mem_cons, List.not_mem_nil, or_false] at hop
      rcases hop with rfl | rfl | rfl <;>
        simp [FFPLighting.globalNames, ha, he, hz, In, Out, FFPLighting.handle]
  · have hz := tracks_ne_zero ha
    rcases hatom with rfl | rfl <;>
    · simp only [List.mem_cons, List.not_mem_nil, or_false] at hop
      rcases hop with rfl | rfl | rfl <;>
        simp [FFPLighting.globalNames, ha, he, hz, In, Out, FFPLighting.handle]


/-- The operands of the invocations `addIlluminationInvocation` appends for a
slot have the property `P` when the members the slot's case reads have it. -/
theorem ffp_slot_operands (P : ParameterPtr → Prop) (self : FFPLighting) (cur : LightParams)
    (o : GroupOrder)
    (g1 : P self.mWorldViewITMatrix) (g2 : P self.mVSInNormal) (g3 : P self.mSurfaceShininess)
    (g4 : P self.mVSOutDiffuse)
    (g5 : tracks self.mTrackVertexColourType TVC_DIFFUSE = true → P self.mVSDiffuse)
    (g6 : tracks self.mTrackVertexColourType TVC_SPECULAR = true → P self.mVSDiffuse)
    (s1 : P cur.mDiffuseColour)
    (s2 : self.mSpecularEnable = true → P cur.mSpecularColour ∧ P self.mVSOutSpecular ∧
      P self.mVSInPosition ∧ P self.mWorldViewMatrix)
    (t1 : cur.mType = LT_DIRECTIONAL → P cur.mDirection)
    (t2 : cur.mType = LT_POINT → P cur.mPosition ∧ P cur.mAttenuatParams ∧
      P self.mVSInPosition ∧ P self.mWorldViewMatrix)
    (t3 : cur.mType = LT_SPOTLIGHT → P cur.mPosition ∧ P cur.mDirection ∧
      P cur.mAttenuatParams ∧ P cur.mSpotParams ∧ P self.mVSInPosition ∧
      P self.mWorldViewMatrix) :
    ∀ atom ∈ (self.addIlluminationInvocation cur [] o).2, ∀ op ∈ atom.mOperands,
      P op.mParameter := by
  unfold FFPLighting.addIlluminationInvocation
  cases hd : tracks self.mTrackVertexColourType TVC_DIFFUSE <;>
  cases hs : tracks self.mTrackVertexColourType TVC_SPECULAR <;>
  cases ht : cur.mType <;> cases hsp : self.mSpecularEnable <;>
  simp only [hd, hs, ht, hsp, true_implies, reduceCtorEq, false_implies] at g5 g6 s2 t1 t2 t3 <;>
  simp only [callFunction, In, Out, Operand.xyz, List.nil_append, List.cons_append,
    List.forall_mem_cons, List.not_mem_nil, false_implies, implies_true, and_true, and_self,
    if_true, if_false, Bool.true_eq_false, Bool.false_eq_true, true_and, false_and, and_false,
    List.mem_cons, forall_eq_or_imp, forall_eq, List.mem_singleton] <;>
  tauto


theorem PerPixelLighting.addVSInvocation_append (self : PerPixelLighting)
    (main : List FunctionInvocation) (o : GroupOrder) :
    self.addVSInvocation main o = (true, main ++ (self.addVSInvocation [] o).2) := by
  unfold PerPixelLighting.addVSInvocation
  cases self.mVSOutViewPos.isSome <;> simp [callFunction]

/-- The operands of the invocations `addVSInvocation` appends have the property
`P` when the members it reads have it. -/
theorem pp_vs_operands (P : ParameterPtr → Prop) (self : PerPixelLighting) (o : GroupOrder)
    (g1 : P self.mWorldViewITMatrix) (g2 : P self.mVSInNormal) (g3 : P self.mVSOutNormal)
    (g4 : self.mVSOutViewPos ≠ none → P self.mWorldViewMatrix ∧ P self.mVSInPosition ∧
      P self.mVSOutViewPos) :
    ∀ atom ∈ (self.addVSInvocation [] o).2, ∀ op ∈ atom.mOperands, P op.mParameter := by
  unfold PerPixelLighting.addVSInvocation
  cases hv : self.mVSOutViewPos with
  | none =>
    simp only [Option.isSome_none, callFunction, In, Out, List.nil_append, Bool.false_eq_true,
      if_false, List.mem_singleton, forall_eq, List.mem_cons, List.not_mem_nil, or_false,
      forall_eq_or_imp]
    exact ⟨g1, g2, g3⟩
  | some v =>
    have g4 := g4 (by simp [hv])
    rw [hv] at g4
    simp only [Option.isSome_some, callFunction, In, Out, List.nil_append, List.cons_append,
      if_true, List.mem_singleton, forall_eq, List.mem_cons, List.not_mem_nil, or_false,
      forall_eq_or_imp]
    exact ⟨⟨g1, g2, g3⟩, g4.1, g4.2.1, g4.2.2⟩

/-- The operands of the invocations `addPSGlobalIlluminationInvocation` appends
have the property `P` when the members it reads have it. -/
theorem pp_ps_global_operands (P : ParameterPtr → Prop) (self : PerPixelLighting)
    (o : GroupOrder)
    (g1 : P self.mDerivedSceneColour) (g2 : P self.mPSTempDiffuseColour)
    (g3 : P self.mPSDiffuse)
    (g4 : tracks self.mTrackVertexColourType TVC_AMBIENT = true → P self.mLightAmbientColour)
    (g5 : tracks self.mTrackVertexColourType TVC_AMBIENT = false →
      P self.mDerivedAmbientLightColour)
    (g6 : tracks self.mTrackVertexColourType TVC_EMISSIVE = false →
      P self.mSurfaceEmissiveColour)
    (g7 : self.mSpecularEnable = true → P self.mPSSpecular ∧ P self.mPSTempSpecularColour) :
    ∀ atom ∈ (self.addPSGlobalIlluminationInvocation [] o).2, ∀ op ∈ atom.mOperands,
      P op.mParameter := by
  unfold PerPixelLighting.addPSGlobalIlluminationInvocation
  cases ha : tracks self.mTrackVertexColourType TVC_AMBIENT <;>
  cases he : tracks self.mTrackVertexColourType TVC_EMISSIVE <;>
  cases hsp : self.mSpecularEnable <;>
  simp only [ha, he, hsp, true_implies, reduceCtorEq, false_implies] at g4 g5 g6 g7 <;>
  simp only [assign, callFunction, In, Out, Operand.xyz, List.nil_append, List.cons_append,
    List.not_mem_nil, false_implies, implies_true, and_true, and_self,
    if_true, if_false, Bool.true_eq_false, Bool.false_eq_true, true_and, false_and, and_false,
    List.mem_cons, forall_eq_or_imp, forall_eq, List.mem_singleton, or_false] <;>
  tauto

/-- The operands of the invocations `addPSIlluminationInvocation` appends for a
slot have the property `P` when the members the slot's case reads have it. -/
theorem pp_ps_slot_operands (P : ParameterPtr → Prop) (self : PerPixelLighting)
    (cur : LightParams) (o : GroupOrder)
    (g1 : P self.mPSInNormal) (g2 : P self.mSurfaceShininess) (g3 : P self.mPSTempDiffuseColour)
    (g4 : P self.mPSDiffuse)
    (s1 : P cur.mDiffuseColour)
    (s2 : self.mSpecularEnable = true → P cur.mSpecularColour ∧ P self.mPSInViewPos ∧
      P self.mPSTempSpecularColour)
    (t1 : cur.mType = LT_DIRECTIONAL → P cur.mDirection)
    (t2 : cur.mType = LT_POINT → P cur.mPosition ∧ P cur.mAttenuatParams ∧
      P self.mPSInViewPos)
    (t3 : cur.mType = LT_SPOTLIGHT → P cur.mPosition ∧ P cur.mDirection ∧
      P cur.mAttenuatParams ∧ P cur.mSpotParams ∧ P self.mPSInViewPos) :
    ∀ atom ∈ (self.addPSIlluminationInvocation cur [] o).2, ∀ op ∈ atom.mOperands,
      P op.mParameter := by
  unfold PerPixelLighting.addPSIlluminationInvocation
  cases hd : tracks self.mTrackVertexColourType TVC_DIFFUSE <;>
  cases hs : tracks self.mTrackVertexColourType TVC_SPECULAR <;>
  cases ht : cur.mType <;> cases hsp : self.mSpecularEnable <;>
  simp only [hd, hs, ht, hsp, true_implies, reduceCtorEq, false_implies] at s2 t1 t2 t3 <;>
  simp only [callFunction, addAtomInstance, pushOperand, In, Out, Operand.xyz, List.nil_append,
    List.cons_append,
    List.not_mem_nil, false_implies, implies_true, and_true, and_self,
    if_true, if_false, Bool.true_eq_false, Bool.false_eq_true, true_and, false_and, and_false,
    List.mem_cons, forall_eq_or_imp, forall_eq, List.mem_singleton, or_false] <;>
  tauto

/-- The operands of the invocations `addPSFinalAssignmentInvocation` appends
have the property `P` when the members it reads have it. -/
theorem pp_ps_final_operands (P : ParameterPtr → Prop) (self : PerPixelLighting)
    (o : GroupOrder)
    (g1 : P self.mPSTempDiffuseColour) (g2 : P self.mPSDiffuse) (g3 : P self.mPSOutDiffuse)
    (g4 : self.mSpecularEnable = true → P self.mPSTempSpecularColour ∧ P self.mPSSpecular) :
    ∀ atom ∈ (self.addPSFinalAssignmentInvocation [] o).2, ∀ op ∈ atom.mOperands,
      P op.mParameter := by
  unfold PerPixelLighting.addPSFinalAssignmentInvocation
  cases hsp : self.mSpecularEnable <;>
  simp only [hsp, true_implies, reduceCtorEq, false_implies] at g4 <;>
  simp only [assign, callFunction, In, Out, List.nil_append, List.cons_append,
    List.not_mem_nil, if_true, if_false, Bool.false_eq_true,
    List.mem_cons, forall_eq_or_imp, forall_eq, List.mem_singleton, or_false] <;>
  tauto

end EmissionFacts

/-- C2: no dangling operands.  For every tracking mask, specular flag and slot
list, on a fresh object and a resolver that answers every resolution request
with a non-null handle, `resolveParameters` returns true and every operand of
every invocation `addFunctionInvocations` then appends is a non-null handle
answered to a request of that `resolveParameters` call.  This holds for the
per-vertex model, and for the per-pixel model when the fragment function has a
diffuse colour parameter (as an input or as a local). -/
theorem C2_no_dangling_operands {σ : Type} (R : Resolver σ)
    (hR : ∀ req s, req.isLookup = false → (R req s).1 ≠ none)
    (tvc : Nat) (spec : Bool) (slots : LightParamsList) (ps : ProgramSet σ) :
    ((FFPLighting.resolveParameters R
        { mTrackVertexColourType := tvc, mSpecularEnable := spec, mLightParamsList := slots }
        ps).result = .ok true ∧
      ∃ (self : FFPLighting) (out : ProgramSet σ) (new : List (Request × ParameterPtr))
          (emitted : List FunctionInvocation),
        (FFPLighting.resolveParameters R
          { mTrackVertexColourType := tvc, mSpecularEnable := spec, mLightParamsList := slots }
          ps).self = self ∧
        (FFPLighting.resolveParameters R
          { mTrackVertexColourType := tvc, mSpecularEnable := spec, mLightParamsList := slots }
          ps).programSet = out ∧
        out.requests = ps.requests ++ new ∧
        self.addFunctionInvocations out
          = (true, { out with vsMainAtoms := out.vsMainAtoms ++ emitted }) ∧
        ∀ atom ∈ emitted, ∀ op ∈ atom.mOperands, Answered new op.mParameter) ∧
    ((∀ s,
        (R (.getInputParameter GpuProgramType.GPT_FRAGMENT_PROGRAM Content.SPC_COLOR_DIFFUSE)
          s).1 ≠ none ∨
        (R (.getLocalParameter GpuProgramType.GPT_FRAGMENT_PROGRAM Content.SPC_COLOR_DIFFUSE)
          s).1 ≠ none) →
      (PerPixelLighting.resolveParameters R
        { mTrackVertexColourType := tvc, mSpecularEnable := spec, mLightParamsList := slots }
        ps).result = .ok true ∧
      ∃ (self : PerPixelLighting) (out : ProgramSet σ) (new : List (Request × ParameterPtr))
          (vsEmitted psEmitted : List FunctionInvocation),
        (PerPixelLighting.resolveParameters R
          { mTrackVertexColourType := tvc, mSpecularEnable := spec, mLightParamsList := slots }
          ps).self = self ∧
        (PerPixelLighting.resolveParameters R
          { mTrackVertexColourType := tvc, mSpecularEnable := spec, mLightParamsList := slots }
          ps).programSet = out ∧
        out.requests = ps.requests ++ new ∧
        self.addFunctionInvocations out
          = (true, { out with vsMainAtoms := out.vsMainAtoms ++ vsEmitted
                              psMainAtoms := out.psMainAtoms ++ psEmitted }) ∧
        ∀ atom ∈ vsEmitted ++ psEmitted, ∀ op ∈ atom.mOperands,
          Answered new op.mParameter) := by
  constructor
  · obtain ⟨hres, self, new, hself, hreq, htvc, hspec, hty, hglob, hslots, hs, hd⟩ :=
      ffp_resolve_ok hR tvc spec slots ps
    refine ⟨hres, self, _, new,
      (self.addGlobalIlluminationInvocation [] GroupOrder.FFP_VS_LIGHTING).2
        ++ (self.mLightParamsList.map (fun cur =>
            (self.addIlluminationInvocation cur [] GroupOrder.FFP_VS_LIGHTING).2)).flatten,
      hself, rfl, hreq, ?_, ?_⟩
    · rw [ffp_addFunctionInvocations_eq, List.append_assoc]
    have hne : self.mLightParamsList ≠ [] → slots ≠ [] := by
      intro h1 h2
      rw [h2] at hty
      exact h1 (List.map_eq_nil_iff.1 hty)
    have htypes : ∀ cur ∈ self.mLightParamsList, ∃ c0 ∈ slots, c0.mType = cur.mType := by
      intro cur hcur
      have : cur.mType ∈ slots.map (fun slot => slot.mType) :=
        hty ▸ List.mem_map.2 ⟨cur, hcur, rfl⟩
      obtain ⟨c0, hc0, hc1⟩ := List.mem_map.1 this
      exact ⟨c0, hc0, hc1⟩
    have G : ∀ f ∈ FFPLighting.globalNames self.mTrackVertexColourType,
        Answered new (self.handle f) := htvc ▸ hglob
    have hvd : ∀ bit, tracks self.mTrackVertexColourType bit = true →
        Answered new self.mVSDiffuse := by
      intro bit hb
      exact G FFPField.mVSDiffuse (by simp [FFPLighting.globalNames, tracks_ne_zero hb])
    intro atom hatom op hop
    rcases List.mem_append.1 hatom with hatom | hatom
    · obtain ⟨f, hf, hpf⟩ := ffp_global_operands self _ atom hatom op hop
      rw [hpf]
      exact G f hf
    · obtain ⟨l, hl, hal⟩ := List.mem_flatten.1 hatom
      obtain ⟨cur, hcur, rfl⟩ := List.mem_map.1 hl
      obtain ⟨c0, hc0, hct⟩ := htypes cur hcur
      have hpop : ∀ q ∈ cur.populated self.mSpecularEnable, Answered new q :=
        hspec ▸ hslots cur hcur
      have hnd : cur.mType ≠ LT_DIRECTIONAL → Answered new self.mVSInPosition ∧
          Answered new self.mWorldViewMatrix := fun h => hd c0 hc0 (hct ▸ h)
      refine ffp_slot_operands (Answered new) self cur _
        (G FFPField.mWorldViewITMatrix (by simp [FFPLighting.globalNames]))
        (G FFPField.mVSInNormal (by simp [FFPLighting.globalNames]))
        (G FFPField.mSurfaceShininess (by simp [FFPLighting.globalNames]))
        (G FFPField.mVSOutDiffuse (by simp [FFPLighting.globalNames]))
        (hvd _) (hvd _)
        (hpop _ (by simp [LightParams.populated])) ?_ ?_ ?_ ?_ atom hal op hop
      · intro hsp
        obtain ⟨b1, b2, b3⟩ := hs (hne (List.ne_nil_of_mem hcur)) (hspec ▸ hsp)
        exact ⟨hpop _ (by simp [LightParams.populated, hsp]), b1, b2, b3⟩
      · intro ht
        exact hpop _ (by simp [LightParams.populated, ht])
      · intro ht
        obtain ⟨b1, b2⟩ := hnd (by simp [ht])
        exact ⟨hpop _ (by simp [LightParams.populated, ht]),
          hpop _ (by simp [LightParams.populated, ht]), b1, b2⟩
      · intro ht
        obtain ⟨b1, b2⟩ := hnd (by simp [ht])
        exact ⟨hpop _ (by simp [LightParams.populated, ht]),
          hpop _ (by simp [LightParams.populated, ht]),
          hpop _ (by simp [LightParams.populated, ht]),
          hpop _ (by simp [LightParams.populated, ht]), b1, b2⟩
  · intro hD
    obtain ⟨hres, self, new, hself, hreq, htvc, hspec, hty, hglob, hslots, hv, hd⟩ :=
      pp_resolve_ok hR hD tvc spec slots ps
    have heq := pp_addFunctionInvocations_eq self
      (PerPixelLighting.resolveParameters R
        { mTrackVertexColourType := tvc, mSpecularEnable := spec, mLightParamsList := slots }
        ps).programSet
    rw [PerPixelLighting.addVSInvocation_append] at heq
    refine ⟨hres, self, _, new,
      (self.addVSInvocation [] GroupOrder.FFP_VS_LIGHTING).2,
      ((self.addPSGlobalIlluminationInvocation [] (GroupOrder.FFP_PS_COLOUR_BEGIN_plus 1)).2
        ++ (self.mLightParamsList.map (fun cur =>
            (self.addPSIlluminationInvocation cur []
              (GroupOrder.FFP_PS_COLOUR_BEGIN_plus 1)).2)).flatten)
        ++ (self.addPSFinalAssignmentInvocation [] (GroupOrder.FFP_PS_COLOUR_BEGIN_plus 1)).2,
      hself, rfl, hreq, ?_, ?_⟩
    · rw [heq]
      simp only [List.append_assoc]
    have htypes : ∀ cur ∈ self.mLightParamsList, ∃ c0 ∈ slots, c0.mType = cur.mType := by
      intro cur hcur
      have : cur.mType ∈ slots.map (fun slot => slot.mType) :=
        hty ▸ List.mem_map.2 ⟨cur, hcur, rfl⟩
      obtain ⟨c0, hc0, hc1⟩ := List.mem_map.1 this
      exact ⟨c0, hc0, hc1⟩
    have G : ∀ f ∈ PerPixelLighting.globalNames self.mTrackVertexColourType
        self.mSpecularEnable, Answered new (self.handle f) := htvc ▸ hspec ▸ hglob
    have hsG : self.mSpecularEnable = true → Answered new self.mPSSpecular ∧
        Answered new self.mPSTempSpecularColour ∧ Answered new self.mPSInViewPos := by
      intro hsp
      exact ⟨G PerPixelField.mPSSpecular (by simp [PerPixelLighting.globalNames, hsp]),
        G PerPixelField.mPSTempSpecularColour (by simp [PerPixelLighting.globalNames, hsp]),
        G PerPixelField.mPSInViewPos (by simp [PerPixelLighting.globalNames, hsp])⟩
    intro atom hatom op hop
    rcases List.mem_append.1 hatom with hatom | hatom
    · exact pp_vs_operands (Answered new) self _
        (G PerPixelField.mWorldViewITMatrix (by simp [PerPixelLighting.globalNames]))
        (G PerPixelField.mVSInNormal (by simp [PerPixelLighting.globalNames]))
        (G PerPixelField.mVSOutNormal (by simp [PerPixelLighting.globalNames]))
        (fun hne => ⟨(hv hne).2.2, (hv hne).2.1, (hv hne).1⟩) atom hatom op hop
    · rcases List.mem_append.1 hatom with hatom | hatom
      · rcases List.mem_append.1 hatom with hatom | hatom
        · exact pp_ps_global_operands (Answered new) self _
            (G PerPixelField.mDerivedSceneColour (by simp [PerPixelLighting.globalNames]))
            (G PerPixelField.mPSTempDiffuseColour (by simp [PerPixelLighting.globalNames]))
            (G PerPixelField.mPSDiffuse (by simp [PerPixelLighting.globalNames]))
            (fun h => G PerPixelField.mLightAmbientColour
              (by simp [PerPixelLighting.globalNames, h]))
            (fun h => G PerPixelField.mDerivedAmbientLightColour
              (by simp [PerPixelLighting.globalNames, h]))
            (fun h => G PerPixelField.mSurfaceEmissiveColour
              (by simp [PerPixelLighting.globalNames, h]))
            (fun h => ⟨(hsG h).1, (hsG h).2.1⟩) atom hatom op hop
        · obtain ⟨l, hl, hal⟩ := List.mem_flatten.1 hatom
          obtain ⟨cur, hcur, rfl⟩ := List.mem_map.1 hl
          obtain ⟨c0, hc0, hct⟩ := htypes cur hcur
          have hpop : ∀ q ∈ cur.populated self.mSpecularEnable, Answered new q :=
            hspec ▸ hslots cur hcur
          have hnd : cur.mType ≠ LT_DIRECTIONAL → Answered new self.mPSInViewPos :=
            fun h => hd c0 hc0 (hct ▸ h)
          refine pp_ps_slot_operands (Answered new) self cur _
            (G PerPixelField.mPSInNormal (by simp [PerPixelLighting.globalNames]))
            (G PerPixelField.mSurfaceShininess (by simp [PerPixelLighting.globalNames]))
            (G PerPixelField.mPSTempDiffuseColour (by simp [PerPixelLighting.globalNames]))
            (G PerPixelField.mPSDiffuse (by simp [PerPixelLighting.globalNames]))
            (hpop _ (by simp [LightParams.populated])) ?_ ?_ ?_ ?_ atom hal op hop
          · intro hsp
            exact ⟨hpop _ (by simp [LightParams.populated, hsp]), (hsG hsp).2.2, (hsG hsp).2.1⟩
          · intro ht
            exact hpop _ (by simp [LightParams.populated, ht])
          · intro ht
            exact ⟨hpop _ (by simp [LightParams.populated, ht]),
              hpop _ (by simp [LightParams.populated, ht]), hnd (by simp [ht])⟩
          · intro ht
            exact ⟨hpop _ (by simp [LightParams.populated, ht]),
              hpop _ (by simp [LightParams.populated, ht]),
              hpop _ (by simp [LightParams.populated, ht]),
              hpop _ (by simp [LightParams.populated, ht]), hnd (by simp [ht])⟩
      · exact pp_ps_final_operands (Answered new) self _
          (G PerPixelField.mPSTempDiffuseColour (by simp [PerPixelLighting.globalNames]))
          (G PerPixelField.mPSDiffuse (by simp [PerPixelLighting.globalNames]))
          (G PerPixelField.mPSOutDiffuse (by simp [PerPixelLighting.globalNames]))
          (fun h => ⟨(hsG h).2.1, (hsG h).1⟩) atom hatom op hop

/-- C2 at a concrete input: the counting resolver answers every request, the
mask tracks the diffuse colour, specular is enabled and there is one Point
slot. -/
theorem C2_no_dangling_operands_witness :
    (∀ req s, req.isLookup = false → (countingResolver (fun _ => false) req s).1 ≠ none) ∧
    ((FFPLighting.resolveParameters (countingResolver (fun _ => false))
        { mTrackVertexColourType := TVC_DIFFUSE, mSpecularEnable := true,
            mLightParamsList := [{ mType := LT_POINT }] }
          { params := 0 }).result = .ok true ∧
      ∃ (self : FFPLighting) (out : ProgramSet Nat) (new : List (Request × ParameterPtr))
          (emitted : List FunctionInvocation),
        (FFPLighting.resolveParameters (countingResolver (fun _ => false))
          { mTrackVertexColourType := TVC_DIFFUSE, mSpecularEnable := true,
            mLightParamsList := [{ mType := LT_POINT }] }
          { params := 0 }).self = self ∧
        (FFPLighting.resolveParameters (countingResolver (fun _ => false))
          { mTrackVertexColourType := TVC_DIFFUSE, mSpecularEnable := true,
            mLightParamsList := [{ mType := LT_POINT }] }
          { params := 0 }).programSet = out ∧
        out.requests = ([] : List (Request × ParameterPtr)) ++ new ∧
        self.addFunctionInvocations out
          = (true, { out with vsMainAtoms := out.vsMainAtoms ++ emitted }) ∧
        ∀ atom ∈ emitted, ∀ op ∈ atom.mOperands, Answered new op.mParameter) ∧
    ((∀ s,
        (countingResolver (fun _ => false)
          (.getInputParameter GpuProgramType.GPT_FRAGMENT_PROGRAM Content.SPC_COLOR_DIFFUSE)
          s).1 ≠ none ∨
        (countingResolver (fun _ => false)
          (.getLocalParameter GpuProgramType.GPT_FRAGMENT_PROGRAM Content.SPC_COLOR_DIFFUSE)
          s).1 ≠ none) →
      (PerPixelLighting.resolveParameters (countingResolver (fun _ => false))
        { mTrackVertexColourType := TVC_DIFFUSE, mSpecularEnable := true,
            mLightParamsList := [{ mType := LT_POINT }] }
          { params := 0 }).result = .ok true ∧
      ∃ (self : PerPixelLighting) (out : ProgramSet Nat) (new : List (Request × ParameterPtr))
          (vsEmitted psEmitted : List FunctionInvocation),
        (PerPixelLighting.resolveParameters (countingResolver (fun _ => false))
          { mTrackVertexColourType := TVC_DIFFUSE, mSpecularEnable := true,
            mLightParamsList := [{ mType := LT_POINT }] }
          { params := 0 }).self = self ∧
        (PerPixelLighting.resolveParameters (countingResolver (fun _ => false))
          { mTrackVertexColourType := TVC_DIFFUSE, mSpecularEnable := true,
            mLightParamsList := [{ mType := LT_POINT }] }
          { params := 0 }).programSet = out ∧
        out.requests = ([] : List (Request × ParameterPtr)) ++ new ∧
        self.addFunctionInvocations out
          = (true, { out with vsMainAtoms := out.vsMainAtoms ++ vsEmitted
                              psMainAtoms := out.psMainAtoms ++ psEmitted }) ∧
        ∀ atom ∈ vsEmitted ++ psEmitted, ∀ op ∈ atom.mOperands,
          Answered new op.mParameter) :=
  ⟨fun req s _ => by simp [countingResolver],
    C2_no_dangling_operands (countingResolver (fun _ => false))
      (fun req s _ => by simp [countingResolver]) TVC_DIFFUSE true [{ mType := LT_POINT }]
      { params := 0 }⟩

/-! ### Runtime updater: every slot is written in full -/

theorem updateLightType_targets (source : AutoParamDataSource) (slot : LightParams) (L : Light)
    (w : List GpuWrite) (h : updateLightType source slot L = some w) :
    w.map (fun w => (w.field, some w.target))
      = (match slot.mType with
          | LightTypes.LT_DIRECTIONAL => [(LightParamsField.mDirection, slot.mDirection)]
          | LightTypes.LT_POINT =>
            [(LightParamsField.mPosition, slot.mPosition),
              (LightParamsField.mAttenuatParams, slot.mAttenuatParams)]
          | LightTypes.LT_SPOTLIGHT =>
            [(LightParamsField.mPosition, slot.mPosition),
              (LightParamsField.mDirection, slot.mDirection),
              (LightParamsField.mAttenuatParams, slot.mAttenuatParams),
              (LightParamsField.mSpotParams, slot.mSpotParams)]) := by
  unfold updateLightType at h
  cases hT : slot.mType <;>
    simp only [hT, setGpuParameter, Option.bind_eq_bind, Option.pure_def, Option.bind_eq_some,
      Option.map_eq_some', Option.some.injEq] at h ⊢
  · obtain ⟨_, ⟨a, ha, rfl⟩, _, ⟨b, hb, rfl⟩, rfl⟩ := h
    simp [ha, hb]
  · obtain ⟨_, ⟨a, ha, rfl⟩, rfl⟩ := h
    simp [ha]
  · obtain ⟨_, ⟨a, ha, rfl⟩, _, ⟨b, hb, rfl⟩, _, ⟨c, hc, rfl⟩, _, ⟨d, hd, rfl⟩, rfl⟩ :=
      h
    simp [ha, hb, hc, hd]

theorem updateLightColours_targets (tvc : Nat) (spec : Bool) (pass : Pass) (slot : LightParams)
    (L : Light) (w : List GpuWrite) (h : updateLightColours tvc spec pass slot L = some w) :
    w.map (fun w => (w.field, some w.target))
      = [(LightParamsField.mDiffuseColour, slot.mDiffuseColour)]
        ++ (if spec then [(LightParamsField.mSpecularColour, slot.mSpecularColour)] else []) := by
  unfold updateLightColours at h
  cases spec <;> cases hd : tracks tvc TVC_DIFFUSE <;> cases hs : tracks tvc TVC_SPECULAR <;>
    simp only [hd, hs, setGpuParameter, Option.bind_eq_bind, Option.pure_def,
      Option.bind_eq_some, Option.map_eq_some', Option.some.injEq, Bool.false_eq_true,
      Bool.true_eq_false, ↓reduceIte] at h ⊢
  all_goals first
    | (obtain ⟨_, ⟨a, ha, rfl⟩, rfl⟩ := h
       simp [ha])
    | (obtain ⟨_, ⟨a, ha, rfl⟩, _, ⟨b, hb, rfl⟩, rfl⟩ := h
       simp [ha, hb])

theorem written_fields_nodup (spec : Bool) (slot : LightParams) :
    ((slot.written spec).map (fun p => p.1)).Nodup := by
  unfold LightParams.written
  cases slot.mType <;> cases spec <;> simp

theorem writesOf_targets (tvc : Nat) (spec : Bool) (pass : Pass) (source : AutoParamDataSource)
    (lights : List Light) (blank : Light) (slot : LightParams) (u : SlotUpdate)
    (h : SlotUpdate.writesOf tvc spec pass source lights blank slot u) :
    u.targets = slot.written spec ∧ (u.writes.map (fun w => w.field)).Nodup := by
  obtain ⟨w1, w2, h1, h2, hw⟩ := h
  have ht : u.targets = slot.written spec := by
    unfold SlotUpdate.targets LightParams.written
    rw [hw, List.map_append, updateLightType_targets source slot _ w1 h1,
      updateLightColours_targets tvc spec pass slot _ w2 h2, List.append_assoc]
  refine ⟨ht, ?_⟩
  have := written_fields_nodup spec slot
  rw [← ht] at this
  simpa [SlotUpdate.targets, List.map_map, Function.comp_def] using this

theorem FFPLighting.update_written (self : FFPLighting) (pass : Pass)
    (source : AutoParamDataSource) (init : Light) (pl : Option (List Light))
    (hres : ∀ slot ∈ self.mLightParamsList, slot.resolved self.mSpecularEnable) :
    ∃ res, self.updateGpuProgramsParams pass source init pl = some res
      ∧ List.Forall₂
          (fun slot u => u.targets = slot.written self.mSpecularEnable
            ∧ (u.writes.map (fun w => w.field)).Nodup) self.mLightParamsList res := by
  obtain ⟨res, hr⟩ := FFPLighting.update_isSome self pass source init pl hres
  obtain ⟨-, hw⟩ := FFPLighting.update_spec self pass source init pl res hr
  exact ⟨res, hr, hw.imp (fun _ _ h => writesOf_targets _ _ _ _ _ _ _ _ h)⟩

theorem sampleSlots3_resolved :
    ∀ slot ∈ [sampleSlot LT_POINT 0, sampleSlot LT_POINT 6, sampleSlot LT_DIRECTIONAL 12],
      slot.resolved false := by
  intro slot hs
  simp only [List.mem_cons, List.mem_singleton, List.not_mem_nil, or_false] at hs
  rcases hs with rfl | rfl | rfl <;>
    simp [LightParams.resolved, LightParams.populated, sampleSlot]

theorem sampleFFP3_update_fields :
    (sampleFFP3.updateGpuProgramsParams samplePass sampleSource (sampleLight LT_POINT)
        (some sampleLights3)).map (fun res => res.map (fun u => (u.srcIndex, u.targets)))
      = some [(some 0, [(LightParamsField.mPosition, some 0),
                (LightParamsField.mAttenuatParams, some 2),
                (LightParamsField.mDiffuseColour, some 4)]),
              (some 1, [(LightParamsField.mPosition, some 6),
                (LightParamsField.mAttenuatParams, some 8),
                (LightParamsField.mDiffuseColour, some 10)]),
              (some 2, [(LightParamsField.mDirection, some 13),
                (LightParamsField.mDiffuseColour, some 16)])] := by
  simp [sampleFFP3, sampleLights3, FFPLighting.updateGpuProgramsParams, FFPLighting.updateLoop,
    searchLight, sampleSlot, sampleLight, updateLightType, updateLightColours, setGpuParameter,
    SlotUpdate.targets, tracks, TVC_NONE, TVC_DIFFUSE]

theorem samplePerPixel3_update_fields :
    (samplePerPixel3.updateGpuProgramsParams samplePass sampleSource (sampleLight LT_POINT)
        (some sampleLights3)).map (fun res => res.map (fun u => (u.srcIndex, u.targets)))
      = some [(some 0, [(LightParamsField.mPosition, some 0),
                (LightParamsField.mAttenuatParams, some 2),
                (LightParamsField.mDiffuseColour, some 4)]),
              (some 1, [(LightParamsField.mPosition, some 6),
                (LightParamsField.mAttenuatParams, some 8),
                (LightParamsField.mDiffuseColour, some 10)]),
              (some 2, [(LightParamsField.mDirection, some 13),
                (LightParamsField.mDiffuseColour, some 16)])] := by
  simp [samplePerPixel3, sampleLights3, PerPixelLighting.updateGpuProgramsParams,
    PerPixelLighting.updateLoop, searchLight, sampleSlot, sampleLight, updateLightType,
    updateLightColours, setGpuParameter, SlotUpdate.targets, tracks, TVC_NONE, TVC_DIFFUSE]

/-- C11: in either model, for every slot list whose handles are resolved and
every non-null active-light list, of any length and mix of types,
`updateGpuProgramsParams` returns, and the writes of each slot go, each member
once, to exactly the handles the slot's type populates: the direction for a
Directional slot; the position and the attenuation for a Point slot; the
position, the direction, the attenuation and the spot cone for a Spot slot;
then the diffuse colour, and the specular colour exactly when `specularEnable`
is set. -/
theorem C11_every_slot_fully_written (a : FFPLighting) (b : PerPixelLighting) (pass : Pass)
    (source : AutoParamDataSource) (init : Light) (lights : List Light) :
    ((∀ slot ∈ a.mLightParamsList, slot.resolved a.mSpecularEnable) →
        ∃ res, a.updateGpuProgramsParams pass source init (some lights) = some res
          ∧ List.Forall₂
              (fun slot u => u.targets = slot.written a.mSpecularEnable
                ∧ (u.writes.map (fun w => w.field)).Nodup) a.mLightParamsList res)
    ∧ ((∀ slot ∈ b.mLightParamsList, slot.resolved b.mSpecularEnable) →
        ∃ res, b.updateGpuProgramsParams pass source init (some lights) = some res
          ∧ List.Forall₂
              (fun slot u => u.targets = slot.written b.mSpecularEnable
                ∧ (u.writes.map (fun w => w.field)).Nodup) b.mLightParamsList res) := by
  constructor
  · intro hres
    exact FFPLighting.update_written a pass source init (some lights) hres
  · intro hres
    rw [PerPixelLighting.update_eq]
    exact FFPLighting.update_written
      { mTrackVertexColourType := b.mTrackVertexColourType
        mSpecularEnable := b.mSpecularEnable
        mLightParamsList := b.mLightParamsList } pass source init (some lights) hres

/-- C11 on the slots Point, Point, Directional with two point lights and one
directional light: each slot takes its own light, and the writes are two
positions, two attenuations and one direction (and three diffuse colours). -/
theorem C11_every_slot_fully_written_witness :
    ((sampleFFP3.updateGpuProgramsParams samplePass sampleSource (sampleLight LT_POINT)
          (some sampleLights3)).map (fun res => res.map (fun u => (u.srcIndex, u.targets)))
        = some [(some 0, [(LightParamsField.mPosition, some 0),
                  (LightParamsField.mAttenuatParams, some 2),
                  (LightParamsField.mDiffuseColour, some 4)]),
                (some 1, [(LightParamsField.mPosition, some 6),
                  (LightParamsField.mAttenuatParams, some 8),
                  (LightParamsField.mDiffuseColour, some 10)]),
                (some 2, [(LightParamsField.mDirection, some 13),
                  (LightParamsField.mDiffuseColour, some 16)])]
      ∧ (samplePerPixel3.updateGpuProgramsParams samplePass sampleSource (sampleLight LT_POINT)
          (some sampleLights3)).map (fun res => res.map (fun u => (u.srcIndex, u.targets)))
        = some [(some 0, [(LightParamsField.mPosition, some 0),
                  (LightParamsField.mAttenuatParams, some 2),
                  (LightParamsField.mDiffuseColour, some 4)]),
                (some 1, [(LightParamsField.mPosition, some 6),
                  (LightParamsField.mAttenuatParams, some 8),
                  (LightParamsField.mDiffuseColour, some 10)]),
                (some 2, [(LightParamsField.mDirection, some 13),
                  (LightParamsField.mDiffuseColour, some 16)])])
    ∧ (∃ res, sampleFFP3.updateGpuProgramsParams samplePass sampleSource (sampleLight LT_POINT)
          (some sampleLights3) = some res
        ∧ List.Forall₂
            (fun slot u => u.targets = slot.written sampleFFP3.mSpecularEnable
              ∧ (u.writes.map (fun w => w.field)).Nodup) sampleFFP3.mLightParamsList res)
    ∧ (∃ res, samplePerPixel3.updateGpuProgramsParams samplePass sampleSource
          (sampleLight LT_POINT) (some sampleLights3) = some res
        ∧ List.Forall₂
            (fun slot u => u.targets = slot.written samplePerPixel3.mSpecularEnable
              ∧ (u.writes.map (fun w => w.field)).Nodup) samplePerPixel3.mLightParamsList res) :=
  ⟨⟨sampleFFP3_update_fields, samplePerPixel3_update_fields⟩,
    (C11_every_slot_fully_written sampleFFP3 samplePerPixel3 samplePass sampleSource
      (sampleLight LT_POINT) sampleLights3).1 sampleSlots3_resolved,
    (C11_every_slot_fully_written sampleFFP3 samplePerPixel3 samplePass sampleSource
      (sampleLight LT_POINT) sampleLights3).2 sampleSlots3_resolved⟩

/-- C12 (failing input): the per-pixel instance with two resolved Point slots,
called with a null active-light list.  The search loop of
`PerPixelLighting::updateGpuProgramsParams` dereferences the null list, so the
call has no result; with an empty list the same instance writes both slots from
the blank light, and so does the per-vertex instance with the null list, whose
search loop tests the pointer. -/
theorem C12_per_pixel_null_light_list_dereferenced :
    samplePerPixel.updateGpuProgramsParams samplePass sampleSource (sampleLight LT_POINT) none
      = none
    ∧ samplePerPixel.updateGpuProgramsParams samplePass sampleSource (sampleLight LT_POINT)
        (some [])
      = some [{ searchFrom := 0, srcIndex := none
                writes := sampleBlankWrites (sampleLight LT_POINT) 0 },
              { searchFrom := 0, srcIndex := none
                writes := sampleBlankWrites (sampleLight LT_POINT) 6 }]
    ∧ sampleFFP.updateGpuProgramsParams samplePass sampleSource (sampleLight LT_POINT) none
      = some [{ searchFrom := 0, srcIndex := none
                writes := sampleBlankWrites (sampleLight LT_POINT) 0 },
              { searchFrom := 0, srcIndex := none
                writes := sampleBlankWrites (sampleLight LT_POINT) 6 }] := by
  refine ⟨?_, ?_, ?_⟩
  · simp [samplePerPixel, PerPixelLighting.updateGpuProgramsParams, PerPixelLighting.updateLoop]
  · simp [samplePerPixel, PerPixelLighting.updateGpuProgramsParams, PerPixelLighting.updateLoop,
      searchLight, sampleSlot, sampleLight, samplePass, sampleSource, sampleBlankWrites,
      updateLightType, updateLightColours, setGpuParameter, attenuationOf, tracks, TVC_NONE,
      TVC_DIFFUSE, ColourValue.mul, ColourValue.scale, msBlankLight, ColourValue.Black]
  · simp [sampleFFP, FFPLighting.updateGpuProgramsParams, FFPLighting.updateLoop, searchLight,
      sampleSlot, sampleLight, samplePass, sampleSource, sampleBlankWrites, updateLightType,
      updateLightColours, setGpuParameter, attenuationOf, tracks, TVC_NONE, TVC_DIFFUSE,
      ColourValue.mul, ColourValue.scale, msBlankLight, ColourValue.Black]

/-- C13: in either model, when the slot list is empty `updateGpuProgramsParams`
returns with no iteration run, hence with no parameter write, for every pass,
data source, blank-light state and light list, the null light list included
(which cannot be read without failing). -/
theorem C13_update_noop_on_empty_slot_list (a : FFPLighting) (b : PerPixelLighting) (pass : Pass)
    (source : AutoParamDataSource) (init : Light) (pLightList : Option (List Light)) :
    (a.mLightParamsList = [] →
        a.updateGpuProgramsParams pass source init pLightList = some [])
    ∧ (b.mLightParamsList = [] →
        b.updateGpuProgramsParams pass source init pLightList = some []) := by
  constructor
  · intro h
    simp [FFPLighting.updateGpuProgramsParams, h]
  · intro h
    simp [PerPixelLighting.updateGpuProgramsParams, h]

/-- C13 on freshly constructed instances with a null light list. -/
theorem C13_update_noop_on_empty_slot_list_witness :
    (({} : FFPLighting).mLightParamsList = [] ∧ ({} : PerPixelLighting).mLightParamsList = [])
    ∧ ({} : FFPLighting).updateGpuProgramsParams samplePass sampleSource (sampleLight LT_POINT)
        none = some []
    ∧ ({} : PerPixelLighting).updateGpuProgramsParams samplePass sampleSource
        (sampleLight LT_POINT) none = some [] :=
  ⟨⟨rfl, rfl⟩,
    (C13_update_noop_on_empty_slot_list {} {} samplePass sampleSource (sampleLight LT_POINT)
      none).1 rfl,
    (C13_update_noop_on_empty_slot_list {} {} samplePass sampleSource (sampleLight LT_POINT)
      none).2 rfl⟩

/-! ### Light policy -/

theorem ffp_setLightCount_list (self : FFPLighting) (c : Fin 3 → Int) :
    (self.setLightCount c).mLightParamsList = self.mLightParamsList ++ countBlock c := by
  simp only [FFPLighting.setLightCount, countBlock]
  rw [setLightCount_list]
  simp only [List.append_assoc]

theorem pp_setLightCount_list (self : PerPixelLighting) (c : Fin 3 → Int) :
    (self.setLightCount c).mLightParamsList = self.mLightParamsList ++ countBlock c := by
  simp only [PerPixelLighting.setLightCount, countBlock]
  rw [setLightCount_list]
  simp only [List.append_assoc]

theorem ffp_preAdd_unlit (self : FFPLighting) (rs : RenderState) (p : SourcePass)
    (h : p.getLightingEnabled = false) :
    self.preAddToRenderState rs p = { result := .ok false, self := self } := by
  simp [FFPLighting.preAddToRenderState, h]

theorem pp_preAdd_unlit (self : PerPixelLighting) (rs : RenderState) (p : SourcePass)
    (h : p.getLightingEnabled = false) :
    self.preAddToRenderState rs p = { result := .ok false, self := self } := by
  simp [PerPixelLighting.preAddToRenderState, h]

theorem ffp_preAdd_lit (self : FFPLighting) (rs : RenderState) (p : SourcePass)
    (h : p.getLightingEnabled = true) :
    self.preAddToRenderState rs p
      = match overrideLightPolicy p rs.getLightCount "FFPLighting::preAddToRenderState" with
        | .error e =>
          { result := .error e
            self := { self with
              mTrackVertexColourType := p.getVertexColourTracking
              mSpecularEnable := decide (p.getShininess > 0 ∧ p.getSpecular ≠ ColourValue.Black) } }
        | .ok lightCount =>
          { result := .ok true
            self := FFPLighting.setLightCount { self with
              mTrackVertexColourType := p.getVertexColourTracking
              mSpecularEnable := decide (p.getShininess > 0 ∧ p.getSpecular ≠ ColourValue.Black) }
              lightCount } := by
  unfold FFPLighting.preAddToRenderState
  simp only [h, Bool.not_true, Bool.false_eq_true, ↓reduceIte]
  by_cases hs : p.getShininess > 0 ∧ p.getSpecular ≠ ColourValue.Black
  · rw [if_pos hs, decide_eq_true hs]
    rfl
  · rw [if_neg hs, decide_eq_false hs]
    rfl

theorem pp_preAdd_lit (self : PerPixelLighting) (rs : RenderState) (p : SourcePass)
    (h : p.getLightingEnabled = true) :
    self.preAddToRenderState rs p
      = match overrideLightPolicy p rs.getLightCount "PerPixelLighting::preAddToRenderState" with
        | .error e =>
          { result := .error e
            self := { self with
              mTrackVertexColourType := p.getVertexColourTracking
              mSpecularEnable := decide (p.getShininess > 0 ∧ p.getSpecular ≠ ColourValue.Black) } }
        | .ok lightCount =>
          { result := .ok true
            self := PerPixelLighting.setLightCount { self with
              mTrackVertexColourType := p.getVertexColourTracking
              mSpecularEnable := decide (p.getShininess > 0 ∧ p.getSpecular ≠ ColourValue.Black) }
              lightCount } := by
  unfold PerPixelLighting.preAddToRenderState
  simp only [h, Bool.true_eq_false, ↓reduceIte]
  by_cases hs : p.getShininess > 0 ∧ p.getSpecular ≠ ColourValue.Black
  · rw [if_pos hs, decide_eq_true hs]
    rfl
  · rw [if_neg hs, decide_eq_false hs]
    rfl

/-- C14: in either model, when the source pass has lighting disabled,
`preAddToRenderState` returns false and leaves the object as it was (the
tracking mask, the specular flag, the slot list and everything else), whatever
the other settings of the pass and the render state are; it does not raise. -/
theorem C14_unlit_pass_rejected (a : FFPLighting) (b : PerPixelLighting)
    (renderState : RenderState) (srcPass : SourcePass)
    (h : srcPass.getLightingEnabled = false) :
    ((a.preAddToRenderState renderState srcPass).result = .ok false
        ∧ (a.preAddToRenderState renderState srcPass).self = a)
    ∧ ((b.preAddToRenderState renderState srcPass).result = .ok false
        ∧ (b.preAddToRenderState renderState srcPass).self = b) := by
  rw [ffp_preAdd_unlit a renderState srcPass h, pp_preAdd_unlit b renderState srcPass h]
  exact ⟨⟨rfl, rfl⟩, rfl, rfl⟩

/-- C14 on an unlit pass that asks for iterate-per-light without a one-type
restriction, on instances holding two slots. -/
theorem C14_unlit_pass_rejected_witness :
    sampleUnlitPass.getLightingEnabled = false
    ∧ ((sampleFFP.preAddToRenderState sampleRenderState sampleUnlitPass).result = .ok false
        ∧ (sampleFFP.preAddToRenderState sampleRenderState sampleUnlitPass).self = sampleFFP)
    ∧ ((samplePerPixel.preAddToRenderState sampleRenderState sampleUnlitPass).result = .ok false
        ∧ (samplePerPixel.preAddToRenderState sampleRenderState sampleUnlitPass).self
          = samplePerPixel) :=
  ⟨rfl, C14_unlit_pass_rejected sampleFFP samplePerPixel sampleRenderState sampleUnlitPass rfl⟩

theorem ffp_preAdd_true (self : FFPLighting) (rs : RenderState) (p : SourcePass)
    (h : (self.preAddToRenderState rs p).result = .ok true) :
    p.getLightingEnabled = true
      ∧ ∃ c, overrideLightPolicy p rs.getLightCount "FFPLighting::preAddToRenderState" = .ok c
        ∧ (self.preAddToRenderState rs p).self
          = FFPLighting.setLightCount { self with
              mTrackVertexColourType := p.getVertexColourTracking
              mSpecularEnable := decide (p.getShininess > 0 ∧ p.getSpecular ≠ ColourValue.Black) }
              c := by
  cases hl : p.getLightingEnabled with
  | false => rw [ffp_preAdd_unlit self rs p hl] at h; simp at h
  | true =>
    refine ⟨rfl, ?_⟩
    rw [ffp_preAdd_lit self rs p hl] at h ⊢
    cases ho : overrideLightPolicy p rs.getLightCount "FFPLighting::preAddToRenderState" with
    | error e => rw [ho] at h; simp at h
    | ok c => exact ⟨c, rfl, rfl⟩

theorem pp_preAdd_true (self : PerPixelLighting) (rs : RenderState) (p : SourcePass)
    (h : (self.preAddToRenderState rs p).result = .ok true) :
    p.getLightingEnabled = true
      ∧ ∃ c, overrideLightPolicy p rs.getLightCount "PerPixelLighting::preAddToRenderState" = .ok c
        ∧ (self.preAddToRenderState rs p).self
          = PerPixelLighting.setLightCount { self with
              mTrackVertexColourType := p.getVertexColourTracking
              mSpecularEnable := decide (p.getShininess > 0 ∧ p.getSpecular ≠ ColourValue.Black) }
              c := by
  cases hl : p.getLightingEnabled with
  | false => rw [pp_preAdd_unlit self rs p hl] at h; simp at h
  | true =>
    refine ⟨rfl, ?_⟩
    rw [pp_preAdd_lit self rs p hl] at h ⊢
    cases ho : overrideLightPolicy p rs.getLightCount "PerPixelLighting::preAddToRenderState" with
    | error e => rw [ho] at h; simp at h
    | ok c => exact ⟨c, rfl, rfl⟩

/-- C15: in either model, after `preAddToRenderState` returned true,
`specularEnable` is true exactly when the shininess of the source pass is
strictly greater than 0 and its specular colour differs from
`ColourValue::Black`; the value of the flag before the call does not occur in
the condition. -/
theorem C15_specular_flag (a : FFPLighting) (b : PerPixelLighting) (renderState : RenderState)
    (srcPass : SourcePass) :
    ((a.preAddToRenderState renderState srcPass).result = .ok true →
        ((a.preAddToRenderState renderState srcPass).self.mSpecularEnable = true
          ↔ srcPass.getShininess > 0 ∧ srcPass.getSpecular ≠ ColourValue.Black))
    ∧ ((b.preAddToRenderState renderState srcPass).result = .ok true →
        ((b.preAddToRenderState renderState srcPass).self.mSpecularEnable = true
          ↔ srcPass.getShininess > 0 ∧ srcPass.getSpecular ≠ ColourValue.Black)) := by
  constructor
  · intro h
    obtain ⟨-, c, -, hs⟩ := ffp_preAdd_true a renderState srcPass h
    rw [hs]
    simp [FFPLighting.setLightCount]
  · intro h
    obtain ⟨-, c, -, hs⟩ := pp_preAdd_true b renderState srcPass h
    rw [hs]
    simp [PerPixelLighting.setLightCount]

/-- C15 on instances whose flag is set before the call and a lit pass of zero
shininess: the call returns true and the flag is reset to false. -/
theorem C15_specular_flag_witness :
    ((({ mSpecularEnable := true } : FFPLighting).preAddToRenderState sampleRenderState
          sampleMattPass).result = .ok true
      ∧ (({ mSpecularEnable := true } : PerPixelLighting).preAddToRenderState sampleRenderState
          sampleMattPass).result = .ok true)
    ∧ ((({ mSpecularEnable := true } : FFPLighting).preAddToRenderState sampleRenderState
          sampleMattPass).self.mSpecularEnable = false
      ∧ (({ mSpecularEnable := true } : PerPixelLighting).preAddToRenderState sampleRenderState
          sampleMattPass).self.mSpecularEnable = false)
    ∧ ((({ mSpecularEnable := true } : FFPLighting).preAddToRenderState sampleRenderState
          sampleMattPass).self.mSpecularEnable = true
        ↔ sampleMattPass.getShininess > 0 ∧ sampleMattPass.getSpecular ≠ ColourValue.Black)
    ∧ ((({ mSpecularEnable := true } : PerPixelLighting).preAddToRenderState sampleRenderState
          sampleMattPass).self.mSpecularEnable = true
        ↔ sampleMattPass.getShininess > 0 ∧ sampleMattPass.getSpecular ≠ ColourValue.Black) :=
  ⟨⟨by simp [FFPLighting.preAddToRenderState, sampleMattPass, overrideLightPolicy],
      by simp [PerPixelLighting.preAddToRenderState, sampleMattPass, overrideLightPolicy]⟩,
    ⟨by simp [FFPLighting.preAddToRenderState, sampleMattPass, overrideLightPolicy,
        FFPLighting.setSpecularEnable, FFPLighting.setLightCount],
      by simp [PerPixelLighting.preAddToRenderState, sampleMattPass, overrideLightPolicy,
        PerPixelLighting.setSpecularEnable, PerPixelLighting.setLightCount]⟩,
    (C15_specular_flag { mSpecularEnable := true } { mSpecularEnable := true } sampleRenderState
      sampleMattPass).1
      (by simp [FFPLighting.preAddToRenderState, sampleMattPass, overrideLightPolicy]),
    (C15_specular_flag { mSpecularEnable := true } { mSpecularEnable := true } sampleRenderState
      sampleMattPass).2
      (by simp [PerPixelLighting.preAddToRenderState, sampleMattPass, overrideLightPolicy])⟩

theorem overrideLightPolicy_one_type (p : SourcePass) (c : Fin 3 → Int) (source : String)
    (hiter : p.getIteratePerLight = true) (hone : p.getRunOnlyForOneLightType = true) :
    overrideLightPolicy p c source
      = .ok (oneTypeCount p.getOnlyLightType p.getLightCountPerIteration) := by
  unfold overrideLightPolicy
  simp only [hiter, hone, ↓reduceIte]
  cases p.getOnlyLightType
  · simp only [↓reduceIte]
    congr 1
    funext i
    fin_cases i <;> simp [oneTypeCount, LightTypes.countIndex]
  · simp only [reduceCtorEq, ↓reduceIte]
    congr 1
    funext i
    fin_cases i <;> simp [oneTypeCount, LightTypes.countIndex]
  · simp only [reduceCtorEq, ↓reduceIte]
    congr 1
    funext i
    fin_cases i <;> simp [oneTypeCount, LightTypes.countIndex]

theorem countBlock_oneTypeCount (T : LightTypes) (n : Nat) :
    countBlock (oneTypeCount T n) = List.replicate n (emptySlot T) := by
  cases T <;> simp [countBlock, oneTypeCount, LightTypes.countIndex]

theorem getLightCount_replicate (T : LightTypes) (n : Nat) (c : Fin 3 → Int) :
    (List.replicate n (emptySlot T)).foldl getLightCountStep c
      = Function.update c T.countIndex (c T.countIndex + n) := by
  induction n generalizing c with
  | zero => simp
  | succ n ih =>
    rw [List.replicate_succ, List.foldl_cons, ih]
    cases T <;>
      (funext i
       fin_cases i <;>
         (simp [getLightCountStep, emptySlot, LightTypes.countIndex, Function.update]
          try ring))

theorem getLightCount_one_type (T : LightTypes) (n : Nat) :
    (List.replicate n (emptySlot T)).foldl getLightCountStep ![0, 0, 0] = oneTypeCount T n := by
  rw [getLightCount_replicate]
  cases T <;>
    (funext i
     fin_cases i <;> simp [oneTypeCount, LightTypes.countIndex, Function.update])

/-- C16: in either model, when the pass has lighting enabled, requests
iterate-per-light and restricts to one light type `T` with per-iteration count
`n`, `preAddToRenderState` on an instance with an empty slot list returns true
and leaves exactly `n` slots, all of type `T` and without handles, whatever the
counts of the render state are; the counts of the new list are `n` at the index
of `T` (Point = 0, Directional = 1, Spot = 2) and 0 elsewhere. -/
theorem C16_iterate_one_light_type (a : FFPLighting) (b : PerPixelLighting)
    (renderState : RenderState) (srcPass : SourcePass)
    (hlit : srcPass.getLightingEnabled = true) (hiter : srcPass.getIteratePerLight = true)
    (hone : srcPass.getRunOnlyForOneLightType = true) :
    (a.mLightParamsList = [] →
        (a.preAddToRenderState renderState srcPass).result = .ok true
        ∧ (a.preAddToRenderState renderState srcPass).self.mLightParamsList
          = List.replicate srcPass.getLightCountPerIteration (emptySlot srcPass.getOnlyLightType)
        ∧ (a.preAddToRenderState renderState srcPass).self.getLightCount
          = oneTypeCount srcPass.getOnlyLightType srcPass.getLightCountPerIteration)
    ∧ (b.mLightParamsList = [] →
        (b.preAddToRenderState renderState srcPass).result = .ok true
        ∧ (b.preAddToRenderState renderState srcPass).self.mLightParamsList
          = List.replicate srcPass.getLightCountPerIteration (emptySlot srcPass.getOnlyLightType)
        ∧ (b.preAddToRenderState renderState srcPass).self.getLightCount
          = oneTypeCount srcPass.getOnlyLightType srcPass.getLightCountPerIteration) := by
  constructor
  · intro ha
    have hl : (a.preAddToRenderState renderState srcPass).self.mLightParamsList
        = List.replicate srcPass.getLightCountPerIteration
            (emptySlot srcPass.getOnlyLightType) := by
      rw [ffp_preAdd_lit a renderState srcPass hlit,
        overrideLightPolicy_one_type srcPass _ _ hiter hone]
      simp only [ffp_setLightCount_list, ha, List.nil_append, countBlock_oneTypeCount]
    refine ⟨?_, hl, ?_⟩
    · rw [ffp_preAdd_lit a renderState srcPass hlit,
        overrideLightPolicy_one_type srcPass _ _ hiter hone]
    · rw [FFPLighting.getLightCount, hl, getLightCount_one_type]
  · intro hb
    have hl : (b.preAddToRenderState renderState srcPass).self.mLightParamsList
        = List.replicate srcPass.getLightCountPerIteration
            (emptySlot srcPass.getOnlyLightType) := by
      rw [pp_preAdd_lit b renderState srcPass hlit,
        overrideLightPolicy_one_type srcPass _ _ hiter hone]
      simp only [pp_setLightCount_list, hb, List.nil_append, countBlock_oneTypeCount]
    refine ⟨?_, hl, ?_⟩
    · rw [pp_preAdd_lit b renderState srcPass hlit,
        overrideLightPolicy_one_type srcPass _ _ hiter hone]
    · rw [PerPixelLighting.getLightCount, hl, getLightCount_one_type]

/-- C16 at `T` = Spot and `n` = 4, on freshly constructed instances and a
render state whose counts are `(2, 1, 1)`: four Spot slots, counts
`(0, 0, 4)`. -/
theorem C16_iterate_one_light_type_witness :
    (sampleSpotPass.getLightingEnabled = true ∧ sampleSpotPass.getIteratePerLight = true
      ∧ sampleSpotPass.getRunOnlyForOneLightType = true)
    ∧ oneTypeCount sampleSpotPass.getOnlyLightType sampleSpotPass.getLightCountPerIteration
      = lightCountOf 0 0 4
    ∧ ((({} : FFPLighting).preAddToRenderState sampleRenderState sampleSpotPass).result
        = .ok true
      ∧ (({} : FFPLighting).preAddToRenderState sampleRenderState
          sampleSpotPass).self.mLightParamsList
        = List.replicate sampleSpotPass.getLightCountPerIteration
            (emptySlot sampleSpotPass.getOnlyLightType)
      ∧ (({} : FFPLighting).preAddToRenderState sampleRenderState
          sampleSpotPass).self.getLightCount
        = oneTypeCount sampleSpotPass.getOnlyLightType sampleSpotPass.getLightCountPerIteration)
    ∧ ((({} : PerPixelLighting).preAddToRenderState sampleRenderState sampleSpotPass).result
        = .ok true
      ∧ (({} : PerPixelLighting).preAddToRenderState sampleRenderState
          sampleSpotPass).self.mLightParamsList
        = List.replicate sampleSpotPass.getLightCountPerIteration
            (emptySlot sampleSpotPass.getOnlyLightType)
      ∧ (({} : PerPixelLighting).preAddToRenderState sampleRenderState
          sampleSpotPass).self.getLightCount
        = oneTypeCount sampleSpotPass.getOnlyLightType sampleSpotPass.getLightCountPerIteration) :=
  ⟨⟨rfl, rfl, rfl⟩, by decide,
    (C16_iterate_one_light_type {} {} sampleRenderState sampleSpotPass rfl rfl rfl).1 rfl,
    (C16_iterate_one_light_type {} {} sampleRenderState sampleSpotPass rfl rfl rfl).2 rfl⟩

/-- C17: in either model, when the pass has lighting enabled and requests
iterate-per-light without a one-light-type restriction, `preAddToRenderState`
raises the exception `ERR_INVALIDPARAMS` (it returns neither true nor false),
and the slot list is the one before the call. -/
theorem C17_iterate_without_light_type_raises (a : FFPLighting) (b : PerPixelLighting)
    (renderState : RenderState) (srcPass : SourcePass)
    (hlit : srcPass.getLightingEnabled = true) (hiter : srcPass.getIteratePerLight = true)
    (hone : srcPass.getRunOnlyForOneLightType = false) :
    ((a.preAddToRenderState renderState srcPass).result
          = .error
            { code := ExceptionCodes.ERR_INVALIDPARAMS
              description :=
                "Using iterative lighting method with RT Shader System requires specifying explicit light type."
              source := "FFPLighting::preAddToRenderState" }
        ∧ (a.preAddToRenderState renderState srcPass).self.mLightParamsList
          = a.mLightParamsList)
    ∧ ((b.preAddToRenderState renderState srcPass).result
          = .error
            { code := ExceptionCodes.ERR_INVALIDPARAMS
              description :=
                "Using iterative lighting method with RT Shader System requires specifying explicit light type."
              source := "PerPixelLighting::preAddToRenderState" }
        ∧ (b.preAddToRenderState renderState srcPass).self.mLightParamsList
          = b.mLightParamsList) := by
  have ho : ∀ c s, overrideLightPolicy srcPass c s = .error (iterativeLightingError s) := by
    intro c s
    simp [overrideLightPolicy, hiter, hone]
  rw [ffp_preAdd_lit a renderState srcPass hlit, pp_preAdd_lit b renderState srcPass hlit, ho, ho]
  exact ⟨⟨rfl, rfl⟩, rfl, rfl⟩

/-- C17 on instances holding two slots. -/
theorem C17_iterate_without_light_type_raises_witness :
    (sampleIteratePass.getLightingEnabled = true ∧ sampleIteratePass.getIteratePerLight = true
      ∧ sampleIteratePass.getRunOnlyForOneLightType = false)
    ∧ ((sampleFFP.preAddToRenderState sampleRenderState sampleIteratePass).result
          = .error
            { code := ExceptionCodes.ERR_INVALIDPARAMS
              description :=
                "Using iterative lighting method with RT Shader System requires specifying explicit light type."
              source := "FFPLighting::preAddToRenderState" }
        ∧ (sampleFFP.preAddToRenderState sampleRenderState sampleIteratePass).self.mLightParamsList
          = sampleFFP.mLightParamsList)
    ∧ ((samplePerPixel.preAddToRenderState sampleRenderState sampleIteratePass).result
          = .error
            { code := ExceptionCodes.ERR_INVALIDPARAMS
              description :=
                "Using iterative lighting method with RT Shader System requires specifying explicit light type."
              source := "PerPixelLighting::preAddToRenderState" }
        ∧ (samplePerPixel.preAddToRenderState sampleRenderState
            sampleIteratePass).self.mLightParamsList
          = samplePerPixel.mLightParamsList) :=
  ⟨⟨rfl, rfl, rfl⟩,
    C17_iterate_without_light_type_raises sampleFFP samplePerPixel sampleRenderState
      sampleIteratePass rfl rfl rfl⟩

/-! ### Sequences of calls -/

theorem grouped_replicate_append (t : LightTypes) (n : Nat) (l : List LightTypes)
    (hl : Grouped l) (ht : t ∉ l) : Grouped (List.replicate n t ++ l) := by
  induction n with
  | zero => simpa using hl
  | succ n ih =>
    rw [List.replicate_succ, List.cons_append]
    refine ⟨?_, ih⟩
    cases n with
    | zero => right; simpa using ht
    | succ m => left; simp [List.replicate_succ]

theorem countBlock_grouped (c : Fin 3 → Int) :
    Grouped ((countBlock c).map (fun p => p.mType)) := by
  have h : (countBlock c).map (fun p => p.mType)
      = List.replicate (c 0).toNat LT_POINT
        ++ (List.replicate (c 1).toNat LT_DIRECTIONAL
          ++ (List.replicate (c 2).toNat LT_SPOTLIGHT ++ [])) := by
    simp [countBlock, emptySlot]
  rw [h]
  refine grouped_replicate_append _ _ _ (grouped_replicate_append _ _ _
    (grouped_replicate_append _ _ _ trivial ?_) ?_) ?_
  · simp
  · simp [List.mem_replicate]
  · simp [List.mem_replicate]

theorem countBlock_length (c : Fin 3 → Int) :
    (countBlock c).length = (c 0).toNat + (c 1).toNat + (c 2).toNat := by
  simp [countBlock, Nat.add_assoc]

theorem ffp_mutate_list (self : FFPLighting) (m : Mutator FFPLighting) (h : self.succeeds m) :
    (self.mutate m).mLightParamsList
      = self.mLightParamsList ++ countBlock (FFPLighting.requested m) := by
  cases m with
  | setLightCount c => exact ffp_setLightCount_list self c
  | copyFrom rhs => exact ffp_setLightCount_list self _
  | preAddToRenderState rs p =>
    obtain ⟨-, c, hc, hs⟩ := ffp_preAdd_true self rs p h
    simp only [FFPLighting.mutate, FFPLighting.requested, hs, hc, ffp_setLightCount_list]

theorem pp_mutate_list (self : PerPixelLighting) (m : Mutator PerPixelLighting)
    (h : self.succeeds m) :
    (self.mutate m).mLightParamsList
      = self.mLightParamsList ++ countBlock (PerPixelLighting.requested m) := by
  cases m with
  | setLightCount c => exact pp_setLightCount_list self c
  | copyFrom rhs => exact pp_setLightCount_list self _
  | preAddToRenderState rs p =>
    obtain ⟨-, c, hc, hs⟩ := pp_preAdd_true self rs p h
    simp only [PerPixelLighting.mutate, PerPixelLighting.requested, hs, hc, pp_setLightCount_list]

theorem ffp_run_list (calls : List (Mutator FFPLighting)) :
    ∀ self : FFPLighting, FFPLighting.Successful self calls →
      (self.run calls).mLightParamsList
        = self.mLightParamsList
          ++ (calls.map (fun m => countBlock (FFPLighting.requested m))).flatten := by
  induction calls with
  | nil => intro self _; simp [FFPLighting.run]
  | cons m rest ih =>
    intro self h
    have := ih (self.mutate m) h.2
    simp only [FFPLighting.run, List.foldl_cons] at this ⊢
    rw [this, ffp_mutate_list self m h.1]
    simp

theorem pp_run_list (calls : List (Mutator PerPixelLighting)) :
    ∀ self : PerPixelLighting, PerPixelLighting.Successful self calls →
      (self.run calls).mLightParamsList
        = self.mLightParamsList
          ++ (calls.map (fun m => countBlock (PerPixelLighting.requested m))).flatten := by
  induction calls with
  | nil => intro self _; simp [PerPixelLighting.run]
  | cons m rest ih =>
    intro self h
    have := ih (self.mutate m) h.2
    simp only [PerPixelLighting.run, List.foldl_cons] at this ⊢
    rw [this, pp_mutate_list self m h.1]
    simp

/-- C18 (counterexample): on a freshly constructed instance of either model,
`setLightCount(1, 1, 0)` followed by `setLightCount(1, 0, 0)` leaves the slots
Point, Directional, Point: the list is not grouped by type, and its length 3 is
not the sum 1 of the counts most recently requested. -/
theorem C18_second_call_appends :
    ((((({} : FFPLighting).setLightCount (lightCountOf 1 1 0)).setLightCount
          (lightCountOf 1 0 0)).mLightParamsList.map (fun p => p.mType)
        = [LT_POINT, LT_DIRECTIONAL, LT_POINT]
      ∧ ¬ Grouped (((({} : FFPLighting).setLightCount (lightCountOf 1 1 0)).setLightCount
          (lightCountOf 1 0 0)).mLightParamsList.map (fun p => p.mType))
      ∧ (((({} : FFPLighting).setLightCount (lightCountOf 1 1 0)).setLightCount
          (lightCountOf 1 0 0)).mLightParamsList.length : Int)
        ≠ lightCountOf 1 0 0 0 + lightCountOf 1 0 0 1 + lightCountOf 1 0 0 2))
    ∧ ((((({} : PerPixelLighting).setLightCount (lightCountOf 1 1 0)).setLightCount
          (lightCountOf 1 0 0)).mLightParamsList.map (fun p => p.mType)
        = [LT_POINT, LT_DIRECTIONAL, LT_POINT]
      ∧ ¬ Grouped (((({} : PerPixelLighting).setLightCount (lightCountOf 1 1 0)).setLightCount
          (lightCountOf 1 0 0)).mLightParamsList.map (fun p => p.mType))
      ∧ (((({} : PerPixelLighting).setLightCount (lightCountOf 1 1 0)).setLightCount
          (lightCountOf 1 0 0)).mLightParamsList.length : Int)
        ≠ lightCountOf 1 0 0 0 + lightCountOf 1 0 0 1 + lightCountOf 1 0 0 2)) := by
  decide

/-- C18 (amended): in either model, after any sequence of `setLightCount`,
`copyFrom` and successful `preAddToRenderState` calls the slot list is the list
before the sequence followed, in call order, by one block per call; the block
of a call is grouped by type (its Point slots, then its Directional slots, then
its Spot slots) and its length is the sum of the counts that call requested, a
negative count counting as zero.  So on an instance whose slot list is empty
one such call leaves a list grouped by type whose length is the sum of the
counts requested. -/
theorem C18_slot_list_is_blocks_in_call_order (a : FFPLighting) (b : PerPixelLighting)
    (calls : List (Mutator FFPLighting)) (callsPS : List (Mutator PerPixelLighting))
    (ha : FFPLighting.Successful a calls) (hb : PerPixelLighting.Successful b callsPS) :
    ((a.run calls).mLightParamsList
        = a.mLightParamsList
          ++ (calls.map (fun m => countBlock (FFPLighting.requested m))).flatten
      ∧ (b.run callsPS).mLightParamsList
        = b.mLightParamsList
          ++ (callsPS.map (fun m => countBlock (PerPixelLighting.requested m))).flatten)
    ∧ (∀ lightCount : Fin 3 → Int,
        Grouped ((countBlock lightCount).map (fun p => p.mType))
        ∧ (countBlock lightCount).length
          = (lightCount 0).toNat + (lightCount 1).toNat + (lightCount 2).toNat)
    ∧ (∀ m, a.mLightParamsList = [] → calls = [m] →
        Grouped ((a.run calls).mLightParamsList.map (fun p => p.mType))
        ∧ (a.run calls).mLightParamsList.length
          = (FFPLighting.requested m 0).toNat + (FFPLighting.requested m 1).toNat
            + (FFPLighting.requested m 2).toNat)
    ∧ (∀ m, b.mLightParamsList = [] → callsPS = [m] →
        Grouped ((b.run callsPS).mLightParamsList.map (fun p => p.mType))
        ∧ (b.run callsPS).mLightParamsList.length
          = (PerPixelLighting.requested m 0).toNat + (PerPixelLighting.requested m 1).toNat
            + (PerPixelLighting.requested m 2).toNat) := by
  have h1 := ffp_run_list calls a ha
  have h2 := pp_run_list callsPS b hb
  refine ⟨⟨h1, h2⟩, fun c => ⟨countBlock_grouped c, countBlock_length c⟩, ?_, ?_⟩
  · intro m hl hm
    rw [h1, hl, hm]
    simp only [List.map_cons, List.map_nil, List.flatten_cons, List.flatten_nil, List.append_nil,
      List.nil_append]
    exact ⟨countBlock_grouped _, countBlock_length _⟩
  · intro m hl hm
    rw [h2, hl, hm]
    simp only [List.map_cons, List.map_nil, List.flatten_cons, List.flatten_nil, List.append_nil,
      List.nil_append]
    exact ⟨countBlock_grouped _, countBlock_length _⟩

/-- C18 (amended) on freshly constructed instances and the calls
`preAddToRenderState` (a pass iterating per four Spot lights), then
`setLightCount(1, 0, 0)`: four Spot slots followed by one Point slot. -/
theorem C18_slot_list_is_blocks_in_call_order_witness :
    (FFPLighting.Successful {} sampleCalls ∧ PerPixelLighting.Successful {} sampleCallsPS)
    ∧ ((({} : FFPLighting).run sampleCalls).mLightParamsList.map (fun p => p.mType)
        = [LT_SPOTLIGHT, LT_SPOTLIGHT, LT_SPOTLIGHT, LT_SPOTLIGHT, LT_POINT]
      ∧ (({} : PerPixelLighting).run sampleCallsPS).mLightParamsList.map (fun p => p.mType)
        = [LT_SPOTLIGHT, LT_SPOTLIGHT, LT_SPOTLIGHT, LT_SPOTLIGHT, LT_POINT])
    ∧ ((({} : FFPLighting).run sampleCalls).mLightParamsList
        = ({} : FFPLighting).mLightParamsList
          ++ (sampleCalls.map (fun m => countBlock (FFPLighting.requested m))).flatten
      ∧ (({} : PerPixelLighting).run sampleCallsPS).mLightParamsList
        = ({} : PerPixelLighting).mLightParamsList
          ++ (sampleCallsPS.map (fun m => countBlock (PerPixelLighting.requested m))).flatten) :=
  ⟨⟨⟨rfl, trivial, trivial⟩, ⟨rfl, trivial, trivial⟩⟩, ⟨by decide, by decide⟩,
    (C18_slot_list_is_blocks_in_call_order {} {} sampleCalls sampleCallsPS
      ⟨rfl, trivial, trivial⟩ ⟨rfl, trivial, trivial⟩).1⟩

/-! ### Global illumination -/

theorem ffp_global_emitted (self : FFPLighting) (o : GroupOrder) :
    ((self.addGlobalIlluminationInvocation [] o).2.map FunctionInvocation.shape
        = globalIlluminationShape (tracks self.mTrackVertexColourType TVC_AMBIENT)
            (tracks self.mTrackVertexColourType TVC_EMISSIVE) self.mVSOutDiffuse
            self.mDerivedSceneColour self.mLightAmbientColour self.mVSDiffuse
            self.mDerivedAmbientLightColour self.mSurfaceEmissiveColour)
      ∧ (∀ inv ∈ (self.addGlobalIlluminationInvocation [] o).2,
          inv.mGroupExecutionOrder = o ∧ inv.outputs = [self.mVSOutDiffuse]) := by
  unfold FFPLighting.addGlobalIlluminationInvocation globalIlluminationShape
  cases tracks self.mTrackVertexColourType TVC_AMBIENT <;>
    cases tracks self.mTrackVertexColourType TVC_EMISSIVE <;>
    simp [assign, callFunction, FunctionInvocation.shape, FunctionInvocation.outputs, In, Out]

theorem pp_global_emitted (self : PerPixelLighting) (o : GroupOrder) :
    ∃ emitted,
      (self.addPSGlobalIlluminationInvocation [] o).2
          = emitted
            ++ (if self.mSpecularEnable then
                  assign [] o (In self.mPSSpecular) (Out self.mPSTempSpecularColour)
                else [])
        ∧ emitted.map FunctionInvocation.shape
          = globalIlluminationShape (tracks self.mTrackVertexColourType TVC_AMBIENT)
              (tracks self.mTrackVertexColourType TVC_EMISSIVE) self.mPSTempDiffuseColour
              self.mDerivedSceneColour self.mLightAmbientColour self.mPSDiffuse
              self.mDerivedAmbientLightColour self.mSurfaceEmissiveColour
        ∧ (∀ inv ∈ emitted,
            inv.mGroupExecutionOrder = o ∧ inv.outputs = [self.mPSTempDiffuseColour]) := by
  refine ⟨(({ self with mSpecularEnable := false } :
    PerPixelLighting).addPSGlobalIlluminationInvocation [] o).2, ?_, ?_, ?_⟩ <;>
  · cases hs : self.mSpecularEnable <;>
      cases ha : tracks self.mTrackVertexColourType TVC_AMBIENT <;>
      cases he : tracks self.mTrackVertexColourType TVC_EMISSIVE <;>
      simp [hs, ha, he, PerPixelLighting.addPSGlobalIlluminationInvocation,
        globalIlluminationShape, assign, callFunction, FunctionInvocation.shape,
        FunctionInvocation.outputs, In, Out, Operand.xyz]

/-- C19: in either model the global-illumination step returns true and what it
appends for the diffuse accumulator is, in function, operand parameters and
operand directions, the sequence the specification gives as a function of the
ambient and the emissive bit alone (so the diffuse and the specular tracking
bit do not affect it): one assignment of the derived scene colour when neither
bit is set; otherwise the ambient contribution (MODULATE of light-ambient by
the vertex diffuse colour when ambient is tracked, else an assignment of
derived-ambient) and then an ADD into the same accumulator whose first operand
is the vertex diffuse colour when emissive is tracked and the surface emissive
colour otherwise.  The accumulator is `mVSOutDiffuse` in the per-vertex and
`mPSTempDiffuseColour` in the per-pixel model, whose step appends after this
sequence only the specular assignment, when specular is enabled. -/
theorem C19_global_illumination_sequence :
    (∀ (self : FFPLighting) (vsMain : List FunctionInvocation) (groupOrder : GroupOrder),
        (self.addGlobalIlluminationInvocation vsMain groupOrder).1 = true
        ∧ ∃ emitted,
          (self.addGlobalIlluminationInvocation vsMain groupOrder).2 = vsMain ++ emitted
          ∧ emitted.map FunctionInvocation.shape
            = globalIlluminationShape (tracks self.mTrackVertexColourType TVC_AMBIENT)
                (tracks self.mTrackVertexColourType TVC_EMISSIVE) self.mVSOutDiffuse
                self.mDerivedSceneColour self.mLightAmbientColour self.mVSDiffuse
                self.mDerivedAmbientLightColour self.mSurfaceEmissiveColour
          ∧ ∀ inv ∈ emitted, inv.mGroupExecutionOrder = groupOrder)
    ∧ (∀ (self : PerPixelLighting) (psMain : List FunctionInvocation) (groupOrder : GroupOrder),
        (self.addPSGlobalIlluminationInvocation psMain groupOrder).1 = true
        ∧ ∃ emitted,
          (self.addPSGlobalIlluminationInvocation psMain groupOrder).2
            = psMain ++ emitted
              ++ (if self.mSpecularEnable then
                    assign [] groupOrder (In self.mPSSpecular) (Out self.mPSTempSpecularColour)
                  else [])
          ∧ emitted.map FunctionInvocation.shape
            = globalIlluminationShape (tracks self.mTrackVertexColourType TVC_AMBIENT)
                (tracks self.mTrackVertexColourType TVC_EMISSIVE) self.mPSTempDiffuseColour
                self.mDerivedSceneColour self.mLightAmbientColour self.mPSDiffuse
                self.mDerivedAmbientLightColour self.mSurfaceEmissiveColour
          ∧ ∀ inv ∈ emitted, inv.mGroupExecutionOrder = groupOrder) := by
  constructor
  · intro self vsMain o
    rw [FFPLighting.addGlobalIlluminationInvocation_append]
    obtain ⟨h1, h2⟩ := ffp_global_emitted self o
    exact ⟨rfl, _, rfl, h1, fun inv hinv => (h2 inv hinv).1⟩
  · intro self psMain o
    rw [PerPixelLighting.addPSGlobalIlluminationInvocation_append]
    obtain ⟨emitted, h0, h1, h2⟩ := pp_global_emitted self o
    refine ⟨rfl, emitted, ?_, h1, fun inv hinv => (h2 inv hinv).1⟩
    simp only [h0, List.append_assoc]

/-- C20 (counterexample): a per-vertex instance with `specularEnable` set, no
tracking bit set and pairwise different handles.  The global-illumination step
appends the one assignment of the derived scene colour into `mVSOutDiffuse`; no
invocation it appends has the specular accumulator `mVSOutSpecular` as an
operand, and the per-light call of the Point slot that follows reads it. -/
theorem C20_per_vertex_global_step_has_no_specular_seed :
    sampleSpecularFFP.mSpecularEnable = true
    ∧ (sampleSpecularFFP.addGlobalIlluminationInvocation [] GroupOrder.FFP_VS_LIGHTING).2
      = [{ mFunctionName := FunctionName.FFP_FUNC_ASSIGN
           mGroupExecutionOrder := GroupOrder.FFP_VS_LIGHTING
           mOperands := [In (some 8), Out (some 6)] }]
    ∧ (∀ inv ∈ (sampleSpecularFFP.addGlobalIlluminationInvocation []
          GroupOrder.FFP_VS_LIGHTING).2,
        ∀ o ∈ inv.mOperands, o.mParameter ≠ sampleSpecularFFP.mVSOutSpecular)
    ∧ (∃ inv ∈ (sampleSpecularFFP.addIlluminationInvocation (sampleSlot LT_POINT 100) []
          GroupOrder.FFP_VS_LIGHTING).2,
        (In sampleSpecularFFP.mVSOutSpecular).xyz ∈ inv.mOperands) := by
  decide

/-- C20 (amended): in the per-pixel model the global-illumination step appends,
after its invocations for the diffuse accumulator, the assignment of the input
specular colour `mPSSpecular` into the specular accumulator
`mPSTempSpecularColour` exactly when `specularEnable` is set, and nothing else;
every other invocation it appends has the diffuse accumulator as its only
output; and in the fragment function the per-light calls come after what this
step appends.  In the per-vertex model the global-illumination step appends no
specular assignment: what it appends is the same whatever `specularEnable` is,
and each invocation has `mVSOutDiffuse` as its only output. -/
theorem C20_specular_seed_per_pixel_only {σ : Type} :
    (∀ (self : PerPixelLighting) (psMain : List FunctionInvocation) (groupOrder : GroupOrder),
        ∃ emitted,
          (self.addPSGlobalIlluminationInvocation psMain groupOrder).2
            = psMain ++ emitted
              ++ (if self.mSpecularEnable then
                    [{ mFunctionName := FunctionName.FFP_FUNC_ASSIGN
                       mGroupExecutionOrder := groupOrder
                       mOperands := [In self.mPSSpecular, Out self.mPSTempSpecularColour] }]
                  else [])
          ∧ ∀ inv ∈ emitted, inv.outputs = [self.mPSTempDiffuseColour])
    ∧ (∀ (self : PerPixelLighting) (ps : ProgramSet σ),
        (self.addFunctionInvocations ps).2.psMainAtoms
          = ps.psMainAtoms
            ++ (self.addPSGlobalIlluminationInvocation []
                (GroupOrder.FFP_PS_COLOUR_BEGIN_plus 1)).2
            ++ (self.mLightParamsList.map (fun cur =>
                (self.addPSIlluminationInvocation cur []
                  (GroupOrder.FFP_PS_COLOUR_BEGIN_plus 1)).2)).flatten
            ++ (self.addPSFinalAssignmentInvocation []
                (GroupOrder.FFP_PS_COLOUR_BEGIN_plus 1)).2)
    ∧ (∀ (self : FFPLighting) (vsMain : List FunctionInvocation) (groupOrder : GroupOrder),
        (self.addGlobalIlluminationInvocation vsMain groupOrder).2
          = (({ self with mSpecularEnable := !self.mSpecularEnable } :
              FFPLighting).addGlobalIlluminationInvocation vsMain groupOrder).2
        ∧ ∃ emitted,
          (self.addGlobalIlluminationInvocation vsMain groupOrder).2 = vsMain ++ emitted
          ∧ ∀ inv ∈ emitted, inv.outputs = [self.mVSOutDiffuse]) := by
  refine ⟨?_, ?_, ?_⟩
  · intro self psMain o
    rw [PerPixelLighting.addPSGlobalIlluminationInvocation_append]
    obtain ⟨emitted, h0, -, h2⟩ := pp_global_emitted self o
    refine ⟨emitted, ?_, fun inv hinv => (h2 inv hinv).2⟩
    simp only [h0, List.append_assoc, assign, callFunction, List.nil_append]
  · intro self ps
    rw [pp_addFunctionInvocations_eq]
  · intro self vsMain o
    refine ⟨rfl, ?_⟩
    rw [FFPLighting.addGlobalIlluminationInvocation_append]
    exact ⟨_, rfl, fun inv hinv => ((ffp_global_emitted self o).2 inv hinv).2⟩

/-! ### Per-light emission and the final write-back -/

/-- C21: `addPSFinalAssignmentInvocation` returns true and appends, in this
order, the assignment of the temporary diffuse accumulator into the fragment
diffuse colour, the assignment of the fragment diffuse colour into the fragment
output diffuse, and, exactly when `specularEnable` is set, the assignment of
the temporary specular accumulator into the specular colour; nothing else: two
invocations without specular, three with. -/
theorem C21_final_write_back (self : PerPixelLighting) (psMain : List FunctionInvocation)
    (groupOrder : GroupOrder) :
    (self.addPSFinalAssignmentInvocation psMain groupOrder).1 = true
    ∧ (self.addPSFinalAssignmentInvocation psMain groupOrder).2
      = psMain
        ++ [{ mFunctionName := FunctionName.FFP_FUNC_ASSIGN
              mGroupExecutionOrder := groupOrder
              mOperands := [In self.mPSTempDiffuseColour, Out self.mPSDiffuse] },
            { mFunctionName := FunctionName.FFP_FUNC_ASSIGN
              mGroupExecutionOrder := groupOrder
              mOperands := [In self.mPSDiffuse, Out self.mPSOutDiffuse] }]
        ++ (if self.mSpecularEnable then
              [{ mFunctionName := FunctionName.FFP_FUNC_ASSIGN
                 mGroupExecutionOrder := groupOrder
                 mOperands := [In self.mPSTempSpecularColour, Out self.mPSSpecular] }]
            else [])
    ∧ ((self.addPSFinalAssignmentInvocation psMain groupOrder).2.length
      = psMain.length + (if self.mSpecularEnable then 3 else 2)) := by
  unfold PerPixelLighting.addPSFinalAssignmentInvocation
  cases self.mSpecularEnable <;> simp [assign, callFunction]

theorem ffp_slot_emitted (self : FFPLighting) (cur : LightParams) (o : GroupOrder) :
    ∃ call,
      (self.addIlluminationInvocation cur [] o).2
          = preModulation o self.mVSDiffuse self.mTrackVertexColourType self.mSpecularEnable cur
            ++ [call]
        ∧ call.mFunctionName = FFPLighting.illuminationFunction cur.mType self.mSpecularEnable
        ∧ call.mGroupExecutionOrder = o
        ∧ call.mOperands
          = call.mOperands.filter (fun op => decide (op.mSemantic = OpSemantic.OPS_IN))
            ++ accumulatorOutputs self.mVSOutDiffuse self.mVSOutSpecular self.mSpecularEnable
        ∧ (In self.mVSOutDiffuse).xyz
          ∈ call.mOperands.filter (fun op => decide (op.mSemantic = OpSemantic.OPS_IN))
        ∧ (self.mSpecularEnable = true → (In self.mVSOutSpecular).xyz
          ∈ call.mOperands.filter (fun op => decide (op.mSemantic = OpSemantic.OPS_IN))) := by
  unfold FFPLighting.addIlluminationInvocation preModulation accumulatorOutputs
  cases hT : cur.mType <;> cases hs : self.mSpecularEnable <;>
    cases hd : tracks self.mTrackVertexColourType TVC_DIFFUSE <;>
    cases hp : tracks self.mTrackVertexColourType TVC_SPECULAR <;>
    simp only [callFunction, FFPLighting.illuminationFunction, Bool.false_eq_true, ↓reduceIte,
      false_and, and_false, and_self, List.nil_append, List.append_nil, List.cons_append,
      List.singleton_append] <;>
    refine ⟨_, rfl, rfl, rfl, ?_, ?_, ?_⟩ <;>
    simp [In, Out, Operand.xyz]

theorem pp_slot_emitted (self : PerPixelLighting) (cur : LightParams) (o : GroupOrder) :
    ∃ call,
      (self.addPSIlluminationInvocation cur [] o).2
          = preModulation o self.mPSDiffuse self.mTrackVertexColourType self.mSpecularEnable cur
            ++ [call]
        ∧ call.mFunctionName
          = PerPixelLighting.illuminationFunction cur.mType self.mSpecularEnable
        ∧ call.mGroupExecutionOrder = o
        ∧ call.mOperands
          = call.mOperands.filter (fun op => decide (op.mSemantic = OpSemantic.OPS_IN))
            ++ accumulatorOutputs self.mPSTempDiffuseColour self.mPSTempSpecularColour
                self.mSpecularEnable
        ∧ (In self.mPSTempDiffuseColour).xyz
          ∈ call.mOperands.filter (fun op => decide (op.mSemantic = OpSemantic.OPS_IN))
        ∧ (self.mSpecularEnable = true → (In self.mPSTempSpecularColour).xyz
          ∈ call.mOperands.filter (fun op => decide (op.mSemantic = OpSemantic.OPS_IN))) := by
  unfold PerPixelLighting.addPSIlluminationInvocation preModulation accumulatorOutputs
  cases hT : cur.mType <;> cases hs : self.mSpecularEnable <;>
    cases hd : tracks self.mTrackVertexColourType TVC_DIFFUSE <;>
    cases hp : tracks self.mTrackVertexColourType TVC_SPECULAR <;>
    simp only [callFunction, addAtomInstance, PerPixelLighting.illuminationFunction,
      Bool.false_eq_true, ↓reduceIte, false_and, and_false, and_self, List.nil_append,
      List.append_nil, List.cons_append, List.singleton_append] <;>
    refine ⟨_, rfl, rfl, rfl, ?_, ?_, ?_⟩ <;>
    simp [In, Out, Operand.xyz, pushOperand]

/-- C29: in either model `addIlluminationInvocation` returns true and appends,
for the slot, the pre-modulation the specification describes and then one
illumination call: a MODULATE of the vertex diffuse colour (`mVSDiffuse`, in
the per-pixel model `mPSDiffuse`) with the slot's diffuse colour, XYZ-masked
and written back into the slot's diffuse colour, exactly when the diffuse bit
is tracked; a MODULATE with the slot's specular colour exactly when
`specularEnable` is set and the specular bit is tracked; the illumination call
last.  So a slot contributes 1 + [diffuse tracked] + [specularEnable and
specular tracked] invocations. -/
theorem C29_pre_modulation :
    (∀ (self : FFPLighting) (cur : LightParams) (vsMain : List FunctionInvocation)
        (groupOrder : GroupOrder),
        (self.addIlluminationInvocation cur vsMain groupOrder).1 = true
        ∧ (∃ call,
            (self.addIlluminationInvocation cur vsMain groupOrder).2
              = vsMain
                ++ preModulation groupOrder self.mVSDiffuse self.mTrackVertexColourType
                    self.mSpecularEnable cur
                ++ [call]
            ∧ call.mFunctionName
              = FFPLighting.illuminationFunction cur.mType self.mSpecularEnable)
        ∧ (self.addIlluminationInvocation cur vsMain groupOrder).2.length
          = vsMain.length + 1
            + (if tracks self.mTrackVertexColourType TVC_DIFFUSE then 1 else 0)
            + (if self.mSpecularEnable = true
                  ∧ tracks self.mTrackVertexColourType TVC_SPECULAR = true then 1 else 0))
    ∧ (∀ (self : PerPixelLighting) (cur : LightParams) (psMain : List FunctionInvocation)
        (groupOrder : GroupOrder),
        (self.addPSIlluminationInvocation cur psMain groupOrder).1 = true
        ∧ (∃ call,
            (self.addPSIlluminationInvocation cur psMain groupOrder).2
              = psMain
                ++ preModulation groupOrder self.mPSDiffuse self.mTrackVertexColourType
                    self.mSpecularEnable cur
                ++ [call]
            ∧ call.mFunctionName
              = PerPixelLighting.illuminationFunction cur.mType self.mSpecularEnable)
        ∧ (self.addPSIlluminationInvocation cur psMain groupOrder).2.length
          = psMain.length + 1
            + (if tracks self.mTrackVertexColourType TVC_DIFFUSE then 1 else 0)
            + (if self.mSpecularEnable = true
                  ∧ tracks self.mTrackVertexColourType TVC_SPECULAR = true then 1 else 0)) := by
  constructor
  · intro self cur vsMain o
    obtain ⟨call, h1, h2, -⟩ := ffp_slot_emitted self cur o
    rw [FFPLighting.addIlluminationInvocation_append, h1]
    refine ⟨rfl, ⟨call, by simp only [List.append_assoc], h2⟩, ?_⟩
    unfold preModulation
    split_ifs <;> simp
  · intro self cur psMain o
    obtain ⟨call, h1, h2, -⟩ := pp_slot_emitted self cur o
    rw [PerPixelLighting.addPSIlluminationInvocation_append, h1]
    refine ⟨rfl, ⟨call, by simp only [List.append_assoc], h2⟩, ?_⟩
    unfold preModulation
    split_ifs <;> simp

theorem getLast?_append_singleton {α : Type} (l : List α) (x : α) :
    (l ++ [x]).getLast? = some x := by
  simp

/-- C23: in either model the illumination call of a slot, which is the last
invocation `addIlluminationInvocation` appends and one of the six of the model,
has as operands its input operands followed by the output operands, and the
output operands are exactly the running accumulators, XYZ-masked: the diffuse
one when specular is disabled, the diffuse then the specular one when enabled;
each of these accumulators is also among the input operands before them with
the XYZ mask.  The accumulators are members of the object (`mVSOutDiffuse`,
`mVSOutSpecular`; per pixel `mPSTempDiffuseColour`, `mPSTempSpecularColour`),
so they are the same for all slots. -/
theorem C23_accumulate_in_place :
    (∀ (self : FFPLighting) (cur : LightParams) (vsMain : List FunctionInvocation)
        (groupOrder : GroupOrder),
        ∃ call,
          (self.addIlluminationInvocation cur vsMain groupOrder).2.getLast? = some call
          ∧ call.mFunctionName
            = FFPLighting.illuminationFunction cur.mType self.mSpecularEnable
          ∧ call.mOperands
            = call.mOperands.filter (fun op => decide (op.mSemantic = OpSemantic.OPS_IN))
              ++ accumulatorOutputs self.mVSOutDiffuse self.mVSOutSpecular self.mSpecularEnable
          ∧ (In self.mVSOutDiffuse).xyz
            ∈ call.mOperands.filter (fun op => decide (op.mSemantic = OpSemantic.OPS_IN))
          ∧ (self.mSpecularEnable = true → (In self.mVSOutSpecular).xyz
            ∈ call.mOperands.filter (fun op => decide (op.mSemantic = OpSemantic.OPS_IN))))
    ∧ (∀ (self : PerPixelLighting) (cur : LightParams) (psMain : List FunctionInvocation)
        (groupOrder : GroupOrder),
        ∃ call,
          (self.addPSIlluminationInvocation cur psMain groupOrder).2.getLast? = some call
          ∧ call.mFunctionName
            = PerPixelLighting.illuminationFunction cur.mType self.mSpecularEnable
          ∧ call.mOperands
            = call.mOperands.filter (fun op => decide (op.mSemantic = OpSemantic.OPS_IN))
              ++ accumulatorOutputs self.mPSTempDiffuseColour self.mPSTempSpecularColour
                  self.mSpecularEnable
          ∧ (In self.mPSTempDiffuseColour).xyz
            ∈ call.mOperands.filter (fun op => decide (op.mSemantic = OpSemantic.OPS_IN))
          ∧ (self.mSpecularEnable = true → (In self.mPSTempSpecularColour).xyz
            ∈ call.mOperands.filter (fun op => decide (op.mSemantic = OpSemantic.OPS_IN)))) := by
  constructor
  · intro self cur vsMain o
    obtain ⟨call, h1, h2, -, h4, h5, h6⟩ := ffp_slot_emitted self cur o
    rw [FFPLighting.addIlluminationInvocation_append, h1, ← List.append_assoc]
    exact ⟨call, getLast?_append_singleton _ _, h2, h4, h5, h6⟩
  · intro self cur psMain o
    obtain ⟨call, h1, h2, -, h4, h5, h6⟩ := pp_slot_emitted self cur o
    rw [PerPixelLighting.addPSIlluminationInvocation_append, h1, ← List.append_assoc]
    exact ⟨call, getLast?_append_singleton _ _, h2, h4, h5, h6⟩

theorem outputs_of_inputs_append (ops acc : List Operand)
    (h : ops = ops.filter (fun op => decide (op.mSemantic = OpSemantic.OPS_IN)) ++ acc)
    (hacc : ∀ op ∈ acc, op.mSemantic = OpSemantic.OPS_OUT) :
    (ops.filter (fun o => decide (o.mSemantic = OpSemantic.OPS_OUT))).map (fun o => o.mParameter)
      = acc.map (fun o => o.mParameter) := by
  have h1 : (ops.filter (fun op => decide (op.mSemantic = OpSemantic.OPS_IN))).filter
      (fun o => decide (o.mSemantic = OpSemantic.OPS_OUT)) = [] := by
    rw [List.filter_filter, List.filter_eq_nil_iff]
    intro op _
    cases op.mSemantic <;> simp
  have h2 : acc.filter (fun o => decide (o.mSemantic = OpSemantic.OPS_OUT)) = acc := by
    rw [List.filter_eq_self]
    intro op hop
    simp [hacc op hop]
  rw [h, List.filter_append, h1, h2, List.nil_append]

theorem accumulatorOutputs_out (d s : ParameterPtr) (spec : Bool) :
    ∀ op ∈ accumulatorOutputs d s spec, op.mSemantic = OpSemantic.OPS_OUT := by
  intro op hop
  unfold accumulatorOutputs at hop
  cases spec <;> simp [Out, Operand.xyz] at hop
  · rw [hop]
  · rcases hop with rfl | rfl <;> rfl

theorem preModulation_outputs (o : GroupOrder) (vd : ParameterPtr) (tvc : Nat) (spec : Bool)
    (cur : LightParams) :
    ∀ inv ∈ preModulation o vd tvc spec cur,
      inv.outputs = [cur.mDiffuseColour] ∨ inv.outputs = [cur.mSpecularColour] := by
  intro inv hinv
  unfold preModulation at hinv
  cases hd : tracks tvc TVC_DIFFUSE <;> cases hs : spec <;> cases hp : tracks tvc TVC_SPECULAR <;>
    simp [hd, hs, hp] at hinv
  all_goals
    rcases hinv with rfl | rfl <;> simp [FunctionInvocation.outputs, In, Out, Operand.xyz]

theorem ffp_slot_last (self : FFPLighting) (cur : LightParams) (o : GroupOrder) :
    ∃ call,
      (self.addIlluminationInvocation cur [] o).2.getLast? = some call
      ∧ call.mFunctionName = FFPLighting.illuminationFunction cur.mType self.mSpecularEnable
      ∧ call.outputs
        = (accumulatorOutputs self.mVSOutDiffuse self.mVSOutSpecular self.mSpecularEnable).map
            (fun op => op.mParameter) := by
  obtain ⟨call, h1, h2, -, h4, -⟩ := ffp_slot_emitted self cur o
  rw [h1]
  exact ⟨call, getLast?_append_singleton _ _, h2,
    outputs_of_inputs_append _ _ h4 (accumulatorOutputs_out _ _ _)⟩

theorem pp_slot_outputs (self : PerPixelLighting) (cur : LightParams) (o : GroupOrder) :
    ∀ inv ∈ (self.addPSIlluminationInvocation cur [] o).2, ∀ q ∈ inv.outputs,
      q = cur.mDiffuseColour ∨ q = cur.mSpecularColour ∨ q = self.mPSTempDiffuseColour
        ∨ q = self.mPSTempSpecularColour := by
  obtain ⟨call, h1, -, -, h4, -⟩ := pp_slot_emitted self cur o
  rw [h1]
  intro inv hinv q hq
  rw [List.mem_append, List.mem_singleton] at hinv
  rcases hinv with hinv | rfl
  · rcases preModulation_outputs _ _ _ _ _ inv hinv with h | h <;> rw [h] at hq <;>
      simp at hq <;> simp [hq]
  · have := outputs_of_inputs_append _ _ h4 (accumulatorOutputs_out _ _ _)
    unfold FunctionInvocation.outputs at hq
    rw [this] at hq
    unfold accumulatorOutputs at hq
    cases hsp : self.mSpecularEnable <;> simp [hsp, Out, Operand.xyz] at hq
    · simp [hq]
    · rcases hq with rfl | rfl <;> simp

/-- C22: temporaries versus direct output.  In the per-pixel model, when the
fragment output diffuse handle differs from the two temporaries and from the
colour handles of the slots, no invocation of the global-illumination step or
of a slot has it as an output operand, and the second assignment of the final
write-back, which comes after them in the fragment function, writes it.  In
the per-vertex model every global-illumination invocation has `mVSOutDiffuse`
as its one output, the illumination call of every slot has it as its first
output, and when there is a slot the last invocation appended to the vertex
function is the illumination call of the last slot. -/
theorem C22_temporaries_versus_direct_output {σ : Type} (a : FFPLighting)
    (b : PerPixelLighting) (ps : ProgramSet σ) :
    ((b.mPSOutDiffuse ≠ b.mPSTempDiffuseColour → b.mPSOutDiffuse ≠ b.mPSTempSpecularColour →
        (∀ cur ∈ b.mLightParamsList,
          b.mPSOutDiffuse ≠ cur.mDiffuseColour ∧ b.mPSOutDiffuse ≠ cur.mSpecularColour) →
        ∀ inv ∈ (b.addPSGlobalIlluminationInvocation []
              (GroupOrder.FFP_PS_COLOUR_BEGIN_plus 1)).2
            ++ (b.mLightParamsList.map (fun cur =>
                (b.addPSIlluminationInvocation cur []
                  (GroupOrder.FFP_PS_COLOUR_BEGIN_plus 1)).2)).flatten,
          b.mPSOutDiffuse ∉ inv.outputs)
      ∧ (b.addFunctionInvocations ps).2.psMainAtoms
        = ps.psMainAtoms
          ++ ((b.addPSGlobalIlluminationInvocation []
                (GroupOrder.FFP_PS_COLOUR_BEGIN_plus 1)).2
            ++ (b.mLightParamsList.map (fun cur =>
                (b.addPSIlluminationInvocation cur []
                  (GroupOrder.FFP_PS_COLOUR_BEGIN_plus 1)).2)).flatten)
          ++ (b.addPSFinalAssignmentInvocation [] (GroupOrder.FFP_PS_COLOUR_BEGIN_plus 1)).2
      ∧ ((b.addPSFinalAssignmentInvocation []
            (GroupOrder.FFP_PS_COLOUR_BEGIN_plus 1)).2[1]?).map FunctionInvocation.outputs
        = some [b.mPSOutDiffuse])
    ∧ ((∀ inv ∈ (a.addGlobalIlluminationInvocation [] GroupOrder.FFP_VS_LIGHTING).2,
          inv.outputs = [a.mVSOutDiffuse])
      ∧ (∀ cur : LightParams, ∃ call,
          (a.addIlluminationInvocation cur [] GroupOrder.FFP_VS_LIGHTING).2.getLast? = some call
          ∧ call.mFunctionName = FFPLighting.illuminationFunction cur.mType a.mSpecularEnable
          ∧ call.outputs.head? = some a.mVSOutDiffuse)
      ∧ (a.addFunctionInvocations ps).2.vsMainAtoms
        = ps.vsMainAtoms
          ++ (a.addGlobalIlluminationInvocation [] GroupOrder.FFP_VS_LIGHTING).2
          ++ (a.mLightParamsList.map (fun cur =>
              (a.addIlluminationInvocation cur [] GroupOrder.FFP_VS_LIGHTING).2)).flatten
      ∧ (∀ last, a.mLightParamsList.getLast? = some last →
          ((a.addFunctionInvocations ps).2.vsMainAtoms.getLast?).map
              (fun inv => inv.mFunctionName)
            = some (FFPLighting.illuminationFunction last.mType a.mSpecularEnable))) := by
  refine ⟨⟨?_, ?_, ?_⟩, ?_, ?_, ?_, ?_⟩
  · intro hd hs hslots inv hinv hmem
    rw [List.mem_append] at hinv
    rcases hinv with hinv | hinv
    · obtain ⟨emitted, h0, -, h2⟩ := pp_global_emitted b (GroupOrder.FFP_PS_COLOUR_BEGIN_plus 1)
      rw [h0, List.mem_append] at hinv
      rcases hinv with hinv | hinv
      · rw [(h2 inv hinv).2] at hmem
        exact hd (by simpa using hmem)
      · cases hsp : b.mSpecularEnable <;> simp [hsp, assign, callFunction] at hinv
        subst hinv
        simp [FunctionInvocation.outputs, In, Out] at hmem
        exact hs hmem
    · rw [List.mem_flatten] at hinv
      obtain ⟨l, hl, hinv⟩ := hinv
      rw [List.mem_map] at hl
      obtain ⟨cur, hcur, rfl⟩ := hl
      rcases pp_slot_outputs b cur _ inv hinv _ hmem with h | h | h | h
      · exact (hslots cur hcur).1 h
      · exact (hslots cur hcur).2 h
      · exact hd h
      · exact hs h
  · rw [pp_addFunctionInvocations_eq]
    simp only [List.append_assoc]
  · unfold PerPixelLighting.addPSFinalAssignmentInvocation
    cases b.mSpecularEnable <;>
      simp [assign, callFunction, FunctionInvocation.outputs, In, Out]
  · intro inv hinv
    exact ((ffp_global_emitted a _).2 inv hinv).2
  · intro cur
    obtain ⟨call, h1, h2, h3⟩ := ffp_slot_last a cur GroupOrder.FFP_VS_LIGHTING
    refine ⟨call, h1, h2, ?_⟩
    rw [h3]
    simp [accumulatorOutputs, Out, Operand.xyz]
  · rw [ffp_addFunctionInvocations_eq]
  · intro last hlast
    rw [ffp_addFunctionInvocations_eq]
    obtain ⟨l, hl⟩ : ∃ l, a.mLightParamsList = l ++ [last] := by
      cases hc : a.mLightParamsList.reverse with
      | nil =>
        have : a.mLightParamsList = [] := by simpa using hc
        simp [this] at hlast
      | cons x rest =>
        have hrev : a.mLightParamsList = rest.reverse ++ [x] := by
          have := congrArg List.reverse hc
          simpa using this
        rw [hrev] at hlast
        simp only [getLast?_append_singleton, Option.some.injEq] at hlast
        exact ⟨rest.reverse, hlast ▸ hrev⟩
    simp only [hl]
    cases hne : ((l ++ [last]).map (fun cur =>
        (a.addIlluminationInvocation cur [] GroupOrder.FFP_VS_LIGHTING).2)).flatten with
    | nil =>
      exfalso
      obtain ⟨call, h1, -⟩ := ffp_slot_emitted a last GroupOrder.FFP_VS_LIGHTING
      simp [h1] at hne
    | cons x rest =>
      rw [List.getLast?_append_of_ne_nil _ (by simp), ← hne]
      obtain ⟨call, hc1, hc2, -⟩ := ffp_slot_last a last GroupOrder.FFP_VS_LIGHTING
      rw [List.map_append, List.flatten_append]
      simp only [List.map_cons, List.map_nil, List.flatten_cons, List.flatten_nil,
        List.append_nil]
      have hx : (a.addIlluminationInvocation last [] GroupOrder.FFP_VS_LIGHTING).2 ≠ [] := by
        intro h0
        rw [h0] at hc1
        simp at hc1
      rw [List.getLast?_append_of_ne_nil _ hx, hc1]
      simp [hc2]

/-- C22 on a per-pixel and a per-vertex instance with specular enabled, one
Point slot and pairwise different handles. -/
theorem C22_temporaries_versus_direct_output_witness :
    (sampleSpecularPerPixel.mPSOutDiffuse ≠ sampleSpecularPerPixel.mPSTempDiffuseColour
      ∧ sampleSpecularPerPixel.mPSOutDiffuse ≠ sampleSpecularPerPixel.mPSTempSpecularColour
      ∧ ∀ cur ∈ sampleSpecularPerPixel.mLightParamsList,
          sampleSpecularPerPixel.mPSOutDiffuse ≠ cur.mDiffuseColour
          ∧ sampleSpecularPerPixel.mPSOutDiffuse ≠ cur.mSpecularColour)
    ∧ ∀ inv ∈ (sampleSpecularPerPixel.addPSGlobalIlluminationInvocation []
            (GroupOrder.FFP_PS_COLOUR_BEGIN_plus 1)).2
          ++ (sampleSpecularPerPixel.mLightParamsList.map (fun cur =>
              (sampleSpecularPerPixel.addPSIlluminationInvocation cur []
                (GroupOrder.FFP_PS_COLOUR_BEGIN_plus 1)).2)).flatten,
        sampleSpecularPerPixel.mPSOutDiffuse ∉ inv.outputs :=
  ⟨⟨by decide, by decide, by decide⟩,
    (@C22_temporaries_versus_direct_output Nat sampleSpecularFFP sampleSpecularPerPixel
      { params := 0 }).1.1 (by decide) (by decide) (by decide)⟩

/-! ### Dependencies and the factories -/

theorem mem_addDependency (program : List LibraryName) (a b : LibraryName) :
    a ∈ addDependency program b ↔ a ∈ program ∨ a = b := by
  unfold addDependency
  split <;> simp
  rintro rfl
  assumption

/-- C24 (counterexample): on a program set with no library registered,
`FFPLighting::resolveDependencies` returns true and leaves the fragment program
with no library: neither the common library nor the lighting library is
registered on it. -/
theorem C24_per_vertex_registers_on_vertex_program_only :
    (FFPLighting.resolveDependencies {} {}).1 = true
    ∧ (FFPLighting.resolveDependencies {} {}).2.psProgram = []
    ∧ LibraryName.FFP_LIB_COMMON ∉ (FFPLighting.resolveDependencies {} {}).2.psProgram
    ∧ LibraryName.FFP_LIB_LIGHTING ∉ (FFPLighting.resolveDependencies {} {}).2.psProgram := by
  decide

/-- C24 (amended): `resolveDependencies` of either model returns true for
every object and program set.  The per-pixel one registers the common library
and the per-pixel lighting library on the vertex program and on the fragment
program; the per-vertex one registers the common library and its lighting
library on the vertex program and leaves the fragment program as it was.
Libraries registered before stay registered. -/
theorem C24_dependencies_registered (a : FFPLighting) (b : PerPixelLighting)
    (programSet : ProgramDependencies) :
    ((b.resolveDependencies programSet).1 = true
      ∧ LibraryName.FFP_LIB_COMMON ∈ (b.resolveDependencies programSet).2.vsProgram
      ∧ LibraryName.SGX_LIB_PERPIXELLIGHTING ∈ (b.resolveDependencies programSet).2.vsProgram
      ∧ LibraryName.FFP_LIB_COMMON ∈ (b.resolveDependencies programSet).2.psProgram
      ∧ LibraryName.SGX_LIB_PERPIXELLIGHTING ∈ (b.resolveDependencies programSet).2.psProgram
      ∧ (∀ lib ∈ programSet.vsProgram, lib ∈ (b.resolveDependencies programSet).2.vsProgram)
      ∧ (∀ lib ∈ programSet.psProgram, lib ∈ (b.resolveDependencies programSet).2.psProgram))
    ∧ ((a.resolveDependencies programSet).1 = true
      ∧ LibraryName.FFP_LIB_COMMON ∈ (a.resolveDependencies programSet).2.vsProgram
      ∧ LibraryName.FFP_LIB_LIGHTING ∈ (a.resolveDependencies programSet).2.vsProgram
      ∧ (∀ lib ∈ programSet.vsProgram, lib ∈ (a.resolveDependencies programSet).2.vsProgram)
      ∧ (a.resolveDependencies programSet).2.psProgram = programSet.psProgram) := by
  refine ⟨⟨rfl, ?_, ?_, ?_, ?_, ?_, ?_⟩, rfl, ?_, ?_, ?_, rfl⟩ <;>
    simp only [PerPixelLighting.resolveDependencies, FFPLighting.resolveDependencies,
      mem_addDependency] <;>
    tauto

/-- C25: the directive `FFPLightingFactory::writeInstance` writes is the
attribute `lighting_stage` with the single value `ffp`; read back it is
accepted by `FFPLightingFactory::createInstance` (an instance, no error) and
rejected by `PerPixelLightingFactory::createInstance` (null).  The directive
`PerPixelLightingFactory::writeInstance` writes has the single value
`per_pixel`; it is accepted by the per-pixel factory and rejected by the
per-vertex one.  And for every property node at most one of the two factories
returns an instance. -/
theorem C25_directive_round_trip :
    (readDirective (FFPLightingFactory.writeInstance [])
        = some { name := "lighting_stage", values := [AbstractNode.atom "ffp"] }
      ∧ (∀ translator, ((FFPLightingFactory.createInstance
            { name := "lighting_stage", values := [AbstractNode.atom "ffp"] }
            translator).result).isSome = true
          ∧ (FFPLightingFactory.createInstance
            { name := "lighting_stage", values := [AbstractNode.atom "ffp"] }
            translator).errors = [])
      ∧ (∀ translator, (PerPixelLightingFactory.createInstance
            { name := "lighting_stage", values := [AbstractNode.atom "ffp"] }
            translator).result = none))
    ∧ (readDirective (PerPixelLightingFactory.writeInstance [])
        = some { name := "lighting_stage", values := [AbstractNode.atom "per_pixel"] }
      ∧ (∀ translator, ((PerPixelLightingFactory.createInstance
            { name := "lighting_stage", values := [AbstractNode.atom "per_pixel"] }
            translator).result).isSome = true
          ∧ (PerPixelLightingFactory.createInstance
            { name := "lighting_stage", values := [AbstractNode.atom "per_pixel"] }
            translator).errors = [])
      ∧ (∀ translator, (FFPLightingFactory.createInstance
            { name := "lighting_stage", values := [AbstractNode.atom "per_pixel"] }
            translator).result = none))
    ∧ (∀ (prop : PropertyAbstractNode) (translator : Option FFPLighting)
        (translatorPS : Option PerPixelLighting),
        ¬ (((FFPLightingFactory.createInstance prop translator).result).isSome = true
          ∧ ((PerPixelLightingFactory.createInstance prop translatorPS).result).isSome
            = true)) := by
  refine ⟨⟨by decide, fun t => ⟨by simp [FFPLightingFactory.createInstance, getString], by
      simp [FFPLightingFactory.createInstance, getString]⟩, fun t => by
      simp [PerPixelLightingFactory.createInstance, getString]⟩,
    ⟨by decide, fun t => ⟨by simp [PerPixelLightingFactory.createInstance, getString], by
      simp [PerPixelLightingFactory.createInstance, getString]⟩, fun t => by
      simp [FFPLightingFactory.createInstance, getString]⟩, ?_⟩
  intro prop t t'
  unfold FFPLightingFactory.createInstance PerPixelLightingFactory.createInstance
  by_cases hn : prop.name = "lighting_stage"
  · by_cases hl : prop.values.length = 1
    · simp only [hn, hl, ↓reduceIte]
      cases prop.values.head? with
      | none => simp
      | some front =>
        simp only []
        cases hg : getString front with
        | none => simp
        | some modelType =>
          by_cases h1 : modelType = "ffp"
          · subst h1
            simp
          · simp [h1]
    · simp [hn, hl]
  · simp [hn]

/-! ### The colours the updater writes -/

theorem updateLightType_no_colour (source : AutoParamDataSource) (slot : LightParams) (L : Light)
    (w1 : List GpuWrite) (h : updateLightType source slot L = some w1) :
    w1.filter (fun w => decide (w.field = LightParamsField.mDiffuseColour
      ∨ w.field = LightParamsField.mSpecularColour)) = [] := by
  rw [List.filter_eq_nil_iff]
  intro w hw
  have hm : (w.field, some w.target) ∈ w1.map (fun w => (w.field, some w.target)) :=
    List.mem_map.2 ⟨w, hw, rfl⟩
  rw [updateLightType_targets source slot L w1 h] at hm
  cases hT : slot.mType <;> simp only [hT, List.mem_cons, Prod.mk.injEq, List.mem_singleton,
    List.not_mem_nil, or_false] at hm <;>
  · have hf : w.field = LightParamsField.mPosition ∨ w.field = LightParamsField.mDirection
        ∨ w.field = LightParamsField.mAttenuatParams
        ∨ w.field = LightParamsField.mSpotParams := by
      tauto
    rcases hf with hf | hf | hf | hf <;> simp [hf]

theorem updateLightColours_values (tvc : Nat) (spec : Bool) (pass : Pass) (slot : LightParams)
    (L : Light) (w2 : List GpuWrite) (h : updateLightColours tvc spec pass slot L = some w2) :
    (w2.filter (fun w => decide (w.field = LightParamsField.mDiffuseColour
        ∨ w.field = LightParamsField.mSpecularColour))).map (fun w => (w.field, w.value))
      = [(LightParamsField.mDiffuseColour,
          GpuValue.colour (diffuseColourWritten (tracks tvc TVC_DIFFUSE) pass L))]
        ++ (if spec then
              [(LightParamsField.mSpecularColour,
                GpuValue.colour (specularColourWritten (tracks tvc TVC_SPECULAR) pass L))]
            else []) := by
  unfold updateLightColours at h
  unfold diffuseColourWritten specularColourWritten
  cases spec <;> cases hd : tracks tvc TVC_DIFFUSE <;> cases hs : tracks tvc TVC_SPECULAR <;>
    simp only [hd, hs, setGpuParameter, Option.bind_eq_bind, Option.pure_def,
      Option.bind_eq_some, Option.map_eq_some', Option.some.injEq, Bool.false_eq_true,
      Bool.true_eq_false, ↓reduceIte] at h ⊢
  all_goals first
    | (obtain ⟨_, ⟨a, ha, rfl⟩, rfl⟩ := h
       simp)
    | (obtain ⟨_, ⟨a, ha, rfl⟩, _, ⟨b, hb, rfl⟩, rfl⟩ := h
       simp)

theorem writesOf_colours (tvc : Nat) (spec : Bool) (pass : Pass) (source : AutoParamDataSource)
    (lights : List Light) (blank : Light) (slot : LightParams) (u : SlotUpdate)
    (h : SlotUpdate.writesOf tvc spec pass source lights blank slot u) :
    u.colours
      = [(LightParamsField.mDiffuseColour,
          GpuValue.colour
            (diffuseColourWritten (tracks tvc TVC_DIFFUSE) pass (u.srcLight lights blank)))]
        ++ (if spec then
              [(LightParamsField.mSpecularColour,
                GpuValue.colour
                  (specularColourWritten (tracks tvc TVC_SPECULAR) pass
                    (u.srcLight lights blank)))]
            else []) := by
  obtain ⟨w1, w2, h1, h2, hw⟩ := h
  unfold SlotUpdate.colours
  rw [hw, List.filter_append, updateLightType_no_colour source slot _ w1 h1, List.nil_append,
    updateLightColours_values tvc spec pass slot _ w2 h2]

/-- C26: in either model, for every slot and its source light `L` (the light
matched, or the blank light), the colour writes of the slot are the diffuse
colour, of value `L.diffuse * pass.diffuse * L.powerScale` when the diffuse
tracking bit is clear and `L.diffuse * L.powerScale` when it is set, and, when
and only when `specularEnable` is set, the specular colour, of value
`L.specular * pass.specular * L.powerScale` when the specular bit is clear and
`L.specular * L.powerScale` when it is set.  The values depend on the tracking
mask through these two bits only, so the ambient and emissive bits have no
effect. -/
theorem C26_colour_values_written (a : FFPLighting) (b : PerPixelLighting) (pass : Pass)
    (source : AutoParamDataSource) (init : Light) (pLightList : Option (List Light))
    (res : List SlotUpdate) :
    (a.updateGpuProgramsParams pass source init pLightList = some res →
        List.Forall₂
          (fun (_ : LightParams) u =>
            u.colours
              = [(LightParamsField.mDiffuseColour,
                  GpuValue.colour
                    (diffuseColourWritten (tracks a.mTrackVertexColourType TVC_DIFFUSE) pass
                      (u.srcLight (pLightList.getD []) (msBlankLight init))))]
                ++ (if a.mSpecularEnable then
                      [(LightParamsField.mSpecularColour,
                        GpuValue.colour
                          (specularColourWritten (tracks a.mTrackVertexColourType TVC_SPECULAR)
                            pass (u.srcLight (pLightList.getD []) (msBlankLight init))))]
                    else []))
          a.mLightParamsList res)
    ∧ (b.updateGpuProgramsParams pass source init pLightList = some res →
        List.Forall₂
          (fun (_ : LightParams) u =>
            u.colours
              = [(LightParamsField.mDiffuseColour,
                  GpuValue.colour
                    (diffuseColourWritten (tracks b.mTrackVertexColourType TVC_DIFFUSE) pass
                      (u.srcLight (pLightList.getD []) (msBlankLight init))))]
                ++ (if b.mSpecularEnable then
                      [(LightParamsField.mSpecularColour,
                        GpuValue.colour
                          (specularColourWritten (tracks b.mTrackVertexColourType TVC_SPECULAR)
                            pass (u.srcLight (pLightList.getD []) (msBlankLight init))))]
                    else []))
          b.mLightParamsList res) := by
  constructor
  · intro h
    exact (FFPLighting.update_spec a pass source init pLightList res h).2.imp
      (fun _ _ hw => writesOf_colours _ _ _ _ _ _ _ _ hw)
  · intro h
    exact (FFPLighting.update_spec _ pass source init pLightList res
      (PerPixelLighting.update_some b pass source init pLightList res h)).2.imp
      (fun _ _ hw => writesOf_colours _ _ _ _ _ _ _ _ hw)

/-- C26 on two Point slots and two point lights of white diffuse colour and
unit power, on a pass of grey diffuse colour, no bit tracked: each slot has the
one colour write, the diffuse colour, of value grey. -/
theorem C26_colour_values_written_witness :
    (sampleFFP.updateGpuProgramsParams samplePass sampleSource (sampleLight LT_POINT)
        (some [sampleLight LT_POINT, sampleLight LT_POINT])
      = some [{ searchFrom := 0, srcIndex := some 0, writes := samplePointWrites 0 },
              { searchFrom := 1, srcIndex := some 1, writes := samplePointWrites 6 }]
      ∧ samplePerPixel.updateGpuProgramsParams samplePass sampleSource (sampleLight LT_POINT)
          (some [sampleLight LT_POINT, sampleLight LT_POINT])
        = some [{ searchFrom := 0, srcIndex := some 0, writes := samplePointWrites 0 },
                { searchFrom := 1, srcIndex := some 1, writes := samplePointWrites 6 }])
    ∧ (diffuseColourWritten (tracks sampleFFP.mTrackVertexColourType TVC_DIFFUSE) samplePass
          (sampleLight LT_POINT)
        = { r := .finite (1 / 2), g := .finite (1 / 2), b := .finite (1 / 2), a := 1 })
    ∧ List.Forall₂
        (fun (_ : LightParams) (u : SlotUpdate) =>
          u.colours
            = [(LightParamsField.mDiffuseColour,
                GpuValue.colour
                  (diffuseColourWritten (tracks sampleFFP.mTrackVertexColourType TVC_DIFFUSE)
                    samplePass
                    (u.srcLight ((some [sampleLight LT_POINT, sampleLight LT_POINT]).getD [])
                      (msBlankLight (sampleLight LT_POINT)))))]
              ++ (if sampleFFP.mSpecularEnable then
                    [(LightParamsField.mSpecularColour,
                      GpuValue.colour
                        (specularColourWritten
                          (tracks sampleFFP.mTrackVertexColourType TVC_SPECULAR) samplePass
                          (u.srcLight
                            ((some [sampleLight LT_POINT, sampleLight LT_POINT]).getD [])
                            (msBlankLight (sampleLight LT_POINT)))))]
                  else []))
        sampleFFP.mLightParamsList
        [{ searchFrom := 0, srcIndex := some 0, writes := samplePointWrites 0 },
          { searchFrom := 1, srcIndex := some 1, writes := samplePointWrites 6 }] :=
  ⟨⟨sampleFFP_update, samplePerPixel_update⟩,
    by simp [diffuseColourWritten, sampleFFP, tracks, TVC_NONE, TVC_DIFFUSE, sampleLight,
      samplePass, ColourValue.mul, ColourValue.scale],
    (C26_colour_values_written sampleFFP samplePerPixel samplePass sampleSource
      (sampleLight LT_POINT) (some [sampleLight LT_POINT, sampleLight LT_POINT])
      [{ searchFrom := 0, srcIndex := some 0, writes := samplePointWrites 0 },
        { searchFrom := 1, srcIndex := some 1, writes := samplePointWrites 6 }]).1
      sampleFFP_update⟩

/-! ### Runtime updater: the exact matching rule -/

theorem countType_take_add (T : LightTypes) (lights : List Light) (s i : Nat) :
    countType T (lights.take (s + i))
      = countType T (lights.take s) + countType T ((lights.drop s).take i) := by
  unfold countType
  rw [List.take_add, List.countP_append]

theorem countType_take_drop (T : LightTypes) (lights : List Light) (s : Nat) :
    countType T lights = countType T (lights.take s) + countType T (lights.drop s) := by
  unfold countType
  rw [← List.countP_append, List.take_append_drop]

theorem countType_take_succ (T : LightTypes) (lights : List Light) (j : Nat) (light : Light)
    (h : lights[j]? = some light) :
    countType T (lights.take (j + 1))
      = countType T (lights.take j) + (if light.getType = T then 1 else 0) := by
  unfold countType
  rw [List.take_succ, List.countP_append, h]
  by_cases hT : light.getType = T <;> simp [hT]

theorem countType_take_eq_zero (T : LightTypes) (l : List Light) (i : Nat)
    (h : ∀ m, m < i → ∀ light, l[m]? = some light → light.getType ≠ T) :
    countType T (l.take i) = 0 := by
  unfold countType
  rw [List.countP_eq_zero]
  intro a ha
  obtain ⟨m, hm⟩ := List.mem_iff_getElem?.1 ha
  rw [List.getElem?_take] at hm
  split at hm
  · rename_i hlt
    simpa using h m hlt a hm
  · cases hm

/-- One search of the loop, started at a cursor `start` before which exactly
`min k total` lights of type `T` lie. -/
theorem search_step (T : LightTypes) (lights : List Light) (start k : Nat)
    (hinv : countType T (lights.take start) = min k (countType T lights)) :
    (k < countType T lights →
        ∃ j light, searchLight T (lights.drop start) start = some j
          ∧ lights[j]? = some light ∧ light.getType = T
          ∧ countType T (lights.take j) = k ∧ countType T (lights.take (j + 1)) = k + 1)
    ∧ (countType T lights ≤ k → searchLight T (lights.drop start) start = none) := by
  have htot := countType_take_drop T lights start
  constructor
  · intro hk
    have hpos : 0 < countType T (lights.drop start) := by
      rw [Nat.min_eq_left (Nat.le_of_lt hk)] at hinv
      omega
    obtain ⟨j, hj⟩ := searchLight_isSome_of_count (j := start) hpos
    obtain ⟨i, rfl, ⟨light, hl, hlt⟩, hbefore, -⟩ := searchLight_some hj
    rw [List.getElem?_drop] at hl
    have hz := countType_take_eq_zero T (lights.drop start) i hbefore
    have hj0 : countType T (lights.take (start + i)) = k := by
      rw [countType_take_add, hz, hinv, Nat.min_eq_left (Nat.le_of_lt hk)]
      rfl
    refine ⟨start + i, light, hj, hl, hlt, hj0, ?_⟩
    rw [countType_take_succ T lights (start + i) light hl, hj0, if_pos hlt]
  · intro hk
    rw [Nat.min_eq_right hk] at hinv
    cases hs : searchLight T (lights.drop start) start with
    | none => rfl
    | some j =>
      exfalso
      obtain ⟨i, -, ⟨light, hl, hlt⟩, -, -⟩ := searchLight_some hs
      have hmem : light ∈ lights.drop start := List.mem_iff_getElem?.2 ⟨i, hl⟩
      have hpos : 0 < countType T (lights.drop start) := by
        unfold countType
        rw [List.countP_pos_iff]
        exact ⟨light, hmem, by simpa using hlt⟩
      omega

/-- The state the loop is in after the slot of type `ty`. -/
theorem search_next (ty : LightTypes) (lights : List Light) (start k : Nat)
    (hinv : countType ty (lights.take start) = min k (countType ty lights)) :
    countType ty (lights.take
        (match searchLight ty (lights.drop start) start with
          | some j => j + 1
          | none => start))
      = min (k + 1) (countType ty lights) := by
  obtain ⟨h1, h2⟩ := search_step ty lights start k hinv
  by_cases hk : k < countType ty lights
  · obtain ⟨j, light, hj, -, -, -, hj1⟩ := h1 hk
    rw [hj]
    show countType ty (lights.take (j + 1)) = _
    rw [hj1, Nat.min_eq_left (Nat.succ_le_of_lt hk)]
  · have hle : countType ty lights ≤ k := Nat.le_of_not_lt hk
    rw [h2 hle]
    show countType ty (lights.take start) = _
    rw [hinv, Nat.min_eq_right hle, Nat.min_eq_right (Nat.le_succ_of_le hle)]

theorem search_isNone (T : LightTypes) (lights : List Light) (start k : Nat)
    (hinv : countType T (lights.take start) = min k (countType T lights)) :
    (searchLight T (lights.drop start) start).isNone = decide (countType T lights ≤ k) := by
  obtain ⟨h1, h2⟩ := search_step T lights start k hinv
  by_cases hk : k < countType T lights
  · obtain ⟨j, light, hj, -⟩ := h1 hk
    rw [hj]
    simp [hk]
  · have hle : countType T lights ≤ k := Nat.le_of_not_lt hk
    rw [h2 hle]
    simp [hle]

theorem matchLoop_exact (lights : List Light) :
    ∀ (tys : List LightTypes) (t : LightTypes) (c k0 : Nat),
      Grouped tys → (tys.head? = some t ∨ t ∉ tys ∨ k0 = 0) →
      (tys.head? = some t → countType t (lights.take c) = min k0 (countType t lights)) →
      ∀ (i : Nat) (T : LightTypes) (e : Nat × Option Nat),
        tys[i]? = some T → (matchLoop lights tys t c)[i]? = some e →
        ((if T = t then k0 else 0) + (tys.take i).count T < countType T lights →
            ∃ j light, e.2 = some j ∧ lights[j]? = some light ∧ light.getType = T
              ∧ countType T (lights.take j) = (if T = t then k0 else 0) + (tys.take i).count T)
        ∧ (countType T lights ≤ (if T = t then k0 else 0) + (tys.take i).count T →
            e.2 = none) := by
  intro tys
  induction tys with
  | nil => intro t c k0 _ _ _ i T e h; simp at h
  | cons ty rest ih =>
    intro t c k0 hg hside hinv i T e hT he
    have hstart : countType ty (lights.take (if t ≠ ty then 0 else c))
        = min (if ty = t then k0 else 0) (countType ty lights) := by
      by_cases h : t = ty
      · subst h
        simpa using hinv rfl
      · have h' : ¬ ty = t := fun h' => h h'.symm
        simp [h, h', countType]
    cases i with
    | zero =>
      simp only [List.getElem?_cons_zero, Option.some.injEq, matchLoop] at hT he
      subst hT
      subst he
      simp only [List.take_zero, List.count_nil, Nat.add_zero]
      obtain ⟨h1, h2⟩ := search_step ty lights _ _ hstart
      refine ⟨fun hk => ?_, fun hk => h2 hk⟩
      obtain ⟨j, light, hj, hl, hlt, hc, -⟩ := h1 hk
      exact ⟨j, light, hj, hl, hlt, hc⟩
    | succ i =>
      simp only [List.getElem?_cons_succ, matchLoop] at hT he
      have hnext := search_next ty lights _ _ hstart
      have hside' : rest.head? = some ty ∨ ty ∉ rest ∨ (if ty = t then k0 else 0) + 1 = 0 := by
        rcases hg.1 with h | h
        · exact Or.inl h
        · exact Or.inr (Or.inl h)
      have := ih ty _ ((if ty = t then k0 else 0) + 1) hg.2 hside' (fun _ => hnext) i T e hT he
      have hk : (if T = ty then (if ty = t then k0 else 0) + 1 else 0) + (rest.take i).count T
          = (if T = t then k0 else 0) + ((ty :: rest).take (i + 1)).count T := by
        rw [List.take_succ_cons, List.count_cons]
        by_cases h1 : T = ty
        · subst h1
          simp only [↓reduceIte, beq_self_eq_true]
          omega
        · have h1' : ¬ ty = T := fun h => h1 h.symm
          have hb : (ty == T) = false := by simpa using h1'
          simp only [h1, ↓reduceIte, hb, Bool.false_eq_true, Nat.add_zero, Nat.zero_add]
          by_cases h2 : T = t
          · subst h2
            have hmem : T ∈ rest := List.mem_iff_getElem?.2 ⟨i, hT⟩
            rcases hside with h | h | h
            · simp only [List.head?_cons, Option.some.injEq] at h
              exact absurd h h1'
            · exact absurd (List.mem_cons_of_mem _ hmem) h
            · simp [h]
          · simp [h2]
      rw [hk] at this
      exact this

theorem matchLoop_blank_count (lights : List Light) :
    ∀ (tys : List LightTypes) (t : LightTypes) (c k0 : Nat),
      Grouped tys → (tys.head? = some t ∨ t ∉ tys ∨ k0 = 0) →
      (tys.head? = some t → countType t (lights.take c) = min k0 (countType t lights)) →
      ∀ T : LightTypes,
        (tys.zip (matchLoop lights tys t c)).countP
            (fun p => decide (p.1 = T) && p.2.2.isNone)
          = ((if T = t then k0 else 0) + tys.count T - countType T lights)
            - ((if T = t then k0 else 0) - countType T lights) := by
  intro tys
  induction tys with
  | nil => intro t c k0 _ _ _ T; simp [matchLoop]
  | cons ty rest ih =>
    intro t c k0 hg hside hinv T
    have hstart : countType ty (lights.take (if t ≠ ty then 0 else c))
        = min (if ty = t then k0 else 0) (countType ty lights) := by
      by_cases h : t = ty
      · subst h
        simpa using hinv rfl
      · have h' : ¬ ty = t := fun h' => h h'.symm
        simp [h, h', countType]
    have hnext := search_next ty lights _ _ hstart
    have hside' : rest.head? = some ty ∨ ty ∉ rest ∨ (if ty = t then k0 else 0) + 1 = 0 := by
      rcases hg.1 with h | h
      · exact Or.inl h
      · exact Or.inr (Or.inl h)
    have htail := ih ty _ ((if ty = t then k0 else 0) + 1) hg.2 hside' (fun _ => hnext) T
    have hnone := search_isNone ty lights _ _ hstart
    simp only [matchLoop, List.zip_cons_cons, List.countP_cons, List.count_cons, hnone]
    generalize hA : (rest.zip (matchLoop lights rest ty
      (match searchLight ty (List.drop (if t ≠ ty then 0 else c) lights)
          (if t ≠ ty then 0 else c) with
        | some j => j + 1
        | none => if t ≠ ty then 0 else c))).countP
          (fun p => decide (p.1 = T) && p.2.2.isNone) = A at htail ⊢
    by_cases hT : T = ty
    · subst hT
      simp only [eq_self_iff_true, if_true, decide_True, Bool.true_and, beq_self_eq_true,
        decide_eq_true_eq] at htail ⊢
      generalize (if T = t then k0 else 0) = kT at htail ⊢
      split_ifs <;> omega
    · have hT' : ¬ ty = T := fun h => hT h.symm
      have hb : (ty == T) = false := by simpa using hT'
      simp only [hT, hT', if_false, decide_False, Bool.false_and, Bool.false_eq_true, hb,
        Nat.add_zero, Nat.zero_add, Nat.zero_sub, Nat.sub_zero] at htail ⊢
      rw [htail]
      by_cases h2 : T = t
      · subst h2
        rcases hside with h | h | h
        · simp only [List.head?_cons, Option.some.injEq] at h
          exact absurd h hT'
        · have hnot : T ∉ rest := fun hm => h (List.mem_cons_of_mem _ hm)
          rw [List.count_eq_zero_of_not_mem hnot]
          simp
        · simp [h]
      · simp [h2]

theorem zip_countP_types {β : Type} (q : β → Bool) :
    ∀ (l1 : List LightTypes) (l2 : List β), l1.length = l2.length →
      (l1.zip l2).countP (fun p => decide (p.1 = LT_POINT) && q p.2)
        + (l1.zip l2).countP (fun p => decide (p.1 = LT_DIRECTIONAL) && q p.2)
        + (l1.zip l2).countP (fun p => decide (p.1 = LT_SPOTLIGHT) && q p.2)
      = l2.countP q := by
  intro l1
  induction l1 with
  | nil =>
    intro l2 h
    cases l2 with
    | nil => rfl
    | cons b l2 => simp at h
  | cons T l1 ih =>
    intro l2 h
    cases l2 with
    | nil => simp at h
    | cons b l2 =>
      have := ih l2 (by simpa using h)
      simp only [List.zip_cons_cons, List.countP_cons]
      cases T <;> cases q b <;> simp <;> omega

theorem FFPLighting.update_exact (self : FFPLighting) (pass : Pass)
    (source : AutoParamDataSource) (init : Light) (pl : Option (List Light))
    (hg : Grouped (self.mLightParamsList.map (fun p => p.mType)))
    (hres : ∀ slot ∈ self.mLightParamsList, slot.resolved self.mSpecularEnable) :
    ∃ res, self.updateGpuProgramsParams pass source init pl = some res
      ∧ ExactMatching (pl.getD []) self.mLightParamsList res
      ∧ List.Forall₂
          (SlotUpdate.writesOf self.mTrackVertexColourType self.mSpecularEnable pass source
            (pl.getD []) (msBlankLight init)) self.mLightParamsList res := by
  obtain ⟨res, hr⟩ := FFPLighting.update_isSome self pass source init pl hres
  obtain ⟨hm, hw⟩ := FFPLighting.update_spec self pass source init pl res hr
  refine ⟨res, hr, ⟨?_, ?_⟩, hw⟩
  · intro i slot u hslot hu
    have hT : (self.mLightParamsList.map (fun p => p.mType))[i]? = some slot.mType := by
      rw [List.getElem?_map, hslot]
      rfl
    have he : (matchLoop (pl.getD []) (self.mLightParamsList.map (fun p => p.mType))
        LT_DIRECTIONAL 0)[i]? = some (u.searchFrom, u.srcIndex) := by
      rw [← hm, List.getElem?_map, hu]
      rfl
    have := matchLoop_exact (pl.getD []) _ LT_DIRECTIONAL 0 0 hg (Or.inr (Or.inr rfl))
      (fun _ => by simp [countType]) i slot.mType _ hT he
    simp only [ite_self, Nat.zero_add] at this
    refine ⟨fun hk => ?_, this.2⟩
    obtain ⟨j, light, hj, hl, hlt, hc⟩ := this.1 hk
    exact ⟨j, hj, ⟨light, hl, hlt⟩, hc⟩
  · have hlen : (self.mLightParamsList.map (fun p => p.mType)).length
        = (matchLoop (pl.getD []) (self.mLightParamsList.map (fun p => p.mType))
            LT_DIRECTIONAL 0).length := by
      rw [matchLoop_length]
    have hz := zip_countP_types (fun e : Nat × Option Nat => e.2.isNone) _ _ hlen
    have hc := fun T => matchLoop_blank_count (pl.getD [])
      (self.mLightParamsList.map (fun p => p.mType)) LT_DIRECTIONAL 0 0 hg
      (Or.inr (Or.inr rfl)) (fun _ => by simp [countType]) T
    simp only [ite_self, Nat.zero_add, Nat.zero_sub, Nat.sub_zero] at hc
    rw [hc, hc, hc, ← hm, List.countP_map] at hz
    exact hz.symm

/-- C28: the exact matching rule.  In either model, for every slot list that
is grouped by type and resolved, and every active-light list,
`updateGpuProgramsParams` returns and the slot at position `i`, the `k`-th of
its type `T` counting from 0, takes as source the `k`-th light of type `T` in
list order when the list holds more than `k` lights of type `T`, and the blank
light otherwise; its writes are those of the loop body run on that source.  So
the number of slots filled from the blank light is the sum over the types `T`
of the number of slots of type `T` minus the number of lights of type `T`,
where this is positive. -/
theorem C28_exact_matching_rule (a : FFPLighting) (b : PerPixelLighting) (pass : Pass)
    (source : AutoParamDataSource) (init : Light) (lights : List Light) :
    (Grouped (a.mLightParamsList.map (fun p => p.mType)) →
        (∀ slot ∈ a.mLightParamsList, slot.resolved a.mSpecularEnable) →
        ∃ res, a.updateGpuProgramsParams pass source init (some lights) = some res
          ∧ ExactMatching lights a.mLightParamsList res
          ∧ List.Forall₂
              (SlotUpdate.writesOf a.mTrackVertexColourType a.mSpecularEnable pass source
                lights (msBlankLight init)) a.mLightParamsList res)
    ∧ (Grouped (b.mLightParamsList.map (fun p => p.mType)) →
        (∀ slot ∈ b.mLightParamsList, slot.resolved b.mSpecularEnable) →
        ∃ res, b.updateGpuProgramsParams pass source init (some lights) = some res
          ∧ ExactMatching lights b.mLightParamsList res
          ∧ List.Forall₂
              (SlotUpdate.writesOf b.mTrackVertexColourType b.mSpecularEnable pass source
                lights (msBlankLight init)) b.mLightParamsList res) := by
  constructor
  · intro hg hres
    exact FFPLighting.update_exact a pass source init (some lights) hg hres
  · intro hg hres
    rw [PerPixelLighting.update_eq]
    exact FFPLighting.update_exact
      { mTrackVertexColourType := b.mTrackVertexColourType
        mSpecularEnable := b.mSpecularEnable
        mLightParamsList := b.mLightParamsList } pass source init (some lights) hg hres

/-- C28 on the slots Point, Point, Directional and a list holding one point
light: slot 0 takes light 0, slots 1 and 2 the blank light, two blank slots in
all. -/
theorem C28_exact_matching_rule_witness :
    (Grouped (sampleFFP3.mLightParamsList.map (fun p => p.mType))
      ∧ Grouped (samplePerPixel3.mLightParamsList.map (fun p => p.mType)))
    ∧ ((sampleFFP3.updateGpuProgramsParams samplePass sampleSource (sampleLight LT_POINT)
          (some [sampleLight LT_POINT])).map (fun res => res.map (fun u => u.srcIndex))
        = some [some 0, none, none]
      ∧ (samplePerPixel3.updateGpuProgramsParams samplePass sampleSource (sampleLight LT_POINT)
          (some [sampleLight LT_POINT])).map (fun res => res.map (fun u => u.srcIndex))
        = some [some 0, none, none])
    ∧ (∃ res, sampleFFP3.updateGpuProgramsParams samplePass sampleSource (sampleLight LT_POINT)
          (some [sampleLight LT_POINT]) = some res
        ∧ ExactMatching [sampleLight LT_POINT] sampleFFP3.mLightParamsList res
        ∧ List.Forall₂
            (SlotUpdate.writesOf sampleFFP3.mTrackVertexColourType sampleFFP3.mSpecularEnable
              samplePass sampleSource [sampleLight LT_POINT]
              (msBlankLight (sampleLight LT_POINT))) sampleFFP3.mLightParamsList res)
    ∧ (∃ res, samplePerPixel3.updateGpuProgramsParams samplePass sampleSource
          (sampleLight LT_POINT) (some [sampleLight LT_POINT]) = some res
        ∧ ExactMatching [sampleLight LT_POINT] samplePerPixel3.mLightParamsList res
        ∧ List.Forall₂
            (SlotUpdate.writesOf samplePerPixel3.mTrackVertexColourType
              samplePerPixel3.mSpecularEnable samplePass sampleSource [sampleLight LT_POINT]
              (msBlankLight (sampleLight LT_POINT))) samplePerPixel3.mLightParamsList res) :=
  ⟨⟨by decide, by decide⟩,
    ⟨by simp [sampleFFP3, FFPLighting.updateGpuProgramsParams, FFPLighting.updateLoop,
        searchLight, sampleSlot, sampleLight, updateLightType, updateLightColours,
        setGpuParameter, tracks, TVC_NONE, TVC_DIFFUSE],
      by simp [samplePerPixel3, PerPixelLighting.updateGpuProgramsParams,
        PerPixelLighting.updateLoop, searchLight, sampleSlot, sampleLight, updateLightType,
        updateLightColours, setGpuParameter, tracks, TVC_NONE, TVC_DIFFUSE]⟩,
    (C28_exact_matching_rule sampleFFP3 samplePerPixel3 samplePass sampleSource
      (sampleLight LT_POINT) [sampleLight LT_POINT]).1 (by decide) sampleSlots3_resolved,
    (C28_exact_matching_rule sampleFFP3 samplePerPixel3 samplePass sampleSource
      (sampleLight LT_POINT) [sampleLight LT_POINT]).2 (by decide) sampleSlots3_resolved⟩

section ViewPositionFacts

variable {σ : Type}

theorem held_refl {α β : Type} (g : α → β) (a : ResolveState α σ) : Held g a a :=
  ⟨rfl, id⟩

theorem held_resolve {α β : Type} {g : α → β} {a st : ResolveState α σ}
    {R : Resolver σ} {req : Request} {set : α → ParameterPtr → α}
    (hf : ∀ s p, g (set s p) = g s) (h : Held g a st) : Held g a (st.resolve R req set) :=
  ⟨(hf _ _).trans h.1, h.2⟩

theorem held_lookup {α β : Type} {g : α → β} {a st : ResolveState α σ}
    {R : Resolver σ} {req : Request} {set : α → ParameterPtr → α}
    (hf : ∀ s p, g (set s p) = g s) (h : Held g a st) : Held g a (st.lookup R req set) :=
  ⟨(hf _ _).trans h.1, h.2⟩

theorem check_clear {α : Type} {st : ResolveState α σ} {fs : List (α → ParameterPtr)}
    (h : (st.check fs).hasError = false) :
    st.hasError = false ∧ ∀ f ∈ fs, (f st.self).isSome = true := by
  simp only [ResolveState.check, Bool.or_eq_false_iff, List.any_eq_false] at h
  refine ⟨h.1, fun f hf => ?_⟩
  have := h.2 f hf
  cases hv : f st.self <;> simp [hv] at this ⊢

theorem held_check {α β : Type} {g : α → β} {a st : ResolveState α σ}
    {fs : List (α → ParameterPtr)} (h : Held g a st) : Held g a (st.check fs) :=
  ⟨h.1, fun he => h.2 (check_clear he).1⟩

theorem held_ite {α β : Type} {g : α → β} {a x y : ResolveState α σ} {c : Prop} [Decidable c]
    (hx : Held g a x) (hy : Held g a y) : Held g a (if c then x else y) := by
  split_ifs <;> assumption

theorem held_weaken {α β γ : Type} {g : α → β} {a st : ResolveState α σ} (f : β → γ)
    (h : Held g a st) : Held (fun s => f (g s)) a st :=
  ⟨congrArg f h.1, h.2⟩

theorem viewPos_resolve {α β : Type} {v : α → ParameterPtr} {g : α → β} {x : Bool}
    {a st : ResolveState α σ} {R : Resolver σ} {req : Request} {set : α → ParameterPtr → α}
    (hv : ∀ s p, v (set s p) = v s) (hf : ∀ s p, g (set s p) = g s) (h : ViewPos v g x a st) :
    ViewPos v g x a (st.resolve R req set) :=
  ⟨held_resolve hf h.1, fun he => (congrArg Option.isSome (hv _ _)).trans (h.2 he)⟩

theorem viewPos_check {α β : Type} {v : α → ParameterPtr} {g : α → β} {x : Bool}
    {a st : ResolveState α σ} {fs : List (α → ParameterPtr)} (h : ViewPos v g x a st) :
    ViewPos v g x a (st.check fs) :=
  ⟨held_check h.1, fun he => h.2 (check_clear he).1⟩

theorem viewPos_ite {α β : Type} {v : α → ParameterPtr} {g : α → β} {x : Bool}
    {a y z : ResolveState α σ} {c : Prop} [Decidable c]
    (hy : ViewPos v g x a y) (hz : ViewPos v g x a z) : ViewPos v g x a (if c then y else z) := by
  split_ifs <;> assumption

/-- A test of `hasError` that lists the handle `v` forces it to be non-null. -/
theorem viewPos_forced {α β : Type} {v : α → ParameterPtr} {g : α → β}
    {a st : ResolveState α σ} {fs : List (α → ParameterPtr)} (hmem : v ∈ fs)
    (h : Held g a st) : ViewPos v g true a (st.check fs) :=
  ⟨held_check h, fun he => (check_clear he).2 v hmem⟩

theorem pp_resolveAmbient_held {a st : ResolveState PerPixelLighting σ} (R : Resolver σ)
    (h : Held PerPixelLighting.viewPosSettings a st) :
    Held PerPixelLighting.viewPosSettings a (PerPixelLighting.resolveAmbient R st) :=
  held_ite (h |> held_resolve (by intros; rfl) |> held_check)
    (h |> held_resolve (by intros; rfl) |> held_resolve (by intros; rfl) |> held_check)

theorem pp_resolveSurfaceDiffuse_held {a st : ResolveState PerPixelLighting σ} (R : Resolver σ)
    (h : Held PerPixelLighting.viewPosSettings a st) :
    Held PerPixelLighting.viewPosSettings a (PerPixelLighting.resolveSurfaceDiffuse R st) :=
  held_ite (h |> held_resolve (by intros; rfl) |> held_check) h

theorem pp_resolveSurfaceSpecular_held {a st : ResolveState PerPixelLighting σ} (R : Resolver σ)
    (h : Held PerPixelLighting.viewPosSettings a st) :
    Held PerPixelLighting.viewPosSettings a (PerPixelLighting.resolveSurfaceSpecular R st) :=
  held_ite (h |> held_resolve (by intros; rfl) |> held_check) h

theorem pp_resolveSurfaceEmissive_held {a st : ResolveState PerPixelLighting σ} (R : Resolver σ)
    (h : Held PerPixelLighting.viewPosSettings a st) :
    Held PerPixelLighting.viewPosSettings a (PerPixelLighting.resolveSurfaceEmissive R st) :=
  held_ite (h |> held_resolve (by intros; rfl) |> held_check) h

theorem pp_resolvePSInNormal_held {a st : ResolveState PerPixelLighting σ} (R : Resolver σ)
    (h : Held PerPixelLighting.viewPosSettings a st) :
    Held PerPixelLighting.viewPosSettings a (PerPixelLighting.resolvePSInNormal R st) :=
  h |> held_resolve (by intros; rfl)

theorem pp_resolvePSDiffuse_held {a st : ResolveState PerPixelLighting σ} (R : Resolver σ)
    (h : Held PerPixelLighting.viewPosSettings a st) :
    Held PerPixelLighting.viewPosSettings a (PerPixelLighting.resolvePSDiffuse R st) :=
  held_ite (h |> held_lookup (by intros; rfl) |> held_lookup (by intros; rfl))
    (h |> held_lookup (by intros; rfl))

theorem pp_resolvePSSpecular_held {a st : ResolveState PerPixelLighting σ} (R : Resolver σ)
    (h : Held PerPixelLighting.settings a st) :
    Held PerPixelLighting.settings a (PerPixelLighting.resolvePSSpecular R st) :=
  held_ite (h |> held_lookup (by intros; rfl) |> held_resolve (by intros; rfl))
    (h |> held_lookup (by intros; rfl))

theorem pp_resolvePSInViewPos_held {a st : ResolveState PerPixelLighting σ} (R : Resolver σ)
    (h : Held PerPixelLighting.settings a st) :
    Held PerPixelLighting.settings a (PerPixelLighting.resolvePSInViewPos R st) :=
  h |> held_resolve (by intros; rfl)

/-- The specular block of the global resolver: with specular enabled the
view-space position output is resolved and tested, without it the block does
nothing. -/
theorem pp_resolveSpecularGlobals_viewPos {a st : ResolveState PerPixelLighting σ}
    (R : Resolver σ) (h : Held PerPixelLighting.viewPosSettings a st) :
    ViewPos (fun s => s.mVSOutViewPos) PerPixelLighting.settings
      (a.self.mVSOutViewPos.isSome || a.self.mSpecularEnable) a
      (PerPixelLighting.resolveSpecularGlobals R st) := by
  have hs : st.self.mSpecularEnable = a.self.mSpecularEnable := congrArg (fun x => x.2.1.2) h.1
  have hv : st.self.mVSOutViewPos = a.self.mVSOutViewPos := congrArg (fun x => x.1) h.1
  have h3 : Held PerPixelLighting.settings a st := held_weaken Prod.snd h
  unfold PerPixelLighting.resolveSpecularGlobals
  rw [hs]
  cases hspec : a.self.mSpecularEnable
  · rw [Bool.or_false]
    exact ⟨h3, fun _ => congrArg Option.isSome hv⟩
  · rw [Bool.or_true]
    exact h3 |> pp_resolvePSSpecular_held R |> held_resolve (by intros; rfl)
      |> held_resolve (by intros; rfl) |> held_resolve (by intros; rfl)
      |> pp_resolvePSInViewPos_held R |> held_resolve (by intros; rfl)
      |> viewPos_forced (by simp)

/-- The global resolver keeps the settings, and when it raises no error the
view-space position output is non-null exactly when it was before or specular
is enabled. -/
theorem pp_global_viewPos (R : Resolver σ) (self : PerPixelLighting) (ps : ProgramSet σ) :
    ViewPos (fun s => s.mVSOutViewPos) PerPixelLighting.settings
      (self.mVSOutViewPos.isSome || self.mSpecularEnable)
      { self := self, programSet := ps, hasError := false }
      (PerPixelLighting.resolveGlobalParametersState R self ps) :=
  held_refl PerPixelLighting.viewPosSettings
      ({ self := self, programSet := ps, hasError := false } : ResolveState PerPixelLighting σ)
    |> held_resolve (by intros; rfl) |> held_check
    |> pp_resolveAmbient_held R
    |> pp_resolveSurfaceDiffuse_held R
    |> pp_resolveSurfaceSpecular_held R
    |> pp_resolveSurfaceEmissive_held R
    |> held_resolve (by intros; rfl) |> held_resolve (by intros; rfl)
    |> held_resolve (by intros; rfl) |> held_resolve (by intros; rfl)
    |> pp_resolvePSInNormal_held R
    |> pp_resolvePSDiffuse_held R
    |> held_resolve (by intros; rfl) |> held_resolve (by intros; rfl)
    |> held_check
    |> pp_resolveSpecularGlobals_viewPos R

theorem pp_resolveViewPos_held {a st : ResolveState (PerPixelLighting × LightParams) σ}
    (R : Resolver σ) (h : Held PerPixelLighting.slotConfig a st) :
    Held PerPixelLighting.slotConfig a (PerPixelLighting.resolveViewPos R st) :=
  held_ite (h |> held_resolve (by intros; rfl) |> held_resolve (by intros; rfl)) h

/-- The switch of the loop body: a Directional slot leaves the view-space
position output as it was, a Point or Spot slot resolves it when it is null
and tests it. -/
theorem pp_resolveLightType_viewPos {a st : ResolveState (PerPixelLighting × LightParams) σ}
    (R : Resolver σ) (h : Held PerPixelLighting.slotViewPos a st) :
    ViewPos (fun s => s.1.mVSOutViewPos) PerPixelLighting.slotConfig
      (a.self.1.mVSOutViewPos.isSome || decide (a.self.2.mType ≠ LT_DIRECTIONAL)) a
      (PerPixelLighting.resolveLightType R st) := by
  have ht : st.self.2.mType = a.self.2.mType := congrArg (fun x => x.2.2) h.1
  have h3 : Held PerPixelLighting.slotConfig a st := held_weaken Prod.snd h
  unfold PerPixelLighting.resolveLightType
  rw [ht]
  cases hT : a.self.2.mType
  · have hx : (a.self.1.mVSOutViewPos.isSome || decide (LT_POINT ≠ LT_DIRECTIONAL)) = true := by
      simp
    rw [hx]
    exact h3 |> held_resolve (by intros; rfl) |> held_resolve (by intros; rfl)
      |> held_resolve (by intros; rfl) |> held_resolve (by intros; rfl)
      |> pp_resolveViewPos_held R |> viewPos_forced (by simp)
  · have hx : (a.self.1.mVSOutViewPos.isSome || decide (LT_DIRECTIONAL ≠ LT_DIRECTIONAL))
        = a.self.1.mVSOutViewPos.isSome := by simp
    rw [hx]
    exact ⟨h3 |> held_resolve (by intros; rfl),
      fun _ => congrArg (fun x => Option.isSome x.1) h.1⟩
  · have hx : (a.self.1.mVSOutViewPos.isSome || decide (LT_SPOTLIGHT ≠ LT_DIRECTIONAL))
        = true := by simp
    rw [hx]
    exact h3 |> held_resolve (by intros; rfl) |> held_resolve (by intros; rfl)
      |> held_resolve (by intros; rfl) |> held_resolve (by intros; rfl)
      |> held_resolve (by intros; rfl) |> held_resolve (by intros; rfl)
      |> pp_resolveViewPos_held R |> viewPos_forced (by simp)

theorem pp_resolveLightDiffuse_viewPos {x : Bool}
    {a st : ResolveState (PerPixelLighting × LightParams) σ} (R : Resolver σ)
    (h : ViewPos (fun s => s.1.mVSOutViewPos) PerPixelLighting.slotConfig x a st) :
    ViewPos (fun s => s.1.mVSOutViewPos) PerPixelLighting.slotConfig x a
      (PerPixelLighting.resolveLightDiffuse R st) :=
  viewPos_check (viewPos_ite (h |> viewPos_resolve (by intros; rfl) (by intros; rfl))
    (h |> viewPos_resolve (by intros; rfl) (by intros; rfl)))

theorem pp_resolveLightSpecular_viewPos {x : Bool}
    {a st : ResolveState (PerPixelLighting × LightParams) σ} (R : Resolver σ)
    (h : ViewPos (fun s => s.1.mVSOutViewPos) PerPixelLighting.slotConfig x a st) :
    ViewPos (fun s => s.1.mVSOutViewPos) PerPixelLighting.slotConfig x a
      (PerPixelLighting.resolveLightSpecular R st) :=
  viewPos_ite
    (viewPos_check (viewPos_ite (h |> viewPos_resolve (by intros; rfl) (by intros; rfl))
      (h |> viewPos_resolve (by intros; rfl) (by intros; rfl)))) h

/-- One iteration of the per-pixel loop. -/
theorem pp_light_viewPos (R : Resolver σ) (st : ResolveState PerPixelLighting σ)
    (cur : LightParams) :
    (PerPixelLighting.resolvePerLightParametersLight R st cur).1.mType = cur.mType ∧
    (PerPixelLighting.resolvePerLightParametersLight R st cur).2.self.config = st.self.config ∧
    ((PerPixelLighting.resolvePerLightParametersLight R st cur).2.hasError = false →
      st.hasError = false ∧
      (PerPixelLighting.resolvePerLightParametersLight R st cur).2.self.mVSOutViewPos.isSome
        = (st.self.mVSOutViewPos.isSome || decide (cur.mType ≠ LT_DIRECTIONAL))) := by
  have h := held_refl PerPixelLighting.slotViewPos
      ({ self := (st.self, cur), programSet := st.programSet, hasError := st.hasError } :
        ResolveState (PerPixelLighting × LightParams) σ)
    |> pp_resolveLightType_viewPos R |> pp_resolveLightDiffuse_viewPos R
    |> pp_resolveLightSpecular_viewPos R
  exact ⟨congrArg Prod.snd h.1.1, congrArg Prod.fst h.1.1, fun he => ⟨h.1.2 he, h.2 he⟩⟩

/-- The per-pixel loop: the slots keep their types, the configuration is kept,
and when no error is raised the view-space position output is non-null
exactly when it was before or the list has a Point or Spot slot. -/
theorem pp_loop_viewPos (R : Resolver σ) (list : LightParamsList) :
    ∀ st : ResolveState PerPixelLighting σ,
      (forEachLightParams (PerPixelLighting.resolvePerLightParametersLight R) st list).1.map
          (fun slot => slot.mType) = list.map (fun slot => slot.mType) ∧
      (forEachLightParams (PerPixelLighting.resolvePerLightParametersLight R) st list).2.self.config
        = st.self.config ∧
      ((forEachLightParams (PerPixelLighting.resolvePerLightParametersLight R) st list).2.hasError
          = false →
        st.hasError = false ∧
        (forEachLightParams (PerPixelLighting.resolvePerLightParametersLight R) st
            list).2.self.mVSOutViewPos.isSome
          = (st.self.mVSOutViewPos.isSome || hasPositional list)) := by
  induction list with
  | nil =>
    intro st
    simp [forEachLightParams, hasPositional]
  | cons cur rest ih =>
    intro st
    obtain ⟨b1, b2, b3⟩ := pp_light_viewPos R st cur
    obtain ⟨i1, i2, i3⟩ := ih (PerPixelLighting.resolvePerLightParametersLight R st cur).2
    refine ⟨?_, ?_, fun he => ?_⟩
    · simp only [forEachLightParams, List.map_cons, i1, b1]
    · exact i2.trans b2
    · obtain ⟨e1, e2⟩ := i3 he
      obtain ⟨e3, e4⟩ := b3 e1
      refine ⟨e3, ?_⟩
      show (forEachLightParams (PerPixelLighting.resolvePerLightParametersLight R)
        (PerPixelLighting.resolvePerLightParametersLight R st cur).2
        rest).2.self.mVSOutViewPos.isSome = _
      rw [e2, e4]
      simp only [hasPositional, List.any_cons, Bool.or_assoc]

/-- A successful `PerPixelLighting::resolveParameters` keeps the tracking mask,
the specular flag and the slot types, and leaves the view-space position
output non-null exactly when it was non-null before, or specular is enabled,
or the slot list has a Point or Spot slot. -/
theorem pp_resolve_viewPos (R : Resolver σ) (self : PerPixelLighting) (ps : ProgramSet σ)
    (h : (PerPixelLighting.resolveParameters R self ps).result = .ok true) :
    (PerPixelLighting.resolveParameters R self ps).self.mTrackVertexColourType
        = self.mTrackVertexColourType ∧
    (PerPixelLighting.resolveParameters R self ps).self.mSpecularEnable
        = self.mSpecularEnable ∧
    (PerPixelLighting.resolveParameters R self ps).self.mLightParamsList.map
        (fun slot => slot.mType) = self.mLightParamsList.map (fun slot => slot.mType) ∧
    (PerPixelLighting.resolveParameters R self ps).self.mVSOutViewPos.isSome
        = (self.mVSOutViewPos.isSome || self.mSpecularEnable
            || hasPositional self.mLightParamsList) := by
  obtain ⟨⟨hset, -⟩, hvp⟩ := pp_global_viewPos R self ps
  generalize hgs : PerPixelLighting.resolveGlobalParametersState R self ps = gs at hset hvp
  obtain ⟨g1, g2, -, g4, g5⟩ := finish_result gs PerPixelLighting.globalError
  have hcfg : gs.self.config = self.config := congrArg Prod.fst hset
  have hlist : gs.self.mLightParamsList = self.mLightParamsList := congrArg Prod.snd hset
  cases he : gs.hasError
  · have hres := g2.2 he
    have hrp : PerPixelLighting.resolveParameters R self ps
        = PerPixelLighting.resolvePerLightParameters R gs.self gs.programSet := by
      unfold PerPixelLighting.resolveParameters PerPixelLighting.resolveGlobalParameters
      rw [hgs]
      simp only [hres, g4, g5]
    rw [hrp] at h ⊢
    obtain ⟨l1, l2, l3⟩ := pp_loop_viewPos R gs.self.mLightParamsList
      ({ self := gs.self, programSet := gs.programSet, hasError := false } :
        ResolveState PerPixelLighting σ)
    obtain ⟨-, f2, -, f4, -⟩ := finish_result
      (({ self := gs.self, programSet := gs.programSet, hasError := false } :
          ResolveState PerPixelLighting σ).forEachLight gs.self.mLightParamsList
        (PerPixelLighting.resolvePerLightParametersLight R)
        (fun s l => { s with mLightParamsList := l }))
      PerPixelLighting.perLightError
    unfold PerPixelLighting.resolvePerLightParameters at h ⊢
    have hclear := f2.1 h
    rw [f4]
    have hc := l2.trans hcfg
    refine ⟨congrArg Prod.fst hc, congrArg Prod.snd hc, ?_, ?_⟩
    · exact l1.trans (congrArg _ hlist)
    · have := (l3 hclear).2
      rw [hvp he] at this
      exact this.trans (by rw [hlist])
  · have hres := g1.2 he
    have hrp : (PerPixelLighting.resolveParameters R self ps).result
        = .error PerPixelLighting.globalError := by
      unfold PerPixelLighting.resolveParameters PerPixelLighting.resolveGlobalParameters
      rw [hgs]
      simp only [hres]
    rw [hrp] at h
    cases h

end ViewPositionFacts
section ConfigurationFacts

variable {σ : Type}

theorem hasPositional_iff (slots : LightParamsList) :
    hasPositional slots = true
      ↔ ∃ slot ∈ slots, slot.mType = LT_POINT ∨ slot.mType = LT_SPOTLIGHT := by
  simp only [hasPositional, List.any_eq_true, decide_eq_true_eq]
  constructor
  · rintro ⟨slot, hm, hne⟩
    refine ⟨slot, hm, ?_⟩
    cases hT : slot.mType <;> simp [hT] at hne ⊢
  · rintro ⟨slot, hm, h | h⟩ <;> exact ⟨slot, hm, by simp [h]⟩

/-- The per-vertex loop: the slots keep their types and the configuration is
kept. -/
theorem ffp_loop_config (R : Resolver σ) (list : LightParamsList) :
    ∀ st : ResolveState FFPLighting σ,
      (forEachLightParams (FFPLighting.resolveParametersLight R) st list).1.map
          (fun slot => slot.mType) = list.map (fun slot => slot.mType) ∧
      (forEachLightParams (FFPLighting.resolveParametersLight R) st list).2.self.config
        = st.self.config := by
  induction list with
  | nil =>
    intro st
    simp [forEachLightParams]
  | cons cur rest ih =>
    intro st
    obtain ⟨b1, b2⟩ := ffp_light_kept R st cur
    obtain ⟨i1, i2⟩ := ih (FFPLighting.resolveParametersLight R st cur).2
    refine ⟨?_, i2.trans b1⟩
    simp only [forEachLightParams, List.map_cons, i1, b2]

/-- The method `FFPLighting::resolveParameters` keeps the tracking mask, the
specular flag and the slot types. -/
theorem ffp_resolve_config (R : Resolver σ) (self : FFPLighting) (ps : ProgramSet σ) :
    (FFPLighting.resolveParameters R self ps).self.mTrackVertexColourType
        = self.mTrackVertexColourType ∧
    (FFPLighting.resolveParameters R self ps).self.mSpecularEnable = self.mSpecularEnable ∧
    (FFPLighting.resolveParameters R self ps).self.mLightParamsList.map
        (fun slot => slot.mType) = self.mLightParamsList.map (fun slot => slot.mType) := by
  obtain ⟨hg, -, -⟩ := ffp_global_kept R self ps
  generalize hgs : FFPLighting.resolveParametersGlobal R self ps = gs at hg
  obtain ⟨l1, l2⟩ := ffp_loop_config R gs.self.mLightParamsList gs
  unfold FFPLighting.resolveParameters
  rw [hgs]
  simp only [(finish_result _ FFPLighting.resolveError).2.2.2.1]
  have hc : gs.self.config = self.config := congrArg Prod.fst hg
  have hl : gs.self.mLightParamsList = self.mLightParamsList := congrArg Prod.snd hg
  have hc2 := l2.trans hc
  exact ⟨congrArg Prod.fst hc2, congrArg Prod.snd hc2, l1.trans (congrArg _ hl)⟩

theorem profile_flatten_congr (f1 f2 : LightParams → List FunctionInvocation)
    (h : ∀ c1 c2 : LightParams, c1.mType = c2.mType →
      (f1 c1).map FunctionInvocation.profile = (f2 c2).map FunctionInvocation.profile) :
    ∀ l1 l2 : LightParamsList,
      l1.map (fun slot => slot.mType) = l2.map (fun slot => slot.mType) →
      ((l1.map f1).flatten).map FunctionInvocation.profile
        = ((l2.map f2).flatten).map FunctionInvocation.profile := by
  intro l1
  induction l1 with
  | nil =>
    intro l2 hl
    cases l2 with
    | nil => rfl
    | cons c2 r2 => simp at hl
  | cons c1 r1 ih =>
    intro l2 hl
    cases l2 with
    | nil => simp at hl
    | cons c2 r2 =>
      simp only [List.map_cons, List.cons.injEq] at hl
      simp only [List.map_cons, List.flatten_cons, List.map_append, h c1 c2 hl.1, ih r2 hl.2]

theorem ffp_global_profile (a1 a2 : FFPLighting) (o : GroupOrder)
    (hm : a1.mTrackVertexColourType = a2.mTrackVertexColourType) :
    (a1.addGlobalIlluminationInvocation [] o).2.map FunctionInvocation.profile
      = (a2.addGlobalIlluminationInvocation [] o).2.map FunctionInvocation.profile := by
  unfold FFPLighting.addGlobalIlluminationInvocation
  rw [hm]
  cases ha : tracks a2.mTrackVertexColourType TVC_AMBIENT <;>
    cases he : tracks a2.mTrackVertexColourType TVC_EMISSIVE <;>
    simp [assign, callFunction, FunctionInvocation.profile, In, Out, Operand.xyz]

theorem ffp_slot_profile (a1 a2 : FFPLighting) (o : GroupOrder)
    (hm : a1.mTrackVertexColourType = a2.mTrackVertexColourType)
    (hs : a1.mSpecularEnable = a2.mSpecularEnable) (c1 c2 : LightParams)
    (ht : c1.mType = c2.mType) :
    (a1.addIlluminationInvocation c1 [] o).2.map FunctionInvocation.profile
      = (a2.addIlluminationInvocation c2 [] o).2.map FunctionInvocation.profile := by
  unfold FFPLighting.addIlluminationInvocation
  rw [hm, hs, ht]
  cases hT : c2.mType <;> cases hsp : a2.mSpecularEnable <;>
    cases hd : tracks a2.mTrackVertexColourType TVC_DIFFUSE <;>
    cases hp : tracks a2.mTrackVertexColourType TVC_SPECULAR <;>
    simp [callFunction, FunctionInvocation.profile, In, Out, Operand.xyz]

theorem pp_vs_profile (b1 b2 : PerPixelLighting) (o : GroupOrder)
    (hv : b1.mVSOutViewPos.isSome = b2.mVSOutViewPos.isSome) :
    (b1.addVSInvocation [] o).2.map FunctionInvocation.profile
      = (b2.addVSInvocation [] o).2.map FunctionInvocation.profile := by
  unfold PerPixelLighting.addVSInvocation
  rw [hv]
  cases b2.mVSOutViewPos.isSome <;>
    simp [callFunction, FunctionInvocation.profile, In, Out]

theorem pp_global_profile (b1 b2 : PerPixelLighting) (o : GroupOrder)
    (hm : b1.mTrackVertexColourType = b2.mTrackVertexColourType)
    (hs : b1.mSpecularEnable = b2.mSpecularEnable) :
    (b1.addPSGlobalIlluminationInvocation [] o).2.map FunctionInvocation.profile
      = (b2.addPSGlobalIlluminationInvocation [] o).2.map FunctionInvocation.profile := by
  unfold PerPixelLighting.addPSGlobalIlluminationInvocation
  rw [hm, hs]
  cases ha : tracks b2.mTrackVertexColourType TVC_AMBIENT <;>
    cases he : tracks b2.mTrackVertexColourType TVC_EMISSIVE <;>
    cases hsp : b2.mSpecularEnable <;>
    simp [assign, callFunction, FunctionInvocation.profile, In, Out, Operand.xyz]

theorem pp_slot_profile (b1 b2 : PerPixelLighting) (o : GroupOrder)
    (hm : b1.mTrackVertexColourType = b2.mTrackVertexColourType)
    (hs : b1.mSpecularEnable = b2.mSpecularEnable) (c1 c2 : LightParams)
    (ht : c1.mType = c2.mType) :
    (b1.addPSIlluminationInvocation c1 [] o).2.map FunctionInvocation.profile
      = (b2.addPSIlluminationInvocation c2 [] o).2.map FunctionInvocation.profile := by
  unfold PerPixelLighting.addPSIlluminationInvocation
  rw [hm, hs, ht]
  cases hT : c2.mType <;> cases hsp : b2.mSpecularEnable <;>
    cases hd : tracks b2.mTrackVertexColourType TVC_DIFFUSE <;>
    cases hp : tracks b2.mTrackVertexColourType TVC_SPECULAR <;>
    simp [callFunction, addAtomInstance, pushOperand, FunctionInvocation.profile, In, Out,
      Operand.xyz]

theorem pp_final_profile (b1 b2 : PerPixelLighting) (o : GroupOrder)
    (hs : b1.mSpecularEnable = b2.mSpecularEnable) :
    (b1.addPSFinalAssignmentInvocation [] o).2.map FunctionInvocation.profile
      = (b2.addPSFinalAssignmentInvocation [] o).2.map FunctionInvocation.profile := by
  unfold PerPixelLighting.addPSFinalAssignmentInvocation
  rw [hs]
  cases hsp : b2.mSpecularEnable <;>
    simp [assign, callFunction, FunctionInvocation.profile, In, Out, Operand.xyz]

end ConfigurationFacts
/-- C30: on a freshly constructed per-pixel instance (the configuration set,
every handle null) on which `resolveParameters` has returned true,
`addVSInvocation` returns true and appends first the normal-transform call
(inverse-transpose world-view matrix in, object-space normal in, view-space
normal out), and then the position-transform call exactly when `specularEnable`
is set or the slot list has a Point or Spot slot; with specular disabled and
only Directional slots (or none) it appends exactly one call. -/
theorem C30_per_pixel_vertex_stage {σ : Type} (R : Resolver σ) (tvc : Nat) (spec : Bool)
    (slots : LightParamsList) (ps : ProgramSet σ) (vsMain : List FunctionInvocation)
    (groupOrder : GroupOrder)
    (h : (PerPixelLighting.resolveParameters R
      { mTrackVertexColourType := tvc, mSpecularEnable := spec, mLightParamsList := slots }
      ps).result = .ok true) :
    ∀ self : PerPixelLighting,
      self = (PerPixelLighting.resolveParameters R
        { mTrackVertexColourType := tvc, mSpecularEnable := spec, mLightParamsList := slots }
        ps).self →
      (self.addVSInvocation vsMain groupOrder).1 = true
      ∧ (self.addVSInvocation vsMain groupOrder).2
        = vsMain
          ++ [{ mFunctionName := FunctionName.SGX_FUNC_TRANSFORMNORMAL
                mGroupExecutionOrder := groupOrder
                mOperands := [In self.mWorldViewITMatrix, In self.mVSInNormal,
                  Out self.mVSOutNormal] }]
          ++ (if spec = true ∨ ∃ slot ∈ slots, slot.mType = LT_POINT ∨ slot.mType = LT_SPOTLIGHT
              then
                [{ mFunctionName := FunctionName.SGX_FUNC_TRANSFORMPOSITION
                   mGroupExecutionOrder := groupOrder
                   mOperands := [In self.mWorldViewMatrix, In self.mVSInPosition,
                     Out self.mVSOutViewPos] }]
              else [])
      ∧ (spec = false → (∀ slot ∈ slots, slot.mType = LT_DIRECTIONAL) →
          (self.addVSInvocation vsMain groupOrder).2.length = vsMain.length + 1) := by
  intro self hself
  have hv := (pp_resolve_viewPos R _ ps h).2.2.2
  rw [← hself] at hv
  simp only [Option.isSome_none, Bool.false_or] at hv
  unfold PerPixelLighting.addVSInvocation
  by_cases hc : spec = true ∨ ∃ slot ∈ slots, slot.mType = LT_POINT ∨ slot.mType = LT_SPOTLIGHT
  · have hx : self.mVSOutViewPos.isSome = true := by
      rw [hv]
      rcases hc with hc | hc
      · simp [hc]
      · simp [(hasPositional_iff slots).2 hc]
    rw [if_pos hc]
    simp only [hx, if_true, callFunction, List.append_assoc, true_and]
    intro hs hd
    rcases hc with hc | ⟨slot, hm, hc⟩
    · rw [hs] at hc
      cases hc
    · rw [hd slot hm] at hc
      simp at hc
  · have hx : self.mVSOutViewPos.isSome = false := by
      rw [hv]
      have h1 : spec = false := by
        cases spec
        · rfl
        · exact absurd (Or.inl rfl) hc
      have h2 : hasPositional slots = false := by
        cases hp : hasPositional slots
        · rfl
        · exact absurd (Or.inr ((hasPositional_iff slots).1 hp)) hc
      simp [h1, h2]
    rw [if_neg hc]
    simp [hx, callFunction]

/-- C30 at a concrete input: the counting resolver, specular disabled and one
Point slot. -/
theorem C30_per_pixel_vertex_stage_witness :
    (PerPixelLighting.resolveParameters (countingResolver (fun _ => false))
      { mTrackVertexColourType := TVC_NONE, mSpecularEnable := false,
        mLightParamsList := [{ mType := LT_POINT }] }
      { params := 0 }).result = .ok true
    ∧ ∀ self : PerPixelLighting,
      self = (PerPixelLighting.resolveParameters (countingResolver (fun _ => false))
        { mTrackVertexColourType := TVC_NONE, mSpecularEnable := false,
          mLightParamsList := [{ mType := LT_POINT }] }
        { params := 0 }).self →
      (self.addVSInvocation [] GroupOrder.FFP_VS_LIGHTING).1 = true
      ∧ (self.addVSInvocation [] GroupOrder.FFP_VS_LIGHTING).2
        = []
          ++ [{ mFunctionName := FunctionName.SGX_FUNC_TRANSFORMNORMAL
                mGroupExecutionOrder := GroupOrder.FFP_VS_LIGHTING
                mOperands := [In self.mWorldViewITMatrix, In self.mVSInNormal,
                  Out self.mVSOutNormal] }]
          ++ (if false = true ∨ ∃ slot ∈ [({ mType := LT_POINT } : LightParams)],
                  slot.mType = LT_POINT ∨ slot.mType = LT_SPOTLIGHT
              then
                [{ mFunctionName := FunctionName.SGX_FUNC_TRANSFORMPOSITION
                   mGroupExecutionOrder := GroupOrder.FFP_VS_LIGHTING
                   mOperands := [In self.mWorldViewMatrix, In self.mVSInPosition,
                     Out self.mVSOutViewPos] }]
              else [])
      ∧ (false = false →
          (∀ slot ∈ [({ mType := LT_POINT } : LightParams)], slot.mType = LT_DIRECTIONAL) →
          (self.addVSInvocation [] GroupOrder.FFP_VS_LIGHTING).2.length
            = ([] : List FunctionInvocation).length + 1) :=
  ⟨by rfl,
    C30_per_pixel_vertex_stage (countingResolver (fun _ => false)) TVC_NONE false
      [{ mType := LT_POINT }] { params := 0 } [] GroupOrder.FFP_VS_LIGHTING (by rfl)⟩
/-- C27 fails as stated for the per-pixel vertex stage: an instance that was
resolved with specular enabled and then had specular disabled still holds its
view-space position output, so after a second successful `resolveParameters`
it emits two vertex-stage invocations, where a freshly constructed instance
with the same tracking mask, specular flag and slot types emits one. -/
theorem C27_reused_instance_emits_position_transform :
    (PerPixelLighting.resolveParameters (countingResolver (fun _ => false))
        sampleEarlierPerPixel { params := 0 }).result = .ok true
    ∧ sampleReusedPerPixel.mTrackVertexColourType
        = sampleDirectionalPerPixel.mTrackVertexColourType
    ∧ sampleReusedPerPixel.mSpecularEnable = sampleDirectionalPerPixel.mSpecularEnable
    ∧ sampleReusedPerPixel.mLightParamsList.map (fun slot => slot.mType)
        = sampleDirectionalPerPixel.mLightParamsList.map (fun slot => slot.mType)
    ∧ (PerPixelLighting.resolveParameters (countingResolver (fun _ => false))
        sampleReusedPerPixel { params := 0 }).result = .ok true
    ∧ (PerPixelLighting.resolveParameters (countingResolver (fun _ => false))
        sampleDirectionalPerPixel { params := 0 }).result = .ok true
    ∧ ((PerPixelLighting.resolveParameters (countingResolver (fun _ => false))
          sampleReusedPerPixel { params := 0 }).self.addFunctionInvocations
        (PerPixelLighting.resolveParameters (countingResolver (fun _ => false))
          sampleReusedPerPixel { params := 0 }).programSet).2.vsMainAtoms.map
        FunctionInvocation.profile
      = [(FunctionName.SGX_FUNC_TRANSFORMNORMAL,
            [(OpSemantic.OPS_IN, OpMask.OPM_ALL), (OpSemantic.OPS_IN, OpMask.OPM_ALL),
              (OpSemantic.OPS_OUT, OpMask.OPM_ALL)]),
          (FunctionName.SGX_FUNC_TRANSFORMPOSITION,
            [(OpSemantic.OPS_IN, OpMask.OPM_ALL), (OpSemantic.OPS_IN, OpMask.OPM_ALL),
              (OpSemantic.OPS_OUT, OpMask.OPM_ALL)])]
    ∧ ((PerPixelLighting.resolveParameters (countingResolver (fun _ => false))
          sampleDirectionalPerPixel { params := 0 }).self.addFunctionInvocations
        (PerPixelLighting.resolveParameters (countingResolver (fun _ => false))
          sampleDirectionalPerPixel { params := 0 }).programSet).2.vsMainAtoms.map
        FunctionInvocation.profile
      = [(FunctionName.SGX_FUNC_TRANSFORMNORMAL,
            [(OpSemantic.OPS_IN, OpMask.OPM_ALL), (OpSemantic.OPS_IN, OpMask.OPM_ALL),
              (OpSemantic.OPS_OUT, OpMask.OPM_ALL)])] := by
  refine ⟨by rfl, by rfl, by rfl, by rfl, by rfl, by rfl, by rfl, by rfl⟩

/-- C27: for two instances of the same model with the same tracking mask, the
same specular flag and the same sequence of slot types, on both of which
`resolveParameters` has returned true (under any resolvers and program sets,
whatever handles the instances held before), `addFunctionInvocations` returns
true and the sequences it appends agree in length and, position by position,
in function, operand count, operand directions and operand masks: for the
per-vertex model always, for the per-pixel model in the fragment function
always and in the vertex function when specular is enabled, or the slot list
has a Point or Spot slot, or the two instances agreed before the resolution on
whether their view-space position output was set (as two freshly constructed
instances do). -/
theorem C27_assembly_function_of_configuration {σ : Type} (R1 R2 : Resolver σ)
    (ps1 ps2 : ProgramSet σ) :
    (∀ (a1 a2 : FFPLighting) (r1 r2 : Outcome FFPLighting σ),
        r1 = FFPLighting.resolveParameters R1 a1 ps1 →
        r2 = FFPLighting.resolveParameters R2 a2 ps2 →
        a1.mTrackVertexColourType = a2.mTrackVertexColourType →
        a1.mSpecularEnable = a2.mSpecularEnable →
        a1.mLightParamsList.map (fun slot => slot.mType)
          = a2.mLightParamsList.map (fun slot => slot.mType) →
        r1.result = .ok true → r2.result = .ok true →
        ∃ e1 e2 : List FunctionInvocation,
          r1.self.addFunctionInvocations r1.programSet
            = (true, { r1.programSet with vsMainAtoms := r1.programSet.vsMainAtoms ++ e1 })
          ∧ r2.self.addFunctionInvocations r2.programSet
            = (true, { r2.programSet with vsMainAtoms := r2.programSet.vsMainAtoms ++ e2 })
          ∧ e1.map FunctionInvocation.profile = e2.map FunctionInvocation.profile)
    ∧ (∀ (b1 b2 : PerPixelLighting) (r1 r2 : Outcome PerPixelLighting σ),
        r1 = PerPixelLighting.resolveParameters R1 b1 ps1 →
        r2 = PerPixelLighting.resolveParameters R2 b2 ps2 →
        b1.mTrackVertexColourType = b2.mTrackVertexColourType →
        b1.mSpecularEnable = b2.mSpecularEnable →
        b1.mLightParamsList.map (fun slot => slot.mType)
          = b2.mLightParamsList.map (fun slot => slot.mType) →
        r1.result = .ok true → r2.result = .ok true →
        ∃ v1 p1 v2 p2 : List FunctionInvocation,
          r1.self.addFunctionInvocations r1.programSet
            = (true, { r1.programSet with
                vsMainAtoms := r1.programSet.vsMainAtoms ++ v1
                psMainAtoms := r1.programSet.psMainAtoms ++ p1 })
          ∧ r2.self.addFunctionInvocations r2.programSet
            = (true, { r2.programSet with
                vsMainAtoms := r2.programSet.vsMainAtoms ++ v2
                psMainAtoms := r2.programSet.psMainAtoms ++ p2 })
          ∧ p1.map FunctionInvocation.profile = p2.map FunctionInvocation.profile
          ∧ ((b2.mSpecularEnable = false → hasPositional b2.mLightParamsList = false →
                b1.mVSOutViewPos.isSome = b2.mVSOutViewPos.isSome) →
              v1.map FunctionInvocation.profile = v2.map FunctionInvocation.profile)) := by
  constructor
  · intro a1 a2 r1 r2 h1 h2 hm hs ht _ _
    obtain ⟨c1, c2, c3⟩ := ffp_resolve_config R1 a1 ps1
    obtain ⟨d1, d2, d3⟩ := ffp_resolve_config R2 a2 ps2
    rw [← h1] at c1 c2 c3
    rw [← h2] at d1 d2 d3
    have hm' := c1.trans (hm.trans d1.symm)
    have hs' := c2.trans (hs.trans d2.symm)
    have ht' := c3.trans (ht.trans d3.symm)
    refine ⟨_, _, (ffp_addFunctionInvocations_eq r1.self r1.programSet).trans
        (by rw [List.append_assoc]),
      (ffp_addFunctionInvocations_eq r2.self r2.programSet).trans (by rw [List.append_assoc]),
      ?_⟩
    rw [List.map_append, List.map_append, ffp_global_profile r1.self r2.self _ hm',
      profile_flatten_congr _ _
        (fun c1 c2 hc => ffp_slot_profile r1.self r2.self _ hm' hs' c1 c2 hc) _ _ ht']
  · intro b1 b2 r1 r2 h1 h2 hm hs ht hr1 hr2
    rw [h1] at hr1
    rw [h2] at hr2
    obtain ⟨c1, c2, c3, c4⟩ := pp_resolve_viewPos R1 b1 ps1 hr1
    obtain ⟨d1, d2, d3, d4⟩ := pp_resolve_viewPos R2 b2 ps2 hr2
    rw [← h1] at c1 c2 c3 c4
    rw [← h2] at d1 d2 d3 d4
    have hm' := c1.trans (hm.trans d1.symm)
    have hs' := c2.trans (hs.trans d2.symm)
    have ht' := c3.trans (ht.trans d3.symm)
    have hp : hasPositional b1.mLightParamsList = hasPositional b2.mLightParamsList := by
      have key : ∀ l : LightParamsList, hasPositional l
          = (l.map (fun slot => slot.mType)).any (fun t => decide (t ≠ LT_DIRECTIONAL)) := by
        intro l
        induction l with
        | nil => rfl
        | cons c r ih =>
          simp only [hasPositional, List.any_cons, List.map_cons] at ih ⊢
          rw [ih]
      rw [key, key, ht]
    refine ⟨(r1.self.addVSInvocation [] GroupOrder.FFP_VS_LIGHTING).2,
      (r1.self.addPSGlobalIlluminationInvocation [] (GroupOrder.FFP_PS_COLOUR_BEGIN_plus 1)).2
        ++ (r1.self.mLightParamsList.map (fun cur =>
            (r1.self.addPSIlluminationInvocation cur []
              (GroupOrder.FFP_PS_COLOUR_BEGIN_plus 1)).2)).flatten
        ++ (r1.self.addPSFinalAssignmentInvocation [] (GroupOrder.FFP_PS_COLOUR_BEGIN_plus 1)).2,
      (r2.self.addVSInvocation [] GroupOrder.FFP_VS_LIGHTING).2,
      (r2.self.addPSGlobalIlluminationInvocation [] (GroupOrder.FFP_PS_COLOUR_BEGIN_plus 1)).2
        ++ (r2.self.mLightParamsList.map (fun cur =>
            (r2.self.addPSIlluminationInvocation cur []
              (GroupOrder.FFP_PS_COLOUR_BEGIN_plus 1)).2)).flatten
        ++ (r2.self.addPSFinalAssignmentInvocation [] (GroupOrder.FFP_PS_COLOUR_BEGIN_plus 1)).2,
      (pp_addFunctionInvocations_eq r1.self r1.programSet).trans ?_,
      (pp_addFunctionInvocations_eq r2.self r2.programSet).trans ?_, ?_, ?_⟩
    · rw [PerPixelLighting.addVSInvocation_append]
      simp only [List.append_assoc]
    · rw [PerPixelLighting.addVSInvocation_append]
      simp only [List.append_assoc]
    · rw [List.map_append, List.map_append, List.map_append, List.map_append,
        pp_global_profile r1.self r2.self _ hm' hs',
        profile_flatten_congr _ _
          (fun c1 c2 hc => pp_slot_profile r1.self r2.self _ hm' hs' c1 c2 hc) _ _ ht',
        pp_final_profile r1.self r2.self _ hs']
    · intro hv
      apply pp_vs_profile
      rw [c4, d4, hs, hp]
      cases hsp : b2.mSpecularEnable
      · cases hpos : hasPositional b2.mLightParamsList
        · rw [hv hsp hpos]
        · simp
      · simp

/-- C27 at a concrete input: under the counting resolver, an instance that
holds handles from before and an instance with the same configuration and no
handle set, for each model. -/
theorem C27_assembly_function_of_configuration_witness :
    (sampleSpecularFFP.mTrackVertexColourType = sampleUnresolvedFFP.mTrackVertexColourType
      ∧ sampleSpecularFFP.mSpecularEnable = sampleUnresolvedFFP.mSpecularEnable
      ∧ sampleSpecularFFP.mLightParamsList.map (fun slot => slot.mType)
          = sampleUnresolvedFFP.mLightParamsList.map (fun slot => slot.mType)
      ∧ (FFPLighting.resolveParameters (countingResolver (fun _ => false)) sampleSpecularFFP
          { params := 0 }).result = .ok true
      ∧ (FFPLighting.resolveParameters (countingResolver (fun _ => false)) sampleUnresolvedFFP
          { params := 7 }).result = .ok true
      ∧ ∃ e1 e2 : List FunctionInvocation,
          (FFPLighting.resolveParameters (countingResolver (fun _ => false)) sampleSpecularFFP
              { params := 0 }).self.addFunctionInvocations
            (FFPLighting.resolveParameters (countingResolver (fun _ => false)) sampleSpecularFFP
              { params := 0 }).programSet
            = (true, { (FFPLighting.resolveParameters (countingResolver (fun _ => false))
                  sampleSpecularFFP { params := 0 }).programSet with
                vsMainAtoms := (FFPLighting.resolveParameters (countingResolver (fun _ => false))
                  sampleSpecularFFP { params := 0 }).programSet.vsMainAtoms ++ e1 })
          ∧ (FFPLighting.resolveParameters (countingResolver (fun _ => false))
              sampleUnresolvedFFP { params := 7 }).self.addFunctionInvocations
            (FFPLighting.resolveParameters (countingResolver (fun _ => false))
              sampleUnresolvedFFP { params := 7 }).programSet
            = (true, { (FFPLighting.resolveParameters (countingResolver (fun _ => false))
                  sampleUnresolvedFFP { params := 7 }).programSet with
                vsMainAtoms := (FFPLighting.resolveParameters (countingResolver (fun _ => false))
                  sampleUnresolvedFFP { params := 7 }).programSet.vsMainAtoms ++ e2 })
          ∧ e1.map FunctionInvocation.profile = e2.map FunctionInvocation.profile)
    ∧ (sampleSpecularPerPixel.mTrackVertexColourType
          = sampleUnresolvedPerPixel.mTrackVertexColourType
      ∧ sampleSpecularPerPixel.mSpecularEnable = sampleUnresolvedPerPixel.mSpecularEnable
      ∧ sampleSpecularPerPixel.mLightParamsList.map (fun slot => slot.mType)
          = sampleUnresolvedPerPixel.mLightParamsList.map (fun slot => slot.mType)
      ∧ (PerPixelLighting.resolveParameters (countingResolver (fun _ => false))
          sampleSpecularPerPixel { params := 0 }).result = .ok true
      ∧ (PerPixelLighting.resolveParameters (countingResolver (fun _ => false))
          sampleUnresolvedPerPixel { params := 7 }).result = .ok true
      ∧ (sampleUnresolvedPerPixel.mSpecularEnable = false →
          hasPositional sampleUnresolvedPerPixel.mLightParamsList = false →
          sampleSpecularPerPixel.mVSOutViewPos.isSome
            = sampleUnresolvedPerPixel.mVSOutViewPos.isSome)
      ∧ ∃ v1 v2 : List FunctionInvocation,
          ((PerPixelLighting.resolveParameters (countingResolver (fun _ => false))
              sampleSpecularPerPixel { params := 0 }).self.addFunctionInvocations
            (PerPixelLighting.resolveParameters (countingResolver (fun _ => false))
              sampleSpecularPerPixel { params := 0 }).programSet).2.vsMainAtoms
            = (PerPixelLighting.resolveParameters (countingResolver (fun _ => false))
              sampleSpecularPerPixel { params := 0 }).programSet.vsMainAtoms ++ v1
          ∧ ((PerPixelLighting.resolveParameters (countingResolver (fun _ => false))
              sampleUnresolvedPerPixel { params := 7 }).self.addFunctionInvocations
            (PerPixelLighting.resolveParameters (countingResolver (fun _ => false))
              sampleUnresolvedPerPixel { params := 7 }).programSet).2.vsMainAtoms
            = (PerPixelLighting.resolveParameters (countingResolver (fun _ => false))
              sampleUnresolvedPerPixel { params := 7 }).programSet.vsMainAtoms ++ v2
          ∧ v1.map FunctionInvocation.profile = v2.map FunctionInvocation.profile) := by
  have hF := (C27_assembly_function_of_configuration (countingResolver (fun _ => false))
    (countingResolver (fun _ => false)) { params := 0 } { params := 7 }).1
    sampleSpecularFFP sampleUnresolvedFFP _ _ rfl rfl (by rfl) (by rfl) (by rfl) (by rfl) (by rfl)
  have hP := (C27_assembly_function_of_configuration (countingResolver (fun _ => false))
    (countingResolver (fun _ => false)) { params := 0 } { params := 7 }).2
    sampleSpecularPerPixel sampleUnresolvedPerPixel _ _ rfl rfl (by rfl) (by rfl) (by rfl)
    (by rfl) (by rfl)
  refine ⟨⟨by rfl, by rfl, by rfl, by rfl, by rfl, hF⟩, by rfl, by rfl, by rfl, by rfl, by rfl,
    fun h => absurd h (by decide), ?_⟩
  obtain ⟨v1, p1, v2, p2, e1, e2, -, hv⟩ := hP
  exact ⟨v1, v2, by rw [e1], by rw [e2], hv (fun h => absurd h (by decide))⟩

/-! ### Operands of the illumination calls -/

theorem ffp_slot_call (self : FFPLighting) (cur : LightParams) (o : GroupOrder) :
    (self.addIlluminationInvocation cur [] o).2
      = preModulation o self.mVSDiffuse self.mTrackVertexColourType self.mSpecularEnable cur
        ++ [{ mFunctionName := FFPLighting.illuminationFunction cur.mType self.mSpecularEnable
              mGroupExecutionOrder := o
              mOperands := illuminationOperands []
                [In self.mWorldViewMatrix, In self.mVSInPosition]
                [In self.mWorldViewITMatrix, In self.mVSInNormal]
                self.mSurfaceShininess self.mVSOutDiffuse self.mVSOutSpecular
                self.mSpecularEnable cur }] := by
  unfold FFPLighting.addIlluminationInvocation preModulation illuminationOperands
    accumulatorOutputs slotTypeOperands
  cases hT : cur.mType <;> cases hs : self.mSpecularEnable <;>
    cases hd : tracks self.mTrackVertexColourType TVC_DIFFUSE <;>
    cases hp : tracks self.mTrackVertexColourType TVC_SPECULAR <;>
    simp [callFunction, FFPLighting.illuminationFunction, In, Out, Operand.xyz]

theorem pp_slot_call (self : PerPixelLighting) (cur : LightParams) (o : GroupOrder) :
    (self.addPSIlluminationInvocation cur [] o).2
      = preModulation o self.mPSDiffuse self.mTrackVertexColourType self.mSpecularEnable cur
        ++ [{ mFunctionName
                := PerPixelLighting.illuminationFunction cur.mType self.mSpecularEnable
              mGroupExecutionOrder := o
              mOperands := illuminationOperands [In self.mPSInNormal] [In self.mPSInViewPos] []
                self.mSurfaceShininess self.mPSTempDiffuseColour self.mPSTempSpecularColour
                self.mSpecularEnable cur }] := by
  unfold PerPixelLighting.addPSIlluminationInvocation preModulation illuminationOperands
    accumulatorOutputs slotTypeOperands
  cases hT : cur.mType <;> cases hs : self.mSpecularEnable <;>
    cases hd : tracks self.mTrackVertexColourType TVC_DIFFUSE <;>
    cases hp : tracks self.mTrackVertexColourType TVC_SPECULAR <;>
    simp [callFunction, addAtomInstance, pushOperand, PerPixelLighting.illuminationFunction, In,
      Out, Operand.xyz]

/-- C31: in either model the illumination call of a slot (the last invocation
appended for the slot) has as operands, in push order: the surface-position
input exactly when the slot is Point or Spot or `specularEnable` is set (per
vertex the world-view matrix and the object-space vertex position, pushed
first; per pixel the fragment view-space position, pushed after the normal),
so the Directional diffuse-only call has none; the normal inputs; the operands
of the slot's type; the slot's diffuse colour; exactly when `specularEnable` is
set, the slot's specular colour and the shininess; and the accumulators. -/
theorem C31_position_operand_presence :
    (∀ (self : FFPLighting) (cur : LightParams) (vsMain : List FunctionInvocation)
        (groupOrder : GroupOrder),
        (self.addIlluminationInvocation cur vsMain groupOrder).2.getLast?
          = some
            { mFunctionName := FFPLighting.illuminationFunction cur.mType self.mSpecularEnable
              mGroupExecutionOrder := groupOrder
              mOperands :=
                (if cur.mType ≠ LT_DIRECTIONAL ∨ self.mSpecularEnable = true then
                    [In self.mWorldViewMatrix, In self.mVSInPosition]
                  else [])
                ++ [In self.mWorldViewITMatrix, In self.mVSInNormal]
                ++ slotTypeOperands cur
                ++ [(In cur.mDiffuseColour).xyz]
                ++ (if self.mSpecularEnable then
                      [(In cur.mSpecularColour).xyz, In self.mSurfaceShininess]
                    else [])
                ++ [(In self.mVSOutDiffuse).xyz]
                ++ (if self.mSpecularEnable then [(In self.mVSOutSpecular).xyz] else [])
                ++ accumulatorOutputs self.mVSOutDiffuse self.mVSOutSpecular
                    self.mSpecularEnable })
    ∧ (∀ (self : PerPixelLighting) (cur : LightParams) (psMain : List FunctionInvocation)
        (groupOrder : GroupOrder),
        (self.addPSIlluminationInvocation cur psMain groupOrder).2.getLast?
          = some
            { mFunctionName
                := PerPixelLighting.illuminationFunction cur.mType self.mSpecularEnable
              mGroupExecutionOrder := groupOrder
              mOperands :=
                [In self.mPSInNormal]
                ++ (if cur.mType ≠ LT_DIRECTIONAL ∨ self.mSpecularEnable = true then
                      [In self.mPSInViewPos]
                    else [])
                ++ slotTypeOperands cur
                ++ [(In cur.mDiffuseColour).xyz]
                ++ (if self.mSpecularEnable then
                      [(In cur.mSpecularColour).xyz, In self.mSurfaceShininess]
                    else [])
                ++ [(In self.mPSTempDiffuseColour).xyz]
                ++ (if self.mSpecularEnable then [(In self.mPSTempSpecularColour).xyz] else [])
                ++ accumulatorOutputs self.mPSTempDiffuseColour self.mPSTempSpecularColour
                    self.mSpecularEnable }) := by
  constructor
  · intro self cur vsMain o
    rw [FFPLighting.addIlluminationInvocation_append, ffp_slot_call, ← List.append_assoc,
      getLast?_append_singleton]
    simp [illuminationOperands]
  · intro self cur psMain o
    rw [PerPixelLighting.addPSIlluminationInvocation_append, pp_slot_call, ← List.append_assoc,
      getLast?_append_singleton]
    simp [illuminationOperands]
/-! ### The ambient colours -/

/-- C33 fails as stated: with the ambient bit tracked and every request
answered by a fresh handle, `resolveParameters` returns true and the
surface-ambient handle it resolved is non-null, but no operand of the
invocations `addFunctionInvocations` then appends is that handle, in either
model. -/
theorem C33_surface_ambient_resolved_but_not_an_operand :
    ((FFPLighting.resolveParameters (countingResolver (fun _ => false)) sampleAmbientFFP
        { params := 0 }).result = .ok true
      ∧ tracks (FFPLighting.resolveParameters (countingResolver (fun _ => false))
          sampleAmbientFFP { params := 0 }).self.mTrackVertexColourType TVC_AMBIENT = true
      ∧ (FFPLighting.resolveParameters (countingResolver (fun _ => false)) sampleAmbientFFP
          { params := 0 }).self.mSurfaceAmbientColour = some 2
      ∧ operandParameters
          ((FFPLighting.resolveParameters (countingResolver (fun _ => false)) sampleAmbientFFP
              { params := 0 }).self.addFunctionInvocations
            (FFPLighting.resolveParameters (countingResolver (fun _ => false)) sampleAmbientFFP
              { params := 0 }).programSet).2.vsMainAtoms
        = [some 1, some 9, some 10, some 5, some 10, some 10, some 0, some 8, some 11, some 12,
            some 10, some 10])
    ∧ ((PerPixelLighting.resolveParameters (countingResolver (fun _ => false))
        sampleAmbientPerPixel { params := 0 }).result = .ok true
      ∧ tracks (PerPixelLighting.resolveParameters (countingResolver (fun _ => false))
          sampleAmbientPerPixel { params := 0 }).self.mTrackVertexColourType TVC_AMBIENT = true
      ∧ (PerPixelLighting.resolveParameters (countingResolver (fun _ => false))
          sampleAmbientPerPixel { params := 0 }).self.mSurfaceAmbientColour = some 2
      ∧ some 2 ∉ operandParameters
          (((PerPixelLighting.resolveParameters (countingResolver (fun _ => false))
              sampleAmbientPerPixel { params := 0 }).self.addFunctionInvocations
            (PerPixelLighting.resolveParameters (countingResolver (fun _ => false))
              sampleAmbientPerPixel { params := 0 }).programSet).2.vsMainAtoms
          ++ ((PerPixelLighting.resolveParameters (countingResolver (fun _ => false))
              sampleAmbientPerPixel { params := 0 }).self.addFunctionInvocations
            (PerPixelLighting.resolveParameters (countingResolver (fun _ => false))
              sampleAmbientPerPixel { params := 0 }).programSet).2.psMainAtoms)) := by
  refine ⟨⟨by rfl, by rfl, by rfl, by rfl⟩, by rfl, by rfl, by rfl, by decide⟩
theorem mem_operandParameters {atoms : List FunctionInvocation} {p : ParameterPtr} :
    p ∈ operandParameters atoms ↔ ∃ inv ∈ atoms, ∃ op ∈ inv.mOperands, op.mParameter = p := by
  simp only [operandParameters, List.mem_flatten, List.mem_map]
  constructor
  · rintro ⟨l, ⟨inv, hinv, rfl⟩, hp⟩
    obtain ⟨op, hop, rfl⟩ := List.mem_map.1 hp
    exact ⟨inv, hinv, op, hop, rfl⟩
  · rintro ⟨inv, hinv, op, hop, rfl⟩
    exact ⟨_, ⟨inv, hinv, rfl⟩, List.mem_map.2 ⟨op, hop, rfl⟩⟩

theorem ffp_operands_not_surface_ambient (a : FFPLighting) (o : GroupOrder) :
    ∀ p ∈ operandParameters
        ((a.addGlobalIlluminationInvocation [] o).2
          ++ (a.mLightParamsList.map (fun cur => (a.addIlluminationInvocation cur [] o).2)).flatten),
      (∃ f : FFPField, f ≠ FFPField.mSurfaceAmbientColour ∧ p = a.handle f)
        ∨ ∃ cur ∈ a.mLightParamsList, ∃ f : LightParamsField, p = cur.handle f := by
  intro p hp
  obtain ⟨inv, hinv, op, hop, rfl⟩ := mem_operandParameters.1 hp
  have F : ∀ f : FFPField, f ≠ FFPField.mSurfaceAmbientColour →
      ((∃ g : FFPField, g ≠ FFPField.mSurfaceAmbientColour ∧ a.handle f = a.handle g)
        ∨ ∃ cur ∈ a.mLightParamsList, ∃ g : LightParamsField, a.handle f = cur.handle g) :=
    fun f hf => Or.inl ⟨f, hf, rfl⟩
  rcases List.mem_append.1 hinv with hg | hs
  · obtain ⟨f, hf, he⟩ := ffp_global_operands a o inv hg op hop
    refine Or.inl ⟨f, ?_, he⟩
    rintro rfl
    unfold FFPLighting.globalNames at hf
    split_ifs at hf <;> simp at hf
  · obtain ⟨l, hl, hin⟩ := List.mem_flatten.1 hs
    obtain ⟨cur, hcur, rfl⟩ := List.mem_map.1 hl
    have S : ∀ g : LightParamsField,
        ((∃ f : FFPField, f ≠ FFPField.mSurfaceAmbientColour ∧ cur.handle g = a.handle f)
          ∨ ∃ c ∈ a.mLightParamsList, ∃ f : LightParamsField, cur.handle g = c.handle f) :=
      fun g => Or.inr ⟨cur, hcur, g, rfl⟩
    exact ffp_slot_operands
      (fun p => (∃ f : FFPField, f ≠ FFPField.mSurfaceAmbientColour ∧ p = a.handle f)
        ∨ ∃ c ∈ a.mLightParamsList, ∃ f : LightParamsField, p = c.handle f) a cur o
      (F .mWorldViewITMatrix (by decide)) (F .mVSInNormal (by decide))
      (F .mSurfaceShininess (by decide)) (F .mVSOutDiffuse (by decide))
      (fun _ => F .mVSDiffuse (by decide)) (fun _ => F .mVSDiffuse (by decide))
      (S .mDiffuseColour)
      (fun _ => ⟨S .mSpecularColour, F .mVSOutSpecular (by decide), F .mVSInPosition (by decide),
        F .mWorldViewMatrix (by decide)⟩)
      (fun _ => S .mDirection)
      (fun _ => ⟨S .mPosition, S .mAttenuatParams, F .mVSInPosition (by decide),
        F .mWorldViewMatrix (by decide)⟩)
      (fun _ => ⟨S .mPosition, S .mDirection, S .mAttenuatParams, S .mSpotParams,
        F .mVSInPosition (by decide), F .mWorldViewMatrix (by decide)⟩)
      inv hin op hop

theorem pp_operands_not_surface_ambient (b : PerPixelLighting) (o1 o2 : GroupOrder) :
    ∀ p ∈ operandParameters
        ((b.addVSInvocation [] o1).2
          ++ (b.addPSGlobalIlluminationInvocation [] o2).2
          ++ (b.mLightParamsList.map (fun cur =>
              (b.addPSIlluminationInvocation cur [] o2).2)).flatten
          ++ (b.addPSFinalAssignmentInvocation [] o2).2),
      (∃ f : PerPixelField, f ≠ PerPixelField.mSurfaceAmbientColour ∧ p = b.handle f)
        ∨ ∃ cur ∈ b.mLightParamsList, ∃ f : LightParamsField, p = cur.handle f := by
  intro p hp
  obtain ⟨inv, hinv, op, hop, rfl⟩ := mem_operandParameters.1 hp
  have F : ∀ f : PerPixelField, f ≠ PerPixelField.mSurfaceAmbientColour →
      ((∃ g : PerPixelField, g ≠ PerPixelField.mSurfaceAmbientColour
          ∧ b.handle f = b.handle g)
        ∨ ∃ cur ∈ b.mLightParamsList, ∃ g : LightParamsField, b.handle f = cur.handle g) :=
    fun f hf => Or.inl ⟨f, hf, rfl⟩
  simp only [List.mem_append] at hinv
  rcases hinv with ((hv | hg) | hs) | hf
  · exact pp_vs_operands
      (fun p => (∃ f : PerPixelField, f ≠ PerPixelField.mSurfaceAmbientColour ∧ p = b.handle f)
        ∨ ∃ c ∈ b.mLightParamsList, ∃ f : LightParamsField, p = c.handle f) b o1
      (F .mWorldViewITMatrix (by decide)) (F .mVSInNormal (by decide))
      (F .mVSOutNormal (by decide))
      (fun _ => ⟨F .mWorldViewMatrix (by decide), F .mVSInPosition (by decide),
        F .mVSOutViewPos (by decide)⟩) inv hv op hop
  · exact pp_ps_global_operands
      (fun p => (∃ f : PerPixelField, f ≠ PerPixelField.mSurfaceAmbientColour ∧ p = b.handle f)
        ∨ ∃ c ∈ b.mLightParamsList, ∃ f : LightParamsField, p = c.handle f) b o2
      (F .mDerivedSceneColour (by decide)) (F .mPSTempDiffuseColour (by decide))
      (F .mPSDiffuse (by decide)) (fun _ => F .mLightAmbientColour (by decide))
      (fun _ => F .mDerivedAmbientLightColour (by decide))
      (fun _ => F .mSurfaceEmissiveColour (by decide))
      (fun _ => ⟨F .mPSSpecular (by decide), F .mPSTempSpecularColour (by decide)⟩)
      inv hg op hop
  · obtain ⟨l, hl, hin⟩ := List.mem_flatten.1 hs
    obtain ⟨cur, hcur, rfl⟩ := List.mem_map.1 hl
    have S : ∀ g : LightParamsField,
        ((∃ f : PerPixelField, f ≠ PerPixelField.mSurfaceAmbientColour
            ∧ cur.handle g = b.handle f)
          ∨ ∃ c ∈ b.mLightParamsList, ∃ f : LightParamsField, cur.handle g = c.handle f) :=
      fun g => Or.inr ⟨cur, hcur, g, rfl⟩
    exact pp_ps_slot_operands
      (fun p => (∃ f : PerPixelField, f ≠ PerPixelField.mSurfaceAmbientColour ∧ p = b.handle f)
        ∨ ∃ c ∈ b.mLightParamsList, ∃ f : LightParamsField, p = c.handle f) b cur o2
      (F .mPSInNormal (by decide)) (F .mSurfaceShininess (by decide))
      (F .mPSTempDiffuseColour (by decide)) (F .mPSDiffuse (by decide))
      (S .mDiffuseColour)
      (fun _ => ⟨S .mSpecularColour, F .mPSInViewPos (by decide),
        F .mPSTempSpecularColour (by decide)⟩)
      (fun _ => S .mDirection)
      (fun _ => ⟨S .mPosition, S .mAttenuatParams, F .mPSInViewPos (by decide)⟩)
      (fun _ => ⟨S .mPosition, S .mDirection, S .mAttenuatParams, S .mSpotParams,
        F .mPSInViewPos (by decide)⟩)
      inv hin op hop
  · exact pp_ps_final_operands
      (fun p => (∃ f : PerPixelField, f ≠ PerPixelField.mSurfaceAmbientColour ∧ p = b.handle f)
        ∨ ∃ c ∈ b.mLightParamsList, ∃ f : LightParamsField, p = c.handle f) b o2
      (F .mPSTempDiffuseColour (by decide)) (F .mPSDiffuse (by decide))
      (F .mPSOutDiffuse (by decide))
      (fun _ => ⟨F .mPSTempSpecularColour (by decide), F .mPSSpecular (by decide)⟩)
      inv hf op hop

/-- C33 (amended): when the ambient bit is tracked, the global-illumination
step of either model opens with a MODULATE whose first operand is the
light-ambient handle and whose second is the vertex diffuse colour
(`mVSDiffuse`; per pixel `mPSDiffuse`), written into the diffuse accumulator.
The surface-ambient member is not read by the assembler: every operand of
every invocation appended (per vertex the global and per-slot ones; per pixel
the vertex-stage, global, per-slot and final ones) is the handle of a member
other than `mSurfaceAmbientColour`, or a handle of a slot. -/
theorem C33_light_ambient_is_the_ambient_operand (a : FFPLighting) (b : PerPixelLighting)
    (groupOrder groupOrderPS : GroupOrder) :
    ((tracks a.mTrackVertexColourType TVC_AMBIENT = true →
        (a.addGlobalIlluminationInvocation [] groupOrder).2.head?
          = some
            { mFunctionName := FunctionName.FFP_FUNC_MODULATE
              mGroupExecutionOrder := groupOrder
              mOperands := [In a.mLightAmbientColour, In a.mVSDiffuse, Out a.mVSOutDiffuse] })
      ∧ ∀ p ∈ operandParameters
          ((a.addGlobalIlluminationInvocation [] groupOrder).2
            ++ (a.mLightParamsList.map (fun cur =>
                (a.addIlluminationInvocation cur [] groupOrder).2)).flatten),
        (∃ f : FFPField, f ≠ FFPField.mSurfaceAmbientColour ∧ p = a.handle f)
          ∨ ∃ cur ∈ a.mLightParamsList, ∃ f : LightParamsField, p = cur.handle f)
    ∧ ((tracks b.mTrackVertexColourType TVC_AMBIENT = true →
        (b.addPSGlobalIlluminationInvocation [] groupOrderPS).2.head?
          = some
            { mFunctionName := FunctionName.FFP_FUNC_MODULATE
              mGroupExecutionOrder := groupOrderPS
              mOperands := [In b.mLightAmbientColour, In b.mPSDiffuse,
                Out b.mPSTempDiffuseColour] })
      ∧ ∀ p ∈ operandParameters
          ((b.addVSInvocation [] groupOrder).2
            ++ (b.addPSGlobalIlluminationInvocation [] groupOrderPS).2
            ++ (b.mLightParamsList.map (fun cur =>
                (b.addPSIlluminationInvocation cur [] groupOrderPS).2)).flatten
            ++ (b.addPSFinalAssignmentInvocation [] groupOrderPS).2),
        (∃ f : PerPixelField, f ≠ PerPixelField.mSurfaceAmbientColour ∧ p = b.handle f)
          ∨ ∃ cur ∈ b.mLightParamsList, ∃ f : LightParamsField, p = cur.handle f) := by
  refine ⟨⟨fun ha => ?_, ffp_operands_not_surface_ambient a groupOrder⟩,
    fun hb => ?_, pp_operands_not_surface_ambient b groupOrder groupOrderPS⟩
  · unfold FFPLighting.addGlobalIlluminationInvocation
    cases he : tracks a.mTrackVertexColourType TVC_EMISSIVE <;>
      simp [ha, he, callFunction]
  · unfold PerPixelLighting.addPSGlobalIlluminationInvocation
    cases he : tracks b.mTrackVertexColourType TVC_EMISSIVE <;>
      cases hs : b.mSpecularEnable <;>
      simp [hb, he, hs, callFunction, assign]

/-- C33 (amended) on instances with the ambient bit tracked and one Directional
slot. -/
theorem C33_light_ambient_is_the_ambient_operand_witness :
    (tracks sampleAmbientFFP.mTrackVertexColourType TVC_AMBIENT = true
      ∧ (sampleAmbientFFP.addGlobalIlluminationInvocation [] GroupOrder.FFP_VS_LIGHTING).2.head?
          = some
            { mFunctionName := FunctionName.FFP_FUNC_MODULATE
              mGroupExecutionOrder := GroupOrder.FFP_VS_LIGHTING
              mOperands := [In sampleAmbientFFP.mLightAmbientColour,
                In sampleAmbientFFP.mVSDiffuse, Out sampleAmbientFFP.mVSOutDiffuse] })
    ∧ (tracks sampleAmbientPerPixel.mTrackVertexColourType TVC_AMBIENT = true
      ∧ (sampleAmbientPerPixel.addPSGlobalIlluminationInvocation []
            (GroupOrder.FFP_PS_COLOUR_BEGIN_plus 1)).2.head?
          = some
            { mFunctionName := FunctionName.FFP_FUNC_MODULATE
              mGroupExecutionOrder := GroupOrder.FFP_PS_COLOUR_BEGIN_plus 1
              mOperands := [In sampleAmbientPerPixel.mLightAmbientColour,
                In sampleAmbientPerPixel.mPSDiffuse,
                Out sampleAmbientPerPixel.mPSTempDiffuseColour] }) :=
  ⟨⟨by rfl, (C33_light_ambient_is_the_ambient_operand sampleAmbientFFP sampleAmbientPerPixel
      GroupOrder.FFP_VS_LIGHTING (GroupOrder.FFP_PS_COLOUR_BEGIN_plus 1)).1.1 (by rfl)⟩,
    by rfl, (C33_light_ambient_is_the_ambient_operand sampleAmbientFFP sampleAmbientPerPixel
      GroupOrder.FFP_VS_LIGHTING (GroupOrder.FFP_PS_COLOUR_BEGIN_plus 1)).2.1 (by rfl)⟩
/-! ### Counting slots: `getLightCount` after `setLightCount` and `copyFrom` -/

theorem getLightCountStep_eq (c : Fin 3 → Int) (cur : LightParams) :
    getLightCountStep c cur
      = Function.update c cur.mType.countIndex (c cur.mType.countIndex + 1) := by
  unfold getLightCountStep
  cases cur.mType <;> simp [LightTypes.countIndex]

theorem getLightCount_fold (slots : LightParamsList) :
    ∀ c : Fin 3 → Int,
      slots.foldl getLightCountStep c
        = fun i => c i + (slots.countP (fun slot => decide (slot.mType.countIndex = i)) : Nat) := by
  induction slots with
  | nil => intro c; simp
  | cons cur rest ih =>
    intro c
    rw [List.foldl_cons, ih, getLightCountStep_eq]
    funext i
    by_cases hi : cur.mType.countIndex = i
    · subst hi
      simp [List.countP_cons, Function.update]
      ring
    · have hi2 : ¬ i = cur.mType.countIndex := fun h => hi h.symm
      simp [List.countP_cons, Function.update, hi, hi2]

theorem getLightCount_counts (slots : LightParamsList) :
    slots.foldl getLightCountStep ![0, 0, 0]
      = ![(countSlots LT_POINT slots : Int), (countSlots LT_DIRECTIONAL slots : Int),
          (countSlots LT_SPOTLIGHT slots : Int)] := by
  rw [getLightCount_fold]
  have h : ∀ (T : LightTypes) (i : Fin 3), T.countIndex = i →
      slots.countP (fun slot => decide (slot.mType.countIndex = i)) = countSlots T slots := by
    intro T i hi
    unfold countSlots
    congr 1
    funext slot
    subst hi
    cases T <;> cases slot.mType <;> simp [LightTypes.countIndex]
  funext i
  fin_cases i
  · simp [h LT_POINT 0 rfl]
  · simp [h LT_DIRECTIONAL 1 rfl]
  · simp [h LT_SPOTLIGHT 2 rfl]

theorem getLightCount_countBlock (c : Fin 3 → Int) :
    (countBlock c).foldl getLightCountStep ![0, 0, 0] = fun i => max (c i) 0 := by
  rw [getLightCount_counts]
  funext i
  fin_cases i <;>
    simp [countSlots, countBlock, emptySlot, List.countP_append, List.countP_replicate]

/-- C34: for every integer triple `c`, on an instance of either model whose
slot list is empty, `getLightCount` after `setLightCount(c)` returns the
component-wise maximum of `c` and 0; so it returns `c i` at every index where
`c i` is not negative, and a negative entry counts as zero.  Both methods are
total: they return for every triple. -/
theorem C34_count_round_trip (c : Fin 3 → Int) (a : FFPLighting) (b : PerPixelLighting)
    (ha : a.mLightParamsList = []) (hb : b.mLightParamsList = []) :
    (a.setLightCount c).getLightCount = (fun i => max (c i) 0)
    ∧ (b.setLightCount c).getLightCount = (fun i => max (c i) 0)
    ∧ ∀ i, 0 ≤ c i →
        (a.setLightCount c).getLightCount i = c i ∧ (b.setLightCount c).getLightCount i = c i := by
  have h1 : (a.setLightCount c).getLightCount = (fun i => max (c i) 0) := by
    unfold FFPLighting.getLightCount
    rw [ffp_setLightCount_list, ha, List.nil_append, getLightCount_countBlock]
  have h2 : (b.setLightCount c).getLightCount = (fun i => max (c i) 0) := by
    unfold PerPixelLighting.getLightCount
    rw [pp_setLightCount_list, hb, List.nil_append, getLightCount_countBlock]
  refine ⟨h1, h2, fun i hi => ?_⟩
  rw [h1, h2]
  exact ⟨max_eq_left hi, max_eq_left hi⟩

/-- C34 at the triple `(2, -1, 3)` on freshly constructed instances: the counts
read back are `(2, 0, 3)`, and the first is the one requested. -/
theorem C34_count_round_trip_witness :
    (({} : FFPLighting).mLightParamsList = [] ∧ ({} : PerPixelLighting).mLightParamsList = []
      ∧ (0 : Int) ≤ lightCountOf 2 (-1) 3 0)
    ∧ ((({} : FFPLighting).setLightCount (lightCountOf 2 (-1) 3)).getLightCount
        = (fun i => max (lightCountOf 2 (-1) 3 i) 0)
      ∧ (({} : PerPixelLighting).setLightCount (lightCountOf 2 (-1) 3)).getLightCount
        = (fun i => max (lightCountOf 2 (-1) 3 i) 0)
      ∧ (({} : FFPLighting).setLightCount (lightCountOf 2 (-1) 3)).getLightCount 0
          = lightCountOf 2 (-1) 3 0
      ∧ (({} : PerPixelLighting).setLightCount (lightCountOf 2 (-1) 3)).getLightCount 0
          = lightCountOf 2 (-1) 3 0) :=
  ⟨⟨rfl, rfl, by decide⟩,
    (C34_count_round_trip (lightCountOf 2 (-1) 3) {} {} rfl rfl).1,
    (C34_count_round_trip (lightCountOf 2 (-1) 3) {} {} rfl rfl).2.1,
    (C34_count_round_trip (lightCountOf 2 (-1) 3) {} {} rfl rfl).2.2 0 (by decide)⟩

theorem countBlock_counts (slots : LightParamsList) :
    countBlock ![(countSlots LT_POINT slots : Int), (countSlots LT_DIRECTIONAL slots : Int),
        (countSlots LT_SPOTLIGHT slots : Int)]
      = List.replicate (countSlots LT_POINT slots) (emptySlot LT_POINT)
        ++ List.replicate (countSlots LT_DIRECTIONAL slots) (emptySlot LT_DIRECTIONAL)
        ++ List.replicate (countSlots LT_SPOTLIGHT slots) (emptySlot LT_SPOTLIGHT) := by
  simp [countBlock]

theorem countBlock_empty_slots (c : Fin 3 → Int) :
    ∀ slot ∈ countBlock c, slot = emptySlot slot.mType := by
  intro slot hs
  simp only [countBlock, List.mem_append, List.mem_replicate] at hs
  rcases hs with (⟨-, rfl⟩ | ⟨-, rfl⟩) | ⟨-, rfl⟩ <;> rfl

/-- C35: in either model, for every source instance and every target whose
slot list is empty, after `target.copyFrom(source)` the light counts of the
target are those of the source; the slot list of the target is the Point
slots, then the Directional slots, then the Spot slots, as many of each as the
source has, whatever the order in the source; it is grouped by type; every
slot is as `setLightCount` creates it, with no handle set; and the tracking
mask and the specular flag of the target are the ones it had. -/
theorem C35_copyFrom_copies_counts (source target : FFPLighting)
    (sourcePS targetPS : PerPixelLighting)
    (ht : target.mLightParamsList = []) (htp : targetPS.mLightParamsList = []) :
    ((target.copyFrom source).getLightCount = source.getLightCount
      ∧ (target.copyFrom source).mLightParamsList
        = List.replicate (countSlots LT_POINT source.mLightParamsList) (emptySlot LT_POINT)
          ++ List.replicate (countSlots LT_DIRECTIONAL source.mLightParamsList)
              (emptySlot LT_DIRECTIONAL)
          ++ List.replicate (countSlots LT_SPOTLIGHT source.mLightParamsList)
              (emptySlot LT_SPOTLIGHT)
      ∧ Grouped ((target.copyFrom source).mLightParamsList.map (fun slot => slot.mType))
      ∧ (∀ slot ∈ (target.copyFrom source).mLightParamsList, slot = emptySlot slot.mType)
      ∧ (target.copyFrom source).mTrackVertexColourType = target.mTrackVertexColourType
      ∧ (target.copyFrom source).mSpecularEnable = target.mSpecularEnable)
    ∧ ((targetPS.copyFrom sourcePS).getLightCount = sourcePS.getLightCount
      ∧ (targetPS.copyFrom sourcePS).mLightParamsList
        = List.replicate (countSlots LT_POINT sourcePS.mLightParamsList) (emptySlot LT_POINT)
          ++ List.replicate (countSlots LT_DIRECTIONAL sourcePS.mLightParamsList)
              (emptySlot LT_DIRECTIONAL)
          ++ List.replicate (countSlots LT_SPOTLIGHT sourcePS.mLightParamsList)
              (emptySlot LT_SPOTLIGHT)
      ∧ Grouped ((targetPS.copyFrom sourcePS).mLightParamsList.map (fun slot => slot.mType))
      ∧ (∀ slot ∈ (targetPS.copyFrom sourcePS).mLightParamsList, slot = emptySlot slot.mType)
      ∧ (targetPS.copyFrom sourcePS).mTrackVertexColourType = targetPS.mTrackVertexColourType
      ∧ (targetPS.copyFrom sourcePS).mSpecularEnable = targetPS.mSpecularEnable) := by
  have h1 : (target.copyFrom source).mLightParamsList = countBlock source.getLightCount := by
    unfold FFPLighting.copyFrom
    rw [ffp_setLightCount_list, ht, List.nil_append]
  have h2 : (targetPS.copyFrom sourcePS).mLightParamsList
      = countBlock sourcePS.getLightCount := by
    unfold PerPixelLighting.copyFrom
    rw [pp_setLightCount_list, htp, List.nil_append]
  have g1 : source.getLightCount
      = ![(countSlots LT_POINT source.mLightParamsList : Int),
          (countSlots LT_DIRECTIONAL source.mLightParamsList : Int),
          (countSlots LT_SPOTLIGHT source.mLightParamsList : Int)] :=
    getLightCount_counts _
  have g2 : sourcePS.getLightCount
      = ![(countSlots LT_POINT sourcePS.mLightParamsList : Int),
          (countSlots LT_DIRECTIONAL sourcePS.mLightParamsList : Int),
          (countSlots LT_SPOTLIGHT sourcePS.mLightParamsList : Int)] :=
    getLightCount_counts _
  refine ⟨⟨?_, ?_, ?_, ?_, rfl, rfl⟩, ?_, ?_, ?_, ?_, rfl, rfl⟩
  · unfold FFPLighting.getLightCount at g1 ⊢
    rw [h1, getLightCount_countBlock]
    unfold FFPLighting.getLightCount
    rw [g1]
    funext i
    fin_cases i <;> simp
  · rw [h1, g1, countBlock_counts]
  · rw [h1]
    exact countBlock_grouped _
  · rw [h1]
    exact countBlock_empty_slots _
  · unfold PerPixelLighting.getLightCount at g2 ⊢
    rw [h2, getLightCount_countBlock]
    unfold PerPixelLighting.getLightCount
    rw [g2]
    funext i
    fin_cases i <;> simp
  · rw [h2, g2, countBlock_counts]
  · rw [h2]
    exact countBlock_grouped _
  · rw [h2]
    exact countBlock_empty_slots _

/-- C35 with sources holding resolved slots Point, Point, Directional and
freshly constructed targets. -/
theorem C35_copyFrom_copies_counts_witness :
    (({} : FFPLighting).mLightParamsList = [] ∧ ({} : PerPixelLighting).mLightParamsList = [])
    ∧ ((({} : FFPLighting).copyFrom sampleFFP3).getLightCount = sampleFFP3.getLightCount
      ∧ (({} : FFPLighting).copyFrom sampleFFP3).mLightParamsList
        = [emptySlot LT_POINT, emptySlot LT_POINT, emptySlot LT_DIRECTIONAL])
    ∧ ((({} : PerPixelLighting).copyFrom samplePerPixel3).getLightCount
        = samplePerPixel3.getLightCount
      ∧ (({} : PerPixelLighting).copyFrom samplePerPixel3).mLightParamsList
        = [emptySlot LT_POINT, emptySlot LT_POINT, emptySlot LT_DIRECTIONAL]) :=
  ⟨⟨rfl, rfl⟩,
    ⟨(C35_copyFrom_copies_counts sampleFFP3 {} samplePerPixel3 {} rfl rfl).1.1,
      (C35_copyFrom_copies_counts sampleFFP3 {} samplePerPixel3 {} rfl rfl).1.2.1⟩,
    (C35_copyFrom_copies_counts sampleFFP3 {} samplePerPixel3 {} rfl rfl).2.1,
    (C35_copyFrom_copies_counts sampleFFP3 {} samplePerPixel3 {} rfl rfl).2.2.1⟩
/-! ### The failure of `preAddToRenderState` -/

/-- C39: in either model, when the pass has lighting enabled and requests
iterate-per-light without a one-light-type restriction, `preAddToRenderState`
raises `ERR_INVALIDPARAMS`, and the object it leaves has the tracking mask of
the pass and the specular flag computed from the pass (shininess positive and
specular colour not black), both stored before the exception, while the slot
list is the one before the call. -/
theorem C39_failure_keeps_the_new_flags (a : FFPLighting) (b : PerPixelLighting)
    (renderState : RenderState) (srcPass : SourcePass)
    (hlit : srcPass.getLightingEnabled = true) (hiter : srcPass.getIteratePerLight = true)
    (hone : srcPass.getRunOnlyForOneLightType = false) :
    ((a.preAddToRenderState renderState srcPass).result
          = .error (iterativeLightingError "FFPLighting::preAddToRenderState")
        ∧ (a.preAddToRenderState renderState srcPass).self.mTrackVertexColourType
          = srcPass.getVertexColourTracking
        ∧ (a.preAddToRenderState renderState srcPass).self.mSpecularEnable
          = decide (srcPass.getShininess > 0 ∧ srcPass.getSpecular ≠ ColourValue.Black)
        ∧ (a.preAddToRenderState renderState srcPass).self.mLightParamsList
          = a.mLightParamsList)
    ∧ ((b.preAddToRenderState renderState srcPass).result
          = .error (iterativeLightingError "PerPixelLighting::preAddToRenderState")
        ∧ (b.preAddToRenderState renderState srcPass).self.mTrackVertexColourType
          = srcPass.getVertexColourTracking
        ∧ (b.preAddToRenderState renderState srcPass).self.mSpecularEnable
          = decide (srcPass.getShininess > 0 ∧ srcPass.getSpecular ≠ ColourValue.Black)
        ∧ (b.preAddToRenderState renderState srcPass).self.mLightParamsList
          = b.mLightParamsList) := by
  have ho : ∀ c s, overrideLightPolicy srcPass c s = .error (iterativeLightingError s) := by
    intro c s
    simp [overrideLightPolicy, hiter, hone]
  rw [ffp_preAdd_lit a renderState srcPass hlit, pp_preAdd_lit b renderState srcPass hlit, ho, ho]
  exact ⟨⟨rfl, rfl, rfl, rfl⟩, rfl, rfl, rfl, rfl⟩

/-- C39 on instances that track no vertex colour and hold two slots, with a
pass that tracks the diffuse colour. -/
theorem C39_failure_keeps_the_new_flags_witness :
    (sampleTrackingIteratePass.getLightingEnabled = true
      ∧ sampleTrackingIteratePass.getIteratePerLight = true
      ∧ sampleTrackingIteratePass.getRunOnlyForOneLightType = false)
    ∧ (sampleFFP.mTrackVertexColourType = TVC_NONE
      ∧ sampleTrackingIteratePass.getVertexColourTracking = TVC_DIFFUSE)
    ∧ ((sampleFFP.preAddToRenderState sampleRenderState sampleTrackingIteratePass).result
          = .error (iterativeLightingError "FFPLighting::preAddToRenderState")
        ∧ (sampleFFP.preAddToRenderState sampleRenderState
            sampleTrackingIteratePass).self.mTrackVertexColourType
          = sampleTrackingIteratePass.getVertexColourTracking
        ∧ (sampleFFP.preAddToRenderState sampleRenderState
            sampleTrackingIteratePass).self.mSpecularEnable
          = decide (sampleTrackingIteratePass.getShininess > 0
              ∧ sampleTrackingIteratePass.getSpecular ≠ ColourValue.Black)
        ∧ (sampleFFP.preAddToRenderState sampleRenderState
            sampleTrackingIteratePass).self.mLightParamsList
          = sampleFFP.mLightParamsList)
    ∧ ((samplePerPixel.preAddToRenderState sampleRenderState sampleTrackingIteratePass).result
          = .error (iterativeLightingError "PerPixelLighting::preAddToRenderState")
        ∧ (samplePerPixel.preAddToRenderState sampleRenderState
            sampleTrackingIteratePass).self.mTrackVertexColourType
          = sampleTrackingIteratePass.getVertexColourTracking
        ∧ (samplePerPixel.preAddToRenderState sampleRenderState
            sampleTrackingIteratePass).self.mSpecularEnable
          = decide (sampleTrackingIteratePass.getShininess > 0
              ∧ sampleTrackingIteratePass.getSpecular ≠ ColourValue.Black)
        ∧ (samplePerPixel.preAddToRenderState sampleRenderState
            sampleTrackingIteratePass).self.mLightParamsList
          = samplePerPixel.mLightParamsList) :=
  ⟨⟨rfl, rfl, rfl⟩, ⟨rfl, rfl⟩,
    C39_failure_keeps_the_new_flags sampleFFP samplePerPixel sampleRenderState
      sampleTrackingIteratePass rfl rfl rfl⟩
/-! ### The fragment diffuse colour is looked up, never created -/

section DiffuseLookup

variable {σ : Type}

theorem pp_resolvePSDiffuse_value (R : Resolver σ) (st : ResolveState PerPixelLighting σ) :
    (PerPixelLighting.resolvePSDiffuse R st).self.mPSDiffuse
      = if (R (.getInputParameter GpuProgramType.GPT_FRAGMENT_PROGRAM Content.SPC_COLOR_DIFFUSE)
            st.programSet.params).1 = none then
          (R (.getLocalParameter GpuProgramType.GPT_FRAGMENT_PROGRAM Content.SPC_COLOR_DIFFUSE)
            st.programSet.params).1
        else
          (R (.getInputParameter GpuProgramType.GPT_FRAGMENT_PROGRAM Content.SPC_COLOR_DIFFUSE)
            st.programSet.params).1 := by
  unfold PerPixelLighting.resolvePSDiffuse
  simp only [ResolveState.lookup, ProgramSet.lookup]
  split_ifs <;> rfl

theorem pp_resolveSpecularGlobals_diffuse (R : Resolver σ)
    (st : ResolveState PerPixelLighting σ) :
    (PerPixelLighting.resolveSpecularGlobals R st).self.mPSDiffuse = st.self.mPSDiffuse := by
  unfold PerPixelLighting.resolveSpecularGlobals PerPixelLighting.resolvePSInViewPos
    PerPixelLighting.resolvePSSpecular
  simp only [ResolveState.lookup, ResolveState.resolve, ResolveState.check]
  split_ifs <;> rfl

/-- The fragment diffuse colour the global resolver leaves is the answer of
the lookup `getInputParameter`, or when that is null of the lookup
`getLocalParameter`, both in the same state of the parameter tables. -/
theorem pp_global_diffuse (R : Resolver σ) (self : PerPixelLighting) (ps : ProgramSet σ) :
    ∃ s : σ,
      (PerPixelLighting.resolveGlobalParametersState R self ps).self.mPSDiffuse
        = if (R (.getInputParameter GpuProgramType.GPT_FRAGMENT_PROGRAM
              Content.SPC_COLOR_DIFFUSE) s).1 = none then
            (R (.getLocalParameter GpuProgramType.GPT_FRAGMENT_PROGRAM
              Content.SPC_COLOR_DIFFUSE) s).1
          else
            (R (.getInputParameter GpuProgramType.GPT_FRAGMENT_PROGRAM
              Content.SPC_COLOR_DIFFUSE) s).1 := by
  unfold PerPixelLighting.resolveGlobalParametersState
  simp only [pp_resolveSpecularGlobals_diffuse]
  exact ⟨_, pp_resolvePSDiffuse_value R _⟩

end DiffuseLookup

/-- C37: the fragment diffuse colour that `resolveGlobalParameters` leaves is
the answer of a lookup, `getInputParameter` or, when that is null,
`getLocalParameter` in the same state of the parameter tables: it is never the
answer of a `resolve` request, which would create the parameter (as is done
for the specular colour).  So when the fragment function has neither (both
lookups are answered null), `resolveGlobalParameters` raises its internal
error, and so does `resolveParameters`, whatever the answers to the resolve
requests. -/
theorem C37_fragment_diffuse_never_created {σ : Type} (R : Resolver σ)
    (self : PerPixelLighting) (ps : ProgramSet σ) :
    (∃ s : σ,
      (PerPixelLighting.resolveGlobalParameters R self ps).self.mPSDiffuse
        = if (R (.getInputParameter GpuProgramType.GPT_FRAGMENT_PROGRAM
              Content.SPC_COLOR_DIFFUSE) s).1 = none then
            (R (.getLocalParameter GpuProgramType.GPT_FRAGMENT_PROGRAM
              Content.SPC_COLOR_DIFFUSE) s).1
          else
            (R (.getInputParameter GpuProgramType.GPT_FRAGMENT_PROGRAM
              Content.SPC_COLOR_DIFFUSE) s).1)
    ∧ ((∀ s, (R (.getInputParameter GpuProgramType.GPT_FRAGMENT_PROGRAM
            Content.SPC_COLOR_DIFFUSE) s).1 = none) →
        (∀ s, (R (.getLocalParameter GpuProgramType.GPT_FRAGMENT_PROGRAM
            Content.SPC_COLOR_DIFFUSE) s).1 = none) →
        (PerPixelLighting.resolveGlobalParameters R self ps).result
            = .error PerPixelLighting.globalError
          ∧ (PerPixelLighting.resolveParameters R self ps).result
            = .error PerPixelLighting.globalError) := by
  obtain ⟨s, hs⟩ := pp_global_diffuse R self ps
  obtain ⟨f1, -, -, f4, -⟩ :=
    finish_result (PerPixelLighting.resolveGlobalParametersState R self ps)
      PerPixelLighting.globalError
  have hself : (PerPixelLighting.resolveGlobalParameters R self ps).self
      = (PerPixelLighting.resolveGlobalParametersState R self ps).self := f4
  refine ⟨⟨s, by rw [hself]; exact hs⟩, fun hin hloc => ?_⟩
  have hnone : (PerPixelLighting.resolveGlobalParametersState R self ps).self.mPSDiffuse
      = none := by
    rw [hs, if_pos (hin s)]
    exact hloc s
  have herr : (PerPixelLighting.resolveGlobalParametersState R self ps).hasError = true :=
    (pp_global_chk R self ps).2 ⟨_, by simp [PerPixelLighting.requiredGlobals], hnone⟩
  have hres : (PerPixelLighting.resolveGlobalParameters R self ps).result
      = .error PerPixelLighting.globalError := f1.2 herr
  refine ⟨hres, ?_⟩
  unfold PerPixelLighting.resolveParameters
  simp only [hres]

/-- C37 with a resolver that answers every resolve request by a fresh handle
and every lookup with null, on a freshly constructed instance. -/
theorem C37_fragment_diffuse_never_created_witness :
    ((∀ req s, req.isLookup = false → (countingResolver Request.isLookup req s).1 ≠ none)
      ∧ (∀ s, (countingResolver Request.isLookup
            (.getInputParameter GpuProgramType.GPT_FRAGMENT_PROGRAM Content.SPC_COLOR_DIFFUSE)
            s).1 = none)
      ∧ (∀ s, (countingResolver Request.isLookup
            (.getLocalParameter GpuProgramType.GPT_FRAGMENT_PROGRAM Content.SPC_COLOR_DIFFUSE)
            s).1 = none))
    ∧ (PerPixelLighting.resolveGlobalParameters (countingResolver Request.isLookup) {}
          { params := 0 }).result = .error PerPixelLighting.globalError
    ∧ (PerPixelLighting.resolveParameters (countingResolver Request.isLookup) {}
          { params := 0 }).result = .error PerPixelLighting.globalError :=
  ⟨⟨fun req s h => by simp [countingResolver, h], fun _ => rfl, fun _ => rfl⟩,
    (C37_fragment_diffuse_never_created (countingResolver Request.isLookup) {}
      { params := 0 }).2 (fun _ => rfl) (fun _ => rfl)⟩
/-! ### The values written do not depend on the handles -/

theorem updateLightType_values_congr (source : AutoParamDataSource) (s1 s2 : LightParams)
    (L : Light) (w1 w2 : List GpuWrite) (ht : s1.mType = s2.mType)
    (h1 : updateLightType source s1 L = some w1) (h2 : updateLightType source s2 L = some w2) :
    w1.map (fun w => (w.field, w.value)) = w2.map (fun w => (w.field, w.value)) := by
  unfold updateLightType at h1 h2
  rw [ht] at h1
  cases hT : s2.mType <;>
    simp only [hT, setGpuParameter, Option.bind_eq_bind, Option.pure_def, Option.bind_eq_some,
      Option.map_eq_some', Option.some.injEq] at h1 h2
  · obtain ⟨_, ⟨a, _, rfl⟩, _, ⟨b, _, rfl⟩, rfl⟩ := h1
    obtain ⟨_, ⟨c, _, rfl⟩, _, ⟨d, _, rfl⟩, rfl⟩ := h2
    rfl
  · obtain ⟨_, ⟨a, _, rfl⟩, rfl⟩ := h1
    obtain ⟨_, ⟨c, _, rfl⟩, rfl⟩ := h2
    rfl
  · obtain ⟨_, ⟨a, _, rfl⟩, _, ⟨b, _, rfl⟩, _, ⟨c, _, rfl⟩, _, ⟨d, _, rfl⟩, rfl⟩ := h1
    obtain ⟨_, ⟨e, _, rfl⟩, _, ⟨f, _, rfl⟩, _, ⟨g, _, rfl⟩, _, ⟨k, _, rfl⟩, rfl⟩ := h2
    rfl

theorem updateLightColours_values_congr (tvc : Nat) (spec : Bool) (pass : Pass)
    (s1 s2 : LightParams) (L : Light) (w1 w2 : List GpuWrite)
    (h1 : updateLightColours tvc spec pass s1 L = some w1)
    (h2 : updateLightColours tvc spec pass s2 L = some w2) :
    w1.map (fun w => (w.field, w.value)) = w2.map (fun w => (w.field, w.value)) := by
  unfold updateLightColours at h1 h2
  cases spec <;> cases hd : tracks tvc TVC_DIFFUSE <;> cases hs : tracks tvc TVC_SPECULAR <;>
    simp only [hd, hs, setGpuParameter, Option.bind_eq_bind, Option.pure_def,
      Option.bind_eq_some, Option.map_eq_some', Option.some.injEq, Bool.false_eq_true,
      Bool.true_eq_false, ↓reduceIte] at h1 h2
  all_goals first
    | (obtain ⟨_, ⟨a, _, rfl⟩, rfl⟩ := h1
       obtain ⟨_, ⟨b, _, rfl⟩, rfl⟩ := h2
       rfl)
    | (obtain ⟨_, ⟨a, _, rfl⟩, _, ⟨b, _, rfl⟩, rfl⟩ := h1
       obtain ⟨_, ⟨c, _, rfl⟩, _, ⟨d, _, rfl⟩, rfl⟩ := h2
       rfl)

theorem writesOf_values_congr (tvc : Nat) (spec : Bool) (pass : Pass)
    (source : AutoParamDataSource) (lights : List Light) (blank : Light)
    (s1 s2 : LightParams) (u1 u2 : SlotUpdate) (ht : s1.mType = s2.mType)
    (hi : u1.srcIndex = u2.srcIndex)
    (h1 : SlotUpdate.writesOf tvc spec pass source lights blank s1 u1)
    (h2 : SlotUpdate.writesOf tvc spec pass source lights blank s2 u2) :
    u1.writes.map (fun w => (w.field, w.value)) = u2.writes.map (fun w => (w.field, w.value)) := by
  obtain ⟨a1, a2, ha1, ha2, ha⟩ := h1
  obtain ⟨b1, b2, hb1, hb2, hb⟩ := h2
  have hL : u1.srcLight lights blank = u2.srcLight lights blank := by
    unfold SlotUpdate.srcLight
    rw [hi]
  rw [hL] at ha1 ha2
  rw [ha, hb, List.map_append, List.map_append,
    updateLightType_values_congr source s1 s2 _ a1 b1 ht ha1 hb1,
    updateLightColours_values_congr tvc spec pass s1 s2 _ a2 b2 ha2 hb2]

theorem updates_values_congr (tvc : Nat) (spec : Bool) (pass : Pass)
    (source : AutoParamDataSource) (lights : List Light) (blank : Light) :
    ∀ (slots1 slots2 : LightParamsList) (r1 r2 : List SlotUpdate),
      List.Forall₂ (SlotUpdate.writesOf tvc spec pass source lights blank) slots1 r1 →
      List.Forall₂ (SlotUpdate.writesOf tvc spec pass source lights blank) slots2 r2 →
      slots1.map (fun p => p.mType) = slots2.map (fun p => p.mType) →
      r1.map (fun u => (u.searchFrom, u.srcIndex)) = r2.map (fun u => (u.searchFrom, u.srcIndex)) →
      r1.map (fun u => (u.searchFrom, u.srcIndex, u.writes.map (fun w => (w.field, w.value))))
        = r2.map (fun u => (u.searchFrom, u.srcIndex,
            u.writes.map (fun w => (w.field, w.value)))) := by
  intro slots1 slots2 r1 r2 h1
  induction h1 generalizing slots2 r2 with
  | nil =>
    intro h2 ht hr
    cases h2 with
    | nil => rfl
    | cons _ _ => simp at ht
  | cons hw1 _ ih =>
    intro h2 ht hr
    cases h2 with
    | nil => simp at ht
    | cons hw2 hrest2 =>
      simp only [List.map_cons, List.cons.injEq, Prod.mk.injEq] at ht hr ⊢
      exact ⟨⟨hr.1.1, hr.1.2,
        writesOf_values_congr tvc spec pass source lights blank _ _ _ _ ht.1 hr.1.2 hw1 hw2⟩,
        ih _ _ hrest2 ht.2 hr.2⟩

/-- The updaters write the same values through different handles: for slot
lists of the same types, resolved in each model, both return, with the same
cursor, source light, and (field, value) pairs for every slot. -/
theorem updaters_values_agree (a : FFPLighting) (b : PerPixelLighting)
    (pass : Pass) (source : AutoParamDataSource) (init : Light) (lights : List Light)
    (hm : a.mTrackVertexColourType = b.mTrackVertexColourType)
    (hs : a.mSpecularEnable = b.mSpecularEnable)
    (ht : a.mLightParamsList.map (fun p => p.mType) = b.mLightParamsList.map (fun p => p.mType))
    (ha : ∀ slot ∈ a.mLightParamsList, slot.resolved a.mSpecularEnable)
    (hb : ∀ slot ∈ b.mLightParamsList, slot.resolved b.mSpecularEnable) :
    ∃ ra rb, a.updateGpuProgramsParams pass source init (some lights) = some ra
      ∧ b.updateGpuProgramsParams pass source init (some lights) = some rb
      ∧ ra.map (fun u => (u.searchFrom, u.srcIndex, u.writes.map (fun w => (w.field, w.value))))
        = rb.map (fun u => (u.searchFrom, u.srcIndex,
            u.writes.map (fun w => (w.field, w.value)))) := by
  obtain ⟨ra, hra⟩ := FFPLighting.update_isSome a pass source init (some lights) ha
  obtain ⟨rb, hrb⟩ := FFPLighting.update_isSome
    { mTrackVertexColourType := b.mTrackVertexColourType
      mSpecularEnable := b.mSpecularEnable
      mLightParamsList := b.mLightParamsList } pass source init (some lights) hb
  obtain ⟨a1, a2⟩ := FFPLighting.update_spec a pass source init (some lights) ra hra
  obtain ⟨b1, b2⟩ := FFPLighting.update_spec _ pass source init (some lights) rb hrb
  refine ⟨ra, rb, hra, (PerPixelLighting.update_eq b pass source init lights).trans hrb, ?_⟩
  rw [hm, hs] at a2
  refine updates_values_congr _ _ pass source _ _ _ _ ra rb a2 b2 ht ?_
  rw [a1, b1, ht]
/-! ### The two updaters on a non-null light list -/

/-- C36: for every tracking mask, specular flag, pass, data source (view
matrices) and non-null active-light list, the per-vertex and the per-pixel
updater agree.  On the same slot list they return the same result: the same
source light for every slot (`srcIndex`, and the cursor `searchFrom`) and the
same writes in the same order, or both dereference a null handle at the same
place.  On slot lists of the same types whose handles differ, resolved in each
model, both return, and the cursor, the source light and the sequence of
(field, value) pairs written are the same for every slot. -/
theorem C36_updaters_agree_on_light_lists (a : FFPLighting) (b : PerPixelLighting)
    (pass : Pass) (source : AutoParamDataSource) (init : Light) (lights : List Light)
    (hm : a.mTrackVertexColourType = b.mTrackVertexColourType)
    (hs : a.mSpecularEnable = b.mSpecularEnable) :
    (a.mLightParamsList = b.mLightParamsList →
      a.updateGpuProgramsParams pass source init (some lights)
        = b.updateGpuProgramsParams pass source init (some lights))
    ∧ (a.mLightParamsList.map (fun p => p.mType) = b.mLightParamsList.map (fun p => p.mType) →
      (∀ slot ∈ a.mLightParamsList, slot.resolved a.mSpecularEnable) →
      (∀ slot ∈ b.mLightParamsList, slot.resolved b.mSpecularEnable) →
      ∃ ra rb, a.updateGpuProgramsParams pass source init (some lights) = some ra
        ∧ b.updateGpuProgramsParams pass source init (some lights) = some rb
        ∧ ra.map (fun u =>
              (u.searchFrom, u.srcIndex, u.writes.map (fun w => (w.field, w.value))))
          = rb.map (fun u =>
              (u.searchFrom, u.srcIndex, u.writes.map (fun w => (w.field, w.value))))) := by
  constructor
  · intro hl
    unfold FFPLighting.updateGpuProgramsParams PerPixelLighting.updateGpuProgramsParams
    rw [hl, PerPixelLighting.updateLoop_eq b a hm hs]
  · intro ht ha hb
    exact updaters_values_agree a b pass source init lights hm hs ht ha hb

/-- C36 on the slots Point, Point, Directional and two point lights and one
directional light, against a per-pixel instance with the same handles and
against one with other handles. -/
theorem C36_updaters_agree_on_light_lists_witness :
    ((sampleFFP3.mTrackVertexColourType = samplePerPixel3.mTrackVertexColourType
        ∧ sampleFFP3.mSpecularEnable = samplePerPixel3.mSpecularEnable
        ∧ sampleFFP3.mLightParamsList = samplePerPixel3.mLightParamsList)
      ∧ sampleFFP3.updateGpuProgramsParams samplePass sampleSource (sampleLight LT_POINT)
          (some sampleLights3)
        = samplePerPixel3.updateGpuProgramsParams samplePass sampleSource (sampleLight LT_POINT)
          (some sampleLights3))
    ∧ ((sampleFFP3.mTrackVertexColourType = sampleOtherPerPixel3.mTrackVertexColourType
        ∧ sampleFFP3.mSpecularEnable = sampleOtherPerPixel3.mSpecularEnable
        ∧ sampleFFP3.mLightParamsList.map (fun p => p.mType)
          = sampleOtherPerPixel3.mLightParamsList.map (fun p => p.mType)
        ∧ (∀ slot ∈ sampleFFP3.mLightParamsList, slot.resolved sampleFFP3.mSpecularEnable)
        ∧ (∀ slot ∈ sampleOtherPerPixel3.mLightParamsList,
            slot.resolved sampleOtherPerPixel3.mSpecularEnable))
      ∧ ∃ ra rb,
          sampleFFP3.updateGpuProgramsParams samplePass sampleSource (sampleLight LT_POINT)
            (some sampleLights3) = some ra
          ∧ sampleOtherPerPixel3.updateGpuProgramsParams samplePass sampleSource
            (sampleLight LT_POINT) (some sampleLights3) = some rb
          ∧ ra.map (fun u =>
                (u.searchFrom, u.srcIndex, u.writes.map (fun w => (w.field, w.value))))
            = rb.map (fun u =>
                (u.searchFrom, u.srcIndex, u.writes.map (fun w => (w.field, w.value))))) := by
  have hres : ∀ slot ∈ sampleOtherPerPixel3.mLightParamsList,
      slot.resolved sampleOtherPerPixel3.mSpecularEnable := by
    intro slot hs
    simp only [sampleOtherPerPixel3, List.mem_cons, List.mem_singleton, List.not_mem_nil,
      or_false] at hs
    rcases hs with rfl | rfl | rfl <;>
      simp [LightParams.resolved, LightParams.populated, sampleSlot]
  exact ⟨⟨⟨rfl, rfl, rfl⟩,
      (C36_updaters_agree_on_light_lists sampleFFP3 samplePerPixel3 samplePass sampleSource
        (sampleLight LT_POINT) sampleLights3 rfl rfl).1 rfl⟩,
    ⟨rfl, rfl, rfl, sampleSlots3_resolved, hres⟩,
    (C36_updaters_agree_on_light_lists sampleFFP3 sampleOtherPerPixel3 samplePass sampleSource
      (sampleLight LT_POINT) sampleLights3 rfl rfl).2 rfl sampleSlots3_resolved hres⟩
/-! ### An ungrouped slot list -/

/-- C40: `setLightCount((1, 1, 0))` called twice on a freshly constructed
instance of either model gives the slot types Point, Directional, Point,
Directional, which are not grouped by type; after a successful
`resolveParameters`, on the light list made of one point light and one
directional light `updateGpuProgramsParams` returns, and the two Point slots
both take light 0 and the two Directional slots both take light 1: the cursor
is reset to 0 at each change of type. -/
theorem C40_ungrouped_list_reuses_a_light :
    (sampleUngroupedFFP.mLightParamsList.map (fun slot => slot.mType)
        = [LT_POINT, LT_DIRECTIONAL, LT_POINT, LT_DIRECTIONAL]
      ∧ ¬ Grouped (sampleUngroupedFFP.mLightParamsList.map (fun slot => slot.mType))
      ∧ (FFPLighting.resolveParameters (countingResolver (fun _ => false)) sampleUngroupedFFP
          { params := 0 }).result = .ok true
      ∧ ∃ res,
          sampleUngroupedResolvedFFP.updateGpuProgramsParams samplePass sampleSource
            (sampleLight LT_POINT) (some sampleLights2) = some res
          ∧ res.map (fun u => (u.searchFrom, u.srcIndex))
            = [(0, some 0), (0, some 1), (0, some 0), (0, some 1)])
    ∧ (sampleUngroupedPerPixel.mLightParamsList.map (fun slot => slot.mType)
        = [LT_POINT, LT_DIRECTIONAL, LT_POINT, LT_DIRECTIONAL]
      ∧ ¬ Grouped (sampleUngroupedPerPixel.mLightParamsList.map (fun slot => slot.mType))
      ∧ (PerPixelLighting.resolveParameters (countingResolver (fun _ => false))
          sampleUngroupedPerPixel { params := 0 }).result = .ok true
      ∧ ∃ res,
          sampleUngroupedResolvedPerPixel.updateGpuProgramsParams samplePass sampleSource
            (sampleLight LT_POINT) (some sampleLights2) = some res
          ∧ res.map (fun u => (u.searchFrom, u.srcIndex))
            = [(0, some 0), (0, some 1), (0, some 0), (0, some 1)]) := by
  have hl1 : sampleUngroupedResolvedFFP.mLightParamsList
      = [{ mType := LT_POINT, mPosition := some 11, mAttenuatParams := some 12,
           mDiffuseColour := some 13 },
         { mType := LT_DIRECTIONAL, mDirection := some 14, mDiffuseColour := some 15 },
         { mType := LT_POINT, mPosition := some 18, mAttenuatParams := some 19,
           mDiffuseColour := some 20 },
         { mType := LT_DIRECTIONAL, mDirection := some 21, mDiffuseColour := some 22 }] := by
    rfl
  have hl2 : sampleUngroupedResolvedPerPixel.mLightParamsList
      = [{ mType := LT_POINT, mPosition := some 14, mAttenuatParams := some 15,
           mDiffuseColour := some 18 },
         { mType := LT_DIRECTIONAL, mDirection := some 19, mDiffuseColour := some 20 },
         { mType := LT_POINT, mPosition := some 23, mAttenuatParams := some 24,
           mDiffuseColour := some 25 },
         { mType := LT_DIRECTIONAL, mDirection := some 26, mDiffuseColour := some 27 }] := by
    rfl
  have hs1 : sampleUngroupedResolvedFFP.mSpecularEnable = false := by rfl
  have hs2 : sampleUngroupedResolvedPerPixel.mSpecularEnable = false := by rfl
  have hr1 : ∀ slot ∈ sampleUngroupedResolvedFFP.mLightParamsList,
      slot.resolved sampleUngroupedResolvedFFP.mSpecularEnable := by
    rw [hl1, hs1]
    intro slot hs
    simp only [List.mem_cons, List.mem_singleton, List.not_mem_nil, or_false] at hs
    rcases hs with rfl | rfl | rfl | rfl <;>
      simp [LightParams.resolved, LightParams.populated]
  have hr2 : ∀ slot ∈ sampleUngroupedResolvedPerPixel.mLightParamsList,
      slot.resolved sampleUngroupedResolvedPerPixel.mSpecularEnable := by
    rw [hl2, hs2]
    intro slot hs
    simp only [List.mem_cons, List.mem_singleton, List.not_mem_nil, or_false] at hs
    rcases hs with rfl | rfl | rfl | rfl <;>
      simp [LightParams.resolved, LightParams.populated]
  refine ⟨⟨by rfl, by decide, by rfl, ?_⟩, by rfl, by decide, by rfl, ?_⟩
  · obtain ⟨res, h⟩ := FFPLighting.update_isSome sampleUngroupedResolvedFFP samplePass
      sampleSource (sampleLight LT_POINT) (some sampleLights2) hr1
    refine ⟨res, h, ?_⟩
    rw [(FFPLighting.update_spec _ _ _ _ _ res h).1, hl1]
    rfl
  · obtain ⟨res, h⟩ := FFPLighting.update_isSome
      { mTrackVertexColourType := sampleUngroupedResolvedPerPixel.mTrackVertexColourType
        mSpecularEnable := sampleUngroupedResolvedPerPixel.mSpecularEnable
        mLightParamsList := sampleUngroupedResolvedPerPixel.mLightParamsList } samplePass
      sampleSource (sampleLight LT_POINT) (some sampleLights2) hr2
    refine ⟨res, (PerPixelLighting.update_eq _ _ _ _ _).trans h, ?_⟩
    rw [(FFPLighting.update_spec _ _ _ _ _ res h).1]
    show matchLoop sampleLights2
      (sampleUngroupedResolvedPerPixel.mLightParamsList.map (fun p => p.mType)) LT_DIRECTIONAL 0
        = _
    rw [hl2]
    rfl

/-! ### The source named by the resolution errors -/

/-- C32 at a failing input: when every request is answered null,
`FFPLighting::resolveParameters` raises the internal error whose source is
`PerPixelLighting::resolveGlobalParameters`, the literal of the per-pixel
global resolver, not a name of the per-vertex class.  The two per-pixel
resolvers name themselves: the global one under the same resolver, the
per-light one when only the position of a Point slot is answered null. -/
theorem C32_per_vertex_error_names_per_pixel_resolver :
    (FFPLighting.resolveParameters (countingResolver (fun _ => true)) {} { params := 0 }).result
      = .error
          { code := ExceptionCodes.ERR_INTERNAL_ERROR
            description := "Not all parameters could be constructed for the sub-render state."
            source := "PerPixelLighting::resolveGlobalParameters" }
    ∧ (PerPixelLighting.resolveGlobalParameters (countingResolver (fun _ => true)) {}
        { params := 0 }).result
      = .error
          { code := ExceptionCodes.ERR_INTERNAL_ERROR
            description := "Not all parameters could be constructed for the sub-render state."
            source := "PerPixelLighting::resolveGlobalParameters" }
    ∧ (PerPixelLighting.resolveGlobalParameters
        (countingResolver (fun req => decide (req = lightPositionRequest))) samplePointPerPixel
        { params := 0 }).result = .ok true
    ∧ (PerPixelLighting.resolveParameters
        (countingResolver (fun req => decide (req = lightPositionRequest))) samplePointPerPixel
        { params := 0 }).result
      = .error
          { code := ExceptionCodes.ERR_INTERNAL_ERROR
            description := "Not all parameters could be constructed for the sub-render state."
            source := "PerPixelLighting::resolvePerLightParameters" } := by
  refine ⟨by rfl, by rfl, by rfl, by rfl⟩

/-! ### The names of the per-light requests -/

/-- C38 at a failing input: for a Directional slot, under the counting
resolver, the per-vertex resolver obtains the slot's direction by a request
named `light_position_view_space`, the per-pixel resolver by a request named
`light_direction_view_space` (same component type, index and variability, on
the fragment instead of the vertex program).  For a Spot slot the per-vertex
resolver does request the direction as `light_direction_view_space`. -/
theorem C38_directional_direction_requested_as_position :
    ((FFPLighting.resolveParameters (countingResolver (fun _ => false)) sampleDirectionalFFP
        { params := 0 }).self.mLightParamsList.map (fun slot => slot.mDirection) = [some 9]
      ∧ requestOf (FFPLighting.resolveParameters (countingResolver (fun _ => false))
          sampleDirectionalFFP { params := 0 }).programSet.requests (some 9)
        = [.resolveParameter GpuProgramType.GPT_VERTEX_PROGRAM GpuConstantType.GCT_FLOAT4 (-1)
            GPV_LIGHTS "light_position_view_space"])
    ∧ ((PerPixelLighting.resolveParameters (countingResolver (fun _ => false))
        sampleDirectionalPerPixel { params := 0 }).self.mLightParamsList.map
          (fun slot => slot.mDirection) = [some 12]
      ∧ requestOf (PerPixelLighting.resolveParameters (countingResolver (fun _ => false))
          sampleDirectionalPerPixel { params := 0 }).programSet.requests (some 12)
        = [.resolveParameter GpuProgramType.GPT_FRAGMENT_PROGRAM GpuConstantType.GCT_FLOAT4 (-1)
            GPV_LIGHTS "light_direction_view_space"])
    ∧ ((FFPLighting.resolveParameters (countingResolver (fun _ => false)) sampleSpotFFP
        { params := 0 }).self.mLightParamsList.map (fun slot => slot.mDirection) = [some 12]
      ∧ requestOf (FFPLighting.resolveParameters (countingResolver (fun _ => false))
          sampleSpotFFP { params := 0 }).programSet.requests (some 12)
        = [.resolveParameter GpuProgramType.GPT_VERTEX_PROGRAM GpuConstantType.GCT_FLOAT4 (-1)
            GPV_LIGHTS "light_direction_view_space"]) := by
  refine ⟨⟨by rfl, by rfl⟩, ⟨by rfl, by rfl⟩, by rfl, by rfl⟩

end Ogre
